import Mathlib

/-
Verification of the Sudoku solver in src/sudoku.py.

The board is embedded as a flat row-major list of 81 natural numbers:
the cell with coordinates (x, y) (column x, row y) lives at index
y * 9 + x, exactly the layout Board.from_array_of_strings produces
(rows in order, cells of each row in order).  Cell mutation
(cell.value = v) becomes List.set, reading a cell becomes getIdx.

Exceptions are modelled by the Except monad with an explicit error
kind.  Note on nameError: in Cell.x_range and Cell.y_range the raised
message is an f-string interpolating the names x resp. y, which are
not defined in the validator's scope (the parameter is called value);
evaluating the f-string therefore raises NameError before the
ValueError is constructed.  The value_range message interpolates v,
the actual parameter, so it raises ValueError as written.
shapeError appears in the specification's error taxonomy; no code
path produces it.
-/

namespace Sudoku

/-- Error kinds observable from the construction code paths. -/
inductive Err where
  | valueError
  | nameError
  | shapeError
deriving DecidableEq

/-- Python int(c) on a one-character string: the digit's value, or ValueError. -/
def pyInt (c : Char) : Except Err Nat :=
  if c.isDigit then .ok (c.toNat - 48) else .error Err.valueError

/-- Cell attribute validation, in attrs order (x, then y, then value), after
the value converter has run.  x_range and y_range fail with NameError because
their f-string messages reference the undefined names x resp. y; value_range
fails with ValueError (its message uses the bound parameter v). -/
def cellValidate (x y v : Int) : Except Err Int :=
  if x < 0 ∨ 9 ≤ x then .error Err.nameError
  else if y < 0 ∨ 9 ≤ y then .error Err.nameError
  else if v < 0 ∨ 10 ≤ v then .error Err.valueError
  else .ok v

/-- Cell.from_str_value: converter int(str_value) runs at assignment, before
any validator; then the range validators run. -/
def from_str_value (x y : Nat) (c : Char) : Except Err Nat := do
  let v ← pyInt c
  let w ← cellValidate (x : Int) (y : Int) (v : Int)
  pure w.toNat

/-- Row.from_array(y, array): builds the cells left to right (argument
evaluation), then the Row validators run: validate_ix (0 <= ix < 9, a
ValueError whose message is well formed), then validate_cells (exactly 9
cells). -/
def Row.from_array (y : Nat) (array : List Char) : Except Err (List Nat) := do
  let cells ← array.enum.mapM fun p => from_str_value p.1 y p.2
  if 9 ≤ y then .error Err.valueError
  else if cells.length ≠ 9 then .error Err.valueError
  else pure cells

/-- Board.from_array_of_strings: builds every row first (list comprehension),
then the Board validator validate_rows checks for exactly 9 rows.  The
resulting board is the flat row-major cell list.  The __attrs_post_init__
wiring of rows/columns/grids is positional bookkeeping that the flat index
arithmetic below reproduces. -/
def from_array_of_strings (array : List (List Char)) : Except Err (List Nat) := do
  let rows ← array.enum.mapM fun p => Row.from_array p.1 p.2
  if rows.length ≠ 9 then .error Err.valueError
  else pure rows.flatten

/-- Read the cell at flat index i (cell (x, y) is at index y * 9 + x). -/
def getIdx (b : List Nat) (i : Nat) : Nat := b.getD i 0

/-- Flat indices of the cells of row y, in order. -/
def rowIdx (y : Nat) : List Nat := (List.range 9).map fun x => y * 9 + x

/-- Flat indices of the cells of column x, in order (Board.get_column). -/
def colIdx (x : Nat) : List Nat := (List.range 9).map fun y => y * 9 + x

/-- Block index of the cell at flat index i: (y / 3) * 3 + (x / 3). -/
def blockIndex (i : Nat) : Nat := i / 9 / 3 * 3 + i % 9 / 3

/-- Flat indices of the cells of block k, in the row-major order in which
__attrs_post_init__ collects each Grid's cells. -/
def blockIdx (k : Nat) : List Nat :=
  (List.range 9).map fun d => (k / 3 * 3 + d / 3) * 9 + (k % 3 * 3 + d % 3)

/-- The values of the cells of row y (cell.row.cells). -/
def rowCells (b : List Nat) (y : Nat) : List Nat := (rowIdx y).map (getIdx b)

/-- The values of the cells of column x (cell.column). -/
def colCells (b : List Nat) (x : Nat) : List Nat := (colIdx x).map (getIdx b)

/-- The values of the cells of the block containing index i (cell.grid.cells). -/
def gridCells (b : List Nat) (i : Nat) : List Nat := (blockIdx (blockIndex i)).map (getIdx b)

/-- Board.is_valid(test_num, cell): the cell is given by its flat index i.
Each scan runs over the full row, column and grid, the queried cell
included. -/
def is_valid (b : List Nat) (test_num : Nat) (i : Nat) : Bool :=
  if (rowCells b (i / 9)).any fun c => c == test_num then false
  else if (colCells b (i % 9)).any fun c => c == test_num then false
  else if (gridCells b i).any fun c => c == test_num then false
  else true

/-- Board.get_empty_cell: first cell in row-major order whose value is 0,
as a flat index; none when the grid is full. -/
def get_empty_cell (b : List Nat) : Option Nat :=
  (List.range 81).find? fun i => getIdx b i == 0

/-- The candidate list range(1, 10) that solve iterates over. -/
def candidates : List Nat := List.range' 1 9

/-- The candidate loop of Board.solve: for each test_num in order, if
is_valid, set the cell, recurse; on success propagate, on failure reset the
cell to 0 and continue; when the candidates run out, return failure. -/
def tryLoop (recur : List Nat → Bool × List Nat) (b : List Nat) (i : Nat) :
    List Nat → Bool × List Nat
  | [] => (false, b)
  | t :: rest =>
    if is_valid b t i then
      match recur (b.set i t) with
      | (true, b2) => (true, b2)
      | (false, b2) => tryLoop recur (b2.set i 0) i rest
    else
      tryLoop recur b i rest

/-- Board.solve, with an explicit recursion-depth budget.  Each recursive
call fills one empty cell, so a budget of 82 can never be exhausted on an
81-cell board: solve_fuel_irrelevant below proves that on such boards any
budget above the number of empty cells computes the same result, so solve
is the unbounded backtracking search of the source. -/
def solveF : Nat → List Nat → Bool × List Nat
  | 0, b => (false, b)
  | fuel + 1, b =>
    match get_empty_cell b with
    | none => (true, b)
    | some i => tryLoop (solveF fuel) b i candidates

/-- Board.solve on an 81-cell board. -/
def solve (b : List Nat) : Bool × List Nat := solveF 82 b

/-- Instrumented candidate loop: additionally records every trial placement
cell.value = test_num as a pair (flat index, value), in chronological order. -/
def tryLoopT (recur : List Nat → Bool × List Nat × List (Nat × Nat)) (b : List Nat) (i : Nat) :
    List Nat → Bool × List Nat × List (Nat × Nat)
  | [] => (false, b, [])
  | t :: rest =>
    if is_valid b t i then
      match recur (b.set i t) with
      | (true, b2, tr) => (true, b2, (i, t) :: tr)
      | (false, b2, tr) =>
        match tryLoopT recur (b2.set i 0) i rest with
        | (ok, b3, tr2) => (ok, b3, (i, t) :: (tr ++ tr2))
    else
      tryLoopT recur b i rest

/-- Instrumented Board.solve, recording the sequence of trial placements. -/
def solveTF : Nat → List Nat → Bool × List Nat × List (Nat × Nat)
  | 0, b => (false, b, [])
  | fuel + 1, b =>
    match get_empty_cell b with
    | none => (true, b, [])
    | some i => tryLoopT (solveTF fuel) b i candidates

/-- Instrumented solve on an 81-cell board. -/
def solveT (b : List Nat) : Bool × List Nat × List (Nat × Nat) := solveTF 82 b

/-- Number of empty cells among the 81 board positions. -/
def emptyCount (b : List Nat) : Nat :=
  (List.range 81).countP fun i => getIdx b i == 0

/-- Two flat indices share a row, a column or a block. -/
def sameUnit (i j : Nat) : Prop :=
  i / 9 = j / 9 ∨ i % 9 = j % 9 ∨ blockIndex i = blockIndex j

instance (i j : Nat) : Decidable (sameUnit i j) := by
  unfold sameUnit; infer_instance

/-- Brute-force reference scan from the specification: no cell other than
the queried one, in the queried cell's row, column or block, currently holds
value v.  Modelled from the spec's words for comparison with is_valid. -/
def noOtherHolds (b : List Nat) (i v : Nat) : Bool :=
  (List.range 81).all fun j => decide (sameUnit i j → j ≠ i → getIdx b j ≠ v)

/-- A finished unit holds each digit 1 to 9 exactly once. -/
def unitComplete (l : List Nat) : Bool :=
  (List.range' 1 9).all fun v => l.count v == 1

/-- Every row, column and block holds each digit 1 to 9 exactly once. -/
def fullValid (b : List Nat) : Bool :=
  (((List.range 9).all fun y => unitComplete (rowCells b y)) &&
    ((List.range 9).all fun x => unitComplete (colCells b x))) &&
    ((List.range 9).all fun k => unitComplete ((blockIdx k).map (getIdx b)))

/-- No two distinct cells of a shared unit hold the same nonzero value. -/
def noConflicts (b : List Nat) : Prop :=
  ∀ j k, j < 81 → k < 81 → j ≠ k → sameUnit j k →
    getIdx b j ≠ 0 → getIdx b j ≠ getIdx b k

/-- The board s agrees with b on every nonzero (clue) cell of b. -/
def boardExtends (b s : List Nat) : Prop :=
  ∀ i, i < 81 → getIdx b i ≠ 0 → getIdx s i = getIdx b i

instance (b s : List Nat) : Decidable (boardExtends b s) := by
  unfold boardExtends
  infer_instance

/-- The board has a fully valid completion that preserves its clues. -/
def Solvable (b : List Nat) : Prop :=
  ∃ s, boardExtends b s ∧ fullValid s = true

/-- The classic end-to-end example rows of the specification. -/
def classicRows : List (List Char) :=
  [['0','0','3','0','2','0','6','0','0'],
   ['9','0','0','3','0','5','0','0','1'],
   ['0','0','1','8','0','6','4','0','0'],
   ['0','0','8','1','0','2','9','0','0'],
   ['7','0','0','0','0','0','0','0','8'],
   ['0','0','6','7','0','8','2','0','0'],
   ['0','0','2','6','0','9','5','0','0'],
   ['8','0','0','2','0','3','0','0','9'],
   ['0','0','5','0','1','0','3','0','0']]

/-- The flat board parsed from classicRows. -/
def classicBoard : List Nat :=
  [0,0,3,0,2,0,6,0,0,
   9,0,0,3,0,5,0,0,1,
   0,0,1,8,0,6,4,0,0,
   0,0,8,1,0,2,9,0,0,
   7,0,0,0,0,0,0,0,8,
   0,0,6,7,0,8,2,0,0,
   0,0,2,6,0,9,5,0,0,
   8,0,0,2,0,3,0,0,9,
   0,0,5,0,1,0,3,0,0]

/-- The grid the solver produces for classicBoard. -/
def classicSolved : List Nat :=
  [4,8,3,9,2,1,6,5,7,
   9,6,7,3,4,5,8,2,1,
   2,5,1,8,7,6,4,9,3,
   5,4,8,1,3,2,9,7,6,
   7,2,9,5,6,4,1,3,8,
   1,3,6,7,9,8,2,4,5,
   3,7,2,6,8,9,5,1,4,
   8,1,4,2,5,3,7,6,9,
   6,9,5,4,1,7,3,8,2]

/-- A fully solved, constraint-satisfying board. -/
def fullBoard : List Nat :=
  [1,2,3,4,5,6,7,8,9,
   4,5,6,7,8,9,1,2,3,
   7,8,9,1,2,3,4,5,6,
   2,3,4,5,6,7,8,9,1,
   5,6,7,8,9,1,2,3,4,
   8,9,1,2,3,4,5,6,7,
   3,4,5,6,7,8,9,1,2,
   6,7,8,9,1,2,3,4,5,
   9,1,2,3,4,5,6,7,8]

/-- fullBoard with the cell at flat index 5 cleared to 0. -/
def almostBoard : List Nat :=
  [1,2,3,4,5,0,7,8,9,
   4,5,6,7,8,9,1,2,3,
   7,8,9,1,2,3,4,5,6,
   2,3,4,5,6,7,8,9,1,
   5,6,7,8,9,1,2,3,4,
   8,9,1,2,3,4,5,6,7,
   3,4,5,6,7,8,9,1,2,
   6,7,8,9,1,2,3,4,5,
   9,1,2,3,4,5,6,7,8]

/-- A board whose first empty cell (index 8) admits no candidate: row 0
already holds 1 through 8 and the cell below, at index 17, holds 9. -/
def stuckBoard : List Nat :=
  [1,2,3,4,5,6,7,8,0,
   0,0,0,0,0,0,0,0,9,
   0,0,0,0,0,0,0,0,0,
   0,0,0,0,0,0,0,0,0,
   0,0,0,0,0,0,0,0,0,
   0,0,0,0,0,0,0,0,0,
   0,0,0,0,0,0,0,0,0,
   0,0,0,0,0,0,0,0,0,
   0,0,0,0,0,0,0,0,0]

/-- Eight all-zero rows: a wrong row count for Board construction. -/
def eightRows : List (List Char) := List.replicate 8 (List.replicate 9 '0')

/-- A board whose only nonzero cell, the first one, holds 5. -/
def fiveBoard : List Nat := 5 :: List.replicate 80 0

/-
The definitions sb0, sb1, ... below are the intermediate board states of
the backtracking search on the classic puzzle, used by the step-by-step
transcript lemmas (stp0, stp1, ...) that evaluate solve on it without one
monolithic kernel computation.
-/

/-- Search state sb1 of the classic-puzzle solve transcript. -/
def sb1 : List Nat :=
  [4, 0, 3, 0, 2, 0, 6, 0, 0, 9, 0, 0, 3, 0, 5, 0, 0, 1, 0, 0, 1, 8, 0, 6, 4, 0, 0, 0, 0, 8, 1, 0, 2, 9, 0, 0, 7, 0, 0, 0, 0, 0, 0, 0, 8, 0, 0, 6, 7, 0, 8, 2, 0, 0, 0, 0, 2, 6, 0, 9, 5, 0, 0, 8, 0, 0, 2, 0, 3, 0, 0, 9, 0, 0, 5, 0, 1, 0, 3, 0, 0]

/-- Search state sb2 of the classic-puzzle solve transcript. -/
def sb2 : List Nat :=
  [4, 5, 3, 0, 2, 0, 6, 0, 0, 9, 0, 0, 3, 0, 5, 0, 0, 1, 0, 0, 1, 8, 0, 6, 4, 0, 0, 0, 0, 8, 1, 0, 2, 9, 0, 0, 7, 0, 0, 0, 0, 0, 0, 0, 8, 0, 0, 6, 7, 0, 8, 2, 0, 0, 0, 0, 2, 6, 0, 9, 5, 0, 0, 8, 0, 0, 2, 0, 3, 0, 0, 9, 0, 0, 5, 0, 1, 0, 3, 0, 0]

/-- Search state sb3 of the classic-puzzle solve transcript. -/
def sb3 : List Nat :=
  [4, 5, 3, 9, 2, 0, 6, 0, 0, 9, 0, 0, 3, 0, 5, 0, 0, 1, 0, 0, 1, 8, 0, 6, 4, 0, 0, 0, 0, 8, 1, 0, 2, 9, 0, 0, 7, 0, 0, 0, 0, 0, 0, 0, 8, 0, 0, 6, 7, 0, 8, 2, 0, 0, 0, 0, 2, 6, 0, 9, 5, 0, 0, 8, 0, 0, 2, 0, 3, 0, 0, 9, 0, 0, 5, 0, 1, 0, 3, 0, 0]

/-- Search state sb4 of the classic-puzzle solve transcript. -/
def sb4 : List Nat :=
  [4, 5, 3, 9, 2, 1, 6, 0, 0, 9, 0, 0, 3, 0, 5, 0, 0, 1, 0, 0, 1, 8, 0, 6, 4, 0, 0, 0, 0, 8, 1, 0, 2, 9, 0, 0, 7, 0, 0, 0, 0, 0, 0, 0, 8, 0, 0, 6, 7, 0, 8, 2, 0, 0, 0, 0, 2, 6, 0, 9, 5, 0, 0, 8, 0, 0, 2, 0, 3, 0, 0, 9, 0, 0, 5, 0, 1, 0, 3, 0, 0]

/-- Search state sb5 of the classic-puzzle solve transcript. -/
def sb5 : List Nat :=
  [4, 5, 3, 9, 2, 1, 6, 7, 0, 9, 0, 0, 3, 0, 5, 0, 0, 1, 0, 0, 1, 8, 0, 6, 4, 0, 0, 0, 0, 8, 1, 0, 2, 9, 0, 0, 7, 0, 0, 0, 0, 0, 0, 0, 8, 0, 0, 6, 7, 0, 8, 2, 0, 0, 0, 0, 2, 6, 0, 9, 5, 0, 0, 8, 0, 0, 2, 0, 3, 0, 0, 9, 0, 0, 5, 0, 1, 0, 3, 0, 0]

/-- Search state sb6 of the classic-puzzle solve transcript. -/
def sb6 : List Nat :=
  [4, 5, 3, 9, 2, 1, 6, 8, 0, 9, 0, 0, 3, 0, 5, 0, 0, 1, 0, 0, 1, 8, 0, 6, 4, 0, 0, 0, 0, 8, 1, 0, 2, 9, 0, 0, 7, 0, 0, 0, 0, 0, 0, 0, 8, 0, 0, 6, 7, 0, 8, 2, 0, 0, 0, 0, 2, 6, 0, 9, 5, 0, 0, 8, 0, 0, 2, 0, 3, 0, 0, 9, 0, 0, 5, 0, 1, 0, 3, 0, 0]

/-- Search state sb7 of the classic-puzzle solve transcript. -/
def sb7 : List Nat :=
  [4, 5, 3, 9, 2, 1, 6, 8, 7, 9, 0, 0, 3, 0, 5, 0, 0, 1, 0, 0, 1, 8, 0, 6, 4, 0, 0, 0, 0, 8, 1, 0, 2, 9, 0, 0, 7, 0, 0, 0, 0, 0, 0, 0, 8, 0, 0, 6, 7, 0, 8, 2, 0, 0, 0, 0, 2, 6, 0, 9, 5, 0, 0, 8, 0, 0, 2, 0, 3, 0, 0, 9, 0, 0, 5, 0, 1, 0, 3, 0, 0]

/-- Search state sb8 of the classic-puzzle solve transcript. -/
def sb8 : List Nat :=
  [4, 5, 3, 9, 2, 1, 6, 8, 7, 9, 2, 0, 3, 0, 5, 0, 0, 1, 0, 0, 1, 8, 0, 6, 4, 0, 0, 0, 0, 8, 1, 0, 2, 9, 0, 0, 7, 0, 0, 0, 0, 0, 0, 0, 8, 0, 0, 6, 7, 0, 8, 2, 0, 0, 0, 0, 2, 6, 0, 9, 5, 0, 0, 8, 0, 0, 2, 0, 3, 0, 0, 9, 0, 0, 5, 0, 1, 0, 3, 0, 0]

/-- Search state sb9 of the classic-puzzle solve transcript. -/
def sb9 : List Nat :=
  [4, 5, 3, 9, 2, 1, 6, 8, 7, 9, 2, 7, 3, 0, 5, 0, 0, 1, 0, 0, 1, 8, 0, 6, 4, 0, 0, 0, 0, 8, 1, 0, 2, 9, 0, 0, 7, 0, 0, 0, 0, 0, 0, 0, 8, 0, 0, 6, 7, 0, 8, 2, 0, 0, 0, 0, 2, 6, 0, 9, 5, 0, 0, 8, 0, 0, 2, 0, 3, 0, 0, 9, 0, 0, 5, 0, 1, 0, 3, 0, 0]

/-- Search state sb10 of the classic-puzzle solve transcript. -/
def sb10 : List Nat :=
  [4, 5, 3, 9, 2, 1, 6, 8, 7, 9, 2, 7, 3, 4, 5, 0, 0, 1, 0, 0, 1, 8, 0, 6, 4, 0, 0, 0, 0, 8, 1, 0, 2, 9, 0, 0, 7, 0, 0, 0, 0, 0, 0, 0, 8, 0, 0, 6, 7, 0, 8, 2, 0, 0, 0, 0, 2, 6, 0, 9, 5, 0, 0, 8, 0, 0, 2, 0, 3, 0, 0, 9, 0, 0, 5, 0, 1, 0, 3, 0, 0]

/-- Search state sb11 of the classic-puzzle solve transcript. -/
def sb11 : List Nat :=
  [4, 5, 3, 9, 2, 1, 6, 8, 7, 9, 6, 0, 3, 0, 5, 0, 0, 1, 0, 0, 1, 8, 0, 6, 4, 0, 0, 0, 0, 8, 1, 0, 2, 9, 0, 0, 7, 0, 0, 0, 0, 0, 0, 0, 8, 0, 0, 6, 7, 0, 8, 2, 0, 0, 0, 0, 2, 6, 0, 9, 5, 0, 0, 8, 0, 0, 2, 0, 3, 0, 0, 9, 0, 0, 5, 0, 1, 0, 3, 0, 0]

/-- Search state sb12 of the classic-puzzle solve transcript. -/
def sb12 : List Nat :=
  [4, 5, 3, 9, 2, 1, 6, 8, 7, 9, 6, 7, 3, 0, 5, 0, 0, 1, 0, 0, 1, 8, 0, 6, 4, 0, 0, 0, 0, 8, 1, 0, 2, 9, 0, 0, 7, 0, 0, 0, 0, 0, 0, 0, 8, 0, 0, 6, 7, 0, 8, 2, 0, 0, 0, 0, 2, 6, 0, 9, 5, 0, 0, 8, 0, 0, 2, 0, 3, 0, 0, 9, 0, 0, 5, 0, 1, 0, 3, 0, 0]

/-- Search state sb13 of the classic-puzzle solve transcript. -/
def sb13 : List Nat :=
  [4, 5, 3, 9, 2, 1, 6, 8, 7, 9, 6, 7, 3, 4, 5, 0, 0, 1, 0, 0, 1, 8, 0, 6, 4, 0, 0, 0, 0, 8, 1, 0, 2, 9, 0, 0, 7, 0, 0, 0, 0, 0, 0, 0, 8, 0, 0, 6, 7, 0, 8, 2, 0, 0, 0, 0, 2, 6, 0, 9, 5, 0, 0, 8, 0, 0, 2, 0, 3, 0, 0, 9, 0, 0, 5, 0, 1, 0, 3, 0, 0]

/-- Search state sb14 of the classic-puzzle solve transcript. -/
def sb14 : List Nat :=
  [4, 5, 3, 9, 2, 1, 6, 8, 7, 9, 7, 0, 3, 0, 5, 0, 0, 1, 0, 0, 1, 8, 0, 6, 4, 0, 0, 0, 0, 8, 1, 0, 2, 9, 0, 0, 7, 0, 0, 0, 0, 0, 0, 0, 8, 0, 0, 6, 7, 0, 8, 2, 0, 0, 0, 0, 2, 6, 0, 9, 5, 0, 0, 8, 0, 0, 2, 0, 3, 0, 0, 9, 0, 0, 5, 0, 1, 0, 3, 0, 0]

/-- Search state sb15 of the classic-puzzle solve transcript. -/
def sb15 : List Nat :=
  [4, 5, 3, 9, 2, 1, 6, 8, 7, 9, 8, 0, 3, 0, 5, 0, 0, 1, 0, 0, 1, 8, 0, 6, 4, 0, 0, 0, 0, 8, 1, 0, 2, 9, 0, 0, 7, 0, 0, 0, 0, 0, 0, 0, 8, 0, 0, 6, 7, 0, 8, 2, 0, 0, 0, 0, 2, 6, 0, 9, 5, 0, 0, 8, 0, 0, 2, 0, 3, 0, 0, 9, 0, 0, 5, 0, 1, 0, 3, 0, 0]

/-- Search state sb16 of the classic-puzzle solve transcript. -/
def sb16 : List Nat :=
  [4, 5, 3, 9, 2, 1, 6, 8, 7, 9, 8, 7, 3, 0, 5, 0, 0, 1, 0, 0, 1, 8, 0, 6, 4, 0, 0, 0, 0, 8, 1, 0, 2, 9, 0, 0, 7, 0, 0, 0, 0, 0, 0, 0, 8, 0, 0, 6, 7, 0, 8, 2, 0, 0, 0, 0, 2, 6, 0, 9, 5, 0, 0, 8, 0, 0, 2, 0, 3, 0, 0, 9, 0, 0, 5, 0, 1, 0, 3, 0, 0]

/-- Search state sb17 of the classic-puzzle solve transcript. -/
def sb17 : List Nat :=
  [4, 5, 3, 9, 2, 1, 6, 8, 7, 9, 8, 7, 3, 4, 5, 0, 0, 1, 0, 0, 1, 8, 0, 6, 4, 0, 0, 0, 0, 8, 1, 0, 2, 9, 0, 0, 7, 0, 0, 0, 0, 0, 0, 0, 8, 0, 0, 6, 7, 0, 8, 2, 0, 0, 0, 0, 2, 6, 0, 9, 5, 0, 0, 8, 0, 0, 2, 0, 3, 0, 0, 9, 0, 0, 5, 0, 1, 0, 3, 0, 0]

/-- Search state sb18 of the classic-puzzle solve transcript. -/
def sb18 : List Nat :=
  [4, 5, 3, 9, 2, 7, 6, 0, 0, 9, 0, 0, 3, 0, 5, 0, 0, 1, 0, 0, 1, 8, 0, 6, 4, 0, 0, 0, 0, 8, 1, 0, 2, 9, 0, 0, 7, 0, 0, 0, 0, 0, 0, 0, 8, 0, 0, 6, 7, 0, 8, 2, 0, 0, 0, 0, 2, 6, 0, 9, 5, 0, 0, 8, 0, 0, 2, 0, 3, 0, 0, 9, 0, 0, 5, 0, 1, 0, 3, 0, 0]

/-- Search state sb19 of the classic-puzzle solve transcript. -/
def sb19 : List Nat :=
  [4, 5, 3, 9, 2, 7, 6, 8, 0, 9, 0, 0, 3, 0, 5, 0, 0, 1, 0, 0, 1, 8, 0, 6, 4, 0, 0, 0, 0, 8, 1, 0, 2, 9, 0, 0, 7, 0, 0, 0, 0, 0, 0, 0, 8, 0, 0, 6, 7, 0, 8, 2, 0, 0, 0, 0, 2, 6, 0, 9, 5, 0, 0, 8, 0, 0, 2, 0, 3, 0, 0, 9, 0, 0, 5, 0, 1, 0, 3, 0, 0]

/-- Search state sb20 of the classic-puzzle solve transcript. -/
def sb20 : List Nat :=
  [4, 7, 3, 0, 2, 0, 6, 0, 0, 9, 0, 0, 3, 0, 5, 0, 0, 1, 0, 0, 1, 8, 0, 6, 4, 0, 0, 0, 0, 8, 1, 0, 2, 9, 0, 0, 7, 0, 0, 0, 0, 0, 0, 0, 8, 0, 0, 6, 7, 0, 8, 2, 0, 0, 0, 0, 2, 6, 0, 9, 5, 0, 0, 8, 0, 0, 2, 0, 3, 0, 0, 9, 0, 0, 5, 0, 1, 0, 3, 0, 0]

/-- Search state sb21 of the classic-puzzle solve transcript. -/
def sb21 : List Nat :=
  [4, 7, 3, 9, 2, 0, 6, 0, 0, 9, 0, 0, 3, 0, 5, 0, 0, 1, 0, 0, 1, 8, 0, 6, 4, 0, 0, 0, 0, 8, 1, 0, 2, 9, 0, 0, 7, 0, 0, 0, 0, 0, 0, 0, 8, 0, 0, 6, 7, 0, 8, 2, 0, 0, 0, 0, 2, 6, 0, 9, 5, 0, 0, 8, 0, 0, 2, 0, 3, 0, 0, 9, 0, 0, 5, 0, 1, 0, 3, 0, 0]

/-- Search state sb22 of the classic-puzzle solve transcript. -/
def sb22 : List Nat :=
  [4, 7, 3, 9, 2, 1, 6, 0, 0, 9, 0, 0, 3, 0, 5, 0, 0, 1, 0, 0, 1, 8, 0, 6, 4, 0, 0, 0, 0, 8, 1, 0, 2, 9, 0, 0, 7, 0, 0, 0, 0, 0, 0, 0, 8, 0, 0, 6, 7, 0, 8, 2, 0, 0, 0, 0, 2, 6, 0, 9, 5, 0, 0, 8, 0, 0, 2, 0, 3, 0, 0, 9, 0, 0, 5, 0, 1, 0, 3, 0, 0]

/-- Search state sb23 of the classic-puzzle solve transcript. -/
def sb23 : List Nat :=
  [4, 7, 3, 9, 2, 1, 6, 5, 0, 9, 0, 0, 3, 0, 5, 0, 0, 1, 0, 0, 1, 8, 0, 6, 4, 0, 0, 0, 0, 8, 1, 0, 2, 9, 0, 0, 7, 0, 0, 0, 0, 0, 0, 0, 8, 0, 0, 6, 7, 0, 8, 2, 0, 0, 0, 0, 2, 6, 0, 9, 5, 0, 0, 8, 0, 0, 2, 0, 3, 0, 0, 9, 0, 0, 5, 0, 1, 0, 3, 0, 0]

/-- Search state sb24 of the classic-puzzle solve transcript. -/
def sb24 : List Nat :=
  [4, 7, 3, 9, 2, 1, 6, 8, 0, 9, 0, 0, 3, 0, 5, 0, 0, 1, 0, 0, 1, 8, 0, 6, 4, 0, 0, 0, 0, 8, 1, 0, 2, 9, 0, 0, 7, 0, 0, 0, 0, 0, 0, 0, 8, 0, 0, 6, 7, 0, 8, 2, 0, 0, 0, 0, 2, 6, 0, 9, 5, 0, 0, 8, 0, 0, 2, 0, 3, 0, 0, 9, 0, 0, 5, 0, 1, 0, 3, 0, 0]

/-- Search state sb25 of the classic-puzzle solve transcript. -/
def sb25 : List Nat :=
  [4, 7, 3, 9, 2, 1, 6, 8, 5, 9, 0, 0, 3, 0, 5, 0, 0, 1, 0, 0, 1, 8, 0, 6, 4, 0, 0, 0, 0, 8, 1, 0, 2, 9, 0, 0, 7, 0, 0, 0, 0, 0, 0, 0, 8, 0, 0, 6, 7, 0, 8, 2, 0, 0, 0, 0, 2, 6, 0, 9, 5, 0, 0, 8, 0, 0, 2, 0, 3, 0, 0, 9, 0, 0, 5, 0, 1, 0, 3, 0, 0]

/-- Search state sb26 of the classic-puzzle solve transcript. -/
def sb26 : List Nat :=
  [4, 7, 3, 9, 2, 1, 6, 8, 5, 9, 2, 0, 3, 0, 5, 0, 0, 1, 0, 0, 1, 8, 0, 6, 4, 0, 0, 0, 0, 8, 1, 0, 2, 9, 0, 0, 7, 0, 0, 0, 0, 0, 0, 0, 8, 0, 0, 6, 7, 0, 8, 2, 0, 0, 0, 0, 2, 6, 0, 9, 5, 0, 0, 8, 0, 0, 2, 0, 3, 0, 0, 9, 0, 0, 5, 0, 1, 0, 3, 0, 0]

/-- Search state sb27 of the classic-puzzle solve transcript. -/
def sb27 : List Nat :=
  [4, 7, 3, 9, 2, 1, 6, 8, 5, 9, 6, 0, 3, 0, 5, 0, 0, 1, 0, 0, 1, 8, 0, 6, 4, 0, 0, 0, 0, 8, 1, 0, 2, 9, 0, 0, 7, 0, 0, 0, 0, 0, 0, 0, 8, 0, 0, 6, 7, 0, 8, 2, 0, 0, 0, 0, 2, 6, 0, 9, 5, 0, 0, 8, 0, 0, 2, 0, 3, 0, 0, 9, 0, 0, 5, 0, 1, 0, 3, 0, 0]

/-- Search state sb28 of the classic-puzzle solve transcript. -/
def sb28 : List Nat :=
  [4, 7, 3, 9, 2, 1, 6, 8, 5, 9, 8, 0, 3, 0, 5, 0, 0, 1, 0, 0, 1, 8, 0, 6, 4, 0, 0, 0, 0, 8, 1, 0, 2, 9, 0, 0, 7, 0, 0, 0, 0, 0, 0, 0, 8, 0, 0, 6, 7, 0, 8, 2, 0, 0, 0, 0, 2, 6, 0, 9, 5, 0, 0, 8, 0, 0, 2, 0, 3, 0, 0, 9, 0, 0, 5, 0, 1, 0, 3, 0, 0]

/-- Search state sb29 of the classic-puzzle solve transcript. -/
def sb29 : List Nat :=
  [4, 8, 3, 0, 2, 0, 6, 0, 0, 9, 0, 0, 3, 0, 5, 0, 0, 1, 0, 0, 1, 8, 0, 6, 4, 0, 0, 0, 0, 8, 1, 0, 2, 9, 0, 0, 7, 0, 0, 0, 0, 0, 0, 0, 8, 0, 0, 6, 7, 0, 8, 2, 0, 0, 0, 0, 2, 6, 0, 9, 5, 0, 0, 8, 0, 0, 2, 0, 3, 0, 0, 9, 0, 0, 5, 0, 1, 0, 3, 0, 0]

/-- Search state sb30 of the classic-puzzle solve transcript. -/
def sb30 : List Nat :=
  [4, 8, 3, 9, 2, 0, 6, 0, 0, 9, 0, 0, 3, 0, 5, 0, 0, 1, 0, 0, 1, 8, 0, 6, 4, 0, 0, 0, 0, 8, 1, 0, 2, 9, 0, 0, 7, 0, 0, 0, 0, 0, 0, 0, 8, 0, 0, 6, 7, 0, 8, 2, 0, 0, 0, 0, 2, 6, 0, 9, 5, 0, 0, 8, 0, 0, 2, 0, 3, 0, 0, 9, 0, 0, 5, 0, 1, 0, 3, 0, 0]

/-- Search state sb31 of the classic-puzzle solve transcript. -/
def sb31 : List Nat :=
  [4, 8, 3, 9, 2, 1, 6, 0, 0, 9, 0, 0, 3, 0, 5, 0, 0, 1, 0, 0, 1, 8, 0, 6, 4, 0, 0, 0, 0, 8, 1, 0, 2, 9, 0, 0, 7, 0, 0, 0, 0, 0, 0, 0, 8, 0, 0, 6, 7, 0, 8, 2, 0, 0, 0, 0, 2, 6, 0, 9, 5, 0, 0, 8, 0, 0, 2, 0, 3, 0, 0, 9, 0, 0, 5, 0, 1, 0, 3, 0, 0]

/-- Search state sb32 of the classic-puzzle solve transcript. -/
def sb32 : List Nat :=
  [4, 8, 3, 9, 2, 1, 6, 5, 0, 9, 0, 0, 3, 0, 5, 0, 0, 1, 0, 0, 1, 8, 0, 6, 4, 0, 0, 0, 0, 8, 1, 0, 2, 9, 0, 0, 7, 0, 0, 0, 0, 0, 0, 0, 8, 0, 0, 6, 7, 0, 8, 2, 0, 0, 0, 0, 2, 6, 0, 9, 5, 0, 0, 8, 0, 0, 2, 0, 3, 0, 0, 9, 0, 0, 5, 0, 1, 0, 3, 0, 0]

/-- Search state sb33 of the classic-puzzle solve transcript. -/
def sb33 : List Nat :=
  [4, 8, 3, 9, 2, 1, 6, 5, 7, 9, 0, 0, 3, 0, 5, 0, 0, 1, 0, 0, 1, 8, 0, 6, 4, 0, 0, 0, 0, 8, 1, 0, 2, 9, 0, 0, 7, 0, 0, 0, 0, 0, 0, 0, 8, 0, 0, 6, 7, 0, 8, 2, 0, 0, 0, 0, 2, 6, 0, 9, 5, 0, 0, 8, 0, 0, 2, 0, 3, 0, 0, 9, 0, 0, 5, 0, 1, 0, 3, 0, 0]

/-- Search state sb34 of the classic-puzzle solve transcript. -/
def sb34 : List Nat :=
  [4, 8, 3, 9, 2, 1, 6, 5, 7, 9, 2, 0, 3, 0, 5, 0, 0, 1, 0, 0, 1, 8, 0, 6, 4, 0, 0, 0, 0, 8, 1, 0, 2, 9, 0, 0, 7, 0, 0, 0, 0, 0, 0, 0, 8, 0, 0, 6, 7, 0, 8, 2, 0, 0, 0, 0, 2, 6, 0, 9, 5, 0, 0, 8, 0, 0, 2, 0, 3, 0, 0, 9, 0, 0, 5, 0, 1, 0, 3, 0, 0]

/-- Search state sb35 of the classic-puzzle solve transcript. -/
def sb35 : List Nat :=
  [4, 8, 3, 9, 2, 1, 6, 5, 7, 9, 2, 7, 3, 0, 5, 0, 0, 1, 0, 0, 1, 8, 0, 6, 4, 0, 0, 0, 0, 8, 1, 0, 2, 9, 0, 0, 7, 0, 0, 0, 0, 0, 0, 0, 8, 0, 0, 6, 7, 0, 8, 2, 0, 0, 0, 0, 2, 6, 0, 9, 5, 0, 0, 8, 0, 0, 2, 0, 3, 0, 0, 9, 0, 0, 5, 0, 1, 0, 3, 0, 0]

/-- Search state sb36 of the classic-puzzle solve transcript. -/
def sb36 : List Nat :=
  [4, 8, 3, 9, 2, 1, 6, 5, 7, 9, 2, 7, 3, 4, 5, 0, 0, 1, 0, 0, 1, 8, 0, 6, 4, 0, 0, 0, 0, 8, 1, 0, 2, 9, 0, 0, 7, 0, 0, 0, 0, 0, 0, 0, 8, 0, 0, 6, 7, 0, 8, 2, 0, 0, 0, 0, 2, 6, 0, 9, 5, 0, 0, 8, 0, 0, 2, 0, 3, 0, 0, 9, 0, 0, 5, 0, 1, 0, 3, 0, 0]

/-- Search state sb37 of the classic-puzzle solve transcript. -/
def sb37 : List Nat :=
  [4, 8, 3, 9, 2, 1, 6, 5, 7, 9, 2, 7, 3, 4, 5, 8, 0, 1, 0, 0, 1, 8, 0, 6, 4, 0, 0, 0, 0, 8, 1, 0, 2, 9, 0, 0, 7, 0, 0, 0, 0, 0, 0, 0, 8, 0, 0, 6, 7, 0, 8, 2, 0, 0, 0, 0, 2, 6, 0, 9, 5, 0, 0, 8, 0, 0, 2, 0, 3, 0, 0, 9, 0, 0, 5, 0, 1, 0, 3, 0, 0]

/-- Search state sb38 of the classic-puzzle solve transcript. -/
def sb38 : List Nat :=
  [4, 8, 3, 9, 2, 1, 6, 5, 7, 9, 6, 0, 3, 0, 5, 0, 0, 1, 0, 0, 1, 8, 0, 6, 4, 0, 0, 0, 0, 8, 1, 0, 2, 9, 0, 0, 7, 0, 0, 0, 0, 0, 0, 0, 8, 0, 0, 6, 7, 0, 8, 2, 0, 0, 0, 0, 2, 6, 0, 9, 5, 0, 0, 8, 0, 0, 2, 0, 3, 0, 0, 9, 0, 0, 5, 0, 1, 0, 3, 0, 0]

/-- Search state sb39 of the classic-puzzle solve transcript. -/
def sb39 : List Nat :=
  [4, 8, 3, 9, 2, 1, 6, 5, 7, 9, 6, 7, 3, 0, 5, 0, 0, 1, 0, 0, 1, 8, 0, 6, 4, 0, 0, 0, 0, 8, 1, 0, 2, 9, 0, 0, 7, 0, 0, 0, 0, 0, 0, 0, 8, 0, 0, 6, 7, 0, 8, 2, 0, 0, 0, 0, 2, 6, 0, 9, 5, 0, 0, 8, 0, 0, 2, 0, 3, 0, 0, 9, 0, 0, 5, 0, 1, 0, 3, 0, 0]

/-- Search state sb40 of the classic-puzzle solve transcript. -/
def sb40 : List Nat :=
  [4, 8, 3, 9, 2, 1, 6, 5, 7, 9, 6, 7, 3, 4, 5, 0, 0, 1, 0, 0, 1, 8, 0, 6, 4, 0, 0, 0, 0, 8, 1, 0, 2, 9, 0, 0, 7, 0, 0, 0, 0, 0, 0, 0, 8, 0, 0, 6, 7, 0, 8, 2, 0, 0, 0, 0, 2, 6, 0, 9, 5, 0, 0, 8, 0, 0, 2, 0, 3, 0, 0, 9, 0, 0, 5, 0, 1, 0, 3, 0, 0]

/-- Search state sb41 of the classic-puzzle solve transcript. -/
def sb41 : List Nat :=
  [4, 8, 3, 9, 2, 1, 6, 5, 7, 9, 6, 7, 3, 4, 5, 8, 0, 1, 0, 0, 1, 8, 0, 6, 4, 0, 0, 0, 0, 8, 1, 0, 2, 9, 0, 0, 7, 0, 0, 0, 0, 0, 0, 0, 8, 0, 0, 6, 7, 0, 8, 2, 0, 0, 0, 0, 2, 6, 0, 9, 5, 0, 0, 8, 0, 0, 2, 0, 3, 0, 0, 9, 0, 0, 5, 0, 1, 0, 3, 0, 0]

/-- Search state sb42 of the classic-puzzle solve transcript. -/
def sb42 : List Nat :=
  [4, 8, 3, 9, 2, 1, 6, 5, 7, 9, 6, 7, 3, 4, 5, 8, 2, 1, 0, 0, 1, 8, 0, 6, 4, 0, 0, 0, 0, 8, 1, 0, 2, 9, 0, 0, 7, 0, 0, 0, 0, 0, 0, 0, 8, 0, 0, 6, 7, 0, 8, 2, 0, 0, 0, 0, 2, 6, 0, 9, 5, 0, 0, 8, 0, 0, 2, 0, 3, 0, 0, 9, 0, 0, 5, 0, 1, 0, 3, 0, 0]

/-- Search state sb43 of the classic-puzzle solve transcript. -/
def sb43 : List Nat :=
  [4, 8, 3, 9, 2, 1, 6, 5, 7, 9, 6, 7, 3, 4, 5, 8, 2, 1, 2, 0, 1, 8, 0, 6, 4, 0, 0, 0, 0, 8, 1, 0, 2, 9, 0, 0, 7, 0, 0, 0, 0, 0, 0, 0, 8, 0, 0, 6, 7, 0, 8, 2, 0, 0, 0, 0, 2, 6, 0, 9, 5, 0, 0, 8, 0, 0, 2, 0, 3, 0, 0, 9, 0, 0, 5, 0, 1, 0, 3, 0, 0]

/-- Search state sb44 of the classic-puzzle solve transcript. -/
def sb44 : List Nat :=
  [4, 8, 3, 9, 2, 1, 6, 5, 7, 9, 6, 7, 3, 4, 5, 8, 2, 1, 2, 5, 1, 8, 0, 6, 4, 0, 0, 0, 0, 8, 1, 0, 2, 9, 0, 0, 7, 0, 0, 0, 0, 0, 0, 0, 8, 0, 0, 6, 7, 0, 8, 2, 0, 0, 0, 0, 2, 6, 0, 9, 5, 0, 0, 8, 0, 0, 2, 0, 3, 0, 0, 9, 0, 0, 5, 0, 1, 0, 3, 0, 0]

/-- Search state sb45 of the classic-puzzle solve transcript. -/
def sb45 : List Nat :=
  [4, 8, 3, 9, 2, 1, 6, 5, 7, 9, 6, 7, 3, 4, 5, 8, 2, 1, 2, 5, 1, 8, 7, 6, 4, 0, 0, 0, 0, 8, 1, 0, 2, 9, 0, 0, 7, 0, 0, 0, 0, 0, 0, 0, 8, 0, 0, 6, 7, 0, 8, 2, 0, 0, 0, 0, 2, 6, 0, 9, 5, 0, 0, 8, 0, 0, 2, 0, 3, 0, 0, 9, 0, 0, 5, 0, 1, 0, 3, 0, 0]

/-- Search state sb46 of the classic-puzzle solve transcript. -/
def sb46 : List Nat :=
  [4, 8, 3, 9, 2, 1, 6, 5, 7, 9, 6, 7, 3, 4, 5, 8, 2, 1, 2, 5, 1, 8, 7, 6, 4, 3, 0, 0, 0, 8, 1, 0, 2, 9, 0, 0, 7, 0, 0, 0, 0, 0, 0, 0, 8, 0, 0, 6, 7, 0, 8, 2, 0, 0, 0, 0, 2, 6, 0, 9, 5, 0, 0, 8, 0, 0, 2, 0, 3, 0, 0, 9, 0, 0, 5, 0, 1, 0, 3, 0, 0]

/-- Search state sb47 of the classic-puzzle solve transcript. -/
def sb47 : List Nat :=
  [4, 8, 3, 9, 2, 1, 6, 5, 7, 9, 6, 7, 3, 4, 5, 8, 2, 1, 2, 5, 1, 8, 7, 6, 4, 9, 0, 0, 0, 8, 1, 0, 2, 9, 0, 0, 7, 0, 0, 0, 0, 0, 0, 0, 8, 0, 0, 6, 7, 0, 8, 2, 0, 0, 0, 0, 2, 6, 0, 9, 5, 0, 0, 8, 0, 0, 2, 0, 3, 0, 0, 9, 0, 0, 5, 0, 1, 0, 3, 0, 0]

/-- Search state sb48 of the classic-puzzle solve transcript. -/
def sb48 : List Nat :=
  [4, 8, 3, 9, 2, 1, 6, 5, 7, 9, 6, 7, 3, 4, 5, 8, 2, 1, 2, 5, 1, 8, 7, 6, 4, 9, 3, 0, 0, 8, 1, 0, 2, 9, 0, 0, 7, 0, 0, 0, 0, 0, 0, 0, 8, 0, 0, 6, 7, 0, 8, 2, 0, 0, 0, 0, 2, 6, 0, 9, 5, 0, 0, 8, 0, 0, 2, 0, 3, 0, 0, 9, 0, 0, 5, 0, 1, 0, 3, 0, 0]

/-- Search state sb49 of the classic-puzzle solve transcript. -/
def sb49 : List Nat :=
  [4, 8, 3, 9, 2, 1, 6, 5, 7, 9, 6, 7, 3, 4, 5, 8, 2, 1, 2, 5, 1, 8, 7, 6, 4, 9, 3, 3, 0, 8, 1, 0, 2, 9, 0, 0, 7, 0, 0, 0, 0, 0, 0, 0, 8, 0, 0, 6, 7, 0, 8, 2, 0, 0, 0, 0, 2, 6, 0, 9, 5, 0, 0, 8, 0, 0, 2, 0, 3, 0, 0, 9, 0, 0, 5, 0, 1, 0, 3, 0, 0]

/-- Search state sb50 of the classic-puzzle solve transcript. -/
def sb50 : List Nat :=
  [4, 8, 3, 9, 2, 1, 6, 5, 7, 9, 6, 7, 3, 4, 5, 8, 2, 1, 2, 5, 1, 8, 7, 6, 4, 9, 3, 3, 4, 8, 1, 0, 2, 9, 0, 0, 7, 0, 0, 0, 0, 0, 0, 0, 8, 0, 0, 6, 7, 0, 8, 2, 0, 0, 0, 0, 2, 6, 0, 9, 5, 0, 0, 8, 0, 0, 2, 0, 3, 0, 0, 9, 0, 0, 5, 0, 1, 0, 3, 0, 0]

/-- Search state sb51 of the classic-puzzle solve transcript. -/
def sb51 : List Nat :=
  [4, 8, 3, 9, 2, 1, 6, 5, 7, 9, 6, 7, 3, 4, 5, 8, 2, 1, 2, 5, 1, 8, 7, 6, 4, 9, 3, 3, 4, 8, 1, 5, 2, 9, 0, 0, 7, 0, 0, 0, 0, 0, 0, 0, 8, 0, 0, 6, 7, 0, 8, 2, 0, 0, 0, 0, 2, 6, 0, 9, 5, 0, 0, 8, 0, 0, 2, 0, 3, 0, 0, 9, 0, 0, 5, 0, 1, 0, 3, 0, 0]

/-- Search state sb52 of the classic-puzzle solve transcript. -/
def sb52 : List Nat :=
  [4, 8, 3, 9, 2, 1, 6, 5, 7, 9, 6, 7, 3, 4, 5, 8, 2, 1, 2, 5, 1, 8, 7, 6, 4, 9, 3, 3, 4, 8, 1, 5, 2, 9, 6, 0, 7, 0, 0, 0, 0, 0, 0, 0, 8, 0, 0, 6, 7, 0, 8, 2, 0, 0, 0, 0, 2, 6, 0, 9, 5, 0, 0, 8, 0, 0, 2, 0, 3, 0, 0, 9, 0, 0, 5, 0, 1, 0, 3, 0, 0]

/-- Search state sb53 of the classic-puzzle solve transcript. -/
def sb53 : List Nat :=
  [4, 8, 3, 9, 2, 1, 6, 5, 7, 9, 6, 7, 3, 4, 5, 8, 2, 1, 2, 5, 1, 8, 7, 6, 4, 9, 3, 3, 4, 8, 1, 5, 2, 9, 7, 0, 7, 0, 0, 0, 0, 0, 0, 0, 8, 0, 0, 6, 7, 0, 8, 2, 0, 0, 0, 0, 2, 6, 0, 9, 5, 0, 0, 8, 0, 0, 2, 0, 3, 0, 0, 9, 0, 0, 5, 0, 1, 0, 3, 0, 0]

/-- Search state sb54 of the classic-puzzle solve transcript. -/
def sb54 : List Nat :=
  [4, 8, 3, 9, 2, 1, 6, 5, 7, 9, 6, 7, 3, 4, 5, 8, 2, 1, 2, 5, 1, 8, 7, 6, 4, 9, 3, 3, 4, 8, 1, 5, 2, 9, 7, 6, 7, 0, 0, 0, 0, 0, 0, 0, 8, 0, 0, 6, 7, 0, 8, 2, 0, 0, 0, 0, 2, 6, 0, 9, 5, 0, 0, 8, 0, 0, 2, 0, 3, 0, 0, 9, 0, 0, 5, 0, 1, 0, 3, 0, 0]

/-- Search state sb55 of the classic-puzzle solve transcript. -/
def sb55 : List Nat :=
  [4, 8, 3, 9, 2, 1, 6, 5, 7, 9, 6, 7, 3, 4, 5, 8, 2, 1, 2, 5, 1, 8, 7, 6, 4, 9, 3, 3, 4, 8, 1, 5, 2, 9, 7, 6, 7, 1, 0, 0, 0, 0, 0, 0, 8, 0, 0, 6, 7, 0, 8, 2, 0, 0, 0, 0, 2, 6, 0, 9, 5, 0, 0, 8, 0, 0, 2, 0, 3, 0, 0, 9, 0, 0, 5, 0, 1, 0, 3, 0, 0]

/-- Search state sb56 of the classic-puzzle solve transcript. -/
def sb56 : List Nat :=
  [4, 8, 3, 9, 2, 1, 6, 5, 7, 9, 6, 7, 3, 4, 5, 8, 2, 1, 2, 5, 1, 8, 7, 6, 4, 9, 3, 3, 4, 8, 1, 5, 2, 9, 7, 6, 7, 1, 9, 0, 0, 0, 0, 0, 8, 0, 0, 6, 7, 0, 8, 2, 0, 0, 0, 0, 2, 6, 0, 9, 5, 0, 0, 8, 0, 0, 2, 0, 3, 0, 0, 9, 0, 0, 5, 0, 1, 0, 3, 0, 0]

/-- Search state sb57 of the classic-puzzle solve transcript. -/
def sb57 : List Nat :=
  [4, 8, 3, 9, 2, 1, 6, 5, 7, 9, 6, 7, 3, 4, 5, 8, 2, 1, 2, 5, 1, 8, 7, 6, 4, 9, 3, 3, 4, 8, 1, 5, 2, 9, 7, 6, 7, 1, 9, 4, 0, 0, 0, 0, 8, 0, 0, 6, 7, 0, 8, 2, 0, 0, 0, 0, 2, 6, 0, 9, 5, 0, 0, 8, 0, 0, 2, 0, 3, 0, 0, 9, 0, 0, 5, 0, 1, 0, 3, 0, 0]

/-- Search state sb58 of the classic-puzzle solve transcript. -/
def sb58 : List Nat :=
  [4, 8, 3, 9, 2, 1, 6, 5, 7, 9, 6, 7, 3, 4, 5, 8, 2, 1, 2, 5, 1, 8, 7, 6, 4, 9, 3, 3, 4, 8, 1, 5, 2, 9, 7, 6, 7, 1, 9, 4, 3, 0, 0, 0, 8, 0, 0, 6, 7, 0, 8, 2, 0, 0, 0, 0, 2, 6, 0, 9, 5, 0, 0, 8, 0, 0, 2, 0, 3, 0, 0, 9, 0, 0, 5, 0, 1, 0, 3, 0, 0]

/-- Search state sb59 of the classic-puzzle solve transcript. -/
def sb59 : List Nat :=
  [4, 8, 3, 9, 2, 1, 6, 5, 7, 9, 6, 7, 3, 4, 5, 8, 2, 1, 2, 5, 1, 8, 7, 6, 4, 9, 3, 3, 4, 8, 1, 5, 2, 9, 7, 6, 7, 1, 9, 4, 6, 0, 0, 0, 8, 0, 0, 6, 7, 0, 8, 2, 0, 0, 0, 0, 2, 6, 0, 9, 5, 0, 0, 8, 0, 0, 2, 0, 3, 0, 0, 9, 0, 0, 5, 0, 1, 0, 3, 0, 0]

/-- Search state sb60 of the classic-puzzle solve transcript. -/
def sb60 : List Nat :=
  [4, 8, 3, 9, 2, 1, 6, 5, 7, 9, 6, 7, 3, 4, 5, 8, 2, 1, 2, 5, 1, 8, 7, 6, 4, 9, 3, 3, 4, 8, 1, 5, 2, 9, 7, 6, 7, 2, 0, 0, 0, 0, 0, 0, 8, 0, 0, 6, 7, 0, 8, 2, 0, 0, 0, 0, 2, 6, 0, 9, 5, 0, 0, 8, 0, 0, 2, 0, 3, 0, 0, 9, 0, 0, 5, 0, 1, 0, 3, 0, 0]

/-- Search state sb61 of the classic-puzzle solve transcript. -/
def sb61 : List Nat :=
  [4, 8, 3, 9, 2, 1, 6, 5, 7, 9, 6, 7, 3, 4, 5, 8, 2, 1, 2, 5, 1, 8, 7, 6, 4, 9, 3, 3, 4, 8, 1, 5, 2, 9, 7, 6, 7, 2, 9, 0, 0, 0, 0, 0, 8, 0, 0, 6, 7, 0, 8, 2, 0, 0, 0, 0, 2, 6, 0, 9, 5, 0, 0, 8, 0, 0, 2, 0, 3, 0, 0, 9, 0, 0, 5, 0, 1, 0, 3, 0, 0]

/-- Search state sb62 of the classic-puzzle solve transcript. -/
def sb62 : List Nat :=
  [4, 8, 3, 9, 2, 1, 6, 5, 7, 9, 6, 7, 3, 4, 5, 8, 2, 1, 2, 5, 1, 8, 7, 6, 4, 9, 3, 3, 4, 8, 1, 5, 2, 9, 7, 6, 7, 2, 9, 4, 0, 0, 0, 0, 8, 0, 0, 6, 7, 0, 8, 2, 0, 0, 0, 0, 2, 6, 0, 9, 5, 0, 0, 8, 0, 0, 2, 0, 3, 0, 0, 9, 0, 0, 5, 0, 1, 0, 3, 0, 0]

/-- Search state sb63 of the classic-puzzle solve transcript. -/
def sb63 : List Nat :=
  [4, 8, 3, 9, 2, 1, 6, 5, 7, 9, 6, 7, 3, 4, 5, 8, 2, 1, 2, 5, 1, 8, 7, 6, 4, 9, 3, 3, 4, 8, 1, 5, 2, 9, 7, 6, 7, 2, 9, 4, 3, 0, 0, 0, 8, 0, 0, 6, 7, 0, 8, 2, 0, 0, 0, 0, 2, 6, 0, 9, 5, 0, 0, 8, 0, 0, 2, 0, 3, 0, 0, 9, 0, 0, 5, 0, 1, 0, 3, 0, 0]

/-- Search state sb64 of the classic-puzzle solve transcript. -/
def sb64 : List Nat :=
  [4, 8, 3, 9, 2, 1, 6, 5, 7, 9, 6, 7, 3, 4, 5, 8, 2, 1, 2, 5, 1, 8, 7, 6, 4, 9, 3, 3, 4, 8, 1, 5, 2, 9, 7, 6, 7, 2, 9, 4, 6, 0, 0, 0, 8, 0, 0, 6, 7, 0, 8, 2, 0, 0, 0, 0, 2, 6, 0, 9, 5, 0, 0, 8, 0, 0, 2, 0, 3, 0, 0, 9, 0, 0, 5, 0, 1, 0, 3, 0, 0]

/-- Search state sb65 of the classic-puzzle solve transcript. -/
def sb65 : List Nat :=
  [4, 8, 3, 9, 2, 1, 6, 5, 7, 9, 6, 7, 3, 4, 5, 8, 2, 1, 2, 5, 1, 8, 7, 6, 4, 9, 3, 3, 4, 8, 1, 5, 2, 9, 7, 6, 7, 9, 0, 0, 0, 0, 0, 0, 8, 0, 0, 6, 7, 0, 8, 2, 0, 0, 0, 0, 2, 6, 0, 9, 5, 0, 0, 8, 0, 0, 2, 0, 3, 0, 0, 9, 0, 0, 5, 0, 1, 0, 3, 0, 0]

/-- Search state sb66 of the classic-puzzle solve transcript. -/
def sb66 : List Nat :=
  [4, 8, 3, 9, 2, 1, 6, 5, 7, 9, 6, 7, 3, 4, 5, 8, 2, 1, 2, 5, 1, 8, 7, 6, 4, 9, 3, 3, 4, 8, 1, 6, 2, 9, 0, 0, 7, 0, 0, 0, 0, 0, 0, 0, 8, 0, 0, 6, 7, 0, 8, 2, 0, 0, 0, 0, 2, 6, 0, 9, 5, 0, 0, 8, 0, 0, 2, 0, 3, 0, 0, 9, 0, 0, 5, 0, 1, 0, 3, 0, 0]

/-- Search state sb67 of the classic-puzzle solve transcript. -/
def sb67 : List Nat :=
  [4, 8, 3, 9, 2, 1, 6, 5, 7, 9, 6, 7, 3, 4, 5, 8, 2, 1, 2, 5, 1, 8, 7, 6, 4, 9, 3, 3, 4, 8, 1, 6, 2, 9, 7, 0, 7, 0, 0, 0, 0, 0, 0, 0, 8, 0, 0, 6, 7, 0, 8, 2, 0, 0, 0, 0, 2, 6, 0, 9, 5, 0, 0, 8, 0, 0, 2, 0, 3, 0, 0, 9, 0, 0, 5, 0, 1, 0, 3, 0, 0]

/-- Search state sb68 of the classic-puzzle solve transcript. -/
def sb68 : List Nat :=
  [4, 8, 3, 9, 2, 1, 6, 5, 7, 9, 6, 7, 3, 4, 5, 8, 2, 1, 2, 5, 1, 8, 7, 6, 4, 9, 3, 3, 4, 8, 1, 6, 2, 9, 7, 5, 7, 0, 0, 0, 0, 0, 0, 0, 8, 0, 0, 6, 7, 0, 8, 2, 0, 0, 0, 0, 2, 6, 0, 9, 5, 0, 0, 8, 0, 0, 2, 0, 3, 0, 0, 9, 0, 0, 5, 0, 1, 0, 3, 0, 0]

/-- Search state sb69 of the classic-puzzle solve transcript. -/
def sb69 : List Nat :=
  [4, 8, 3, 9, 2, 1, 6, 5, 7, 9, 6, 7, 3, 4, 5, 8, 2, 1, 2, 5, 1, 8, 7, 6, 4, 9, 3, 3, 4, 8, 1, 6, 2, 9, 7, 5, 7, 1, 0, 0, 0, 0, 0, 0, 8, 0, 0, 6, 7, 0, 8, 2, 0, 0, 0, 0, 2, 6, 0, 9, 5, 0, 0, 8, 0, 0, 2, 0, 3, 0, 0, 9, 0, 0, 5, 0, 1, 0, 3, 0, 0]

/-- Search state sb70 of the classic-puzzle solve transcript. -/
def sb70 : List Nat :=
  [4, 8, 3, 9, 2, 1, 6, 5, 7, 9, 6, 7, 3, 4, 5, 8, 2, 1, 2, 5, 1, 8, 7, 6, 4, 9, 3, 3, 4, 8, 1, 6, 2, 9, 7, 5, 7, 1, 9, 0, 0, 0, 0, 0, 8, 0, 0, 6, 7, 0, 8, 2, 0, 0, 0, 0, 2, 6, 0, 9, 5, 0, 0, 8, 0, 0, 2, 0, 3, 0, 0, 9, 0, 0, 5, 0, 1, 0, 3, 0, 0]

/-- Search state sb71 of the classic-puzzle solve transcript. -/
def sb71 : List Nat :=
  [4, 8, 3, 9, 2, 1, 6, 5, 7, 9, 6, 7, 3, 4, 5, 8, 2, 1, 2, 5, 1, 8, 7, 6, 4, 9, 3, 3, 4, 8, 1, 6, 2, 9, 7, 5, 7, 1, 9, 4, 0, 0, 0, 0, 8, 0, 0, 6, 7, 0, 8, 2, 0, 0, 0, 0, 2, 6, 0, 9, 5, 0, 0, 8, 0, 0, 2, 0, 3, 0, 0, 9, 0, 0, 5, 0, 1, 0, 3, 0, 0]

/-- Search state sb72 of the classic-puzzle solve transcript. -/
def sb72 : List Nat :=
  [4, 8, 3, 9, 2, 1, 6, 5, 7, 9, 6, 7, 3, 4, 5, 8, 2, 1, 2, 5, 1, 8, 7, 6, 4, 9, 3, 3, 4, 8, 1, 6, 2, 9, 7, 5, 7, 1, 9, 4, 3, 0, 0, 0, 8, 0, 0, 6, 7, 0, 8, 2, 0, 0, 0, 0, 2, 6, 0, 9, 5, 0, 0, 8, 0, 0, 2, 0, 3, 0, 0, 9, 0, 0, 5, 0, 1, 0, 3, 0, 0]

/-- Search state sb73 of the classic-puzzle solve transcript. -/
def sb73 : List Nat :=
  [4, 8, 3, 9, 2, 1, 6, 5, 7, 9, 6, 7, 3, 4, 5, 8, 2, 1, 2, 5, 1, 8, 7, 6, 4, 9, 3, 3, 4, 8, 1, 6, 2, 9, 7, 5, 7, 1, 9, 4, 5, 0, 0, 0, 8, 0, 0, 6, 7, 0, 8, 2, 0, 0, 0, 0, 2, 6, 0, 9, 5, 0, 0, 8, 0, 0, 2, 0, 3, 0, 0, 9, 0, 0, 5, 0, 1, 0, 3, 0, 0]

/-- Search state sb74 of the classic-puzzle solve transcript. -/
def sb74 : List Nat :=
  [4, 8, 3, 9, 2, 1, 6, 5, 7, 9, 6, 7, 3, 4, 5, 8, 2, 1, 2, 5, 1, 8, 7, 6, 4, 9, 3, 3, 4, 8, 1, 6, 2, 9, 7, 5, 7, 1, 9, 5, 0, 0, 0, 0, 8, 0, 0, 6, 7, 0, 8, 2, 0, 0, 0, 0, 2, 6, 0, 9, 5, 0, 0, 8, 0, 0, 2, 0, 3, 0, 0, 9, 0, 0, 5, 0, 1, 0, 3, 0, 0]

/-- Search state sb75 of the classic-puzzle solve transcript. -/
def sb75 : List Nat :=
  [4, 8, 3, 9, 2, 1, 6, 5, 7, 9, 6, 7, 3, 4, 5, 8, 2, 1, 2, 5, 1, 8, 7, 6, 4, 9, 3, 3, 4, 8, 1, 6, 2, 9, 7, 5, 7, 1, 9, 5, 3, 0, 0, 0, 8, 0, 0, 6, 7, 0, 8, 2, 0, 0, 0, 0, 2, 6, 0, 9, 5, 0, 0, 8, 0, 0, 2, 0, 3, 0, 0, 9, 0, 0, 5, 0, 1, 0, 3, 0, 0]

/-- Search state sb76 of the classic-puzzle solve transcript. -/
def sb76 : List Nat :=
  [4, 8, 3, 9, 2, 1, 6, 5, 7, 9, 6, 7, 3, 4, 5, 8, 2, 1, 2, 5, 1, 8, 7, 6, 4, 9, 3, 3, 4, 8, 1, 6, 2, 9, 7, 5, 7, 1, 9, 5, 3, 4, 0, 0, 8, 0, 0, 6, 7, 0, 8, 2, 0, 0, 0, 0, 2, 6, 0, 9, 5, 0, 0, 8, 0, 0, 2, 0, 3, 0, 0, 9, 0, 0, 5, 0, 1, 0, 3, 0, 0]

/-- Search state sb77 of the classic-puzzle solve transcript. -/
def sb77 : List Nat :=
  [4, 8, 3, 9, 2, 1, 6, 5, 7, 9, 6, 7, 3, 4, 5, 8, 2, 1, 2, 5, 1, 8, 7, 6, 4, 9, 3, 3, 4, 8, 1, 6, 2, 9, 7, 5, 7, 2, 0, 0, 0, 0, 0, 0, 8, 0, 0, 6, 7, 0, 8, 2, 0, 0, 0, 0, 2, 6, 0, 9, 5, 0, 0, 8, 0, 0, 2, 0, 3, 0, 0, 9, 0, 0, 5, 0, 1, 0, 3, 0, 0]

/-- Search state sb78 of the classic-puzzle solve transcript. -/
def sb78 : List Nat :=
  [4, 8, 3, 9, 2, 1, 6, 5, 7, 9, 6, 7, 3, 4, 5, 8, 2, 1, 2, 5, 1, 8, 7, 6, 4, 9, 3, 3, 4, 8, 1, 6, 2, 9, 7, 5, 7, 2, 9, 0, 0, 0, 0, 0, 8, 0, 0, 6, 7, 0, 8, 2, 0, 0, 0, 0, 2, 6, 0, 9, 5, 0, 0, 8, 0, 0, 2, 0, 3, 0, 0, 9, 0, 0, 5, 0, 1, 0, 3, 0, 0]

/-- Search state sb79 of the classic-puzzle solve transcript. -/
def sb79 : List Nat :=
  [4, 8, 3, 9, 2, 1, 6, 5, 7, 9, 6, 7, 3, 4, 5, 8, 2, 1, 2, 5, 1, 8, 7, 6, 4, 9, 3, 3, 4, 8, 1, 6, 2, 9, 7, 5, 7, 2, 9, 4, 0, 0, 0, 0, 8, 0, 0, 6, 7, 0, 8, 2, 0, 0, 0, 0, 2, 6, 0, 9, 5, 0, 0, 8, 0, 0, 2, 0, 3, 0, 0, 9, 0, 0, 5, 0, 1, 0, 3, 0, 0]

/-- Search state sb80 of the classic-puzzle solve transcript. -/
def sb80 : List Nat :=
  [4, 8, 3, 9, 2, 1, 6, 5, 7, 9, 6, 7, 3, 4, 5, 8, 2, 1, 2, 5, 1, 8, 7, 6, 4, 9, 3, 3, 4, 8, 1, 6, 2, 9, 7, 5, 7, 2, 9, 4, 3, 0, 0, 0, 8, 0, 0, 6, 7, 0, 8, 2, 0, 0, 0, 0, 2, 6, 0, 9, 5, 0, 0, 8, 0, 0, 2, 0, 3, 0, 0, 9, 0, 0, 5, 0, 1, 0, 3, 0, 0]

/-- Search state sb81 of the classic-puzzle solve transcript. -/
def sb81 : List Nat :=
  [4, 8, 3, 9, 2, 1, 6, 5, 7, 9, 6, 7, 3, 4, 5, 8, 2, 1, 2, 5, 1, 8, 7, 6, 4, 9, 3, 3, 4, 8, 1, 6, 2, 9, 7, 5, 7, 2, 9, 4, 5, 0, 0, 0, 8, 0, 0, 6, 7, 0, 8, 2, 0, 0, 0, 0, 2, 6, 0, 9, 5, 0, 0, 8, 0, 0, 2, 0, 3, 0, 0, 9, 0, 0, 5, 0, 1, 0, 3, 0, 0]

/-- Search state sb82 of the classic-puzzle solve transcript. -/
def sb82 : List Nat :=
  [4, 8, 3, 9, 2, 1, 6, 5, 7, 9, 6, 7, 3, 4, 5, 8, 2, 1, 2, 5, 1, 8, 7, 6, 4, 9, 3, 3, 4, 8, 1, 6, 2, 9, 7, 5, 7, 2, 9, 5, 0, 0, 0, 0, 8, 0, 0, 6, 7, 0, 8, 2, 0, 0, 0, 0, 2, 6, 0, 9, 5, 0, 0, 8, 0, 0, 2, 0, 3, 0, 0, 9, 0, 0, 5, 0, 1, 0, 3, 0, 0]

/-- Search state sb83 of the classic-puzzle solve transcript. -/
def sb83 : List Nat :=
  [4, 8, 3, 9, 2, 1, 6, 5, 7, 9, 6, 7, 3, 4, 5, 8, 2, 1, 2, 5, 1, 8, 7, 6, 4, 9, 3, 3, 4, 8, 1, 6, 2, 9, 7, 5, 7, 2, 9, 5, 3, 0, 0, 0, 8, 0, 0, 6, 7, 0, 8, 2, 0, 0, 0, 0, 2, 6, 0, 9, 5, 0, 0, 8, 0, 0, 2, 0, 3, 0, 0, 9, 0, 0, 5, 0, 1, 0, 3, 0, 0]

/-- Search state sb84 of the classic-puzzle solve transcript. -/
def sb84 : List Nat :=
  [4, 8, 3, 9, 2, 1, 6, 5, 7, 9, 6, 7, 3, 4, 5, 8, 2, 1, 2, 5, 1, 8, 7, 6, 4, 9, 3, 3, 4, 8, 1, 6, 2, 9, 7, 5, 7, 2, 9, 5, 3, 4, 0, 0, 8, 0, 0, 6, 7, 0, 8, 2, 0, 0, 0, 0, 2, 6, 0, 9, 5, 0, 0, 8, 0, 0, 2, 0, 3, 0, 0, 9, 0, 0, 5, 0, 1, 0, 3, 0, 0]

/-- Search state sb85 of the classic-puzzle solve transcript. -/
def sb85 : List Nat :=
  [4, 8, 3, 9, 2, 1, 6, 5, 7, 9, 6, 7, 3, 4, 5, 8, 2, 1, 2, 5, 1, 8, 7, 6, 4, 9, 3, 3, 4, 8, 1, 6, 2, 9, 7, 5, 7, 2, 9, 5, 3, 4, 1, 0, 8, 0, 0, 6, 7, 0, 8, 2, 0, 0, 0, 0, 2, 6, 0, 9, 5, 0, 0, 8, 0, 0, 2, 0, 3, 0, 0, 9, 0, 0, 5, 0, 1, 0, 3, 0, 0]

/-- Search state sb86 of the classic-puzzle solve transcript. -/
def sb86 : List Nat :=
  [4, 8, 3, 9, 2, 1, 6, 5, 7, 9, 6, 7, 3, 4, 5, 8, 2, 1, 2, 5, 1, 8, 7, 6, 4, 9, 3, 3, 4, 8, 1, 6, 2, 9, 7, 5, 7, 2, 9, 5, 3, 4, 1, 6, 8, 0, 0, 6, 7, 0, 8, 2, 0, 0, 0, 0, 2, 6, 0, 9, 5, 0, 0, 8, 0, 0, 2, 0, 3, 0, 0, 9, 0, 0, 5, 0, 1, 0, 3, 0, 0]

/-- Search state sb87 of the classic-puzzle solve transcript. -/
def sb87 : List Nat :=
  [4, 8, 3, 9, 2, 1, 6, 5, 7, 9, 6, 7, 3, 4, 5, 8, 2, 1, 2, 5, 1, 8, 7, 6, 4, 9, 3, 3, 4, 8, 1, 6, 2, 9, 7, 5, 7, 2, 9, 5, 3, 4, 1, 6, 8, 1, 0, 6, 7, 0, 8, 2, 0, 0, 0, 0, 2, 6, 0, 9, 5, 0, 0, 8, 0, 0, 2, 0, 3, 0, 0, 9, 0, 0, 5, 0, 1, 0, 3, 0, 0]

/-- Search state sb88 of the classic-puzzle solve transcript. -/
def sb88 : List Nat :=
  [4, 8, 3, 9, 2, 1, 6, 5, 7, 9, 6, 7, 3, 4, 5, 8, 2, 1, 2, 5, 1, 8, 7, 6, 4, 9, 3, 3, 4, 8, 1, 6, 2, 9, 7, 5, 7, 2, 9, 5, 3, 4, 1, 6, 8, 5, 0, 6, 7, 0, 8, 2, 0, 0, 0, 0, 2, 6, 0, 9, 5, 0, 0, 8, 0, 0, 2, 0, 3, 0, 0, 9, 0, 0, 5, 0, 1, 0, 3, 0, 0]

/-- Search state sb89 of the classic-puzzle solve transcript. -/
def sb89 : List Nat :=
  [4, 8, 3, 9, 2, 1, 6, 5, 7, 9, 6, 7, 3, 4, 5, 8, 2, 1, 2, 5, 1, 8, 7, 6, 4, 9, 3, 3, 4, 8, 1, 6, 2, 9, 7, 5, 7, 2, 9, 5, 3, 4, 1, 6, 8, 5, 1, 6, 7, 0, 8, 2, 0, 0, 0, 0, 2, 6, 0, 9, 5, 0, 0, 8, 0, 0, 2, 0, 3, 0, 0, 9, 0, 0, 5, 0, 1, 0, 3, 0, 0]

/-- Search state sb90 of the classic-puzzle solve transcript. -/
def sb90 : List Nat :=
  [4, 8, 3, 9, 2, 1, 6, 5, 7, 9, 6, 7, 3, 4, 5, 8, 2, 1, 2, 5, 1, 8, 7, 6, 4, 9, 3, 3, 4, 8, 1, 6, 2, 9, 7, 5, 7, 2, 9, 5, 3, 4, 1, 6, 8, 5, 1, 6, 7, 9, 8, 2, 0, 0, 0, 0, 2, 6, 0, 9, 5, 0, 0, 8, 0, 0, 2, 0, 3, 0, 0, 9, 0, 0, 5, 0, 1, 0, 3, 0, 0]

/-- Search state sb91 of the classic-puzzle solve transcript. -/
def sb91 : List Nat :=
  [4, 8, 3, 9, 2, 1, 6, 5, 7, 9, 6, 7, 3, 4, 5, 8, 2, 1, 2, 5, 1, 8, 7, 6, 4, 9, 3, 3, 4, 8, 1, 6, 2, 9, 7, 5, 7, 2, 9, 5, 3, 4, 1, 6, 8, 5, 1, 6, 7, 9, 8, 2, 3, 0, 0, 0, 2, 6, 0, 9, 5, 0, 0, 8, 0, 0, 2, 0, 3, 0, 0, 9, 0, 0, 5, 0, 1, 0, 3, 0, 0]

/-- Search state sb92 of the classic-puzzle solve transcript. -/
def sb92 : List Nat :=
  [4, 8, 3, 9, 2, 1, 6, 5, 7, 9, 6, 7, 3, 4, 5, 8, 2, 1, 2, 5, 1, 8, 7, 6, 4, 9, 3, 3, 4, 8, 1, 6, 2, 9, 7, 5, 7, 2, 9, 5, 3, 4, 1, 6, 8, 5, 1, 6, 7, 9, 8, 2, 3, 4, 0, 0, 2, 6, 0, 9, 5, 0, 0, 8, 0, 0, 2, 0, 3, 0, 0, 9, 0, 0, 5, 0, 1, 0, 3, 0, 0]

/-- Search state sb93 of the classic-puzzle solve transcript. -/
def sb93 : List Nat :=
  [4, 8, 3, 9, 2, 1, 6, 5, 7, 9, 6, 7, 3, 4, 5, 8, 2, 1, 2, 5, 1, 8, 7, 6, 4, 9, 3, 3, 4, 8, 1, 6, 2, 9, 7, 5, 7, 2, 9, 5, 3, 4, 1, 6, 8, 5, 1, 6, 7, 9, 8, 2, 3, 4, 1, 0, 2, 6, 0, 9, 5, 0, 0, 8, 0, 0, 2, 0, 3, 0, 0, 9, 0, 0, 5, 0, 1, 0, 3, 0, 0]

/-- Search state sb94 of the classic-puzzle solve transcript. -/
def sb94 : List Nat :=
  [4, 8, 3, 9, 2, 1, 6, 5, 7, 9, 6, 7, 3, 4, 5, 8, 2, 1, 2, 5, 1, 8, 7, 6, 4, 9, 3, 3, 4, 8, 1, 6, 2, 9, 7, 5, 7, 2, 9, 5, 3, 4, 1, 6, 8, 5, 1, 6, 7, 9, 8, 2, 3, 4, 1, 3, 2, 6, 0, 9, 5, 0, 0, 8, 0, 0, 2, 0, 3, 0, 0, 9, 0, 0, 5, 0, 1, 0, 3, 0, 0]

/-- Search state sb95 of the classic-puzzle solve transcript. -/
def sb95 : List Nat :=
  [4, 8, 3, 9, 2, 1, 6, 5, 7, 9, 6, 7, 3, 4, 5, 8, 2, 1, 2, 5, 1, 8, 7, 6, 4, 9, 3, 3, 4, 8, 1, 6, 2, 9, 7, 5, 7, 2, 9, 5, 3, 4, 1, 6, 8, 5, 1, 6, 7, 9, 8, 2, 3, 4, 1, 3, 2, 6, 8, 9, 5, 0, 0, 8, 0, 0, 2, 0, 3, 0, 0, 9, 0, 0, 5, 0, 1, 0, 3, 0, 0]

/-- Search state sb96 of the classic-puzzle solve transcript. -/
def sb96 : List Nat :=
  [4, 8, 3, 9, 2, 1, 6, 5, 7, 9, 6, 7, 3, 4, 5, 8, 2, 1, 2, 5, 1, 8, 7, 6, 4, 9, 3, 3, 4, 8, 1, 6, 2, 9, 7, 5, 7, 2, 9, 5, 3, 4, 1, 6, 8, 5, 1, 6, 7, 9, 8, 2, 3, 4, 1, 3, 2, 6, 8, 9, 5, 4, 0, 8, 0, 0, 2, 0, 3, 0, 0, 9, 0, 0, 5, 0, 1, 0, 3, 0, 0]

/-- Search state sb97 of the classic-puzzle solve transcript. -/
def sb97 : List Nat :=
  [4, 8, 3, 9, 2, 1, 6, 5, 7, 9, 6, 7, 3, 4, 5, 8, 2, 1, 2, 5, 1, 8, 7, 6, 4, 9, 3, 3, 4, 8, 1, 6, 2, 9, 7, 5, 7, 2, 9, 5, 3, 4, 1, 6, 8, 5, 1, 6, 7, 9, 8, 2, 3, 4, 1, 7, 2, 6, 0, 9, 5, 0, 0, 8, 0, 0, 2, 0, 3, 0, 0, 9, 0, 0, 5, 0, 1, 0, 3, 0, 0]

/-- Search state sb98 of the classic-puzzle solve transcript. -/
def sb98 : List Nat :=
  [4, 8, 3, 9, 2, 1, 6, 5, 7, 9, 6, 7, 3, 4, 5, 8, 2, 1, 2, 5, 1, 8, 7, 6, 4, 9, 3, 3, 4, 8, 1, 6, 2, 9, 7, 5, 7, 2, 9, 5, 3, 4, 1, 6, 8, 5, 1, 6, 7, 9, 8, 2, 3, 4, 1, 7, 2, 6, 8, 9, 5, 0, 0, 8, 0, 0, 2, 0, 3, 0, 0, 9, 0, 0, 5, 0, 1, 0, 3, 0, 0]

/-- Search state sb99 of the classic-puzzle solve transcript. -/
def sb99 : List Nat :=
  [4, 8, 3, 9, 2, 1, 6, 5, 7, 9, 6, 7, 3, 4, 5, 8, 2, 1, 2, 5, 1, 8, 7, 6, 4, 9, 3, 3, 4, 8, 1, 6, 2, 9, 7, 5, 7, 2, 9, 5, 3, 4, 1, 6, 8, 5, 1, 6, 7, 9, 8, 2, 3, 4, 1, 7, 2, 6, 8, 9, 5, 4, 0, 8, 0, 0, 2, 0, 3, 0, 0, 9, 0, 0, 5, 0, 1, 0, 3, 0, 0]

/-- Search state sb100 of the classic-puzzle solve transcript. -/
def sb100 : List Nat :=
  [4, 8, 3, 9, 2, 1, 6, 5, 7, 9, 6, 7, 3, 4, 5, 8, 2, 1, 2, 5, 1, 8, 7, 6, 4, 9, 3, 3, 4, 8, 1, 6, 2, 9, 7, 5, 7, 2, 9, 5, 3, 4, 1, 6, 8, 5, 1, 6, 7, 9, 8, 2, 4, 0, 0, 0, 2, 6, 0, 9, 5, 0, 0, 8, 0, 0, 2, 0, 3, 0, 0, 9, 0, 0, 5, 0, 1, 0, 3, 0, 0]

/-- Search state sb101 of the classic-puzzle solve transcript. -/
def sb101 : List Nat :=
  [4, 8, 3, 9, 2, 1, 6, 5, 7, 9, 6, 7, 3, 4, 5, 8, 2, 1, 2, 5, 1, 8, 7, 6, 4, 9, 3, 3, 4, 8, 1, 6, 2, 9, 7, 5, 7, 9, 0, 0, 0, 0, 0, 0, 8, 0, 0, 6, 7, 0, 8, 2, 0, 0, 0, 0, 2, 6, 0, 9, 5, 0, 0, 8, 0, 0, 2, 0, 3, 0, 0, 9, 0, 0, 5, 0, 1, 0, 3, 0, 0]

/-- Search state sb102 of the classic-puzzle solve transcript. -/
def sb102 : List Nat :=
  [4, 8, 3, 9, 2, 1, 6, 5, 7, 9, 6, 7, 3, 4, 5, 8, 2, 1, 2, 5, 1, 8, 7, 6, 4, 9, 3, 5, 0, 8, 1, 0, 2, 9, 0, 0, 7, 0, 0, 0, 0, 0, 0, 0, 8, 0, 0, 6, 7, 0, 8, 2, 0, 0, 0, 0, 2, 6, 0, 9, 5, 0, 0, 8, 0, 0, 2, 0, 3, 0, 0, 9, 0, 0, 5, 0, 1, 0, 3, 0, 0]

/-- Search state sb103 of the classic-puzzle solve transcript. -/
def sb103 : List Nat :=
  [4, 8, 3, 9, 2, 1, 6, 5, 7, 9, 6, 7, 3, 4, 5, 8, 2, 1, 2, 5, 1, 8, 7, 6, 4, 9, 3, 5, 3, 8, 1, 0, 2, 9, 0, 0, 7, 0, 0, 0, 0, 0, 0, 0, 8, 0, 0, 6, 7, 0, 8, 2, 0, 0, 0, 0, 2, 6, 0, 9, 5, 0, 0, 8, 0, 0, 2, 0, 3, 0, 0, 9, 0, 0, 5, 0, 1, 0, 3, 0, 0]

/-- Search state sb104 of the classic-puzzle solve transcript. -/
def sb104 : List Nat :=
  [4, 8, 3, 9, 2, 1, 6, 5, 7, 9, 6, 7, 3, 4, 5, 8, 2, 1, 2, 5, 1, 8, 7, 6, 4, 9, 3, 5, 3, 8, 1, 6, 2, 9, 0, 0, 7, 0, 0, 0, 0, 0, 0, 0, 8, 0, 0, 6, 7, 0, 8, 2, 0, 0, 0, 0, 2, 6, 0, 9, 5, 0, 0, 8, 0, 0, 2, 0, 3, 0, 0, 9, 0, 0, 5, 0, 1, 0, 3, 0, 0]

/-- Search state sb105 of the classic-puzzle solve transcript. -/
def sb105 : List Nat :=
  [4, 8, 3, 9, 2, 1, 6, 5, 7, 9, 6, 7, 3, 4, 5, 8, 2, 1, 2, 5, 1, 8, 7, 6, 4, 9, 3, 5, 3, 8, 1, 6, 2, 9, 4, 0, 7, 0, 0, 0, 0, 0, 0, 0, 8, 0, 0, 6, 7, 0, 8, 2, 0, 0, 0, 0, 2, 6, 0, 9, 5, 0, 0, 8, 0, 0, 2, 0, 3, 0, 0, 9, 0, 0, 5, 0, 1, 0, 3, 0, 0]

/-- Search state sb106 of the classic-puzzle solve transcript. -/
def sb106 : List Nat :=
  [4, 8, 3, 9, 2, 1, 6, 5, 7, 9, 6, 7, 3, 4, 5, 8, 2, 1, 2, 5, 1, 8, 7, 6, 4, 9, 3, 5, 3, 8, 1, 6, 2, 9, 7, 0, 7, 0, 0, 0, 0, 0, 0, 0, 8, 0, 0, 6, 7, 0, 8, 2, 0, 0, 0, 0, 2, 6, 0, 9, 5, 0, 0, 8, 0, 0, 2, 0, 3, 0, 0, 9, 0, 0, 5, 0, 1, 0, 3, 0, 0]

/-- Search state sb107 of the classic-puzzle solve transcript. -/
def sb107 : List Nat :=
  [4, 8, 3, 9, 2, 1, 6, 5, 7, 9, 6, 7, 3, 4, 5, 8, 2, 1, 2, 5, 1, 8, 7, 6, 4, 9, 3, 5, 3, 8, 1, 6, 2, 9, 7, 4, 7, 0, 0, 0, 0, 0, 0, 0, 8, 0, 0, 6, 7, 0, 8, 2, 0, 0, 0, 0, 2, 6, 0, 9, 5, 0, 0, 8, 0, 0, 2, 0, 3, 0, 0, 9, 0, 0, 5, 0, 1, 0, 3, 0, 0]

/-- Search state sb108 of the classic-puzzle solve transcript. -/
def sb108 : List Nat :=
  [4, 8, 3, 9, 2, 1, 6, 5, 7, 9, 6, 7, 3, 4, 5, 8, 2, 1, 2, 5, 1, 8, 7, 6, 4, 9, 3, 5, 3, 8, 1, 6, 2, 9, 7, 4, 7, 1, 0, 0, 0, 0, 0, 0, 8, 0, 0, 6, 7, 0, 8, 2, 0, 0, 0, 0, 2, 6, 0, 9, 5, 0, 0, 8, 0, 0, 2, 0, 3, 0, 0, 9, 0, 0, 5, 0, 1, 0, 3, 0, 0]

/-- Search state sb109 of the classic-puzzle solve transcript. -/
def sb109 : List Nat :=
  [4, 8, 3, 9, 2, 1, 6, 5, 7, 9, 6, 7, 3, 4, 5, 8, 2, 1, 2, 5, 1, 8, 7, 6, 4, 9, 3, 5, 3, 8, 1, 6, 2, 9, 7, 4, 7, 1, 4, 0, 0, 0, 0, 0, 8, 0, 0, 6, 7, 0, 8, 2, 0, 0, 0, 0, 2, 6, 0, 9, 5, 0, 0, 8, 0, 0, 2, 0, 3, 0, 0, 9, 0, 0, 5, 0, 1, 0, 3, 0, 0]

/-- Search state sb110 of the classic-puzzle solve transcript. -/
def sb110 : List Nat :=
  [4, 8, 3, 9, 2, 1, 6, 5, 7, 9, 6, 7, 3, 4, 5, 8, 2, 1, 2, 5, 1, 8, 7, 6, 4, 9, 3, 5, 3, 8, 1, 6, 2, 9, 7, 4, 7, 1, 4, 5, 0, 0, 0, 0, 8, 0, 0, 6, 7, 0, 8, 2, 0, 0, 0, 0, 2, 6, 0, 9, 5, 0, 0, 8, 0, 0, 2, 0, 3, 0, 0, 9, 0, 0, 5, 0, 1, 0, 3, 0, 0]

/-- Search state sb111 of the classic-puzzle solve transcript. -/
def sb111 : List Nat :=
  [4, 8, 3, 9, 2, 1, 6, 5, 7, 9, 6, 7, 3, 4, 5, 8, 2, 1, 2, 5, 1, 8, 7, 6, 4, 9, 3, 5, 3, 8, 1, 6, 2, 9, 7, 4, 7, 1, 4, 5, 3, 0, 0, 0, 8, 0, 0, 6, 7, 0, 8, 2, 0, 0, 0, 0, 2, 6, 0, 9, 5, 0, 0, 8, 0, 0, 2, 0, 3, 0, 0, 9, 0, 0, 5, 0, 1, 0, 3, 0, 0]

/-- Search state sb112 of the classic-puzzle solve transcript. -/
def sb112 : List Nat :=
  [4, 8, 3, 9, 2, 1, 6, 5, 7, 9, 6, 7, 3, 4, 5, 8, 2, 1, 2, 5, 1, 8, 7, 6, 4, 9, 3, 5, 3, 8, 1, 6, 2, 9, 7, 4, 7, 1, 4, 5, 9, 0, 0, 0, 8, 0, 0, 6, 7, 0, 8, 2, 0, 0, 0, 0, 2, 6, 0, 9, 5, 0, 0, 8, 0, 0, 2, 0, 3, 0, 0, 9, 0, 0, 5, 0, 1, 0, 3, 0, 0]

/-- Search state sb113 of the classic-puzzle solve transcript. -/
def sb113 : List Nat :=
  [4, 8, 3, 9, 2, 1, 6, 5, 7, 9, 6, 7, 3, 4, 5, 8, 2, 1, 2, 5, 1, 8, 7, 6, 4, 9, 3, 5, 3, 8, 1, 6, 2, 9, 7, 4, 7, 1, 9, 0, 0, 0, 0, 0, 8, 0, 0, 6, 7, 0, 8, 2, 0, 0, 0, 0, 2, 6, 0, 9, 5, 0, 0, 8, 0, 0, 2, 0, 3, 0, 0, 9, 0, 0, 5, 0, 1, 0, 3, 0, 0]

/-- Search state sb114 of the classic-puzzle solve transcript. -/
def sb114 : List Nat :=
  [4, 8, 3, 9, 2, 1, 6, 5, 7, 9, 6, 7, 3, 4, 5, 8, 2, 1, 2, 5, 1, 8, 7, 6, 4, 9, 3, 5, 3, 8, 1, 6, 2, 9, 7, 4, 7, 1, 9, 4, 0, 0, 0, 0, 8, 0, 0, 6, 7, 0, 8, 2, 0, 0, 0, 0, 2, 6, 0, 9, 5, 0, 0, 8, 0, 0, 2, 0, 3, 0, 0, 9, 0, 0, 5, 0, 1, 0, 3, 0, 0]

/-- Search state sb115 of the classic-puzzle solve transcript. -/
def sb115 : List Nat :=
  [4, 8, 3, 9, 2, 1, 6, 5, 7, 9, 6, 7, 3, 4, 5, 8, 2, 1, 2, 5, 1, 8, 7, 6, 4, 9, 3, 5, 3, 8, 1, 6, 2, 9, 7, 4, 7, 1, 9, 4, 3, 0, 0, 0, 8, 0, 0, 6, 7, 0, 8, 2, 0, 0, 0, 0, 2, 6, 0, 9, 5, 0, 0, 8, 0, 0, 2, 0, 3, 0, 0, 9, 0, 0, 5, 0, 1, 0, 3, 0, 0]

/-- Search state sb116 of the classic-puzzle solve transcript. -/
def sb116 : List Nat :=
  [4, 8, 3, 9, 2, 1, 6, 5, 7, 9, 6, 7, 3, 4, 5, 8, 2, 1, 2, 5, 1, 8, 7, 6, 4, 9, 3, 5, 3, 8, 1, 6, 2, 9, 7, 4, 7, 1, 9, 4, 5, 0, 0, 0, 8, 0, 0, 6, 7, 0, 8, 2, 0, 0, 0, 0, 2, 6, 0, 9, 5, 0, 0, 8, 0, 0, 2, 0, 3, 0, 0, 9, 0, 0, 5, 0, 1, 0, 3, 0, 0]

/-- Search state sb117 of the classic-puzzle solve transcript. -/
def sb117 : List Nat :=
  [4, 8, 3, 9, 2, 1, 6, 5, 7, 9, 6, 7, 3, 4, 5, 8, 2, 1, 2, 5, 1, 8, 7, 6, 4, 9, 3, 5, 3, 8, 1, 6, 2, 9, 7, 4, 7, 1, 9, 5, 0, 0, 0, 0, 8, 0, 0, 6, 7, 0, 8, 2, 0, 0, 0, 0, 2, 6, 0, 9, 5, 0, 0, 8, 0, 0, 2, 0, 3, 0, 0, 9, 0, 0, 5, 0, 1, 0, 3, 0, 0]

/-- Search state sb118 of the classic-puzzle solve transcript. -/
def sb118 : List Nat :=
  [4, 8, 3, 9, 2, 1, 6, 5, 7, 9, 6, 7, 3, 4, 5, 8, 2, 1, 2, 5, 1, 8, 7, 6, 4, 9, 3, 5, 3, 8, 1, 6, 2, 9, 7, 4, 7, 1, 9, 5, 3, 0, 0, 0, 8, 0, 0, 6, 7, 0, 8, 2, 0, 0, 0, 0, 2, 6, 0, 9, 5, 0, 0, 8, 0, 0, 2, 0, 3, 0, 0, 9, 0, 0, 5, 0, 1, 0, 3, 0, 0]

/-- Search state sb119 of the classic-puzzle solve transcript. -/
def sb119 : List Nat :=
  [4, 8, 3, 9, 2, 1, 6, 5, 7, 9, 6, 7, 3, 4, 5, 8, 2, 1, 2, 5, 1, 8, 7, 6, 4, 9, 3, 5, 3, 8, 1, 6, 2, 9, 7, 4, 7, 1, 9, 5, 3, 4, 0, 0, 8, 0, 0, 6, 7, 0, 8, 2, 0, 0, 0, 0, 2, 6, 0, 9, 5, 0, 0, 8, 0, 0, 2, 0, 3, 0, 0, 9, 0, 0, 5, 0, 1, 0, 3, 0, 0]

/-- Search state sb120 of the classic-puzzle solve transcript. -/
def sb120 : List Nat :=
  [4, 8, 3, 9, 2, 1, 6, 5, 7, 9, 6, 7, 3, 4, 5, 8, 2, 1, 2, 5, 1, 8, 7, 6, 4, 9, 3, 5, 3, 8, 1, 6, 2, 9, 7, 4, 7, 2, 0, 0, 0, 0, 0, 0, 8, 0, 0, 6, 7, 0, 8, 2, 0, 0, 0, 0, 2, 6, 0, 9, 5, 0, 0, 8, 0, 0, 2, 0, 3, 0, 0, 9, 0, 0, 5, 0, 1, 0, 3, 0, 0]

/-- Search state sb121 of the classic-puzzle solve transcript. -/
def sb121 : List Nat :=
  [4, 8, 3, 9, 2, 1, 6, 5, 7, 9, 6, 7, 3, 4, 5, 8, 2, 1, 2, 5, 1, 8, 7, 6, 4, 9, 3, 5, 3, 8, 1, 6, 2, 9, 7, 4, 7, 2, 4, 0, 0, 0, 0, 0, 8, 0, 0, 6, 7, 0, 8, 2, 0, 0, 0, 0, 2, 6, 0, 9, 5, 0, 0, 8, 0, 0, 2, 0, 3, 0, 0, 9, 0, 0, 5, 0, 1, 0, 3, 0, 0]

/-- Search state sb122 of the classic-puzzle solve transcript. -/
def sb122 : List Nat :=
  [4, 8, 3, 9, 2, 1, 6, 5, 7, 9, 6, 7, 3, 4, 5, 8, 2, 1, 2, 5, 1, 8, 7, 6, 4, 9, 3, 5, 3, 8, 1, 6, 2, 9, 7, 4, 7, 2, 4, 5, 0, 0, 0, 0, 8, 0, 0, 6, 7, 0, 8, 2, 0, 0, 0, 0, 2, 6, 0, 9, 5, 0, 0, 8, 0, 0, 2, 0, 3, 0, 0, 9, 0, 0, 5, 0, 1, 0, 3, 0, 0]

/-- Search state sb123 of the classic-puzzle solve transcript. -/
def sb123 : List Nat :=
  [4, 8, 3, 9, 2, 1, 6, 5, 7, 9, 6, 7, 3, 4, 5, 8, 2, 1, 2, 5, 1, 8, 7, 6, 4, 9, 3, 5, 3, 8, 1, 6, 2, 9, 7, 4, 7, 2, 4, 5, 3, 0, 0, 0, 8, 0, 0, 6, 7, 0, 8, 2, 0, 0, 0, 0, 2, 6, 0, 9, 5, 0, 0, 8, 0, 0, 2, 0, 3, 0, 0, 9, 0, 0, 5, 0, 1, 0, 3, 0, 0]

/-- Search state sb124 of the classic-puzzle solve transcript. -/
def sb124 : List Nat :=
  [4, 8, 3, 9, 2, 1, 6, 5, 7, 9, 6, 7, 3, 4, 5, 8, 2, 1, 2, 5, 1, 8, 7, 6, 4, 9, 3, 5, 3, 8, 1, 6, 2, 9, 7, 4, 7, 2, 4, 5, 9, 0, 0, 0, 8, 0, 0, 6, 7, 0, 8, 2, 0, 0, 0, 0, 2, 6, 0, 9, 5, 0, 0, 8, 0, 0, 2, 0, 3, 0, 0, 9, 0, 0, 5, 0, 1, 0, 3, 0, 0]

/-- Search state sb125 of the classic-puzzle solve transcript. -/
def sb125 : List Nat :=
  [4, 8, 3, 9, 2, 1, 6, 5, 7, 9, 6, 7, 3, 4, 5, 8, 2, 1, 2, 5, 1, 8, 7, 6, 4, 9, 3, 5, 3, 8, 1, 6, 2, 9, 7, 4, 7, 2, 9, 0, 0, 0, 0, 0, 8, 0, 0, 6, 7, 0, 8, 2, 0, 0, 0, 0, 2, 6, 0, 9, 5, 0, 0, 8, 0, 0, 2, 0, 3, 0, 0, 9, 0, 0, 5, 0, 1, 0, 3, 0, 0]

/-- Search state sb126 of the classic-puzzle solve transcript. -/
def sb126 : List Nat :=
  [4, 8, 3, 9, 2, 1, 6, 5, 7, 9, 6, 7, 3, 4, 5, 8, 2, 1, 2, 5, 1, 8, 7, 6, 4, 9, 3, 5, 3, 8, 1, 6, 2, 9, 7, 4, 7, 2, 9, 4, 0, 0, 0, 0, 8, 0, 0, 6, 7, 0, 8, 2, 0, 0, 0, 0, 2, 6, 0, 9, 5, 0, 0, 8, 0, 0, 2, 0, 3, 0, 0, 9, 0, 0, 5, 0, 1, 0, 3, 0, 0]

/-- Search state sb127 of the classic-puzzle solve transcript. -/
def sb127 : List Nat :=
  [4, 8, 3, 9, 2, 1, 6, 5, 7, 9, 6, 7, 3, 4, 5, 8, 2, 1, 2, 5, 1, 8, 7, 6, 4, 9, 3, 5, 3, 8, 1, 6, 2, 9, 7, 4, 7, 2, 9, 4, 3, 0, 0, 0, 8, 0, 0, 6, 7, 0, 8, 2, 0, 0, 0, 0, 2, 6, 0, 9, 5, 0, 0, 8, 0, 0, 2, 0, 3, 0, 0, 9, 0, 0, 5, 0, 1, 0, 3, 0, 0]

/-- Search state sb128 of the classic-puzzle solve transcript. -/
def sb128 : List Nat :=
  [4, 8, 3, 9, 2, 1, 6, 5, 7, 9, 6, 7, 3, 4, 5, 8, 2, 1, 2, 5, 1, 8, 7, 6, 4, 9, 3, 5, 3, 8, 1, 6, 2, 9, 7, 4, 7, 2, 9, 4, 5, 0, 0, 0, 8, 0, 0, 6, 7, 0, 8, 2, 0, 0, 0, 0, 2, 6, 0, 9, 5, 0, 0, 8, 0, 0, 2, 0, 3, 0, 0, 9, 0, 0, 5, 0, 1, 0, 3, 0, 0]

/-- Search state sb129 of the classic-puzzle solve transcript. -/
def sb129 : List Nat :=
  [4, 8, 3, 9, 2, 1, 6, 5, 7, 9, 6, 7, 3, 4, 5, 8, 2, 1, 2, 5, 1, 8, 7, 6, 4, 9, 3, 5, 3, 8, 1, 6, 2, 9, 7, 4, 7, 2, 9, 5, 0, 0, 0, 0, 8, 0, 0, 6, 7, 0, 8, 2, 0, 0, 0, 0, 2, 6, 0, 9, 5, 0, 0, 8, 0, 0, 2, 0, 3, 0, 0, 9, 0, 0, 5, 0, 1, 0, 3, 0, 0]

/-- Search state sb130 of the classic-puzzle solve transcript. -/
def sb130 : List Nat :=
  [4, 8, 3, 9, 2, 1, 6, 5, 7, 9, 6, 7, 3, 4, 5, 8, 2, 1, 2, 5, 1, 8, 7, 6, 4, 9, 3, 5, 3, 8, 1, 6, 2, 9, 7, 4, 7, 2, 9, 5, 3, 0, 0, 0, 8, 0, 0, 6, 7, 0, 8, 2, 0, 0, 0, 0, 2, 6, 0, 9, 5, 0, 0, 8, 0, 0, 2, 0, 3, 0, 0, 9, 0, 0, 5, 0, 1, 0, 3, 0, 0]

/-- Search state sb131 of the classic-puzzle solve transcript. -/
def sb131 : List Nat :=
  [4, 8, 3, 9, 2, 1, 6, 5, 7, 9, 6, 7, 3, 4, 5, 8, 2, 1, 2, 5, 1, 8, 7, 6, 4, 9, 3, 5, 3, 8, 1, 6, 2, 9, 7, 4, 7, 2, 9, 5, 3, 4, 0, 0, 8, 0, 0, 6, 7, 0, 8, 2, 0, 0, 0, 0, 2, 6, 0, 9, 5, 0, 0, 8, 0, 0, 2, 0, 3, 0, 0, 9, 0, 0, 5, 0, 1, 0, 3, 0, 0]

/-- Search state sb132 of the classic-puzzle solve transcript. -/
def sb132 : List Nat :=
  [4, 8, 3, 9, 2, 1, 6, 5, 7, 9, 6, 7, 3, 4, 5, 8, 2, 1, 2, 5, 1, 8, 7, 6, 4, 9, 3, 5, 3, 8, 1, 6, 2, 9, 7, 4, 7, 2, 9, 5, 3, 4, 1, 0, 8, 0, 0, 6, 7, 0, 8, 2, 0, 0, 0, 0, 2, 6, 0, 9, 5, 0, 0, 8, 0, 0, 2, 0, 3, 0, 0, 9, 0, 0, 5, 0, 1, 0, 3, 0, 0]

/-- Search state sb133 of the classic-puzzle solve transcript. -/
def sb133 : List Nat :=
  [4, 8, 3, 9, 2, 1, 6, 5, 7, 9, 6, 7, 3, 4, 5, 8, 2, 1, 2, 5, 1, 8, 7, 6, 4, 9, 3, 5, 3, 8, 1, 6, 2, 9, 7, 4, 7, 2, 9, 5, 3, 4, 1, 6, 8, 0, 0, 6, 7, 0, 8, 2, 0, 0, 0, 0, 2, 6, 0, 9, 5, 0, 0, 8, 0, 0, 2, 0, 3, 0, 0, 9, 0, 0, 5, 0, 1, 0, 3, 0, 0]

/-- Search state sb134 of the classic-puzzle solve transcript. -/
def sb134 : List Nat :=
  [4, 8, 3, 9, 2, 1, 6, 5, 7, 9, 6, 7, 3, 4, 5, 8, 2, 1, 2, 5, 1, 8, 7, 6, 4, 9, 3, 5, 3, 8, 1, 6, 2, 9, 7, 4, 7, 2, 9, 5, 3, 4, 1, 6, 8, 1, 0, 6, 7, 0, 8, 2, 0, 0, 0, 0, 2, 6, 0, 9, 5, 0, 0, 8, 0, 0, 2, 0, 3, 0, 0, 9, 0, 0, 5, 0, 1, 0, 3, 0, 0]

/-- Search state sb135 of the classic-puzzle solve transcript. -/
def sb135 : List Nat :=
  [4, 8, 3, 9, 2, 1, 6, 5, 7, 9, 6, 7, 3, 4, 5, 8, 2, 1, 2, 5, 1, 8, 7, 6, 4, 9, 3, 5, 3, 8, 1, 6, 2, 9, 7, 4, 7, 2, 9, 5, 3, 4, 1, 6, 8, 1, 4, 6, 7, 0, 8, 2, 0, 0, 0, 0, 2, 6, 0, 9, 5, 0, 0, 8, 0, 0, 2, 0, 3, 0, 0, 9, 0, 0, 5, 0, 1, 0, 3, 0, 0]

/-- Search state sb136 of the classic-puzzle solve transcript. -/
def sb136 : List Nat :=
  [4, 8, 3, 9, 2, 1, 6, 5, 7, 9, 6, 7, 3, 4, 5, 8, 2, 1, 2, 5, 1, 8, 7, 6, 4, 9, 3, 5, 3, 8, 1, 6, 2, 9, 7, 4, 7, 2, 9, 5, 3, 4, 1, 6, 8, 1, 4, 6, 7, 9, 8, 2, 0, 0, 0, 0, 2, 6, 0, 9, 5, 0, 0, 8, 0, 0, 2, 0, 3, 0, 0, 9, 0, 0, 5, 0, 1, 0, 3, 0, 0]

/-- Search state sb137 of the classic-puzzle solve transcript. -/
def sb137 : List Nat :=
  [4, 8, 3, 9, 2, 1, 6, 5, 7, 9, 6, 7, 3, 4, 5, 8, 2, 1, 2, 5, 1, 8, 7, 6, 4, 9, 3, 5, 3, 8, 1, 6, 2, 9, 7, 4, 7, 2, 9, 5, 3, 4, 1, 6, 8, 1, 4, 6, 7, 9, 8, 2, 3, 0, 0, 0, 2, 6, 0, 9, 5, 0, 0, 8, 0, 0, 2, 0, 3, 0, 0, 9, 0, 0, 5, 0, 1, 0, 3, 0, 0]

/-- Search state sb138 of the classic-puzzle solve transcript. -/
def sb138 : List Nat :=
  [4, 8, 3, 9, 2, 1, 6, 5, 7, 9, 6, 7, 3, 4, 5, 8, 2, 1, 2, 5, 1, 8, 7, 6, 4, 9, 3, 5, 3, 8, 1, 6, 2, 9, 7, 4, 7, 2, 9, 5, 3, 4, 1, 6, 8, 1, 4, 6, 7, 9, 8, 2, 3, 5, 0, 0, 2, 6, 0, 9, 5, 0, 0, 8, 0, 0, 2, 0, 3, 0, 0, 9, 0, 0, 5, 0, 1, 0, 3, 0, 0]

/-- Search state sb139 of the classic-puzzle solve transcript. -/
def sb139 : List Nat :=
  [4, 8, 3, 9, 2, 1, 6, 5, 7, 9, 6, 7, 3, 4, 5, 8, 2, 1, 2, 5, 1, 8, 7, 6, 4, 9, 3, 5, 3, 8, 1, 6, 2, 9, 7, 4, 7, 2, 9, 5, 3, 4, 1, 6, 8, 1, 4, 6, 7, 9, 8, 2, 3, 5, 3, 0, 2, 6, 0, 9, 5, 0, 0, 8, 0, 0, 2, 0, 3, 0, 0, 9, 0, 0, 5, 0, 1, 0, 3, 0, 0]

/-- Search state sb140 of the classic-puzzle solve transcript. -/
def sb140 : List Nat :=
  [4, 8, 3, 9, 2, 1, 6, 5, 7, 9, 6, 7, 3, 4, 5, 8, 2, 1, 2, 5, 1, 8, 7, 6, 4, 9, 3, 5, 3, 8, 1, 6, 2, 9, 7, 4, 7, 2, 9, 5, 3, 4, 1, 6, 8, 1, 4, 6, 7, 9, 8, 2, 3, 5, 3, 1, 2, 6, 0, 9, 5, 0, 0, 8, 0, 0, 2, 0, 3, 0, 0, 9, 0, 0, 5, 0, 1, 0, 3, 0, 0]

/-- Search state sb141 of the classic-puzzle solve transcript. -/
def sb141 : List Nat :=
  [4, 8, 3, 9, 2, 1, 6, 5, 7, 9, 6, 7, 3, 4, 5, 8, 2, 1, 2, 5, 1, 8, 7, 6, 4, 9, 3, 5, 3, 8, 1, 6, 2, 9, 7, 4, 7, 2, 9, 5, 3, 4, 1, 6, 8, 1, 4, 6, 7, 9, 8, 2, 3, 5, 3, 1, 2, 6, 8, 9, 5, 0, 0, 8, 0, 0, 2, 0, 3, 0, 0, 9, 0, 0, 5, 0, 1, 0, 3, 0, 0]

/-- Search state sb142 of the classic-puzzle solve transcript. -/
def sb142 : List Nat :=
  [4, 8, 3, 9, 2, 1, 6, 5, 7, 9, 6, 7, 3, 4, 5, 8, 2, 1, 2, 5, 1, 8, 7, 6, 4, 9, 3, 5, 3, 8, 1, 6, 2, 9, 7, 4, 7, 2, 9, 5, 3, 4, 1, 6, 8, 1, 4, 6, 7, 9, 8, 2, 3, 5, 3, 1, 2, 6, 8, 9, 5, 4, 0, 8, 0, 0, 2, 0, 3, 0, 0, 9, 0, 0, 5, 0, 1, 0, 3, 0, 0]

/-- Search state sb143 of the classic-puzzle solve transcript. -/
def sb143 : List Nat :=
  [4, 8, 3, 9, 2, 1, 6, 5, 7, 9, 6, 7, 3, 4, 5, 8, 2, 1, 2, 5, 1, 8, 7, 6, 4, 9, 3, 5, 3, 8, 1, 6, 2, 9, 7, 4, 7, 2, 9, 5, 3, 4, 1, 6, 8, 1, 4, 6, 7, 9, 8, 2, 3, 5, 3, 7, 2, 6, 0, 9, 5, 0, 0, 8, 0, 0, 2, 0, 3, 0, 0, 9, 0, 0, 5, 0, 1, 0, 3, 0, 0]

/-- Search state sb144 of the classic-puzzle solve transcript. -/
def sb144 : List Nat :=
  [4, 8, 3, 9, 2, 1, 6, 5, 7, 9, 6, 7, 3, 4, 5, 8, 2, 1, 2, 5, 1, 8, 7, 6, 4, 9, 3, 5, 3, 8, 1, 6, 2, 9, 7, 4, 7, 2, 9, 5, 3, 4, 1, 6, 8, 1, 4, 6, 7, 9, 8, 2, 3, 5, 3, 7, 2, 6, 8, 9, 5, 0, 0, 8, 0, 0, 2, 0, 3, 0, 0, 9, 0, 0, 5, 0, 1, 0, 3, 0, 0]

/-- Search state sb145 of the classic-puzzle solve transcript. -/
def sb145 : List Nat :=
  [4, 8, 3, 9, 2, 1, 6, 5, 7, 9, 6, 7, 3, 4, 5, 8, 2, 1, 2, 5, 1, 8, 7, 6, 4, 9, 3, 5, 3, 8, 1, 6, 2, 9, 7, 4, 7, 2, 9, 5, 3, 4, 1, 6, 8, 1, 4, 6, 7, 9, 8, 2, 3, 5, 3, 7, 2, 6, 8, 9, 5, 1, 0, 8, 0, 0, 2, 0, 3, 0, 0, 9, 0, 0, 5, 0, 1, 0, 3, 0, 0]

/-- Search state sb146 of the classic-puzzle solve transcript. -/
def sb146 : List Nat :=
  [4, 8, 3, 9, 2, 1, 6, 5, 7, 9, 6, 7, 3, 4, 5, 8, 2, 1, 2, 5, 1, 8, 7, 6, 4, 9, 3, 5, 3, 8, 1, 6, 2, 9, 7, 4, 7, 2, 9, 5, 3, 4, 1, 6, 8, 1, 4, 6, 7, 9, 8, 2, 3, 5, 3, 7, 2, 6, 8, 9, 5, 4, 0, 8, 0, 0, 2, 0, 3, 0, 0, 9, 0, 0, 5, 0, 1, 0, 3, 0, 0]

/-- Search state sb147 of the classic-puzzle solve transcript. -/
def sb147 : List Nat :=
  [4, 8, 3, 9, 2, 1, 6, 5, 7, 9, 6, 7, 3, 4, 5, 8, 2, 1, 2, 5, 1, 8, 7, 6, 4, 9, 3, 5, 3, 8, 1, 6, 2, 9, 7, 4, 7, 4, 0, 0, 0, 0, 0, 0, 8, 0, 0, 6, 7, 0, 8, 2, 0, 0, 0, 0, 2, 6, 0, 9, 5, 0, 0, 8, 0, 0, 2, 0, 3, 0, 0, 9, 0, 0, 5, 0, 1, 0, 3, 0, 0]

/-- Search state sb148 of the classic-puzzle solve transcript. -/
def sb148 : List Nat :=
  [4, 8, 3, 9, 2, 1, 6, 5, 7, 9, 6, 7, 3, 4, 5, 8, 2, 1, 2, 5, 1, 8, 7, 6, 4, 9, 3, 5, 3, 8, 1, 6, 2, 9, 7, 4, 7, 4, 9, 0, 0, 0, 0, 0, 8, 0, 0, 6, 7, 0, 8, 2, 0, 0, 0, 0, 2, 6, 0, 9, 5, 0, 0, 8, 0, 0, 2, 0, 3, 0, 0, 9, 0, 0, 5, 0, 1, 0, 3, 0, 0]

/-- Search state sb149 of the classic-puzzle solve transcript. -/
def sb149 : List Nat :=
  [4, 8, 3, 9, 2, 1, 6, 5, 7, 9, 6, 7, 3, 4, 5, 8, 2, 1, 2, 5, 1, 8, 7, 6, 4, 9, 3, 5, 3, 8, 1, 6, 2, 9, 7, 4, 7, 4, 9, 5, 0, 0, 0, 0, 8, 0, 0, 6, 7, 0, 8, 2, 0, 0, 0, 0, 2, 6, 0, 9, 5, 0, 0, 8, 0, 0, 2, 0, 3, 0, 0, 9, 0, 0, 5, 0, 1, 0, 3, 0, 0]

/-- Search state sb150 of the classic-puzzle solve transcript. -/
def sb150 : List Nat :=
  [4, 8, 3, 9, 2, 1, 6, 5, 7, 9, 6, 7, 3, 4, 5, 8, 2, 1, 2, 5, 1, 8, 7, 6, 4, 9, 3, 5, 3, 8, 1, 6, 2, 9, 7, 4, 7, 4, 9, 5, 3, 0, 0, 0, 8, 0, 0, 6, 7, 0, 8, 2, 0, 0, 0, 0, 2, 6, 0, 9, 5, 0, 0, 8, 0, 0, 2, 0, 3, 0, 0, 9, 0, 0, 5, 0, 1, 0, 3, 0, 0]

/-- Search state sb151 of the classic-puzzle solve transcript. -/
def sb151 : List Nat :=
  [4, 8, 3, 9, 2, 1, 6, 5, 7, 9, 6, 7, 3, 4, 5, 8, 2, 1, 2, 5, 1, 8, 7, 6, 4, 9, 3, 5, 3, 8, 1, 6, 2, 9, 7, 4, 7, 9, 0, 0, 0, 0, 0, 0, 8, 0, 0, 6, 7, 0, 8, 2, 0, 0, 0, 0, 2, 6, 0, 9, 5, 0, 0, 8, 0, 0, 2, 0, 3, 0, 0, 9, 0, 0, 5, 0, 1, 0, 3, 0, 0]

/-- Search state sb152 of the classic-puzzle solve transcript. -/
def sb152 : List Nat :=
  [4, 8, 3, 9, 2, 1, 6, 5, 7, 9, 6, 7, 3, 4, 5, 8, 2, 1, 2, 5, 1, 8, 7, 6, 4, 9, 3, 5, 3, 8, 1, 6, 2, 9, 7, 4, 7, 9, 4, 0, 0, 0, 0, 0, 8, 0, 0, 6, 7, 0, 8, 2, 0, 0, 0, 0, 2, 6, 0, 9, 5, 0, 0, 8, 0, 0, 2, 0, 3, 0, 0, 9, 0, 0, 5, 0, 1, 0, 3, 0, 0]

/-- Search state sb153 of the classic-puzzle solve transcript. -/
def sb153 : List Nat :=
  [4, 8, 3, 9, 2, 1, 6, 5, 7, 9, 6, 7, 3, 4, 5, 8, 2, 1, 2, 5, 1, 8, 7, 6, 4, 9, 3, 5, 3, 8, 1, 6, 2, 9, 7, 4, 7, 9, 4, 5, 0, 0, 0, 0, 8, 0, 0, 6, 7, 0, 8, 2, 0, 0, 0, 0, 2, 6, 0, 9, 5, 0, 0, 8, 0, 0, 2, 0, 3, 0, 0, 9, 0, 0, 5, 0, 1, 0, 3, 0, 0]

/-- Search state sb154 of the classic-puzzle solve transcript. -/
def sb154 : List Nat :=
  [4, 8, 3, 9, 2, 1, 6, 5, 7, 9, 6, 7, 3, 4, 5, 8, 2, 1, 2, 5, 1, 8, 7, 6, 4, 9, 3, 5, 3, 8, 1, 6, 2, 9, 7, 4, 7, 9, 4, 5, 3, 0, 0, 0, 8, 0, 0, 6, 7, 0, 8, 2, 0, 0, 0, 0, 2, 6, 0, 9, 5, 0, 0, 8, 0, 0, 2, 0, 3, 0, 0, 9, 0, 0, 5, 0, 1, 0, 3, 0, 0]

/-- Search state sb155 of the classic-puzzle solve transcript. -/
def sb155 : List Nat :=
  [4, 8, 3, 9, 2, 1, 6, 5, 7, 9, 6, 7, 3, 4, 5, 8, 2, 1, 2, 5, 1, 8, 7, 6, 4, 9, 3, 5, 4, 8, 1, 0, 2, 9, 0, 0, 7, 0, 0, 0, 0, 0, 0, 0, 8, 0, 0, 6, 7, 0, 8, 2, 0, 0, 0, 0, 2, 6, 0, 9, 5, 0, 0, 8, 0, 0, 2, 0, 3, 0, 0, 9, 0, 0, 5, 0, 1, 0, 3, 0, 0]

/-- Search state sb156 of the classic-puzzle solve transcript. -/
def sb156 : List Nat :=
  [4, 8, 3, 9, 2, 1, 6, 5, 7, 9, 6, 7, 3, 4, 5, 8, 2, 1, 2, 5, 1, 8, 7, 6, 4, 9, 3, 5, 4, 8, 1, 3, 2, 9, 0, 0, 7, 0, 0, 0, 0, 0, 0, 0, 8, 0, 0, 6, 7, 0, 8, 2, 0, 0, 0, 0, 2, 6, 0, 9, 5, 0, 0, 8, 0, 0, 2, 0, 3, 0, 0, 9, 0, 0, 5, 0, 1, 0, 3, 0, 0]

/-- Search state sb157 of the classic-puzzle solve transcript. -/
def sb157 : List Nat :=
  [4, 8, 3, 9, 2, 1, 6, 5, 7, 9, 6, 7, 3, 4, 5, 8, 2, 1, 2, 5, 1, 8, 7, 6, 4, 9, 3, 5, 4, 8, 1, 3, 2, 9, 6, 0, 7, 0, 0, 0, 0, 0, 0, 0, 8, 0, 0, 6, 7, 0, 8, 2, 0, 0, 0, 0, 2, 6, 0, 9, 5, 0, 0, 8, 0, 0, 2, 0, 3, 0, 0, 9, 0, 0, 5, 0, 1, 0, 3, 0, 0]

/-- Search state sb158 of the classic-puzzle solve transcript. -/
def sb158 : List Nat :=
  [4, 8, 3, 9, 2, 1, 6, 5, 7, 9, 6, 7, 3, 4, 5, 8, 2, 1, 2, 5, 1, 8, 7, 6, 4, 9, 3, 5, 4, 8, 1, 3, 2, 9, 7, 0, 7, 0, 0, 0, 0, 0, 0, 0, 8, 0, 0, 6, 7, 0, 8, 2, 0, 0, 0, 0, 2, 6, 0, 9, 5, 0, 0, 8, 0, 0, 2, 0, 3, 0, 0, 9, 0, 0, 5, 0, 1, 0, 3, 0, 0]

/-- Search state sb159 of the classic-puzzle solve transcript. -/
def sb159 : List Nat :=
  [4, 8, 3, 9, 2, 1, 6, 5, 7, 9, 6, 7, 3, 4, 5, 8, 2, 1, 2, 5, 1, 8, 7, 6, 4, 9, 3, 5, 4, 8, 1, 3, 2, 9, 7, 6, 7, 0, 0, 0, 0, 0, 0, 0, 8, 0, 0, 6, 7, 0, 8, 2, 0, 0, 0, 0, 2, 6, 0, 9, 5, 0, 0, 8, 0, 0, 2, 0, 3, 0, 0, 9, 0, 0, 5, 0, 1, 0, 3, 0, 0]

/-- Search state sb160 of the classic-puzzle solve transcript. -/
def sb160 : List Nat :=
  [4, 8, 3, 9, 2, 1, 6, 5, 7, 9, 6, 7, 3, 4, 5, 8, 2, 1, 2, 5, 1, 8, 7, 6, 4, 9, 3, 5, 4, 8, 1, 3, 2, 9, 7, 6, 7, 1, 0, 0, 0, 0, 0, 0, 8, 0, 0, 6, 7, 0, 8, 2, 0, 0, 0, 0, 2, 6, 0, 9, 5, 0, 0, 8, 0, 0, 2, 0, 3, 0, 0, 9, 0, 0, 5, 0, 1, 0, 3, 0, 0]

/-- Search state sb161 of the classic-puzzle solve transcript. -/
def sb161 : List Nat :=
  [4, 8, 3, 9, 2, 1, 6, 5, 7, 9, 6, 7, 3, 4, 5, 8, 2, 1, 2, 5, 1, 8, 7, 6, 4, 9, 3, 5, 4, 8, 1, 3, 2, 9, 7, 6, 7, 1, 9, 0, 0, 0, 0, 0, 8, 0, 0, 6, 7, 0, 8, 2, 0, 0, 0, 0, 2, 6, 0, 9, 5, 0, 0, 8, 0, 0, 2, 0, 3, 0, 0, 9, 0, 0, 5, 0, 1, 0, 3, 0, 0]

/-- Search state sb162 of the classic-puzzle solve transcript. -/
def sb162 : List Nat :=
  [4, 8, 3, 9, 2, 1, 6, 5, 7, 9, 6, 7, 3, 4, 5, 8, 2, 1, 2, 5, 1, 8, 7, 6, 4, 9, 3, 5, 4, 8, 1, 3, 2, 9, 7, 6, 7, 1, 9, 4, 0, 0, 0, 0, 8, 0, 0, 6, 7, 0, 8, 2, 0, 0, 0, 0, 2, 6, 0, 9, 5, 0, 0, 8, 0, 0, 2, 0, 3, 0, 0, 9, 0, 0, 5, 0, 1, 0, 3, 0, 0]

/-- Search state sb163 of the classic-puzzle solve transcript. -/
def sb163 : List Nat :=
  [4, 8, 3, 9, 2, 1, 6, 5, 7, 9, 6, 7, 3, 4, 5, 8, 2, 1, 2, 5, 1, 8, 7, 6, 4, 9, 3, 5, 4, 8, 1, 3, 2, 9, 7, 6, 7, 1, 9, 4, 5, 0, 0, 0, 8, 0, 0, 6, 7, 0, 8, 2, 0, 0, 0, 0, 2, 6, 0, 9, 5, 0, 0, 8, 0, 0, 2, 0, 3, 0, 0, 9, 0, 0, 5, 0, 1, 0, 3, 0, 0]

/-- Search state sb164 of the classic-puzzle solve transcript. -/
def sb164 : List Nat :=
  [4, 8, 3, 9, 2, 1, 6, 5, 7, 9, 6, 7, 3, 4, 5, 8, 2, 1, 2, 5, 1, 8, 7, 6, 4, 9, 3, 5, 4, 8, 1, 3, 2, 9, 7, 6, 7, 1, 9, 4, 6, 0, 0, 0, 8, 0, 0, 6, 7, 0, 8, 2, 0, 0, 0, 0, 2, 6, 0, 9, 5, 0, 0, 8, 0, 0, 2, 0, 3, 0, 0, 9, 0, 0, 5, 0, 1, 0, 3, 0, 0]

/-- Search state sb165 of the classic-puzzle solve transcript. -/
def sb165 : List Nat :=
  [4, 8, 3, 9, 2, 1, 6, 5, 7, 9, 6, 7, 3, 4, 5, 8, 2, 1, 2, 5, 1, 8, 7, 6, 4, 9, 3, 5, 4, 8, 1, 3, 2, 9, 7, 6, 7, 1, 9, 5, 0, 0, 0, 0, 8, 0, 0, 6, 7, 0, 8, 2, 0, 0, 0, 0, 2, 6, 0, 9, 5, 0, 0, 8, 0, 0, 2, 0, 3, 0, 0, 9, 0, 0, 5, 0, 1, 0, 3, 0, 0]

/-- Search state sb166 of the classic-puzzle solve transcript. -/
def sb166 : List Nat :=
  [4, 8, 3, 9, 2, 1, 6, 5, 7, 9, 6, 7, 3, 4, 5, 8, 2, 1, 2, 5, 1, 8, 7, 6, 4, 9, 3, 5, 4, 8, 1, 3, 2, 9, 7, 6, 7, 1, 9, 5, 6, 0, 0, 0, 8, 0, 0, 6, 7, 0, 8, 2, 0, 0, 0, 0, 2, 6, 0, 9, 5, 0, 0, 8, 0, 0, 2, 0, 3, 0, 0, 9, 0, 0, 5, 0, 1, 0, 3, 0, 0]

/-- Search state sb167 of the classic-puzzle solve transcript. -/
def sb167 : List Nat :=
  [4, 8, 3, 9, 2, 1, 6, 5, 7, 9, 6, 7, 3, 4, 5, 8, 2, 1, 2, 5, 1, 8, 7, 6, 4, 9, 3, 5, 4, 8, 1, 3, 2, 9, 7, 6, 7, 1, 9, 5, 6, 4, 0, 0, 8, 0, 0, 6, 7, 0, 8, 2, 0, 0, 0, 0, 2, 6, 0, 9, 5, 0, 0, 8, 0, 0, 2, 0, 3, 0, 0, 9, 0, 0, 5, 0, 1, 0, 3, 0, 0]

/-- Search state sb168 of the classic-puzzle solve transcript. -/
def sb168 : List Nat :=
  [4, 8, 3, 9, 2, 1, 6, 5, 7, 9, 6, 7, 3, 4, 5, 8, 2, 1, 2, 5, 1, 8, 7, 6, 4, 9, 3, 5, 4, 8, 1, 3, 2, 9, 7, 6, 7, 2, 0, 0, 0, 0, 0, 0, 8, 0, 0, 6, 7, 0, 8, 2, 0, 0, 0, 0, 2, 6, 0, 9, 5, 0, 0, 8, 0, 0, 2, 0, 3, 0, 0, 9, 0, 0, 5, 0, 1, 0, 3, 0, 0]

/-- Search state sb169 of the classic-puzzle solve transcript. -/
def sb169 : List Nat :=
  [4, 8, 3, 9, 2, 1, 6, 5, 7, 9, 6, 7, 3, 4, 5, 8, 2, 1, 2, 5, 1, 8, 7, 6, 4, 9, 3, 5, 4, 8, 1, 3, 2, 9, 7, 6, 7, 2, 9, 0, 0, 0, 0, 0, 8, 0, 0, 6, 7, 0, 8, 2, 0, 0, 0, 0, 2, 6, 0, 9, 5, 0, 0, 8, 0, 0, 2, 0, 3, 0, 0, 9, 0, 0, 5, 0, 1, 0, 3, 0, 0]

/-- Search state sb170 of the classic-puzzle solve transcript. -/
def sb170 : List Nat :=
  [4, 8, 3, 9, 2, 1, 6, 5, 7, 9, 6, 7, 3, 4, 5, 8, 2, 1, 2, 5, 1, 8, 7, 6, 4, 9, 3, 5, 4, 8, 1, 3, 2, 9, 7, 6, 7, 2, 9, 4, 0, 0, 0, 0, 8, 0, 0, 6, 7, 0, 8, 2, 0, 0, 0, 0, 2, 6, 0, 9, 5, 0, 0, 8, 0, 0, 2, 0, 3, 0, 0, 9, 0, 0, 5, 0, 1, 0, 3, 0, 0]

/-- Search state sb171 of the classic-puzzle solve transcript. -/
def sb171 : List Nat :=
  [4, 8, 3, 9, 2, 1, 6, 5, 7, 9, 6, 7, 3, 4, 5, 8, 2, 1, 2, 5, 1, 8, 7, 6, 4, 9, 3, 5, 4, 8, 1, 3, 2, 9, 7, 6, 7, 2, 9, 4, 5, 0, 0, 0, 8, 0, 0, 6, 7, 0, 8, 2, 0, 0, 0, 0, 2, 6, 0, 9, 5, 0, 0, 8, 0, 0, 2, 0, 3, 0, 0, 9, 0, 0, 5, 0, 1, 0, 3, 0, 0]

/-- Search state sb172 of the classic-puzzle solve transcript. -/
def sb172 : List Nat :=
  [4, 8, 3, 9, 2, 1, 6, 5, 7, 9, 6, 7, 3, 4, 5, 8, 2, 1, 2, 5, 1, 8, 7, 6, 4, 9, 3, 5, 4, 8, 1, 3, 2, 9, 7, 6, 7, 2, 9, 4, 6, 0, 0, 0, 8, 0, 0, 6, 7, 0, 8, 2, 0, 0, 0, 0, 2, 6, 0, 9, 5, 0, 0, 8, 0, 0, 2, 0, 3, 0, 0, 9, 0, 0, 5, 0, 1, 0, 3, 0, 0]

/-- Search state sb173 of the classic-puzzle solve transcript. -/
def sb173 : List Nat :=
  [4, 8, 3, 9, 2, 1, 6, 5, 7, 9, 6, 7, 3, 4, 5, 8, 2, 1, 2, 5, 1, 8, 7, 6, 4, 9, 3, 5, 4, 8, 1, 3, 2, 9, 7, 6, 7, 2, 9, 5, 0, 0, 0, 0, 8, 0, 0, 6, 7, 0, 8, 2, 0, 0, 0, 0, 2, 6, 0, 9, 5, 0, 0, 8, 0, 0, 2, 0, 3, 0, 0, 9, 0, 0, 5, 0, 1, 0, 3, 0, 0]

/-- Search state sb174 of the classic-puzzle solve transcript. -/
def sb174 : List Nat :=
  [4, 8, 3, 9, 2, 1, 6, 5, 7, 9, 6, 7, 3, 4, 5, 8, 2, 1, 2, 5, 1, 8, 7, 6, 4, 9, 3, 5, 4, 8, 1, 3, 2, 9, 7, 6, 7, 2, 9, 5, 6, 0, 0, 0, 8, 0, 0, 6, 7, 0, 8, 2, 0, 0, 0, 0, 2, 6, 0, 9, 5, 0, 0, 8, 0, 0, 2, 0, 3, 0, 0, 9, 0, 0, 5, 0, 1, 0, 3, 0, 0]

/-- Search state sb175 of the classic-puzzle solve transcript. -/
def sb175 : List Nat :=
  [4, 8, 3, 9, 2, 1, 6, 5, 7, 9, 6, 7, 3, 4, 5, 8, 2, 1, 2, 5, 1, 8, 7, 6, 4, 9, 3, 5, 4, 8, 1, 3, 2, 9, 7, 6, 7, 2, 9, 5, 6, 4, 0, 0, 8, 0, 0, 6, 7, 0, 8, 2, 0, 0, 0, 0, 2, 6, 0, 9, 5, 0, 0, 8, 0, 0, 2, 0, 3, 0, 0, 9, 0, 0, 5, 0, 1, 0, 3, 0, 0]

/-- Search state sb176 of the classic-puzzle solve transcript. -/
def sb176 : List Nat :=
  [4, 8, 3, 9, 2, 1, 6, 5, 7, 9, 6, 7, 3, 4, 5, 8, 2, 1, 2, 5, 1, 8, 7, 6, 4, 9, 3, 5, 4, 8, 1, 3, 2, 9, 7, 6, 7, 2, 9, 5, 6, 4, 1, 0, 8, 0, 0, 6, 7, 0, 8, 2, 0, 0, 0, 0, 2, 6, 0, 9, 5, 0, 0, 8, 0, 0, 2, 0, 3, 0, 0, 9, 0, 0, 5, 0, 1, 0, 3, 0, 0]

/-- Search state sb177 of the classic-puzzle solve transcript. -/
def sb177 : List Nat :=
  [4, 8, 3, 9, 2, 1, 6, 5, 7, 9, 6, 7, 3, 4, 5, 8, 2, 1, 2, 5, 1, 8, 7, 6, 4, 9, 3, 5, 4, 8, 1, 3, 2, 9, 7, 6, 7, 2, 9, 5, 6, 4, 1, 3, 8, 0, 0, 6, 7, 0, 8, 2, 0, 0, 0, 0, 2, 6, 0, 9, 5, 0, 0, 8, 0, 0, 2, 0, 3, 0, 0, 9, 0, 0, 5, 0, 1, 0, 3, 0, 0]

/-- Search state sb178 of the classic-puzzle solve transcript. -/
def sb178 : List Nat :=
  [4, 8, 3, 9, 2, 1, 6, 5, 7, 9, 6, 7, 3, 4, 5, 8, 2, 1, 2, 5, 1, 8, 7, 6, 4, 9, 3, 5, 4, 8, 1, 3, 2, 9, 7, 6, 7, 2, 9, 5, 6, 4, 1, 3, 8, 1, 0, 6, 7, 0, 8, 2, 0, 0, 0, 0, 2, 6, 0, 9, 5, 0, 0, 8, 0, 0, 2, 0, 3, 0, 0, 9, 0, 0, 5, 0, 1, 0, 3, 0, 0]

/-- Search state sb179 of the classic-puzzle solve transcript. -/
def sb179 : List Nat :=
  [4, 8, 3, 9, 2, 1, 6, 5, 7, 9, 6, 7, 3, 4, 5, 8, 2, 1, 2, 5, 1, 8, 7, 6, 4, 9, 3, 5, 4, 8, 1, 3, 2, 9, 7, 6, 7, 2, 9, 5, 6, 4, 1, 3, 8, 1, 3, 6, 7, 0, 8, 2, 0, 0, 0, 0, 2, 6, 0, 9, 5, 0, 0, 8, 0, 0, 2, 0, 3, 0, 0, 9, 0, 0, 5, 0, 1, 0, 3, 0, 0]

/-- Search state sb180 of the classic-puzzle solve transcript. -/
def sb180 : List Nat :=
  [4, 8, 3, 9, 2, 1, 6, 5, 7, 9, 6, 7, 3, 4, 5, 8, 2, 1, 2, 5, 1, 8, 7, 6, 4, 9, 3, 5, 4, 8, 1, 3, 2, 9, 7, 6, 7, 2, 9, 5, 6, 4, 1, 3, 8, 1, 3, 6, 7, 9, 8, 2, 0, 0, 0, 0, 2, 6, 0, 9, 5, 0, 0, 8, 0, 0, 2, 0, 3, 0, 0, 9, 0, 0, 5, 0, 1, 0, 3, 0, 0]

/-- Search state sb181 of the classic-puzzle solve transcript. -/
def sb181 : List Nat :=
  [4, 8, 3, 9, 2, 1, 6, 5, 7, 9, 6, 7, 3, 4, 5, 8, 2, 1, 2, 5, 1, 8, 7, 6, 4, 9, 3, 5, 4, 8, 1, 3, 2, 9, 7, 6, 7, 2, 9, 5, 6, 4, 1, 3, 8, 1, 3, 6, 7, 9, 8, 2, 4, 0, 0, 0, 2, 6, 0, 9, 5, 0, 0, 8, 0, 0, 2, 0, 3, 0, 0, 9, 0, 0, 5, 0, 1, 0, 3, 0, 0]

/-- Search state sb182 of the classic-puzzle solve transcript. -/
def sb182 : List Nat :=
  [4, 8, 3, 9, 2, 1, 6, 5, 7, 9, 6, 7, 3, 4, 5, 8, 2, 1, 2, 5, 1, 8, 7, 6, 4, 9, 3, 5, 4, 8, 1, 3, 2, 9, 7, 6, 7, 2, 9, 5, 6, 4, 1, 3, 8, 1, 3, 6, 7, 9, 8, 2, 4, 5, 0, 0, 2, 6, 0, 9, 5, 0, 0, 8, 0, 0, 2, 0, 3, 0, 0, 9, 0, 0, 5, 0, 1, 0, 3, 0, 0]

/-- Search state sb183 of the classic-puzzle solve transcript. -/
def sb183 : List Nat :=
  [4, 8, 3, 9, 2, 1, 6, 5, 7, 9, 6, 7, 3, 4, 5, 8, 2, 1, 2, 5, 1, 8, 7, 6, 4, 9, 3, 5, 4, 8, 1, 3, 2, 9, 7, 6, 7, 2, 9, 5, 6, 4, 1, 3, 8, 1, 3, 6, 7, 9, 8, 2, 4, 5, 3, 0, 2, 6, 0, 9, 5, 0, 0, 8, 0, 0, 2, 0, 3, 0, 0, 9, 0, 0, 5, 0, 1, 0, 3, 0, 0]

/-- Search state sb184 of the classic-puzzle solve transcript. -/
def sb184 : List Nat :=
  [4, 8, 3, 9, 2, 1, 6, 5, 7, 9, 6, 7, 3, 4, 5, 8, 2, 1, 2, 5, 1, 8, 7, 6, 4, 9, 3, 5, 4, 8, 1, 3, 2, 9, 7, 6, 7, 2, 9, 5, 6, 4, 1, 3, 8, 1, 3, 6, 7, 9, 8, 2, 4, 5, 3, 1, 2, 6, 0, 9, 5, 0, 0, 8, 0, 0, 2, 0, 3, 0, 0, 9, 0, 0, 5, 0, 1, 0, 3, 0, 0]

/-- Search state sb185 of the classic-puzzle solve transcript. -/
def sb185 : List Nat :=
  [4, 8, 3, 9, 2, 1, 6, 5, 7, 9, 6, 7, 3, 4, 5, 8, 2, 1, 2, 5, 1, 8, 7, 6, 4, 9, 3, 5, 4, 8, 1, 3, 2, 9, 7, 6, 7, 2, 9, 5, 6, 4, 1, 3, 8, 1, 3, 6, 7, 9, 8, 2, 4, 5, 3, 1, 2, 6, 8, 9, 5, 0, 0, 8, 0, 0, 2, 0, 3, 0, 0, 9, 0, 0, 5, 0, 1, 0, 3, 0, 0]

/-- Search state sb186 of the classic-puzzle solve transcript. -/
def sb186 : List Nat :=
  [4, 8, 3, 9, 2, 1, 6, 5, 7, 9, 6, 7, 3, 4, 5, 8, 2, 1, 2, 5, 1, 8, 7, 6, 4, 9, 3, 5, 4, 8, 1, 3, 2, 9, 7, 6, 7, 2, 9, 5, 6, 4, 1, 3, 8, 1, 3, 6, 7, 9, 8, 2, 4, 5, 3, 7, 2, 6, 0, 9, 5, 0, 0, 8, 0, 0, 2, 0, 3, 0, 0, 9, 0, 0, 5, 0, 1, 0, 3, 0, 0]

/-- Search state sb187 of the classic-puzzle solve transcript. -/
def sb187 : List Nat :=
  [4, 8, 3, 9, 2, 1, 6, 5, 7, 9, 6, 7, 3, 4, 5, 8, 2, 1, 2, 5, 1, 8, 7, 6, 4, 9, 3, 5, 4, 8, 1, 3, 2, 9, 7, 6, 7, 2, 9, 5, 6, 4, 1, 3, 8, 1, 3, 6, 7, 9, 8, 2, 4, 5, 3, 7, 2, 6, 8, 9, 5, 0, 0, 8, 0, 0, 2, 0, 3, 0, 0, 9, 0, 0, 5, 0, 1, 0, 3, 0, 0]

/-- Search state sb188 of the classic-puzzle solve transcript. -/
def sb188 : List Nat :=
  [4, 8, 3, 9, 2, 1, 6, 5, 7, 9, 6, 7, 3, 4, 5, 8, 2, 1, 2, 5, 1, 8, 7, 6, 4, 9, 3, 5, 4, 8, 1, 3, 2, 9, 7, 6, 7, 2, 9, 5, 6, 4, 1, 3, 8, 1, 3, 6, 7, 9, 8, 2, 4, 5, 3, 7, 2, 6, 8, 9, 5, 1, 0, 8, 0, 0, 2, 0, 3, 0, 0, 9, 0, 0, 5, 0, 1, 0, 3, 0, 0]

/-- Search state sb189 of the classic-puzzle solve transcript. -/
def sb189 : List Nat :=
  [4, 8, 3, 9, 2, 1, 6, 5, 7, 9, 6, 7, 3, 4, 5, 8, 2, 1, 2, 5, 1, 8, 7, 6, 4, 9, 3, 5, 4, 8, 1, 3, 2, 9, 7, 6, 7, 2, 9, 5, 6, 4, 1, 3, 8, 1, 3, 6, 7, 9, 8, 2, 4, 5, 3, 7, 2, 6, 8, 9, 5, 1, 4, 8, 0, 0, 2, 0, 3, 0, 0, 9, 0, 0, 5, 0, 1, 0, 3, 0, 0]

/-- Search state sb190 of the classic-puzzle solve transcript. -/
def sb190 : List Nat :=
  [4, 8, 3, 9, 2, 1, 6, 5, 7, 9, 6, 7, 3, 4, 5, 8, 2, 1, 2, 5, 1, 8, 7, 6, 4, 9, 3, 5, 4, 8, 1, 3, 2, 9, 7, 6, 7, 2, 9, 5, 6, 4, 1, 3, 8, 1, 3, 6, 7, 9, 8, 2, 4, 5, 3, 7, 2, 6, 8, 9, 5, 1, 4, 8, 1, 0, 2, 0, 3, 0, 0, 9, 0, 0, 5, 0, 1, 0, 3, 0, 0]

/-- Search state sb191 of the classic-puzzle solve transcript. -/
def sb191 : List Nat :=
  [4, 8, 3, 9, 2, 1, 6, 5, 7, 9, 6, 7, 3, 4, 5, 8, 2, 1, 2, 5, 1, 8, 7, 6, 4, 9, 3, 5, 4, 8, 1, 3, 2, 9, 7, 6, 7, 2, 9, 5, 6, 4, 1, 3, 8, 1, 3, 6, 7, 9, 8, 2, 4, 5, 3, 7, 2, 6, 8, 9, 5, 1, 4, 8, 1, 4, 2, 0, 3, 0, 0, 9, 0, 0, 5, 0, 1, 0, 3, 0, 0]

/-- Search state sb192 of the classic-puzzle solve transcript. -/
def sb192 : List Nat :=
  [4, 8, 3, 9, 2, 1, 6, 5, 7, 9, 6, 7, 3, 4, 5, 8, 2, 1, 2, 5, 1, 8, 7, 6, 4, 9, 3, 5, 4, 8, 1, 3, 2, 9, 7, 6, 7, 2, 9, 5, 6, 4, 1, 3, 8, 1, 3, 6, 7, 9, 8, 2, 4, 5, 3, 7, 2, 6, 8, 9, 5, 1, 4, 8, 1, 4, 2, 5, 3, 0, 0, 9, 0, 0, 5, 0, 1, 0, 3, 0, 0]

/-- Search state sb193 of the classic-puzzle solve transcript. -/
def sb193 : List Nat :=
  [4, 8, 3, 9, 2, 1, 6, 5, 7, 9, 6, 7, 3, 4, 5, 8, 2, 1, 2, 5, 1, 8, 7, 6, 4, 9, 3, 5, 4, 8, 1, 3, 2, 9, 7, 6, 7, 2, 9, 5, 6, 4, 1, 3, 8, 1, 3, 6, 7, 9, 8, 2, 4, 5, 3, 7, 2, 6, 8, 9, 5, 1, 4, 8, 1, 4, 2, 5, 3, 7, 0, 9, 0, 0, 5, 0, 1, 0, 3, 0, 0]

/-- Search state sb194 of the classic-puzzle solve transcript. -/
def sb194 : List Nat :=
  [4, 8, 3, 9, 2, 1, 6, 5, 7, 9, 6, 7, 3, 4, 5, 8, 2, 1, 2, 5, 1, 8, 7, 6, 4, 9, 3, 5, 4, 8, 1, 3, 2, 9, 7, 6, 7, 2, 9, 5, 6, 4, 1, 3, 8, 1, 3, 6, 7, 9, 8, 2, 4, 5, 3, 7, 2, 6, 8, 9, 5, 1, 4, 8, 1, 4, 2, 5, 3, 7, 6, 9, 0, 0, 5, 0, 1, 0, 3, 0, 0]

/-- Search state sb195 of the classic-puzzle solve transcript. -/
def sb195 : List Nat :=
  [4, 8, 3, 9, 2, 1, 6, 5, 7, 9, 6, 7, 3, 4, 5, 8, 2, 1, 2, 5, 1, 8, 7, 6, 4, 9, 3, 5, 4, 8, 1, 3, 2, 9, 7, 6, 7, 2, 9, 5, 6, 4, 1, 3, 8, 1, 3, 6, 7, 9, 8, 2, 4, 5, 3, 7, 2, 6, 8, 9, 5, 1, 4, 8, 1, 4, 2, 5, 3, 7, 6, 9, 6, 0, 5, 0, 1, 0, 3, 0, 0]

/-- Search state sb196 of the classic-puzzle solve transcript. -/
def sb196 : List Nat :=
  [4, 8, 3, 9, 2, 1, 6, 5, 7, 9, 6, 7, 3, 4, 5, 8, 2, 1, 2, 5, 1, 8, 7, 6, 4, 9, 3, 5, 4, 8, 1, 3, 2, 9, 7, 6, 7, 2, 9, 5, 6, 4, 1, 3, 8, 1, 3, 6, 7, 9, 8, 2, 4, 5, 3, 7, 2, 6, 8, 9, 5, 1, 4, 8, 1, 4, 2, 5, 3, 7, 6, 9, 6, 9, 5, 0, 1, 0, 3, 0, 0]

/-- Search state sb197 of the classic-puzzle solve transcript. -/
def sb197 : List Nat :=
  [4, 8, 3, 9, 2, 1, 6, 5, 7, 9, 6, 7, 3, 4, 5, 8, 2, 1, 2, 5, 1, 8, 7, 6, 4, 9, 3, 5, 4, 8, 1, 3, 2, 9, 7, 6, 7, 2, 9, 5, 6, 4, 1, 3, 8, 1, 3, 6, 7, 9, 8, 2, 4, 5, 3, 7, 2, 6, 8, 9, 5, 1, 4, 8, 1, 4, 2, 5, 3, 7, 6, 9, 6, 9, 5, 4, 1, 0, 3, 0, 0]

/-- Search state sb198 of the classic-puzzle solve transcript. -/
def sb198 : List Nat :=
  [4, 8, 3, 9, 2, 1, 6, 5, 7, 9, 6, 7, 3, 4, 5, 8, 2, 1, 2, 5, 1, 8, 7, 6, 4, 9, 3, 5, 4, 8, 1, 3, 2, 9, 7, 6, 7, 2, 9, 5, 6, 4, 1, 3, 8, 1, 3, 6, 7, 9, 8, 2, 4, 5, 3, 7, 2, 6, 8, 9, 5, 1, 4, 8, 1, 4, 2, 5, 3, 7, 6, 9, 6, 9, 5, 4, 1, 7, 3, 0, 0]

/-- Search state sb199 of the classic-puzzle solve transcript. -/
def sb199 : List Nat :=
  [4, 8, 3, 9, 2, 1, 6, 5, 7, 9, 6, 7, 3, 4, 5, 8, 2, 1, 2, 5, 1, 8, 7, 6, 4, 9, 3, 5, 4, 8, 1, 3, 2, 9, 7, 6, 7, 2, 9, 5, 6, 4, 1, 3, 8, 1, 3, 6, 7, 9, 8, 2, 4, 5, 3, 7, 2, 6, 8, 9, 5, 1, 4, 8, 1, 4, 2, 5, 3, 7, 6, 9, 6, 9, 5, 4, 1, 7, 3, 8, 0]

section HelperLemmas

/-- Reading a set cell at its own in-range index gives the written value. -/
theorem getIdx_set_self (b : List Nat) (i v : Nat) (h : i < b.length) :
    getIdx (b.set i v) i = v := by
  induction b generalizing i with
  | nil => simp at h
  | cons a l ih =>
    cases i with
    | zero => rfl
    | succ n =>
      simp only [List.set_cons_succ, getIdx, List.getD_cons_succ]
      exact ih n (by simpa using h)

/-- Reading a set cell at a different index is unchanged. -/
theorem getIdx_set_ne (b : List Nat) (i j v : Nat) (h : j ≠ i) :
    getIdx (b.set i v) j = getIdx b j := by
  induction b generalizing i j with
  | nil => simp [getIdx]
  | cons a l ih =>
    cases i with
    | zero =>
      cases j with
      | zero => exact absurd rfl h
      | succ m => rfl
    | succ n =>
      cases j with
      | zero => rfl
      | succ m =>
        simp only [List.set_cons_succ, getIdx, List.getD_cons_succ]
        exact ih n m (fun hc => h (by rw [hc]))

/-- Writing 0 into a cell that reads 0 leaves the board unchanged. -/
theorem set_zero_of_getIdx_zero (b : List Nat) (i : Nat) (h : getIdx b i = 0) :
    b.set i 0 = b := by
  induction b generalizing i with
  | nil => rfl
  | cons a l ih =>
    cases i with
    | zero =>
      have : a = 0 := h
      simp [List.set, this]
    | succ n =>
      simp only [List.set_cons_succ, List.cons.injEq, true_and]
      exact ih n h

/-- find? over a contiguous range returns the first index satisfying p. -/
theorem find?_range'_first (p : Nat → Bool) :
    ∀ (n s i : Nat), (List.range' s n).find? p = some i →
      p i = true ∧ s ≤ i ∧ ∀ j, s ≤ j → j < i → p j = false := by
  intro n
  induction n with
  | zero => intro s i h; simp [List.range'] at h
  | succ n ih =>
    intro s i h
    rw [List.range'_succ] at h
    by_cases hp : p s
    · rw [List.find?_cons_of_pos _ hp] at h
      have hsi : s = i := by injection h
      subst hsi
      exact ⟨hp, le_refl s, fun j h1 h2 => absurd (lt_of_le_of_lt h1 h2) (lt_irrefl s)⟩
    · rw [List.find?_cons_of_neg _ hp] at h
      obtain ⟨h1, h2, h3⟩ := ih (s + 1) i h
      refine ⟨h1, le_trans (Nat.le_succ s) h2, fun j hj1 hj2 => ?_⟩
      rcases Nat.eq_or_lt_of_le hj1 with hj | hj
      · rw [← hj]; exact Bool.of_not_eq_true hp
      · exact h3 j hj hj2

/-- get_empty_cell returns an in-range index of a 0 cell, the first one in
row-major order. -/
theorem get_empty_cell_spec (b : List Nat) (i : Nat) (h : get_empty_cell b = some i) :
    getIdx b i = 0 ∧ i < 81 ∧ ∀ j, j < i → getIdx b j ≠ 0 := by
  unfold get_empty_cell at h
  rw [List.range_eq_range'] at h
  obtain ⟨h1, _, h3⟩ := find?_range'_first _ 81 0 i h
  have hmem : i ∈ List.range' 0 81 := List.mem_of_find?_eq_some h
  rw [← List.range_eq_range', List.mem_range] at hmem
  refine ⟨by simpa using h1, hmem, fun j hj hz => ?_⟩
  have := h3 j (Nat.zero_le j) hj
  rw [hz] at this
  simp at this

/-- get_empty_cell returns none exactly when all 81 cells are nonzero. -/
theorem get_empty_cell_none (b : List Nat) :
    get_empty_cell b = none ↔ ∀ i, i < 81 → getIdx b i ≠ 0 := by
  unfold get_empty_cell
  rw [List.find?_eq_none]
  constructor
  · intro h i hi hz
    have := h i (List.mem_range.2 hi)
    rw [hz] at this
    simp at this
  · intro h i hi
    have := h i (List.mem_range.1 hi)
    simpa using this

end HelperLemmas

section Restoration

/-- The candidate loop, on failure, hands back exactly the board it was
given, provided the recursive solver does the same and the tried cell
reads 0. -/
theorem tryLoop_false_eq (recur : List Nat → Bool × List Nat)
    (hrec : ∀ b b2, recur b = (false, b2) → b2 = b)
    (b : List Nat) (i : Nat) (hi : getIdx b i = 0) :
    ∀ (cs : List Nat) (b2 : List Nat), tryLoop recur b i cs = (false, b2) → b2 = b := by
  intro cs
  induction cs with
  | nil =>
    intro b2 h
    unfold tryLoop at h
    exact (Prod.mk.injEq _ _ _ _ ▸ h).2.symm
  | cons t rest ih =>
    intro b2 h
    unfold tryLoop at h
    by_cases hv : is_valid b t i
    · rw [if_pos hv] at h
      rcases hr : recur (b.set i t) with ⟨ok, br⟩
      rw [hr] at h
      cases ok with
      | true => simp at h
      | false =>
        dsimp only at h
        have hbr : br = b.set i t := hrec _ _ hr
        rw [hbr, List.set_set, set_zero_of_getIdx_zero b i hi] at h
        exact ih b2 h
    · rw [if_neg hv] at h
      exact ih b2 h

/-- When the solver fails, the board it returns is the board it started
from: every trial value has been reverted to 0. -/
theorem solveF_false_eq : ∀ (f : Nat) (b b2 : List Nat), solveF f b = (false, b2) → b2 = b := by
  intro f
  induction f with
  | zero =>
    intro b b2 h
    unfold solveF at h
    exact (Prod.mk.injEq _ _ _ _ ▸ h).2.symm
  | succ f ih =>
    intro b b2 h
    unfold solveF at h
    rcases he : get_empty_cell b with _ | i
    · rw [he] at h; simp at h
    · rw [he] at h
      exact tryLoop_false_eq (solveF f) ih b i (get_empty_cell_spec b i he).1 candidates b2 h

/-- C5: for every board on which solve returns false, the returned board is
exactly the input board: all trial values placed during the search have been
reverted to 0.  The embedded solve is a total function with no error
channel, mirroring that the source's solve raises no exception on this
path. -/
theorem solve_false_restores (b b2 : List Nat) (h : solve b = (false, b2)) : b2 = b :=
  solveF_false_eq 82 b b2 h

/-- Witness for solve_false_restores at stuckBoard, an unsatisfiable board. -/
theorem solve_false_restores_witness : (solve stuckBoard).2 = stuckBoard :=
  solve_false_restores stuckBoard (solve stuckBoard).2 (by decide)

end Restoration

section Frame

/-- The candidate loop, on success, never changes a cell that was nonzero,
provided the recursive solver restores on failure and preserves nonzero
cells on success, and the tried cell reads 0. -/
theorem tryLoop_true_frame (recur : List Nat → Bool × List Nat)
    (hrecF : ∀ b b2, recur b = (false, b2) → b2 = b)
    (hrecT : ∀ b b2, recur b = (true, b2) → ∀ j, getIdx b j ≠ 0 → getIdx b2 j = getIdx b j)
    (b : List Nat) (i : Nat) (hi : getIdx b i = 0) :
    ∀ (cs : List Nat) (b2 : List Nat), tryLoop recur b i cs = (true, b2) →
      ∀ j, getIdx b j ≠ 0 → getIdx b2 j = getIdx b j := by
  intro cs
  induction cs with
  | nil =>
    intro b2 h
    unfold tryLoop at h
    simp at h
  | cons t rest ih =>
    intro b2 h j hj
    unfold tryLoop at h
    by_cases hv : is_valid b t i
    · rw [if_pos hv] at h
      rcases hr : recur (b.set i t) with ⟨ok, br⟩
      rw [hr] at h
      cases ok with
      | true =>
        have hb2 : b2 = br := by
          have := (Prod.mk.injEq _ _ _ _ ▸ h).2
          exact this.symm
        subst hb2
        have hji : j ≠ i := fun hc => hj (hc ▸ hi)
        have hset : getIdx (b.set i t) j = getIdx b j := getIdx_set_ne b i j t hji
        rw [hrecT _ _ hr j (hset ▸ hj), hset]
      | false =>
        dsimp only at h
        have hbr : br = b.set i t := hrecF _ _ hr
        rw [hbr, List.set_set, set_zero_of_getIdx_zero b i hi] at h
        exact ih b2 h j hj
    · rw [if_neg hv] at h
      exact ih b2 h j hj

/-- When the solver succeeds, every cell that was nonzero in the input keeps
its value in the output. -/
theorem solveF_true_frame : ∀ (f : Nat) (b b2 : List Nat), solveF f b = (true, b2) →
    ∀ j, getIdx b j ≠ 0 → getIdx b2 j = getIdx b j := by
  intro f
  induction f with
  | zero =>
    intro b b2 h
    unfold solveF at h
    simp at h
  | succ f ih =>
    intro b b2 h
    unfold solveF at h
    rcases he : get_empty_cell b with _ | i
    · rw [he] at h
      have : b = b2 := (Prod.mk.injEq _ _ _ _ ▸ h).2
      intro j hj
      rw [← this]
    · rw [he] at h
      exact tryLoop_true_frame (solveF f) (solveF_false_eq f) (ih) b i
        (get_empty_cell_spec b i he).1 candidates b2 h

/-- C10: if solve returns true then every cell that held a nonzero value
before the call holds the same value after it: the solver only writes to
cells it found empty, so the solved grid extends the initial clues. -/
theorem solve_true_frame (b b2 : List Nat) (h : solve b = (true, b2)) :
    ∀ i, i < 81 → getIdx b i ≠ 0 → getIdx b2 i = getIdx b i :=
  fun i _ hi => solveF_true_frame 82 b b2 h i hi

/-- Witness for solve_true_frame: the clue at index 3 of almostBoard
survives the successful solve. -/
theorem solve_true_frame_witness : getIdx (solve almostBoard).2 3 = getIdx almostBoard 3 :=
  solve_true_frame almostBoard (solve almostBoard).2 (by decide) 3 (by decide) (by decide)

end Frame

section Units

/-- Membership in a row's index list. -/
theorem mem_rowIdx_iff {y j : Nat} (hy : y < 9) : j ∈ rowIdx y ↔ j < 81 ∧ j / 9 = y := by
  simp only [rowIdx, List.mem_map, List.mem_range]
  constructor
  · rintro ⟨x, hx, rfl⟩
    omega
  · rintro ⟨h81, hd⟩
    exact ⟨j % 9, by omega, by omega⟩

/-- Membership in a column's index list. -/
theorem mem_colIdx_iff {x j : Nat} (hx : x < 9) : j ∈ colIdx x ↔ j < 81 ∧ j % 9 = x := by
  simp only [colIdx, List.mem_map, List.mem_range]
  constructor
  · rintro ⟨y, hy, rfl⟩
    omega
  · rintro ⟨h81, hd⟩
    exact ⟨j / 9, by omega, by omega⟩

/-- Membership in a block's index list. -/
theorem mem_blockIdx_iff {k j : Nat} (hk : k < 9) : j ∈ blockIdx k ↔ j < 81 ∧ blockIndex j = k := by
  simp only [blockIdx, blockIndex, List.mem_map, List.mem_range]
  constructor
  · rintro ⟨d, hd, rfl⟩
    constructor
    · omega
    · omega
  · rintro ⟨h81, hd⟩
    exact ⟨j / 9 % 3 * 3 + j % 9 % 3, by omega, by omega⟩

/-- The block index of an in-range cell is in range. -/
theorem blockIndex_lt {i : Nat} (h : i < 81) : blockIndex i < 9 := by
  unfold blockIndex
  omega

/-- sameUnit is symmetric. -/
theorem sameUnit_symm {i j : Nat} (h : sameUnit i j) : sameUnit j i := by
  rcases h with h | h | h
  · exact Or.inl h.symm
  · exact Or.inr (Or.inl h.symm)
  · exact Or.inr (Or.inr h.symm)

/-- An any-scan over a unit's values holds iff some member holds the value. -/
theorem any_unit_iff (b : List Nat) (t : Nat) (u : List Nat) :
    ((u.map (getIdx b)).any fun c => c == t) = true ↔ ∃ j ∈ u, getIdx b j = t := by
  simp [List.any_eq_true, List.mem_map]

/-- is_valid written as one Boolean conjunction of the three unit scans. -/
theorem is_valid_eq_decide (b : List Nat) (t i : Nat) :
    is_valid b t i =
      (!((rowCells b (i / 9)).any fun c => c == t) &&
        (!((colCells b (i % 9)).any fun c => c == t) &&
          !((gridCells b i).any fun c => c == t))) := by
  unfold is_valid
  by_cases h1 : ((rowCells b (i / 9)).any fun c => c == t) = true <;>
    by_cases h2 : ((colCells b (i % 9)).any fun c => c == t) = true <;>
      by_cases h3 : ((gridCells b i).any fun c => c == t) = true <;>
        simp [h1, h2, h3]

/-- Characterization of Board.is_valid: the scan succeeds exactly when no
cell of the queried cell's row, column or block, the queried cell itself
included, currently holds the tested value. -/
theorem is_valid_iff (b : List Nat) (t i : Nat) (hi : i < 81) :
    is_valid b t i = true ↔ ∀ j, j < 81 → sameUnit i j → getIdx b j ≠ t := by
  have hy : i / 9 < 9 := by omega
  have hx : i % 9 < 9 := by omega
  have hk : blockIndex i < 9 := blockIndex_lt hi
  have hrow : ((rowCells b (i / 9)).any fun c => c == t) = true ↔
      ∃ j, j < 81 ∧ j / 9 = i / 9 ∧ getIdx b j = t := by
    rw [rowCells, any_unit_iff]
    constructor
    · rintro ⟨j, hj, ht⟩
      rw [mem_rowIdx_iff hy] at hj
      exact ⟨j, hj.1, hj.2, ht⟩
    · rintro ⟨j, h81, hd, ht⟩
      exact ⟨j, (mem_rowIdx_iff hy).2 ⟨h81, hd⟩, ht⟩
  have hcol : ((colCells b (i % 9)).any fun c => c == t) = true ↔
      ∃ j, j < 81 ∧ j % 9 = i % 9 ∧ getIdx b j = t := by
    rw [colCells, any_unit_iff]
    constructor
    · rintro ⟨j, hj, ht⟩
      rw [mem_colIdx_iff hx] at hj
      exact ⟨j, hj.1, hj.2, ht⟩
    · rintro ⟨j, h81, hd, ht⟩
      exact ⟨j, (mem_colIdx_iff hx).2 ⟨h81, hd⟩, ht⟩
  have hblk : ((gridCells b i).any fun c => c == t) = true ↔
      ∃ j, j < 81 ∧ blockIndex j = blockIndex i ∧ getIdx b j = t := by
    rw [gridCells, any_unit_iff]
    constructor
    · rintro ⟨j, hj, ht⟩
      rw [mem_blockIdx_iff hk] at hj
      exact ⟨j, hj.1, hj.2, ht⟩
    · rintro ⟨j, h81, hd, ht⟩
      exact ⟨j, (mem_blockIdx_iff hk).2 ⟨h81, hd⟩, ht⟩
  rw [is_valid_eq_decide]
  constructor
  · intro h j hj hsu ht
    have h' := h
    rw [Bool.and_eq_true, Bool.and_eq_true] at h'
    obtain ⟨h1, h2, h3⟩ := h'
    rcases hsu with hd | hd | hd
    · rw [Bool.not_eq_true', ← Bool.not_eq_true] at h1
      exact h1 (hrow.2 ⟨j, hj, hd.symm, ht⟩)
    · rw [Bool.not_eq_true', ← Bool.not_eq_true] at h2
      exact h2 (hcol.2 ⟨j, hj, hd.symm, ht⟩)
    · rw [Bool.not_eq_true', ← Bool.not_eq_true] at h3
      exact h3 (hblk.2 ⟨j, hj, hd.symm, ht⟩)
  · intro H
    rw [Bool.and_eq_true, Bool.and_eq_true]
    refine ⟨?_, ?_, ?_⟩
    · rw [Bool.not_eq_true', ← Bool.not_eq_true]
      intro hA
      obtain ⟨j, h81, hd, ht⟩ := hrow.1 hA
      exact H j h81 (Or.inl hd.symm) ht
    · rw [Bool.not_eq_true', ← Bool.not_eq_true]
      intro hB
      obtain ⟨j, h81, hd, ht⟩ := hcol.1 hB
      exact H j h81 (Or.inr (Or.inl hd.symm)) ht
    · rw [Bool.not_eq_true', ← Bool.not_eq_true]
      intro hC
      obtain ⟨j, h81, hd, ht⟩ := hblk.1 hC
      exact H j h81 (Or.inr (Or.inr hd.symm)) ht

/-- Characterization of the specification's reference scan. -/
theorem noOtherHolds_iff (b : List Nat) (i v : Nat) :
    noOtherHolds b i v = true ↔ ∀ j, j < 81 → sameUnit i j → j ≠ i → getIdx b j ≠ v := by
  unfold noOtherHolds
  rw [List.all_eq_true]
  constructor
  · intro h j hj
    exact of_decide_eq_true (h j (List.mem_range.2 hj))
  · intro h j hj
    exact decide_eq_true (h j (List.mem_range.1 hj))

end Units

section IsValidClaims

/-- C2 counterexample: on the board whose only nonzero cell is cell 0
holding 5, is_valid rejects value 5 at cell 0 although no cell other than
cell 0 itself holds 5 — the queried cell's own current value does cause a
rejection, refuting the claimed equivalence at this concrete input. -/
theorem is_valid_self_counterexample :
    ¬ (is_valid fiveBoard 5 0 = true ↔ noOtherHolds fiveBoard 0 5 = true) := by decide

/-- C2 amended: is_valid scans the whole row, column and block, the queried
cell included; whenever the queried cell's current value differs from the
candidate (in particular whenever the cell is empty, which is how solve
always calls it), it agrees with the reference scan over the other cells. -/
theorem is_valid_agrees_on_other_cells (b : List Nat) (i v : Nat) (hi : i < 81)
    (hv : getIdx b i ≠ v) :
    is_valid b v i = true ↔ noOtherHolds b i v = true := by
  rw [is_valid_iff b v i hi, noOtherHolds_iff]
  constructor
  · intro H j hj hsu _
    exact H j hj hsu
  · intro H j hj hsu
    by_cases hji : j = i
    · rw [hji]
      exact hv
    · exact H j hj hsu hji

/-- Witness for is_valid_agrees_on_other_cells at cell 1 of fiveBoard with
candidate 3. -/
theorem is_valid_agrees_on_other_cells_witness :
    is_valid fiveBoard 3 1 = true ↔ noOtherHolds fiveBoard 1 3 = true :=
  is_valid_agrees_on_other_cells fiveBoard 1 3 (by decide) (by decide)

end IsValidClaims

section Pigeonhole

/-- Membership in the candidate digit range. -/
theorem mem_range'_1_iff {m : Nat} : m ∈ List.range' 1 9 ↔ 1 ≤ m ∧ m ≤ 9 := by
  rw [List.mem_range']
  constructor
  · rintro ⟨i, hi, rfl⟩
    omega
  · intro h
    exact ⟨m - 1, by omega, by omega⟩

/-- A complete unit counts each digit 1 to 9 exactly once. -/
theorem unitComplete_count {l : List Nat} (h : unitComplete l = true) :
    ∀ v, 1 ≤ v → v ≤ 9 → l.count v = 1 := by
  unfold unitComplete at h
  rw [List.all_eq_true] at h
  intro v h1 h9
  exact beq_iff_eq.1 (h v (mem_range'_1_iff.2 ⟨h1, h9⟩))

/-- Structural properties of the row index lists. -/
theorem rowIdx_props : ∀ y, y < 9 → (rowIdx y).Nodup ∧ (∀ j ∈ rowIdx y, j < 81) ∧
    ∀ j ∈ rowIdx y, ∀ k ∈ rowIdx y, sameUnit j k := by decide

/-- Structural properties of the column index lists. -/
theorem colIdx_props : ∀ x, x < 9 → (colIdx x).Nodup ∧ (∀ j ∈ colIdx x, j < 81) ∧
    ∀ j ∈ colIdx x, ∀ k ∈ colIdx x, sameUnit j k := by decide

/-- Structural properties of the block index lists. -/
theorem blockIdx_props : ∀ k, k < 9 → (blockIdx k).Nodup ∧ (∀ j ∈ blockIdx k, j < 81) ∧
    ∀ j ∈ blockIdx k, ∀ m ∈ blockIdx k, sameUnit j m := by decide

/-- Two distinct positions of a unit cannot both hold a value the unit
counts exactly once. -/
theorem unit_count_two (s : List Nat) (u : List Nat) (j k v : Nat)
    (hj : j ∈ u) (hk : k ∈ u) (hne : j ≠ k)
    (h1 : getIdx s j = v) (h2 : getIdx s k = v)
    (hc : (u.map (getIdx s)).count v = 1) : False := by
  have hpairnd : List.Nodup [j, k] := by simp [hne]
  have hpairsub : [j, k] ⊆ u := by
    intro x hx
    rcases List.mem_cons.1 hx with rfl | hx
    · exact hj
    · rcases List.mem_cons.1 hx with rfl | hx
      · exact hk
      · simp at hx
  obtain ⟨w, hw1, hw2⟩ := List.subperm_of_subset hpairnd hpairsub
  have hmapperm : List.Perm (w.map (getIdx s)) [getIdx s j, getIdx s k] := by
    have := hw1.map (getIdx s)
    simpa using this
  have hsp : List.Subperm [getIdx s j, getIdx s k] (u.map (getIdx s)) :=
    ⟨w.map (getIdx s), hmapperm, hw2.map (getIdx s)⟩
  have hcount := hsp.count_le v
  rw [h1, h2] at hcount
  have h2c : List.count v [v, v] = 2 := by simp
  rw [h2c, hc] at hcount
  omega

/-- Pigeonhole for one unit: 9 pairwise-distinct values from 1..9 in a
9-cell unit give each digit exactly once. -/
theorem unitComplete_of_unit (b : List Nat) (u : List Nat)
    (hlen : u.length = 9) (hnd : u.Nodup) (hmem : ∀ j ∈ u, j < 81)
    (hsu : ∀ j ∈ u, ∀ k ∈ u, sameUnit j k)
    (hfull : ∀ i, i < 81 → getIdx b i ≠ 0)
    (hv : ∀ i, i < 81 → getIdx b i ≤ 9)
    (hP : noConflicts b) :
    unitComplete (u.map (getIdx b)) = true := by
  have hinj : ∀ j ∈ u, ∀ k ∈ u, getIdx b j = getIdx b k → j = k := by
    intro j hj k hk he
    by_contra hne
    exact hP j k (hmem j hj) (hmem k hk) hne (hsu j hj k hk) (hfull j (hmem j hj)) he
  have hndv : (u.map (getIdx b)).Nodup := List.Nodup.map_on hinj hnd
  have hsub : u.map (getIdx b) ⊆ List.range' 1 9 := by
    intro v hv'
    rw [List.mem_map] at hv'
    obtain ⟨j, hj, rfl⟩ := hv'
    have h1 := hfull j (hmem j hj)
    have h2 := hv j (hmem j hj)
    exact mem_range'_1_iff.2 ⟨by omega, h2⟩
  have hsp : List.Subperm (u.map (getIdx b)) (List.range' 1 9) :=
    List.subperm_of_subset hndv hsub
  have hperm : List.Perm (u.map (getIdx b)) (List.range' 1 9) :=
    hsp.perm_of_length_le (by simp [hlen])
  unfold unitComplete
  rw [List.all_eq_true]
  intro v hv'
  rw [hperm.count_eq]
  have hnd9 : (List.range' 1 9).Nodup := by decide
  rw [List.count_eq_one_of_mem hnd9 hv']
  rfl

/-- fullValid split into its three families of units. -/
theorem fullValid_iff (b : List Nat) : fullValid b = true ↔
    (∀ y, y < 9 → unitComplete (rowCells b y) = true) ∧
      (∀ x, x < 9 → unitComplete (colCells b x) = true) ∧
        ∀ k, k < 9 → unitComplete ((blockIdx k).map (getIdx b)) = true := by
  unfold fullValid
  rw [Bool.and_eq_true, Bool.and_eq_true, List.all_eq_true, List.all_eq_true, List.all_eq_true]
  constructor
  · rintro ⟨⟨h1, h2⟩, h3⟩
    exact ⟨fun y hy => h1 y (List.mem_range.2 hy), fun x hx => h2 x (List.mem_range.2 hx),
      fun k hk => h3 k (List.mem_range.2 hk)⟩
  · rintro ⟨h1, h2, h3⟩
    exact ⟨⟨fun y hy => h1 y (List.mem_range.1 hy), fun x hx => h2 x (List.mem_range.1 hx)⟩,
      fun k hk => h3 k (List.mem_range.1 hk)⟩

/-- A full board with in-range values and no unit conflicts is fully valid. -/
theorem fullValid_of_complete (b : List Nat)
    (hfull : ∀ i, i < 81 → getIdx b i ≠ 0)
    (hv : ∀ i, i < 81 → getIdx b i ≤ 9)
    (hP : noConflicts b) : fullValid b = true := by
  rw [fullValid_iff]
  refine ⟨?_, ?_, ?_⟩
  · intro y hy
    obtain ⟨hnd, hmem, hsu⟩ := rowIdx_props y hy
    exact unitComplete_of_unit b (rowIdx y) (by simp [rowIdx]) hnd hmem hsu hfull hv hP
  · intro x hx
    obtain ⟨hnd, hmem, hsu⟩ := colIdx_props x hx
    exact unitComplete_of_unit b (colIdx x) (by simp [colIdx]) hnd hmem hsu hfull hv hP
  · intro k hk
    obtain ⟨hnd, hmem, hsu⟩ := blockIdx_props k hk
    exact unitComplete_of_unit b (blockIdx k) (by simp [blockIdx]) hnd hmem hsu hfull hv hP

/-- Every cell of a fully valid board holds a digit between 1 and 9. -/
theorem fullValid_values (s : List Nat) (hs : fullValid s = true) :
    ∀ j, j < 81 → 1 ≤ getIdx s j ∧ getIdx s j ≤ 9 := by
  intro j hj
  have hy : j / 9 < 9 := by omega
  have hrow := (fullValid_iff s).1 hs |>.1 (j / 9) hy
  have hsp : List.Subperm (List.range' 1 9) (rowCells s (j / 9)) := by
    rw [List.subperm_ext_iff]
    intro x hx
    obtain ⟨h1, h9⟩ := mem_range'_1_iff.1 hx
    have hnd9 : (List.range' 1 9).Nodup := by decide
    rw [List.count_eq_one_of_mem hnd9 hx, unitComplete_count hrow x h1 h9]
  have hperm : List.Perm (List.range' 1 9) (rowCells s (j / 9)) :=
    hsp.perm_of_length_le (by simp [rowCells, rowIdx])
  have hmem : getIdx s j ∈ rowCells s (j / 9) :=
    List.mem_map_of_mem _ ((mem_rowIdx_iff hy).2 ⟨hj, rfl⟩)
  have := hperm.mem_iff.2 hmem
  exact mem_range'_1_iff.1 this

end Pigeonhole

section SolveValid

/-- A solvable board has no unit conflicts among its clues. -/
theorem solvable_noConflicts (b : List Nat) (hb : Solvable b) : noConflicts b := by
  obtain ⟨s, hext, hfv⟩ := hb
  intro j k hj hk hne hsu hz heq
  have hkz : getIdx b k ≠ 0 := by rw [← heq]; exact hz
  have hsj : getIdx s j = getIdx b j := hext j hj hz
  have hsk : getIdx s k = getIdx b k := hext k hk hkz
  have hv1 := fullValid_values s hfv j hj
  have hfv' := (fullValid_iff s).1 hfv
  have hval2 : getIdx s k = getIdx s j := by rw [hsj, hsk, heq]
  rcases hsu with hd | hd | hd
  · have hy : j / 9 < 9 := by omega
    obtain ⟨hnd, _, _⟩ := rowIdx_props (j / 9) hy
    refine unit_count_two s (rowIdx (j / 9)) j k (getIdx s j)
      ((mem_rowIdx_iff hy).2 ⟨hj, rfl⟩) ((mem_rowIdx_iff hy).2 ⟨hk, hd.symm⟩) hne rfl hval2 ?_
    exact unitComplete_count (hfv'.1 (j / 9) hy) (getIdx s j) hv1.1 hv1.2
  · have hx : j % 9 < 9 := by omega
    obtain ⟨hnd, _, _⟩ := colIdx_props (j % 9) hx
    refine unit_count_two s (colIdx (j % 9)) j k (getIdx s j)
      ((mem_colIdx_iff hx).2 ⟨hj, rfl⟩) ((mem_colIdx_iff hx).2 ⟨hk, hd.symm⟩) hne rfl hval2 ?_
    exact unitComplete_count (hfv'.2.1 (j % 9) hx) (getIdx s j) hv1.1 hv1.2
  · have hk9 : blockIndex j < 9 := blockIndex_lt hj
    obtain ⟨hnd, _, _⟩ := blockIdx_props (blockIndex j) hk9
    refine unit_count_two s (blockIdx (blockIndex j)) j k (getIdx s j)
      ((mem_blockIdx_iff hk9).2 ⟨hj, rfl⟩) ((mem_blockIdx_iff hk9).2 ⟨hk, hd.symm⟩) hne rfl hval2 ?_
    exact unitComplete_count (hfv'.2.2 (blockIndex j) hk9) (getIdx s j) hv1.1 hv1.2

/-- A solvable board's clues all lie in 0..9. -/
theorem solvable_valuesOk (b : List Nat) (hb : Solvable b) : ∀ i, i < 81 → getIdx b i ≤ 9 := by
  obtain ⟨s, hext, hfv⟩ := hb
  intro i hi
  by_cases hz : getIdx b i = 0
  · omega
  · rw [← hext i hi hz]
    exact (fullValid_values s hfv i hi).2

/-- Placing a value that passes is_valid into an empty cell keeps the board
conflict free. -/
theorem noConflicts_set (b : List Nat) (i t : Nat) (h81 : b.length = 81) (hi81 : i < 81)
    (hi : getIdx b i = 0) (hval : is_valid b t i = true) (hP : noConflicts b) :
    noConflicts (b.set i t) := by
  have hvalid := (is_valid_iff b t i hi81).1 hval
  intro j k hj hk hne hsu hz heq
  by_cases hji : j = i
  · subst hji
    have hki : k ≠ j := fun hc => hne hc.symm
    have hkv : getIdx (b.set j t) k = getIdx b k := getIdx_set_ne b j k t hki
    have hjv : getIdx (b.set j t) j = t := getIdx_set_self b j t (by omega)
    have : getIdx b k = t := by rw [hkv, hjv] at heq; exact heq.symm
    exact hvalid k hk hsu this
  · by_cases hki : k = i
    · subst hki
      have hjv : getIdx (b.set k t) j = getIdx b j := getIdx_set_ne b k j t hji
      have hkv : getIdx (b.set k t) k = t := getIdx_set_self b k t (by omega)
      have : getIdx b j = t := by rw [hjv, hkv] at heq; exact heq
      exact hvalid j hj (sameUnit_symm hsu) this
    · have hjv : getIdx (b.set i t) j = getIdx b j := getIdx_set_ne b i j t hji
      have hkv : getIdx (b.set i t) k = getIdx b k := getIdx_set_ne b i k t hki
      rw [hjv] at hz heq
      rw [hkv] at heq
      exact hP j k hj hk hne hsu hz heq

/-- The candidate loop, on success, delivers a fully valid board, provided
the incoming board is well formed and the recursive solver does the same. -/
theorem tryLoop_true_valid (recur : List Nat → Bool × List Nat)
    (hrecF : ∀ b b2, recur b = (false, b2) → b2 = b)
    (hrecT : ∀ b b2, b.length = 81 → (∀ m, m < 81 → getIdx b m ≤ 9) → noConflicts b →
      recur b = (true, b2) → fullValid b2 = true)
    (b : List Nat) (i : Nat) (h81 : b.length = 81) (hv : ∀ m, m < 81 → getIdx b m ≤ 9)
    (hP : noConflicts b) (hi : getIdx b i = 0) (hi81 : i < 81) :
    ∀ cs, (∀ t ∈ cs, 1 ≤ t ∧ t ≤ 9) →
      ∀ b2, tryLoop recur b i cs = (true, b2) → fullValid b2 = true := by
  intro cs
  induction cs with
  | nil =>
    intro _ b2 h
    unfold tryLoop at h
    simp at h
  | cons t rest ih =>
    intro hcs b2 h
    unfold tryLoop at h
    by_cases hvp : is_valid b t i
    · rw [if_pos hvp] at h
      rcases hr : recur (b.set i t) with ⟨ok, br⟩
      rw [hr] at h
      cases ok with
      | true =>
        have hb2 : b2 = br := ((Prod.mk.injEq _ _ _ _ ▸ h).2).symm
        subst hb2
        refine hrecT (b.set i t) b2 (by simp [h81]) ?_ ?_ hr
        · intro m hm
          by_cases hmi : m = i
          · subst hmi
            rw [getIdx_set_self b m t (by omega)]
            exact (hcs t (List.mem_cons_self t rest)).2
          · rw [getIdx_set_ne b i m t hmi]
            exact hv m hm
        · exact noConflicts_set b i t h81 hi81 hi hvp hP
      | false =>
        dsimp only at h
        have hbr : br = b.set i t := hrecF _ _ hr
        rw [hbr, List.set_set, set_zero_of_getIdx_zero b i hi] at h
        exact ih (fun u hu => hcs u (List.mem_cons_of_mem t hu)) b2 h
    · rw [if_neg hvp] at h
      exact ih (fun u hu => hcs u (List.mem_cons_of_mem t hu)) b2 h

/-- Every candidate solve tries lies between 1 and 9. -/
theorem candidates_bounds : ∀ t ∈ candidates, 1 ≤ t ∧ t ≤ 9 := by decide

/-- When the solver succeeds on a well-formed conflict-free board, the
board it returns is fully valid. -/
theorem solveF_true_valid : ∀ (f : Nat) (b b2 : List Nat), b.length = 81 →
    (∀ m, m < 81 → getIdx b m ≤ 9) → noConflicts b →
    solveF f b = (true, b2) → fullValid b2 = true := by
  intro f
  induction f with
  | zero =>
    intro b b2 _ _ _ h
    unfold solveF at h
    simp at h
  | succ f ih =>
    intro b b2 h81 hv hP h
    unfold solveF at h
    rcases he : get_empty_cell b with _ | i
    · rw [he] at h
      have hb2 : b = b2 := (Prod.mk.injEq _ _ _ _ ▸ h).2
      subst hb2
      exact fullValid_of_complete b ((get_empty_cell_none b).1 he) hv hP
    · rw [he] at h
      obtain ⟨hi, hi81, _⟩ := get_empty_cell_spec b i he
      exact tryLoop_true_valid (solveF f) (solveF_false_eq f)
        (fun c c2 a1 a2 a3 a4 => ih c c2 a1 a2 a3 a4) b i h81 hv hP hi hi81
        candidates candidates_bounds b2 h

/-- C1: for every solvable 9x9 board, when solve returns true the resulting
board has every row, every column and every 3x3 block (block index
(y / 3) * 3 + (x / 3)) containing each digit 1 to 9 exactly once. -/
theorem solve_true_fullValid (b b2 : List Nat) (h81 : b.length = 81) (hs : Solvable b)
    (h : solve b = (true, b2)) : fullValid b2 = true :=
  solveF_true_valid 82 b b2 h81 (solvable_valuesOk b hs) (solvable_noConflicts b hs) h

/-- Witness for solve_true_fullValid at almostBoard, solvable via fullBoard. -/
theorem solve_true_fullValid_witness : fullValid (solve almostBoard).2 = true :=
  solve_true_fullValid almostBoard (solve almostBoard).2 (by decide)
    ⟨fullBoard, by decide, by decide⟩ (by decide)

/-- C6: on a board with no empty cell that satisfies all uniqueness
constraints, solve returns true immediately and hands back the very same
board, mutating nothing. -/
theorem solve_solved_board (b : List Nat) (hfull : ∀ i, i < 81 → getIdx b i ≠ 0)
    (_hc : fullValid b = true) : solve b = (true, b) := by
  have he : get_empty_cell b = none := (get_empty_cell_none b).2 hfull
  unfold solve solveF
  rw [he]

/-- Witness for solve_solved_board at fullBoard. -/
theorem solve_solved_board_witness : solve fullBoard = (true, fullBoard) :=
  solve_solved_board fullBoard (by decide) (by decide)

end SolveValid

section Construction

/-- Bind on an Except error short-circuits. -/
theorem except_bind_error {α β : Type} (e : Err) (f : α → Except Err β) :
    (Except.error e >>= f) = Except.error e := rfl

/-- Bind on an Except success applies the continuation. -/
theorem except_bind_ok {α β : Type} (a : α) (f : α → Except Err β) :
    (Except.ok a >>= f) = f a := rfl

/-- Pure in the Except monad is ok. -/
theorem except_pure_eq_ok {α : Type} (a : α) : (pure a : Except Err α) = Except.ok a := rfl

/-- pyInt never raises the specification's ShapeError. -/
theorem pyInt_no_shape (c : Char) : pyInt c ≠ .error Err.shapeError := by
  unfold pyInt
  by_cases h : c.isDigit <;> simp [h]

/-- The Cell validators never raise the specification's ShapeError. -/
theorem cellValidate_no_shape (x y v : Int) : cellValidate x y v ≠ .error Err.shapeError := by
  unfold cellValidate
  by_cases h1 : x < 0 ∨ 9 ≤ x
  · simp [h1]
  · by_cases h2 : y < 0 ∨ 9 ≤ y
    · simp [h1, h2]
    · by_cases h3 : v < 0 ∨ 10 ≤ v <;> simp [h1, h2, h3]

/-- Cell construction never raises the specification's ShapeError. -/
theorem from_str_value_no_shape (x y : Nat) (c : Char) :
    from_str_value x y c ≠ .error Err.shapeError := by
  unfold from_str_value
  rcases hp : pyInt c with e | v
  · simp only [except_bind_error]
    intro h
    injection h with h
    rw [h] at hp
    exact pyInt_no_shape c hp
  · simp only [except_bind_ok]
    rcases hc : cellValidate (x : Int) (y : Int) (v : Int) with e | w
    · simp only [except_bind_error]
      intro h
      injection h with h
      rw [h] at hc
      exact cellValidate_no_shape _ _ _ hc
    · simp only [except_bind_ok, except_pure_eq_ok]
      intro h
      injection h

/-- An error from mapM comes from one of the elements. -/
theorem mapM_error_source {α β : Type} (f : α → Except Err β) :
    ∀ (l : List α) (e : Err), l.mapM f = .error e → ∃ x ∈ l, f x = .error e := by
  intro l
  induction l with
  | nil =>
    intro e h
    rw [← List.mapM'_eq_mapM] at h
    rw [List.mapM'_nil, except_pure_eq_ok] at h
    injection h
  | cons a l ih =>
    intro e h
    rw [← List.mapM'_eq_mapM] at h
    rw [List.mapM'_cons] at h
    rcases ha : f a with e' | b
    · rw [ha, except_bind_error] at h
      have : e' = e := by injection h
      exact ⟨a, List.mem_cons_self a l, this ▸ ha⟩
    · rw [ha, except_bind_ok] at h
      rcases hl : l.mapM' f with e' | bs
      · rw [hl, except_bind_error] at h
        have he : e' = e := by injection h
        rw [List.mapM'_eq_mapM] at hl
        obtain ⟨x, hx, hfx⟩ := ih e (he ▸ hl)
        exact ⟨x, List.mem_cons_of_mem a hx, hfx⟩
      · rw [hl, except_bind_ok, except_pure_eq_ok] at h
        injection h

/-- A successful mapM keeps the length. -/
theorem mapM_ok_length {α β : Type} (f : α → Except Err β) :
    ∀ (l : List α) (l2 : List β), l.mapM f = .ok l2 → l2.length = l.length := by
  intro l
  induction l with
  | nil =>
    intro l2 h
    rw [← List.mapM'_eq_mapM, List.mapM'_nil, except_pure_eq_ok] at h
    injection h with h
    simp [← h]
  | cons a l ih =>
    intro l2 h
    rw [← List.mapM'_eq_mapM, List.mapM'_cons] at h
    rcases ha : f a with e | b
    · rw [ha, except_bind_error] at h
      injection h
    · rw [ha, except_bind_ok] at h
      rcases hl : l.mapM' f with e | bs
      · rw [hl, except_bind_error] at h
        injection h
      · rw [hl, except_bind_ok, except_pure_eq_ok] at h
        injection h with h
        rw [List.mapM'_eq_mapM] at hl
        rw [← h]
        simp [ih bs hl]

/-- A successful mapM succeeds on every element. -/
theorem mapM_ok_mem {α β : Type} (f : α → Except Err β) :
    ∀ (l : List α) (l2 : List β), l.mapM f = .ok l2 → ∀ x ∈ l, ∃ y, f x = .ok y := by
  intro l
  induction l with
  | nil =>
    intro l2 _ x hx
    simp at hx
  | cons a l ih =>
    intro l2 h x hx
    rw [← List.mapM'_eq_mapM, List.mapM'_cons] at h
    rcases ha : f a with e | b
    · rw [ha, except_bind_error] at h
      injection h
    · rw [ha, except_bind_ok] at h
      rcases hl : l.mapM' f with e | bs
      · rw [hl, except_bind_error] at h
        injection h
      · rcases List.mem_cons.1 hx with rfl | hx
        · exact ⟨b, ha⟩
        · rw [List.mapM'_eq_mapM] at hl
          exact ih bs hl x hx

/-- Every member of a list appears in its enumFrom at some index. -/
theorem mem_enumFrom_of_mem {α : Type} (x : α) :
    ∀ (l : List α) (n : Nat), x ∈ l → ∃ i, (i, x) ∈ l.enumFrom n := by
  intro l
  induction l with
  | nil =>
    intro n h
    simp at h
  | cons a l ih =>
    intro n h
    rcases List.mem_cons.1 h with rfl | h
    · exact ⟨n, by rw [List.enumFrom_cons]; exact List.mem_cons_self _ _⟩
    · obtain ⟨i, hi⟩ := ih (n + 1) h
      exact ⟨i, by rw [List.enumFrom_cons]; exact List.mem_cons_of_mem _ hi⟩

/-- Every member of a list appears in its enum at some index. -/
theorem mem_enum_of_mem {α : Type} (x : α) (l : List α) (h : x ∈ l) :
    ∃ i, (i, x) ∈ l.enum :=
  mem_enumFrom_of_mem x l 0 h

/-- Row construction never raises the specification's ShapeError. -/
theorem Row_from_array_no_shape (y : Nat) (cs : List Char) :
    Row.from_array y cs ≠ .error Err.shapeError := by
  intro h
  unfold Row.from_array at h
  rcases hm : cs.enum.mapM (fun p => from_str_value p.1 y p.2) with e | cells
  · rw [hm, except_bind_error] at h
    injection h with h
    obtain ⟨p, _, hp⟩ := mapM_error_source _ cs.enum e hm
    rw [h] at hp
    exact from_str_value_no_shape p.1 y p.2 hp
  · rw [hm, except_bind_ok] at h
    by_cases h9 : 9 ≤ y
    · rw [if_pos h9] at h
      injection h with h
      cases h
    · rw [if_neg h9] at h
      by_cases hl : cells.length ≠ 9
      · rw [if_pos hl] at h
        injection h with h
        cases h
      · rw [if_neg hl, except_pure_eq_ok] at h
        injection h

/-- A successfully constructed row comes from exactly 9 characters. -/
theorem Row_from_array_ok_length (y : Nat) (cs : List Char) (cells : List Nat)
    (h : Row.from_array y cs = .ok cells) : cs.length = 9 := by
  unfold Row.from_array at h
  rcases hm : cs.enum.mapM (fun p => from_str_value p.1 y p.2) with e | cells'
  · rw [hm, except_bind_error] at h
    injection h
  · rw [hm, except_bind_ok] at h
    by_cases h9 : 9 ≤ y
    · rw [if_pos h9] at h
      injection h
    · rw [if_neg h9] at h
      by_cases hl : cells'.length ≠ 9
      · rw [if_pos hl] at h
        injection h
      · have := mapM_ok_length _ cs.enum cells' hm
        rw [List.enum_length] at this
        omega

/-- Board construction never raises the specification's ShapeError: its
error taxonomy on the code is ValueError and NameError only. -/
theorem from_array_no_shape (rows : List (List Char)) :
    from_array_of_strings rows ≠ .error Err.shapeError := by
  intro h
  unfold from_array_of_strings at h
  rcases hm : rows.enum.mapM (fun p => Row.from_array p.1 p.2) with e | rs
  · rw [hm, except_bind_error] at h
    injection h with h
    obtain ⟨p, _, hp⟩ := mapM_error_source _ rows.enum e hm
    rw [h] at hp
    exact Row_from_array_no_shape p.1 p.2 hp
  · rw [hm, except_bind_ok] at h
    by_cases h9 : rs.length ≠ 9
    · rw [if_pos h9] at h
      injection h with h
      cases h
    · rw [if_neg h9, except_pure_eq_ok] at h
      injection h

/-- A successful Board construction consumed a 9x9 character grid. -/
theorem from_array_ok_shape (rows : List (List Char)) (b : List Nat)
    (h : from_array_of_strings rows = .ok b) :
    rows.length = 9 ∧ ∀ r ∈ rows, r.length = 9 := by
  unfold from_array_of_strings at h
  rcases hm : rows.enum.mapM (fun p => Row.from_array p.1 p.2) with e | rs
  · rw [hm, except_bind_error] at h
    injection h
  · rw [hm, except_bind_ok] at h
    by_cases h9 : rs.length ≠ 9
    · rw [if_pos h9] at h
      injection h
    · have hlen := mapM_ok_length _ rows.enum rs hm
      rw [List.enum_length] at hlen
      refine ⟨by omega, fun r hr => ?_⟩
      obtain ⟨i, hi⟩ := mem_enum_of_mem r rows hr
      obtain ⟨cells, hc⟩ := mapM_ok_mem _ rows.enum rs hm (i, r) hi
      exact Row_from_array_ok_length i r cells hc

/-- C3 counterexample: eight rows of zeros make construction fail with
ValueError (from Board.validate_rows), not with ShapeError, which no code
path raises. -/
theorem shape_error_counterexample :
    from_array_of_strings eightRows = .error Err.valueError ∧
      from_array_of_strings eightRows ≠ .error Err.shapeError := by
  constructor
  · rfl
  · intro h
    rw [(rfl : from_array_of_strings eightRows = .error Err.valueError)] at h
    injection h with h
    cases h

/-- C3 amended: for every input whose row count is not 9 or that contains a
row whose length is not 9, construction fails with some error, and that
error is never ShapeError (the code has no such exception; short inputs
fail with ValueError from the shape validators, overlong ones fail inside
the Cell coordinate validators). -/
theorem bad_shape_errors (rows : List (List Char))
    (h : rows.length ≠ 9 ∨ ∃ r ∈ rows, r.length ≠ 9) :
    ∃ e, from_array_of_strings rows = .error e ∧ e ≠ Err.shapeError := by
  rcases hc : from_array_of_strings rows with e | b
  · exact ⟨e, rfl, fun hs => from_array_no_shape rows (hs ▸ hc)⟩
  · obtain ⟨h9, hr⟩ := from_array_ok_shape rows b hc
    rcases h with h | ⟨r, hrm, hrl⟩
    · exact absurd h9 h
    · exact absurd (hr r hrm) hrl

/-- Witness for bad_shape_errors at the concrete eight-row input. -/
theorem bad_shape_errors_witness :
    ∃ e, from_array_of_strings eightRows = .error e ∧ e ≠ Err.shapeError :=
  bad_shape_errors eightRows (Or.inl (by decide))

/-- C4: evaluating the Cell validators shows the coordinate checks do not
raise ValueError as the claim states: their error message is an f-string
over the undefined names x resp. y, so Python raises NameError instead;
only the value-range check raises ValueError as claimed. -/
theorem cell_validator_errors :
    cellValidate 9 0 0 = .error Err.nameError ∧
      cellValidate 0 9 0 = .error Err.nameError ∧
        cellValidate (-1) 0 0 = .error Err.nameError ∧
          cellValidate 0 0 12 = .error Err.valueError ∧
            cellValidate 0 0 (-1) = .error Err.valueError :=
  ⟨rfl, rfl, rfl, rfl, rfl⟩

end Construction

section OrderDeterminismEndToEnd

/-- Agreement of the instrumented candidate loop with the plain one on the
success flag and the resulting board. -/
theorem tryLoopT_agrees (recur : List Nat → Bool × List Nat)
    (recurT : List Nat → Bool × List Nat × List (Nat × Nat))
    (hrec : ∀ c, (recurT c).1 = (recur c).1 ∧ (recurT c).2.1 = (recur c).2) :
    ∀ (cs : List Nat) (b : List Nat) (i : Nat),
      (tryLoopT recurT b i cs).1 = (tryLoop recur b i cs).1 ∧
        (tryLoopT recurT b i cs).2.1 = (tryLoop recur b i cs).2 := by
  intro cs
  induction cs with
  | nil =>
    intro b i
    exact ⟨rfl, rfl⟩
  | cons t rest ih =>
    intro b i
    unfold tryLoopT tryLoop
    by_cases hv : is_valid b t i
    · rw [if_pos hv, if_pos hv]
      rcases hT : recurT (b.set i t) with ⟨okT, bT, tr⟩
      rcases hP : recur (b.set i t) with ⟨ok, bP⟩
      have h1 : okT = ok := by
        have := (hrec (b.set i t)).1
        rw [hT, hP] at this
        exact this
      have h2 : bT = bP := by
        have := (hrec (b.set i t)).2
        rw [hT, hP] at this
        exact this
      subst h1
      subst h2
      cases okT with
      | true => exact ⟨rfl, rfl⟩
      | false =>
        dsimp only
        rcases hnext : tryLoopT recurT (bT.set i 0) i rest with ⟨ok2, b3, tr2⟩
        have := ih (bT.set i 0) i
        rw [hnext] at this
        exact ⟨this.1, this.2⟩
    · rw [if_neg hv, if_neg hv]
      exact ih b i

/-- Agreement of the instrumented solver with the plain solver on the
success flag and the resulting board. -/
theorem solveTF_agrees : ∀ (f : Nat) (b : List Nat),
    (solveTF f b).1 = (solveF f b).1 ∧ (solveTF f b).2.1 = (solveF f b).2 := by
  intro f
  induction f with
  | zero =>
    intro b
    exact ⟨rfl, rfl⟩
  | succ f ih =>
    intro b
    unfold solveTF solveF
    rcases he : get_empty_cell b with _ | i
    · exact ⟨rfl, rfl⟩
    · exact tryLoopT_agrees (solveF f) (solveTF f) ih candidates b i

/-- The instrumented solve agrees with solve on result and final board. -/
theorem solveT_agrees : ∀ b : List Nat,
    (solveT b).1 = (solve b).1 ∧ (solveT b).2.1 = (solve b).2 :=
  solveTF_agrees 82

/-- C7: get_empty_cell yields the first cell in row-major order whose value
is 0 and yields none exactly when every cell is nonzero; the candidate list
that solve hands to its loop for the chosen cell is 1,2,...,9, strictly
ascending. -/
theorem search_order (b : List Nat) :
    (∀ i, get_empty_cell b = some i →
      getIdx b i = 0 ∧ ∀ j, j < i → getIdx b j ≠ 0) ∧
      (get_empty_cell b = none ↔ ∀ i, i < 81 → getIdx b i ≠ 0) ∧
        candidates = [1, 2, 3, 4, 5, 6, 7, 8, 9] ∧
          List.Pairwise (fun a c => a < c) candidates ∧
            ∀ f i, get_empty_cell b = some i →
              solveF (f + 1) b = tryLoop (solveF f) b i candidates := by
  refine ⟨?_, get_empty_cell_none b, by decide, by decide, ?_⟩
  · intro i h
    obtain ⟨h1, _, h3⟩ := get_empty_cell_spec b i h
    exact ⟨h1, h3⟩
  · intro f i h
    unfold solveF
    rw [h]

/-- Witness for search_order: on almostBoard the first empty cell is index
5 and every earlier cell is nonzero. -/
theorem search_order_witness :
    getIdx almostBoard 5 = 0 ∧ ∀ j, j < 5 → getIdx almostBoard j ≠ 0 :=
  (search_order almostBoard).1 5 (by decide)

/-- C8: solve is deterministic in its input: equal starting boards give the
same success flag and final grid (solve) and the same chronological
sequence of trial placements (solveT, whose flag and final board agree with
solve by solveT_agrees). -/
theorem solve_deterministic (b1 b2 : List Nat) (h : b1 = b2) :
    solve b1 = solve b2 ∧ solveT b1 = solveT b2 := by
  subst h
  exact ⟨rfl, rfl⟩

/-- Witness for solve_deterministic at stuckBoard. -/
theorem solve_deterministic_witness :
    solve stuckBoard = solve stuckBoard ∧ solveT stuckBoard = solveT stuckBoard :=
  solve_deterministic stuckBoard stuckBoard rfl

end OrderDeterminismEndToEnd


section Transcript

/-- One unfolding of solveF when the board is full. -/
theorem solveF_succ_none (f : Nat) (b : List Nat) (h : get_empty_cell b = none) :
    solveF (f + 1) b = (true, b) := by
  unfold solveF
  rw [h]

/-- One unfolding of solveF when the first empty cell is i. -/
theorem solveF_succ_some (f : Nat) (b : List Nat) (i : Nat) (h : get_empty_cell b = some i) :
    solveF (f + 1) b = tryLoop (solveF f) b i candidates := by
  unfold solveF
  rw [h]

/-- The candidate loop fails when the candidates run out. -/
theorem tryLoop_nil (recur : List Nat → Bool × List Nat) (b : List Nat) (i : Nat) :
    tryLoop recur b i [] = (false, b) := rfl

/-- The candidate loop skips a candidate rejected by is_valid. -/
theorem tryLoop_cons_invalid (recur : List Nat → Bool × List Nat) (b : List Nat)
    (i t : Nat) (rest : List Nat) (h : is_valid b t i = false) :
    tryLoop recur b i (t :: rest) = tryLoop recur b i rest := by
  show (if is_valid b t i = true then
      match recur (b.set i t) with
      | (true, b2) => (true, b2)
      | (false, b2) => tryLoop recur (b2.set i 0) i rest
    else tryLoop recur b i rest) = tryLoop recur b i rest
  rw [h]
  rfl

/-- The candidate loop propagates a successful recursive solve. -/
theorem tryLoop_cons_valid_true (recur : List Nat → Bool × List Nat) (b : List Nat)
    (i t : Nat) (rest : List Nat) (b2 : List Nat) (h : is_valid b t i = true)
    (hr : recur (b.set i t) = (true, b2)) :
    tryLoop recur b i (t :: rest) = (true, b2) := by
  show (if is_valid b t i = true then
      match recur (b.set i t) with
      | (true, b2) => (true, b2)
      | (false, b2) => tryLoop recur (b2.set i 0) i rest
    else tryLoop recur b i rest) = (true, b2)
  rw [h, hr]
  rfl

/-- The candidate loop resets the cell and moves on after a failed
recursive solve. -/
theorem tryLoop_cons_valid_false (recur : List Nat → Bool × List Nat) (b : List Nat)
    (i t : Nat) (rest : List Nat) (b2 : List Nat) (h : is_valid b t i = true)
    (hr : recur (b.set i t) = (false, b2)) :
    tryLoop recur b i (t :: rest) = tryLoop recur (b2.set i 0) i rest := by
  show (if is_valid b t i = true then
      match recur (b.set i t) with
      | (true, b2) => (true, b2)
      | (false, b2) => tryLoop recur (b2.set i 0) i rest
    else tryLoop recur b i rest) = tryLoop recur (b2.set i 0) i rest
  rw [h, hr]
  rfl

end Transcript

section FuelIrrelevance

/-- Filling an empty in-range cell with a nonzero value strictly decreases
the number of empty cells. -/
theorem emptyCount_set (b : List Nat) (i t : Nat) (h81 : b.length = 81) (hi81 : i < 81)
    (hi : getIdx b i = 0) (ht : t ≠ 0) :
    emptyCount (b.set i t) < emptyCount b := by
  obtain ⟨A, B, hAB⟩ := List.append_of_mem (List.mem_range.2 hi81)
  have hnd : (A ++ i :: B).Nodup := by rw [← hAB]; exact List.nodup_range 81
  obtain ⟨_, hiB, hdisj⟩ := List.nodup_append.1 hnd
  have hiA : i ∉ A := fun hmem => hdisj hmem (List.mem_cons_self i B)
  unfold emptyCount
  rw [hAB, List.countP_append, List.countP_append, List.countP_cons, List.countP_cons]
  have hpa : (getIdx (b.set i t) i == 0) = false := by
    rw [getIdx_set_self b i t (by omega)]
    simp [ht]
  have hpb : (getIdx b i == 0) = true := by simp [hi]
  rw [hpa, hpb]
  have hcA : List.countP (fun j => getIdx (b.set i t) j == 0) A =
      List.countP (fun j => getIdx b j == 0) A := by
    refine List.countP_congr fun x hx => ?_
    rw [getIdx_set_ne b i x t (fun hc => hiA (hc ▸ hx))]
  have hiB' : i ∉ B := (List.nodup_cons.1 hiB).1
  have hcB : List.countP (fun j => getIdx (b.set i t) j == 0) B =
      List.countP (fun j => getIdx b j == 0) B := by
    refine List.countP_congr fun x hx => ?_
    rw [getIdx_set_ne b i x t (fun hc => hiB' (hc ▸ hx))]
  rw [hcA, hcB]
  simp

/-- A board with no empty cell among its 81 positions has no empty cell. -/
theorem get_empty_of_emptyCount_zero (b : List Nat) (h : emptyCount b = 0) :
    get_empty_cell b = none := by
  unfold emptyCount at h
  unfold get_empty_cell
  rw [List.find?_eq_none]
  exact List.countP_eq_zero.1 h

/-- The candidate loop only consults the recursive solver on the boards
obtained by filling the chosen empty cell with a candidate, so two solvers
that agree there (and restore on failure) run the loop identically. -/
theorem tryLoop_congr_on (r1 r2 : List Nat → Bool × List Nat) (b : List Nat) (i : Nat)
    (hi : getIdx b i = 0)
    (hrF : ∀ c c2, r1 c = (false, c2) → c2 = c)
    (hagree : ∀ t, 1 ≤ t → t ≤ 9 → r1 (b.set i t) = r2 (b.set i t)) :
    ∀ cs, (∀ t ∈ cs, 1 ≤ t ∧ t ≤ 9) → tryLoop r1 b i cs = tryLoop r2 b i cs := by
  intro cs
  induction cs with
  | nil => intro _; rfl
  | cons t rest ih =>
    intro hcs
    obtain ⟨h1t, h9t⟩ := hcs t (List.mem_cons_self t rest)
    have hrest := fun u hu => hcs u (List.mem_cons_of_mem t hu)
    by_cases hv : is_valid b t i
    · rcases hr : r1 (b.set i t) with ⟨ok, b2⟩
      cases ok with
      | true =>
        rw [tryLoop_cons_valid_true r1 b i t rest b2 hv hr,
          tryLoop_cons_valid_true r2 b i t rest b2 hv (by rw [← hagree t h1t h9t]; exact hr)]
      | false =>
        have hb2 : b2 = b.set i t := hrF _ _ hr
        have hreset : b2.set i 0 = b := by
          rw [hb2, List.set_set, set_zero_of_getIdx_zero b i hi]
        rw [tryLoop_cons_valid_false r1 b i t rest b2 hv hr,
          tryLoop_cons_valid_false r2 b i t rest b2 hv (by rw [← hagree t h1t h9t]; exact hr),
          hreset]
        exact ih hrest
    · have hv' : is_valid b t i = false := by
        rw [Bool.not_eq_true] at hv
        exact hv
      rw [tryLoop_cons_invalid r1 b i t rest hv', tryLoop_cons_invalid r2 b i t rest hv']
      exact ih hrest

/-- On an 81-cell board, any two depth budgets above the number of empty
cells make solveF compute the same result. -/
theorem solveF_stable : ∀ (n : Nat) (b : List Nat) (f1 f2 : Nat), b.length = 81 →
    emptyCount b ≤ n → n < f1 → n < f2 → solveF f1 b = solveF f2 b := by
  intro n
  induction n with
  | zero =>
    intro b f1 f2 _ hec h1 h2
    obtain ⟨m1, rfl⟩ : ∃ m, f1 = m + 1 := ⟨f1 - 1, by omega⟩
    obtain ⟨m2, rfl⟩ : ∃ m, f2 = m + 1 := ⟨f2 - 1, by omega⟩
    have he := get_empty_of_emptyCount_zero b (by omega)
    rw [solveF_succ_none m1 b he, solveF_succ_none m2 b he]
  | succ n ih =>
    intro b f1 f2 h81 hec h1 h2
    obtain ⟨m1, rfl⟩ : ∃ m, f1 = m + 1 := ⟨f1 - 1, by omega⟩
    obtain ⟨m2, rfl⟩ : ∃ m, f2 = m + 1 := ⟨f2 - 1, by omega⟩
    rcases he : get_empty_cell b with _ | i
    · rw [solveF_succ_none m1 b he, solveF_succ_none m2 b he]
    · rw [solveF_succ_some m1 b i he, solveF_succ_some m2 b i he]
      obtain ⟨hi, hi81, _⟩ := get_empty_cell_spec b i he
      refine tryLoop_congr_on (solveF m1) (solveF m2) b i hi (solveF_false_eq m1) ?_
        candidates candidates_bounds
      intro t h1t h9t
      have hdec := emptyCount_set b i t h81 hi81 hi (by omega)
      exact ih (b.set i t) m1 m2 (by simp [h81]) (by omega) (by omega) (by omega)

/-- The fixed budget 82 in solve is immaterial: on an 81-cell board every
budget above the number of empty cells computes the same result, so solve
is faithful to the source's unbounded backtracking recursion. -/
theorem solve_fuel_irrelevant (b : List Nat) (f : Nat) (h81 : b.length = 81) (hf : 81 < f) :
    solveF f b = solve b := by
  have hec : emptyCount b ≤ 81 := by
    have := List.length_filter_le (fun i => getIdx b i == 0) (List.range 81)
    rw [← List.countP_eq_length_filter] at this
    unfold emptyCount
    simpa using this
  exact solveF_stable 81 b f 82 h81 hec hf (by omega)

end FuelIrrelevance

section ClassicTranscript

theorem stp5 : solveF 77 sb5 = (false, sb5) := by
  show tryLoop (solveF 76) sb5 8 [1, 2, 3, 4, 5, 6, 7, 8, 9] = _
  rw [tryLoop_cons_invalid (solveF 76) sb5 8 1 [2, 3, 4, 5, 6, 7, 8, 9] rfl]
  rw [tryLoop_cons_invalid (solveF 76) sb5 8 2 [3, 4, 5, 6, 7, 8, 9] rfl]
  rw [tryLoop_cons_invalid (solveF 76) sb5 8 3 [4, 5, 6, 7, 8, 9] rfl]
  rw [tryLoop_cons_invalid (solveF 76) sb5 8 4 [5, 6, 7, 8, 9] rfl]
  rw [tryLoop_cons_invalid (solveF 76) sb5 8 5 [6, 7, 8, 9] rfl]
  rw [tryLoop_cons_invalid (solveF 76) sb5 8 6 [7, 8, 9] rfl]
  rw [tryLoop_cons_invalid (solveF 76) sb5 8 7 [8, 9] rfl]
  rw [tryLoop_cons_invalid (solveF 76) sb5 8 8 [9] rfl]
  rw [tryLoop_cons_invalid (solveF 76) sb5 8 9 [] rfl]
  exact tryLoop_nil (solveF 76) sb5 8

theorem stp10 : solveF 73 sb10 = (false, sb10) := by
  show tryLoop (solveF 72) sb10 15 [1, 2, 3, 4, 5, 6, 7, 8, 9] = _
  rw [tryLoop_cons_invalid (solveF 72) sb10 15 1 [2, 3, 4, 5, 6, 7, 8, 9] rfl]
  rw [tryLoop_cons_invalid (solveF 72) sb10 15 2 [3, 4, 5, 6, 7, 8, 9] rfl]
  rw [tryLoop_cons_invalid (solveF 72) sb10 15 3 [4, 5, 6, 7, 8, 9] rfl]
  rw [tryLoop_cons_invalid (solveF 72) sb10 15 4 [5, 6, 7, 8, 9] rfl]
  rw [tryLoop_cons_invalid (solveF 72) sb10 15 5 [6, 7, 8, 9] rfl]
  rw [tryLoop_cons_invalid (solveF 72) sb10 15 6 [7, 8, 9] rfl]
  rw [tryLoop_cons_invalid (solveF 72) sb10 15 7 [8, 9] rfl]
  rw [tryLoop_cons_invalid (solveF 72) sb10 15 8 [9] rfl]
  rw [tryLoop_cons_invalid (solveF 72) sb10 15 9 [] rfl]
  exact tryLoop_nil (solveF 72) sb10 15

theorem stp9 : solveF 74 sb9 = (false, sb9) := by
  show tryLoop (solveF 73) sb9 13 [1, 2, 3, 4, 5, 6, 7, 8, 9] = _
  rw [tryLoop_cons_invalid (solveF 73) sb9 13 1 [2, 3, 4, 5, 6, 7, 8, 9] rfl]
  rw [tryLoop_cons_invalid (solveF 73) sb9 13 2 [3, 4, 5, 6, 7, 8, 9] rfl]
  rw [tryLoop_cons_invalid (solveF 73) sb9 13 3 [4, 5, 6, 7, 8, 9] rfl]
  have h1 : solveF 73 (List.set sb9 13 4) = (false, sb10) := by
    rw [show List.set sb9 13 4 = sb10 from rfl]
    exact stp10
  rw [tryLoop_cons_valid_false (solveF 73) sb9 13 4 [5, 6, 7, 8, 9] sb10 rfl h1]
  rw [show List.set sb10 13 0 = sb9 from rfl]
  rw [tryLoop_cons_invalid (solveF 73) sb9 13 5 [6, 7, 8, 9] rfl]
  rw [tryLoop_cons_invalid (solveF 73) sb9 13 6 [7, 8, 9] rfl]
  rw [tryLoop_cons_invalid (solveF 73) sb9 13 7 [8, 9] rfl]
  rw [tryLoop_cons_invalid (solveF 73) sb9 13 8 [9] rfl]
  rw [tryLoop_cons_invalid (solveF 73) sb9 13 9 [] rfl]
  exact tryLoop_nil (solveF 73) sb9 13

theorem stp8 : solveF 75 sb8 = (false, sb8) := by
  show tryLoop (solveF 74) sb8 11 [1, 2, 3, 4, 5, 6, 7, 8, 9] = _
  rw [tryLoop_cons_invalid (solveF 74) sb8 11 1 [2, 3, 4, 5, 6, 7, 8, 9] rfl]
  rw [tryLoop_cons_invalid (solveF 74) sb8 11 2 [3, 4, 5, 6, 7, 8, 9] rfl]
  rw [tryLoop_cons_invalid (solveF 74) sb8 11 3 [4, 5, 6, 7, 8, 9] rfl]
  rw [tryLoop_cons_invalid (solveF 74) sb8 11 4 [5, 6, 7, 8, 9] rfl]
  rw [tryLoop_cons_invalid (solveF 74) sb8 11 5 [6, 7, 8, 9] rfl]
  rw [tryLoop_cons_invalid (solveF 74) sb8 11 6 [7, 8, 9] rfl]
  have h1 : solveF 74 (List.set sb8 11 7) = (false, sb9) := by
    rw [show List.set sb8 11 7 = sb9 from rfl]
    exact stp9
  rw [tryLoop_cons_valid_false (solveF 74) sb8 11 7 [8, 9] sb9 rfl h1]
  rw [show List.set sb9 11 0 = sb8 from rfl]
  rw [tryLoop_cons_invalid (solveF 74) sb8 11 8 [9] rfl]
  rw [tryLoop_cons_invalid (solveF 74) sb8 11 9 [] rfl]
  exact tryLoop_nil (solveF 74) sb8 11

theorem stp13 : solveF 73 sb13 = (false, sb13) := by
  show tryLoop (solveF 72) sb13 15 [1, 2, 3, 4, 5, 6, 7, 8, 9] = _
  rw [tryLoop_cons_invalid (solveF 72) sb13 15 1 [2, 3, 4, 5, 6, 7, 8, 9] rfl]
  rw [tryLoop_cons_invalid (solveF 72) sb13 15 2 [3, 4, 5, 6, 7, 8, 9] rfl]
  rw [tryLoop_cons_invalid (solveF 72) sb13 15 3 [4, 5, 6, 7, 8, 9] rfl]
  rw [tryLoop_cons_invalid (solveF 72) sb13 15 4 [5, 6, 7, 8, 9] rfl]
  rw [tryLoop_cons_invalid (solveF 72) sb13 15 5 [6, 7, 8, 9] rfl]
  rw [tryLoop_cons_invalid (solveF 72) sb13 15 6 [7, 8, 9] rfl]
  rw [tryLoop_cons_invalid (solveF 72) sb13 15 7 [8, 9] rfl]
  rw [tryLoop_cons_invalid (solveF 72) sb13 15 8 [9] rfl]
  rw [tryLoop_cons_invalid (solveF 72) sb13 15 9 [] rfl]
  exact tryLoop_nil (solveF 72) sb13 15

theorem stp12 : solveF 74 sb12 = (false, sb12) := by
  show tryLoop (solveF 73) sb12 13 [1, 2, 3, 4, 5, 6, 7, 8, 9] = _
  rw [tryLoop_cons_invalid (solveF 73) sb12 13 1 [2, 3, 4, 5, 6, 7, 8, 9] rfl]
  rw [tryLoop_cons_invalid (solveF 73) sb12 13 2 [3, 4, 5, 6, 7, 8, 9] rfl]
  rw [tryLoop_cons_invalid (solveF 73) sb12 13 3 [4, 5, 6, 7, 8, 9] rfl]
  have h1 : solveF 73 (List.set sb12 13 4) = (false, sb13) := by
    rw [show List.set sb12 13 4 = sb13 from rfl]
    exact stp13
  rw [tryLoop_cons_valid_false (solveF 73) sb12 13 4 [5, 6, 7, 8, 9] sb13 rfl h1]
  rw [show List.set sb13 13 0 = sb12 from rfl]
  rw [tryLoop_cons_invalid (solveF 73) sb12 13 5 [6, 7, 8, 9] rfl]
  rw [tryLoop_cons_invalid (solveF 73) sb12 13 6 [7, 8, 9] rfl]
  rw [tryLoop_cons_invalid (solveF 73) sb12 13 7 [8, 9] rfl]
  rw [tryLoop_cons_invalid (solveF 73) sb12 13 8 [9] rfl]
  rw [tryLoop_cons_invalid (solveF 73) sb12 13 9 [] rfl]
  exact tryLoop_nil (solveF 73) sb12 13

theorem stp11 : solveF 75 sb11 = (false, sb11) := by
  show tryLoop (solveF 74) sb11 11 [1, 2, 3, 4, 5, 6, 7, 8, 9] = _
  rw [tryLoop_cons_invalid (solveF 74) sb11 11 1 [2, 3, 4, 5, 6, 7, 8, 9] rfl]
  rw [tryLoop_cons_invalid (solveF 74) sb11 11 2 [3, 4, 5, 6, 7, 8, 9] rfl]
  rw [tryLoop_cons_invalid (solveF 74) sb11 11 3 [4, 5, 6, 7, 8, 9] rfl]
  rw [tryLoop_cons_invalid (solveF 74) sb11 11 4 [5, 6, 7, 8, 9] rfl]
  rw [tryLoop_cons_invalid (solveF 74) sb11 11 5 [6, 7, 8, 9] rfl]
  rw [tryLoop_cons_invalid (solveF 74) sb11 11 6 [7, 8, 9] rfl]
  have h1 : solveF 74 (List.set sb11 11 7) = (false, sb12) := by
    rw [show List.set sb11 11 7 = sb12 from rfl]
    exact stp12
  rw [tryLoop_cons_valid_false (solveF 74) sb11 11 7 [8, 9] sb12 rfl h1]
  rw [show List.set sb12 11 0 = sb11 from rfl]
  rw [tryLoop_cons_invalid (solveF 74) sb11 11 8 [9] rfl]
  rw [tryLoop_cons_invalid (solveF 74) sb11 11 9 [] rfl]
  exact tryLoop_nil (solveF 74) sb11 11

theorem stp14 : solveF 75 sb14 = (false, sb14) := by
  show tryLoop (solveF 74) sb14 11 [1, 2, 3, 4, 5, 6, 7, 8, 9] = _
  rw [tryLoop_cons_invalid (solveF 74) sb14 11 1 [2, 3, 4, 5, 6, 7, 8, 9] rfl]
  rw [tryLoop_cons_invalid (solveF 74) sb14 11 2 [3, 4, 5, 6, 7, 8, 9] rfl]
  rw [tryLoop_cons_invalid (solveF 74) sb14 11 3 [4, 5, 6, 7, 8, 9] rfl]
  rw [tryLoop_cons_invalid (solveF 74) sb14 11 4 [5, 6, 7, 8, 9] rfl]
  rw [tryLoop_cons_invalid (solveF 74) sb14 11 5 [6, 7, 8, 9] rfl]
  rw [tryLoop_cons_invalid (solveF 74) sb14 11 6 [7, 8, 9] rfl]
  rw [tryLoop_cons_invalid (solveF 74) sb14 11 7 [8, 9] rfl]
  rw [tryLoop_cons_invalid (solveF 74) sb14 11 8 [9] rfl]
  rw [tryLoop_cons_invalid (solveF 74) sb14 11 9 [] rfl]
  exact tryLoop_nil (solveF 74) sb14 11

theorem stp17 : solveF 73 sb17 = (false, sb17) := by
  show tryLoop (solveF 72) sb17 15 [1, 2, 3, 4, 5, 6, 7, 8, 9] = _
  rw [tryLoop_cons_invalid (solveF 72) sb17 15 1 [2, 3, 4, 5, 6, 7, 8, 9] rfl]
  rw [tryLoop_cons_invalid (solveF 72) sb17 15 2 [3, 4, 5, 6, 7, 8, 9] rfl]
  rw [tryLoop_cons_invalid (solveF 72) sb17 15 3 [4, 5, 6, 7, 8, 9] rfl]
  rw [tryLoop_cons_invalid (solveF 72) sb17 15 4 [5, 6, 7, 8, 9] rfl]
  rw [tryLoop_cons_invalid (solveF 72) sb17 15 5 [6, 7, 8, 9] rfl]
  rw [tryLoop_cons_invalid (solveF 72) sb17 15 6 [7, 8, 9] rfl]
  rw [tryLoop_cons_invalid (solveF 72) sb17 15 7 [8, 9] rfl]
  rw [tryLoop_cons_invalid (solveF 72) sb17 15 8 [9] rfl]
  rw [tryLoop_cons_invalid (solveF 72) sb17 15 9 [] rfl]
  exact tryLoop_nil (solveF 72) sb17 15

theorem stp16 : solveF 74 sb16 = (false, sb16) := by
  show tryLoop (solveF 73) sb16 13 [1, 2, 3, 4, 5, 6, 7, 8, 9] = _
  rw [tryLoop_cons_invalid (solveF 73) sb16 13 1 [2, 3, 4, 5, 6, 7, 8, 9] rfl]
  rw [tryLoop_cons_invalid (solveF 73) sb16 13 2 [3, 4, 5, 6, 7, 8, 9] rfl]
  rw [tryLoop_cons_invalid (solveF 73) sb16 13 3 [4, 5, 6, 7, 8, 9] rfl]
  have h1 : solveF 73 (List.set sb16 13 4) = (false, sb17) := by
    rw [show List.set sb16 13 4 = sb17 from rfl]
    exact stp17
  rw [tryLoop_cons_valid_false (solveF 73) sb16 13 4 [5, 6, 7, 8, 9] sb17 rfl h1]
  rw [show List.set sb17 13 0 = sb16 from rfl]
  rw [tryLoop_cons_invalid (solveF 73) sb16 13 5 [6, 7, 8, 9] rfl]
  rw [tryLoop_cons_invalid (solveF 73) sb16 13 6 [7, 8, 9] rfl]
  rw [tryLoop_cons_invalid (solveF 73) sb16 13 7 [8, 9] rfl]
  rw [tryLoop_cons_invalid (solveF 73) sb16 13 8 [9] rfl]
  rw [tryLoop_cons_invalid (solveF 73) sb16 13 9 [] rfl]
  exact tryLoop_nil (solveF 73) sb16 13

theorem stp15 : solveF 75 sb15 = (false, sb15) := by
  show tryLoop (solveF 74) sb15 11 [1, 2, 3, 4, 5, 6, 7, 8, 9] = _
  rw [tryLoop_cons_invalid (solveF 74) sb15 11 1 [2, 3, 4, 5, 6, 7, 8, 9] rfl]
  rw [tryLoop_cons_invalid (solveF 74) sb15 11 2 [3, 4, 5, 6, 7, 8, 9] rfl]
  rw [tryLoop_cons_invalid (solveF 74) sb15 11 3 [4, 5, 6, 7, 8, 9] rfl]
  rw [tryLoop_cons_invalid (solveF 74) sb15 11 4 [5, 6, 7, 8, 9] rfl]
  rw [tryLoop_cons_invalid (solveF 74) sb15 11 5 [6, 7, 8, 9] rfl]
  rw [tryLoop_cons_invalid (solveF 74) sb15 11 6 [7, 8, 9] rfl]
  have h1 : solveF 74 (List.set sb15 11 7) = (false, sb16) := by
    rw [show List.set sb15 11 7 = sb16 from rfl]
    exact stp16
  rw [tryLoop_cons_valid_false (solveF 74) sb15 11 7 [8, 9] sb16 rfl h1]
  rw [show List.set sb16 11 0 = sb15 from rfl]
  rw [tryLoop_cons_invalid (solveF 74) sb15 11 8 [9] rfl]
  rw [tryLoop_cons_invalid (solveF 74) sb15 11 9 [] rfl]
  exact tryLoop_nil (solveF 74) sb15 11

theorem stp7 : solveF 76 sb7 = (false, sb7) := by
  show tryLoop (solveF 75) sb7 10 [1, 2, 3, 4, 5, 6, 7, 8, 9] = _
  rw [tryLoop_cons_invalid (solveF 75) sb7 10 1 [2, 3, 4, 5, 6, 7, 8, 9] rfl]
  have h1 : solveF 75 (List.set sb7 10 2) = (false, sb8) := by
    rw [show List.set sb7 10 2 = sb8 from rfl]
    exact stp8
  rw [tryLoop_cons_valid_false (solveF 75) sb7 10 2 [3, 4, 5, 6, 7, 8, 9] sb8 rfl h1]
  rw [show List.set sb8 10 0 = sb7 from rfl]
  rw [tryLoop_cons_invalid (solveF 75) sb7 10 3 [4, 5, 6, 7, 8, 9] rfl]
  rw [tryLoop_cons_invalid (solveF 75) sb7 10 4 [5, 6, 7, 8, 9] rfl]
  rw [tryLoop_cons_invalid (solveF 75) sb7 10 5 [6, 7, 8, 9] rfl]
  have h2 : solveF 75 (List.set sb7 10 6) = (false, sb11) := by
    rw [show List.set sb7 10 6 = sb11 from rfl]
    exact stp11
  rw [tryLoop_cons_valid_false (solveF 75) sb7 10 6 [7, 8, 9] sb11 rfl h2]
  rw [show List.set sb11 10 0 = sb7 from rfl]
  have h3 : solveF 75 (List.set sb7 10 7) = (false, sb14) := by
    rw [show List.set sb7 10 7 = sb14 from rfl]
    exact stp14
  rw [tryLoop_cons_valid_false (solveF 75) sb7 10 7 [8, 9] sb14 rfl h3]
  rw [show List.set sb14 10 0 = sb7 from rfl]
  have h4 : solveF 75 (List.set sb7 10 8) = (false, sb15) := by
    rw [show List.set sb7 10 8 = sb15 from rfl]
    exact stp15
  rw [tryLoop_cons_valid_false (solveF 75) sb7 10 8 [9] sb15 rfl h4]
  rw [show List.set sb15 10 0 = sb7 from rfl]
  rw [tryLoop_cons_invalid (solveF 75) sb7 10 9 [] rfl]
  exact tryLoop_nil (solveF 75) sb7 10

theorem stp6 : solveF 77 sb6 = (false, sb6) := by
  show tryLoop (solveF 76) sb6 8 [1, 2, 3, 4, 5, 6, 7, 8, 9] = _
  rw [tryLoop_cons_invalid (solveF 76) sb6 8 1 [2, 3, 4, 5, 6, 7, 8, 9] rfl]
  rw [tryLoop_cons_invalid (solveF 76) sb6 8 2 [3, 4, 5, 6, 7, 8, 9] rfl]
  rw [tryLoop_cons_invalid (solveF 76) sb6 8 3 [4, 5, 6, 7, 8, 9] rfl]
  rw [tryLoop_cons_invalid (solveF 76) sb6 8 4 [5, 6, 7, 8, 9] rfl]
  rw [tryLoop_cons_invalid (solveF 76) sb6 8 5 [6, 7, 8, 9] rfl]
  rw [tryLoop_cons_invalid (solveF 76) sb6 8 6 [7, 8, 9] rfl]
  have h1 : solveF 76 (List.set sb6 8 7) = (false, sb7) := by
    rw [show List.set sb6 8 7 = sb7 from rfl]
    exact stp7
  rw [tryLoop_cons_valid_false (solveF 76) sb6 8 7 [8, 9] sb7 rfl h1]
  rw [show List.set sb7 8 0 = sb6 from rfl]
  rw [tryLoop_cons_invalid (solveF 76) sb6 8 8 [9] rfl]
  rw [tryLoop_cons_invalid (solveF 76) sb6 8 9 [] rfl]
  exact tryLoop_nil (solveF 76) sb6 8

theorem stp4 : solveF 78 sb4 = (false, sb4) := by
  show tryLoop (solveF 77) sb4 7 [1, 2, 3, 4, 5, 6, 7, 8, 9] = _
  rw [tryLoop_cons_invalid (solveF 77) sb4 7 1 [2, 3, 4, 5, 6, 7, 8, 9] rfl]
  rw [tryLoop_cons_invalid (solveF 77) sb4 7 2 [3, 4, 5, 6, 7, 8, 9] rfl]
  rw [tryLoop_cons_invalid (solveF 77) sb4 7 3 [4, 5, 6, 7, 8, 9] rfl]
  rw [tryLoop_cons_invalid (solveF 77) sb4 7 4 [5, 6, 7, 8, 9] rfl]
  rw [tryLoop_cons_invalid (solveF 77) sb4 7 5 [6, 7, 8, 9] rfl]
  rw [tryLoop_cons_invalid (solveF 77) sb4 7 6 [7, 8, 9] rfl]
  have h1 : solveF 77 (List.set sb4 7 7) = (false, sb5) := by
    rw [show List.set sb4 7 7 = sb5 from rfl]
    exact stp5
  rw [tryLoop_cons_valid_false (solveF 77) sb4 7 7 [8, 9] sb5 rfl h1]
  rw [show List.set sb5 7 0 = sb4 from rfl]
  have h2 : solveF 77 (List.set sb4 7 8) = (false, sb6) := by
    rw [show List.set sb4 7 8 = sb6 from rfl]
    exact stp6
  rw [tryLoop_cons_valid_false (solveF 77) sb4 7 8 [9] sb6 rfl h2]
  rw [show List.set sb6 7 0 = sb4 from rfl]
  rw [tryLoop_cons_invalid (solveF 77) sb4 7 9 [] rfl]
  exact tryLoop_nil (solveF 77) sb4 7

theorem stp19 : solveF 77 sb19 = (false, sb19) := by
  show tryLoop (solveF 76) sb19 8 [1, 2, 3, 4, 5, 6, 7, 8, 9] = _
  rw [tryLoop_cons_invalid (solveF 76) sb19 8 1 [2, 3, 4, 5, 6, 7, 8, 9] rfl]
  rw [tryLoop_cons_invalid (solveF 76) sb19 8 2 [3, 4, 5, 6, 7, 8, 9] rfl]
  rw [tryLoop_cons_invalid (solveF 76) sb19 8 3 [4, 5, 6, 7, 8, 9] rfl]
  rw [tryLoop_cons_invalid (solveF 76) sb19 8 4 [5, 6, 7, 8, 9] rfl]
  rw [tryLoop_cons_invalid (solveF 76) sb19 8 5 [6, 7, 8, 9] rfl]
  rw [tryLoop_cons_invalid (solveF 76) sb19 8 6 [7, 8, 9] rfl]
  rw [tryLoop_cons_invalid (solveF 76) sb19 8 7 [8, 9] rfl]
  rw [tryLoop_cons_invalid (solveF 76) sb19 8 8 [9] rfl]
  rw [tryLoop_cons_invalid (solveF 76) sb19 8 9 [] rfl]
  exact tryLoop_nil (solveF 76) sb19 8

theorem stp18 : solveF 78 sb18 = (false, sb18) := by
  show tryLoop (solveF 77) sb18 7 [1, 2, 3, 4, 5, 6, 7, 8, 9] = _
  rw [tryLoop_cons_invalid (solveF 77) sb18 7 1 [2, 3, 4, 5, 6, 7, 8, 9] rfl]
  rw [tryLoop_cons_invalid (solveF 77) sb18 7 2 [3, 4, 5, 6, 7, 8, 9] rfl]
  rw [tryLoop_cons_invalid (solveF 77) sb18 7 3 [4, 5, 6, 7, 8, 9] rfl]
  rw [tryLoop_cons_invalid (solveF 77) sb18 7 4 [5, 6, 7, 8, 9] rfl]
  rw [tryLoop_cons_invalid (solveF 77) sb18 7 5 [6, 7, 8, 9] rfl]
  rw [tryLoop_cons_invalid (solveF 77) sb18 7 6 [7, 8, 9] rfl]
  rw [tryLoop_cons_invalid (solveF 77) sb18 7 7 [8, 9] rfl]
  have h1 : solveF 77 (List.set sb18 7 8) = (false, sb19) := by
    rw [show List.set sb18 7 8 = sb19 from rfl]
    exact stp19
  rw [tryLoop_cons_valid_false (solveF 77) sb18 7 8 [9] sb19 rfl h1]
  rw [show List.set sb19 7 0 = sb18 from rfl]
  rw [tryLoop_cons_invalid (solveF 77) sb18 7 9 [] rfl]
  exact tryLoop_nil (solveF 77) sb18 7

theorem stp3 : solveF 79 sb3 = (false, sb3) := by
  show tryLoop (solveF 78) sb3 5 [1, 2, 3, 4, 5, 6, 7, 8, 9] = _
  have h1 : solveF 78 (List.set sb3 5 1) = (false, sb4) := by
    rw [show List.set sb3 5 1 = sb4 from rfl]
    exact stp4
  rw [tryLoop_cons_valid_false (solveF 78) sb3 5 1 [2, 3, 4, 5, 6, 7, 8, 9] sb4 rfl h1]
  rw [show List.set sb4 5 0 = sb3 from rfl]
  rw [tryLoop_cons_invalid (solveF 78) sb3 5 2 [3, 4, 5, 6, 7, 8, 9] rfl]
  rw [tryLoop_cons_invalid (solveF 78) sb3 5 3 [4, 5, 6, 7, 8, 9] rfl]
  rw [tryLoop_cons_invalid (solveF 78) sb3 5 4 [5, 6, 7, 8, 9] rfl]
  rw [tryLoop_cons_invalid (solveF 78) sb3 5 5 [6, 7, 8, 9] rfl]
  rw [tryLoop_cons_invalid (solveF 78) sb3 5 6 [7, 8, 9] rfl]
  have h2 : solveF 78 (List.set sb3 5 7) = (false, sb18) := by
    rw [show List.set sb3 5 7 = sb18 from rfl]
    exact stp18
  rw [tryLoop_cons_valid_false (solveF 78) sb3 5 7 [8, 9] sb18 rfl h2]
  rw [show List.set sb18 5 0 = sb3 from rfl]
  rw [tryLoop_cons_invalid (solveF 78) sb3 5 8 [9] rfl]
  rw [tryLoop_cons_invalid (solveF 78) sb3 5 9 [] rfl]
  exact tryLoop_nil (solveF 78) sb3 5

theorem stp2 : solveF 80 sb2 = (false, sb2) := by
  show tryLoop (solveF 79) sb2 3 [1, 2, 3, 4, 5, 6, 7, 8, 9] = _
  rw [tryLoop_cons_invalid (solveF 79) sb2 3 1 [2, 3, 4, 5, 6, 7, 8, 9] rfl]
  rw [tryLoop_cons_invalid (solveF 79) sb2 3 2 [3, 4, 5, 6, 7, 8, 9] rfl]
  rw [tryLoop_cons_invalid (solveF 79) sb2 3 3 [4, 5, 6, 7, 8, 9] rfl]
  rw [tryLoop_cons_invalid (solveF 79) sb2 3 4 [5, 6, 7, 8, 9] rfl]
  rw [tryLoop_cons_invalid (solveF 79) sb2 3 5 [6, 7, 8, 9] rfl]
  rw [tryLoop_cons_invalid (solveF 79) sb2 3 6 [7, 8, 9] rfl]
  rw [tryLoop_cons_invalid (solveF 79) sb2 3 7 [8, 9] rfl]
  rw [tryLoop_cons_invalid (solveF 79) sb2 3 8 [9] rfl]
  have h1 : solveF 79 (List.set sb2 3 9) = (false, sb3) := by
    rw [show List.set sb2 3 9 = sb3 from rfl]
    exact stp3
  rw [tryLoop_cons_valid_false (solveF 79) sb2 3 9 [] sb3 rfl h1]
  rw [show List.set sb3 3 0 = sb2 from rfl]
  exact tryLoop_nil (solveF 79) sb2 3

theorem stp23 : solveF 77 sb23 = (false, sb23) := by
  show tryLoop (solveF 76) sb23 8 [1, 2, 3, 4, 5, 6, 7, 8, 9] = _
  rw [tryLoop_cons_invalid (solveF 76) sb23 8 1 [2, 3, 4, 5, 6, 7, 8, 9] rfl]
  rw [tryLoop_cons_invalid (solveF 76) sb23 8 2 [3, 4, 5, 6, 7, 8, 9] rfl]
  rw [tryLoop_cons_invalid (solveF 76) sb23 8 3 [4, 5, 6, 7, 8, 9] rfl]
  rw [tryLoop_cons_invalid (solveF 76) sb23 8 4 [5, 6, 7, 8, 9] rfl]
  rw [tryLoop_cons_invalid (solveF 76) sb23 8 5 [6, 7, 8, 9] rfl]
  rw [tryLoop_cons_invalid (solveF 76) sb23 8 6 [7, 8, 9] rfl]
  rw [tryLoop_cons_invalid (solveF 76) sb23 8 7 [8, 9] rfl]
  rw [tryLoop_cons_invalid (solveF 76) sb23 8 8 [9] rfl]
  rw [tryLoop_cons_invalid (solveF 76) sb23 8 9 [] rfl]
  exact tryLoop_nil (solveF 76) sb23 8

theorem stp26 : solveF 75 sb26 = (false, sb26) := by
  show tryLoop (solveF 74) sb26 11 [1, 2, 3, 4, 5, 6, 7, 8, 9] = _
  rw [tryLoop_cons_invalid (solveF 74) sb26 11 1 [2, 3, 4, 5, 6, 7, 8, 9] rfl]
  rw [tryLoop_cons_invalid (solveF 74) sb26 11 2 [3, 4, 5, 6, 7, 8, 9] rfl]
  rw [tryLoop_cons_invalid (solveF 74) sb26 11 3 [4, 5, 6, 7, 8, 9] rfl]
  rw [tryLoop_cons_invalid (solveF 74) sb26 11 4 [5, 6, 7, 8, 9] rfl]
  rw [tryLoop_cons_invalid (solveF 74) sb26 11 5 [6, 7, 8, 9] rfl]
  rw [tryLoop_cons_invalid (solveF 74) sb26 11 6 [7, 8, 9] rfl]
  rw [tryLoop_cons_invalid (solveF 74) sb26 11 7 [8, 9] rfl]
  rw [tryLoop_cons_invalid (solveF 74) sb26 11 8 [9] rfl]
  rw [tryLoop_cons_invalid (solveF 74) sb26 11 9 [] rfl]
  exact tryLoop_nil (solveF 74) sb26 11

theorem stp27 : solveF 75 sb27 = (false, sb27) := by
  show tryLoop (solveF 74) sb27 11 [1, 2, 3, 4, 5, 6, 7, 8, 9] = _
  rw [tryLoop_cons_invalid (solveF 74) sb27 11 1 [2, 3, 4, 5, 6, 7, 8, 9] rfl]
  rw [tryLoop_cons_invalid (solveF 74) sb27 11 2 [3, 4, 5, 6, 7, 8, 9] rfl]
  rw [tryLoop_cons_invalid (solveF 74) sb27 11 3 [4, 5, 6, 7, 8, 9] rfl]
  rw [tryLoop_cons_invalid (solveF 74) sb27 11 4 [5, 6, 7, 8, 9] rfl]
  rw [tryLoop_cons_invalid (solveF 74) sb27 11 5 [6, 7, 8, 9] rfl]
  rw [tryLoop_cons_invalid (solveF 74) sb27 11 6 [7, 8, 9] rfl]
  rw [tryLoop_cons_invalid (solveF 74) sb27 11 7 [8, 9] rfl]
  rw [tryLoop_cons_invalid (solveF 74) sb27 11 8 [9] rfl]
  rw [tryLoop_cons_invalid (solveF 74) sb27 11 9 [] rfl]
  exact tryLoop_nil (solveF 74) sb27 11

theorem stp28 : solveF 75 sb28 = (false, sb28) := by
  show tryLoop (solveF 74) sb28 11 [1, 2, 3, 4, 5, 6, 7, 8, 9] = _
  rw [tryLoop_cons_invalid (solveF 74) sb28 11 1 [2, 3, 4, 5, 6, 7, 8, 9] rfl]
  rw [tryLoop_cons_invalid (solveF 74) sb28 11 2 [3, 4, 5, 6, 7, 8, 9] rfl]
  rw [tryLoop_cons_invalid (solveF 74) sb28 11 3 [4, 5, 6, 7, 8, 9] rfl]
  rw [tryLoop_cons_invalid (solveF 74) sb28 11 4 [5, 6, 7, 8, 9] rfl]
  rw [tryLoop_cons_invalid (solveF 74) sb28 11 5 [6, 7, 8, 9] rfl]
  rw [tryLoop_cons_invalid (solveF 74) sb28 11 6 [7, 8, 9] rfl]
  rw [tryLoop_cons_invalid (solveF 74) sb28 11 7 [8, 9] rfl]
  rw [tryLoop_cons_invalid (solveF 74) sb28 11 8 [9] rfl]
  rw [tryLoop_cons_invalid (solveF 74) sb28 11 9 [] rfl]
  exact tryLoop_nil (solveF 74) sb28 11

theorem stp25 : solveF 76 sb25 = (false, sb25) := by
  show tryLoop (solveF 75) sb25 10 [1, 2, 3, 4, 5, 6, 7, 8, 9] = _
  rw [tryLoop_cons_invalid (solveF 75) sb25 10 1 [2, 3, 4, 5, 6, 7, 8, 9] rfl]
  have h1 : solveF 75 (List.set sb25 10 2) = (false, sb26) := by
    rw [show List.set sb25 10 2 = sb26 from rfl]
    exact stp26
  rw [tryLoop_cons_valid_false (solveF 75) sb25 10 2 [3, 4, 5, 6, 7, 8, 9] sb26 rfl h1]
  rw [show List.set sb26 10 0 = sb25 from rfl]
  rw [tryLoop_cons_invalid (solveF 75) sb25 10 3 [4, 5, 6, 7, 8, 9] rfl]
  rw [tryLoop_cons_invalid (solveF 75) sb25 10 4 [5, 6, 7, 8, 9] rfl]
  rw [tryLoop_cons_invalid (solveF 75) sb25 10 5 [6, 7, 8, 9] rfl]
  have h2 : solveF 75 (List.set sb25 10 6) = (false, sb27) := by
    rw [show List.set sb25 10 6 = sb27 from rfl]
    exact stp27
  rw [tryLoop_cons_valid_false (solveF 75) sb25 10 6 [7, 8, 9] sb27 rfl h2]
  rw [show List.set sb27 10 0 = sb25 from rfl]
  rw [tryLoop_cons_invalid (solveF 75) sb25 10 7 [8, 9] rfl]
  have h3 : solveF 75 (List.set sb25 10 8) = (false, sb28) := by
    rw [show List.set sb25 10 8 = sb28 from rfl]
    exact stp28
  rw [tryLoop_cons_valid_false (solveF 75) sb25 10 8 [9] sb28 rfl h3]
  rw [show List.set sb28 10 0 = sb25 from rfl]
  rw [tryLoop_cons_invalid (solveF 75) sb25 10 9 [] rfl]
  exact tryLoop_nil (solveF 75) sb25 10

theorem stp24 : solveF 77 sb24 = (false, sb24) := by
  show tryLoop (solveF 76) sb24 8 [1, 2, 3, 4, 5, 6, 7, 8, 9] = _
  rw [tryLoop_cons_invalid (solveF 76) sb24 8 1 [2, 3, 4, 5, 6, 7, 8, 9] rfl]
  rw [tryLoop_cons_invalid (solveF 76) sb24 8 2 [3, 4, 5, 6, 7, 8, 9] rfl]
  rw [tryLoop_cons_invalid (solveF 76) sb24 8 3 [4, 5, 6, 7, 8, 9] rfl]
  rw [tryLoop_cons_invalid (solveF 76) sb24 8 4 [5, 6, 7, 8, 9] rfl]
  have h1 : solveF 76 (List.set sb24 8 5) = (false, sb25) := by
    rw [show List.set sb24 8 5 = sb25 from rfl]
    exact stp25
  rw [tryLoop_cons_valid_false (solveF 76) sb24 8 5 [6, 7, 8, 9] sb25 rfl h1]
  rw [show List.set sb25 8 0 = sb24 from rfl]
  rw [tryLoop_cons_invalid (solveF 76) sb24 8 6 [7, 8, 9] rfl]
  rw [tryLoop_cons_invalid (solveF 76) sb24 8 7 [8, 9] rfl]
  rw [tryLoop_cons_invalid (solveF 76) sb24 8 8 [9] rfl]
  rw [tryLoop_cons_invalid (solveF 76) sb24 8 9 [] rfl]
  exact tryLoop_nil (solveF 76) sb24 8

theorem stp22 : solveF 78 sb22 = (false, sb22) := by
  show tryLoop (solveF 77) sb22 7 [1, 2, 3, 4, 5, 6, 7, 8, 9] = _
  rw [tryLoop_cons_invalid (solveF 77) sb22 7 1 [2, 3, 4, 5, 6, 7, 8, 9] rfl]
  rw [tryLoop_cons_invalid (solveF 77) sb22 7 2 [3, 4, 5, 6, 7, 8, 9] rfl]
  rw [tryLoop_cons_invalid (solveF 77) sb22 7 3 [4, 5, 6, 7, 8, 9] rfl]
  rw [tryLoop_cons_invalid (solveF 77) sb22 7 4 [5, 6, 7, 8, 9] rfl]
  have h1 : solveF 77 (List.set sb22 7 5) = (false, sb23) := by
    rw [show List.set sb22 7 5 = sb23 from rfl]
    exact stp23
  rw [tryLoop_cons_valid_false (solveF 77) sb22 7 5 [6, 7, 8, 9] sb23 rfl h1]
  rw [show List.set sb23 7 0 = sb22 from rfl]
  rw [tryLoop_cons_invalid (solveF 77) sb22 7 6 [7, 8, 9] rfl]
  rw [tryLoop_cons_invalid (solveF 77) sb22 7 7 [8, 9] rfl]
  have h2 : solveF 77 (List.set sb22 7 8) = (false, sb24) := by
    rw [show List.set sb22 7 8 = sb24 from rfl]
    exact stp24
  rw [tryLoop_cons_valid_false (solveF 77) sb22 7 8 [9] sb24 rfl h2]
  rw [show List.set sb24 7 0 = sb22 from rfl]
  rw [tryLoop_cons_invalid (solveF 77) sb22 7 9 [] rfl]
  exact tryLoop_nil (solveF 77) sb22 7

theorem stp21 : solveF 79 sb21 = (false, sb21) := by
  show tryLoop (solveF 78) sb21 5 [1, 2, 3, 4, 5, 6, 7, 8, 9] = _
  have h1 : solveF 78 (List.set sb21 5 1) = (false, sb22) := by
    rw [show List.set sb21 5 1 = sb22 from rfl]
    exact stp22
  rw [tryLoop_cons_valid_false (solveF 78) sb21 5 1 [2, 3, 4, 5, 6, 7, 8, 9] sb22 rfl h1]
  rw [show List.set sb22 5 0 = sb21 from rfl]
  rw [tryLoop_cons_invalid (solveF 78) sb21 5 2 [3, 4, 5, 6, 7, 8, 9] rfl]
  rw [tryLoop_cons_invalid (solveF 78) sb21 5 3 [4, 5, 6, 7, 8, 9] rfl]
  rw [tryLoop_cons_invalid (solveF 78) sb21 5 4 [5, 6, 7, 8, 9] rfl]
  rw [tryLoop_cons_invalid (solveF 78) sb21 5 5 [6, 7, 8, 9] rfl]
  rw [tryLoop_cons_invalid (solveF 78) sb21 5 6 [7, 8, 9] rfl]
  rw [tryLoop_cons_invalid (solveF 78) sb21 5 7 [8, 9] rfl]
  rw [tryLoop_cons_invalid (solveF 78) sb21 5 8 [9] rfl]
  rw [tryLoop_cons_invalid (solveF 78) sb21 5 9 [] rfl]
  exact tryLoop_nil (solveF 78) sb21 5

theorem stp20 : solveF 80 sb20 = (false, sb20) := by
  show tryLoop (solveF 79) sb20 3 [1, 2, 3, 4, 5, 6, 7, 8, 9] = _
  rw [tryLoop_cons_invalid (solveF 79) sb20 3 1 [2, 3, 4, 5, 6, 7, 8, 9] rfl]
  rw [tryLoop_cons_invalid (solveF 79) sb20 3 2 [3, 4, 5, 6, 7, 8, 9] rfl]
  rw [tryLoop_cons_invalid (solveF 79) sb20 3 3 [4, 5, 6, 7, 8, 9] rfl]
  rw [tryLoop_cons_invalid (solveF 79) sb20 3 4 [5, 6, 7, 8, 9] rfl]
  rw [tryLoop_cons_invalid (solveF 79) sb20 3 5 [6, 7, 8, 9] rfl]
  rw [tryLoop_cons_invalid (solveF 79) sb20 3 6 [7, 8, 9] rfl]
  rw [tryLoop_cons_invalid (solveF 79) sb20 3 7 [8, 9] rfl]
  rw [tryLoop_cons_invalid (solveF 79) sb20 3 8 [9] rfl]
  have h1 : solveF 79 (List.set sb20 3 9) = (false, sb21) := by
    rw [show List.set sb20 3 9 = sb21 from rfl]
    exact stp21
  rw [tryLoop_cons_valid_false (solveF 79) sb20 3 9 [] sb21 rfl h1]
  rw [show List.set sb21 3 0 = sb20 from rfl]
  exact tryLoop_nil (solveF 79) sb20 3

theorem stp37 : solveF 72 sb37 = (false, sb37) := by
  show tryLoop (solveF 71) sb37 16 [1, 2, 3, 4, 5, 6, 7, 8, 9] = _
  rw [tryLoop_cons_invalid (solveF 71) sb37 16 1 [2, 3, 4, 5, 6, 7, 8, 9] rfl]
  rw [tryLoop_cons_invalid (solveF 71) sb37 16 2 [3, 4, 5, 6, 7, 8, 9] rfl]
  rw [tryLoop_cons_invalid (solveF 71) sb37 16 3 [4, 5, 6, 7, 8, 9] rfl]
  rw [tryLoop_cons_invalid (solveF 71) sb37 16 4 [5, 6, 7, 8, 9] rfl]
  rw [tryLoop_cons_invalid (solveF 71) sb37 16 5 [6, 7, 8, 9] rfl]
  rw [tryLoop_cons_invalid (solveF 71) sb37 16 6 [7, 8, 9] rfl]
  rw [tryLoop_cons_invalid (solveF 71) sb37 16 7 [8, 9] rfl]
  rw [tryLoop_cons_invalid (solveF 71) sb37 16 8 [9] rfl]
  rw [tryLoop_cons_invalid (solveF 71) sb37 16 9 [] rfl]
  exact tryLoop_nil (solveF 71) sb37 16

theorem stp36 : solveF 73 sb36 = (false, sb36) := by
  show tryLoop (solveF 72) sb36 15 [1, 2, 3, 4, 5, 6, 7, 8, 9] = _
  rw [tryLoop_cons_invalid (solveF 72) sb36 15 1 [2, 3, 4, 5, 6, 7, 8, 9] rfl]
  rw [tryLoop_cons_invalid (solveF 72) sb36 15 2 [3, 4, 5, 6, 7, 8, 9] rfl]
  rw [tryLoop_cons_invalid (solveF 72) sb36 15 3 [4, 5, 6, 7, 8, 9] rfl]
  rw [tryLoop_cons_invalid (solveF 72) sb36 15 4 [5, 6, 7, 8, 9] rfl]
  rw [tryLoop_cons_invalid (solveF 72) sb36 15 5 [6, 7, 8, 9] rfl]
  rw [tryLoop_cons_invalid (solveF 72) sb36 15 6 [7, 8, 9] rfl]
  rw [tryLoop_cons_invalid (solveF 72) sb36 15 7 [8, 9] rfl]
  have h1 : solveF 72 (List.set sb36 15 8) = (false, sb37) := by
    rw [show List.set sb36 15 8 = sb37 from rfl]
    exact stp37
  rw [tryLoop_cons_valid_false (solveF 72) sb36 15 8 [9] sb37 rfl h1]
  rw [show List.set sb37 15 0 = sb36 from rfl]
  rw [tryLoop_cons_invalid (solveF 72) sb36 15 9 [] rfl]
  exact tryLoop_nil (solveF 72) sb36 15

theorem stp35 : solveF 74 sb35 = (false, sb35) := by
  show tryLoop (solveF 73) sb35 13 [1, 2, 3, 4, 5, 6, 7, 8, 9] = _
  rw [tryLoop_cons_invalid (solveF 73) sb35 13 1 [2, 3, 4, 5, 6, 7, 8, 9] rfl]
  rw [tryLoop_cons_invalid (solveF 73) sb35 13 2 [3, 4, 5, 6, 7, 8, 9] rfl]
  rw [tryLoop_cons_invalid (solveF 73) sb35 13 3 [4, 5, 6, 7, 8, 9] rfl]
  have h1 : solveF 73 (List.set sb35 13 4) = (false, sb36) := by
    rw [show List.set sb35 13 4 = sb36 from rfl]
    exact stp36
  rw [tryLoop_cons_valid_false (solveF 73) sb35 13 4 [5, 6, 7, 8, 9] sb36 rfl h1]
  rw [show List.set sb36 13 0 = sb35 from rfl]
  rw [tryLoop_cons_invalid (solveF 73) sb35 13 5 [6, 7, 8, 9] rfl]
  rw [tryLoop_cons_invalid (solveF 73) sb35 13 6 [7, 8, 9] rfl]
  rw [tryLoop_cons_invalid (solveF 73) sb35 13 7 [8, 9] rfl]
  rw [tryLoop_cons_invalid (solveF 73) sb35 13 8 [9] rfl]
  rw [tryLoop_cons_invalid (solveF 73) sb35 13 9 [] rfl]
  exact tryLoop_nil (solveF 73) sb35 13

theorem stp34 : solveF 75 sb34 = (false, sb34) := by
  show tryLoop (solveF 74) sb34 11 [1, 2, 3, 4, 5, 6, 7, 8, 9] = _
  rw [tryLoop_cons_invalid (solveF 74) sb34 11 1 [2, 3, 4, 5, 6, 7, 8, 9] rfl]
  rw [tryLoop_cons_invalid (solveF 74) sb34 11 2 [3, 4, 5, 6, 7, 8, 9] rfl]
  rw [tryLoop_cons_invalid (solveF 74) sb34 11 3 [4, 5, 6, 7, 8, 9] rfl]
  rw [tryLoop_cons_invalid (solveF 74) sb34 11 4 [5, 6, 7, 8, 9] rfl]
  rw [tryLoop_cons_invalid (solveF 74) sb34 11 5 [6, 7, 8, 9] rfl]
  rw [tryLoop_cons_invalid (solveF 74) sb34 11 6 [7, 8, 9] rfl]
  have h1 : solveF 74 (List.set sb34 11 7) = (false, sb35) := by
    rw [show List.set sb34 11 7 = sb35 from rfl]
    exact stp35
  rw [tryLoop_cons_valid_false (solveF 74) sb34 11 7 [8, 9] sb35 rfl h1]
  rw [show List.set sb35 11 0 = sb34 from rfl]
  rw [tryLoop_cons_invalid (solveF 74) sb34 11 8 [9] rfl]
  rw [tryLoop_cons_invalid (solveF 74) sb34 11 9 [] rfl]
  exact tryLoop_nil (solveF 74) sb34 11

theorem stp46 : solveF 67 sb46 = (false, sb46) := by
  show tryLoop (solveF 66) sb46 26 [1, 2, 3, 4, 5, 6, 7, 8, 9] = _
  rw [tryLoop_cons_invalid (solveF 66) sb46 26 1 [2, 3, 4, 5, 6, 7, 8, 9] rfl]
  rw [tryLoop_cons_invalid (solveF 66) sb46 26 2 [3, 4, 5, 6, 7, 8, 9] rfl]
  rw [tryLoop_cons_invalid (solveF 66) sb46 26 3 [4, 5, 6, 7, 8, 9] rfl]
  rw [tryLoop_cons_invalid (solveF 66) sb46 26 4 [5, 6, 7, 8, 9] rfl]
  rw [tryLoop_cons_invalid (solveF 66) sb46 26 5 [6, 7, 8, 9] rfl]
  rw [tryLoop_cons_invalid (solveF 66) sb46 26 6 [7, 8, 9] rfl]
  rw [tryLoop_cons_invalid (solveF 66) sb46 26 7 [8, 9] rfl]
  rw [tryLoop_cons_invalid (solveF 66) sb46 26 8 [9] rfl]
  rw [tryLoop_cons_invalid (solveF 66) sb46 26 9 [] rfl]
  exact tryLoop_nil (solveF 66) sb46 26

theorem stp52 : solveF 62 sb52 = (false, sb52) := by
  show tryLoop (solveF 61) sb52 35 [1, 2, 3, 4, 5, 6, 7, 8, 9] = _
  rw [tryLoop_cons_invalid (solveF 61) sb52 35 1 [2, 3, 4, 5, 6, 7, 8, 9] rfl]
  rw [tryLoop_cons_invalid (solveF 61) sb52 35 2 [3, 4, 5, 6, 7, 8, 9] rfl]
  rw [tryLoop_cons_invalid (solveF 61) sb52 35 3 [4, 5, 6, 7, 8, 9] rfl]
  rw [tryLoop_cons_invalid (solveF 61) sb52 35 4 [5, 6, 7, 8, 9] rfl]
  rw [tryLoop_cons_invalid (solveF 61) sb52 35 5 [6, 7, 8, 9] rfl]
  rw [tryLoop_cons_invalid (solveF 61) sb52 35 6 [7, 8, 9] rfl]
  rw [tryLoop_cons_invalid (solveF 61) sb52 35 7 [8, 9] rfl]
  rw [tryLoop_cons_invalid (solveF 61) sb52 35 8 [9] rfl]
  rw [tryLoop_cons_invalid (solveF 61) sb52 35 9 [] rfl]
  exact tryLoop_nil (solveF 61) sb52 35

theorem stp58 : solveF 57 sb58 = (false, sb58) := by
  show tryLoop (solveF 56) sb58 41 [1, 2, 3, 4, 5, 6, 7, 8, 9] = _
  rw [tryLoop_cons_invalid (solveF 56) sb58 41 1 [2, 3, 4, 5, 6, 7, 8, 9] rfl]
  rw [tryLoop_cons_invalid (solveF 56) sb58 41 2 [3, 4, 5, 6, 7, 8, 9] rfl]
  rw [tryLoop_cons_invalid (solveF 56) sb58 41 3 [4, 5, 6, 7, 8, 9] rfl]
  rw [tryLoop_cons_invalid (solveF 56) sb58 41 4 [5, 6, 7, 8, 9] rfl]
  rw [tryLoop_cons_invalid (solveF 56) sb58 41 5 [6, 7, 8, 9] rfl]
  rw [tryLoop_cons_invalid (solveF 56) sb58 41 6 [7, 8, 9] rfl]
  rw [tryLoop_cons_invalid (solveF 56) sb58 41 7 [8, 9] rfl]
  rw [tryLoop_cons_invalid (solveF 56) sb58 41 8 [9] rfl]
  rw [tryLoop_cons_invalid (solveF 56) sb58 41 9 [] rfl]
  exact tryLoop_nil (solveF 56) sb58 41

theorem stp59 : solveF 57 sb59 = (false, sb59) := by
  show tryLoop (solveF 56) sb59 41 [1, 2, 3, 4, 5, 6, 7, 8, 9] = _
  rw [tryLoop_cons_invalid (solveF 56) sb59 41 1 [2, 3, 4, 5, 6, 7, 8, 9] rfl]
  rw [tryLoop_cons_invalid (solveF 56) sb59 41 2 [3, 4, 5, 6, 7, 8, 9] rfl]
  rw [tryLoop_cons_invalid (solveF 56) sb59 41 3 [4, 5, 6, 7, 8, 9] rfl]
  rw [tryLoop_cons_invalid (solveF 56) sb59 41 4 [5, 6, 7, 8, 9] rfl]
  rw [tryLoop_cons_invalid (solveF 56) sb59 41 5 [6, 7, 8, 9] rfl]
  rw [tryLoop_cons_invalid (solveF 56) sb59 41 6 [7, 8, 9] rfl]
  rw [tryLoop_cons_invalid (solveF 56) sb59 41 7 [8, 9] rfl]
  rw [tryLoop_cons_invalid (solveF 56) sb59 41 8 [9] rfl]
  rw [tryLoop_cons_invalid (solveF 56) sb59 41 9 [] rfl]
  exact tryLoop_nil (solveF 56) sb59 41

theorem stp57 : solveF 58 sb57 = (false, sb57) := by
  show tryLoop (solveF 57) sb57 40 [1, 2, 3, 4, 5, 6, 7, 8, 9] = _
  rw [tryLoop_cons_invalid (solveF 57) sb57 40 1 [2, 3, 4, 5, 6, 7, 8, 9] rfl]
  rw [tryLoop_cons_invalid (solveF 57) sb57 40 2 [3, 4, 5, 6, 7, 8, 9] rfl]
  have h1 : solveF 57 (List.set sb57 40 3) = (false, sb58) := by
    rw [show List.set sb57 40 3 = sb58 from rfl]
    exact stp58
  rw [tryLoop_cons_valid_false (solveF 57) sb57 40 3 [4, 5, 6, 7, 8, 9] sb58 rfl h1]
  rw [show List.set sb58 40 0 = sb57 from rfl]
  rw [tryLoop_cons_invalid (solveF 57) sb57 40 4 [5, 6, 7, 8, 9] rfl]
  rw [tryLoop_cons_invalid (solveF 57) sb57 40 5 [6, 7, 8, 9] rfl]
  have h2 : solveF 57 (List.set sb57 40 6) = (false, sb59) := by
    rw [show List.set sb57 40 6 = sb59 from rfl]
    exact stp59
  rw [tryLoop_cons_valid_false (solveF 57) sb57 40 6 [7, 8, 9] sb59 rfl h2]
  rw [show List.set sb59 40 0 = sb57 from rfl]
  rw [tryLoop_cons_invalid (solveF 57) sb57 40 7 [8, 9] rfl]
  rw [tryLoop_cons_invalid (solveF 57) sb57 40 8 [9] rfl]
  rw [tryLoop_cons_invalid (solveF 57) sb57 40 9 [] rfl]
  exact tryLoop_nil (solveF 57) sb57 40

theorem stp56 : solveF 59 sb56 = (false, sb56) := by
  show tryLoop (solveF 58) sb56 39 [1, 2, 3, 4, 5, 6, 7, 8, 9] = _
  rw [tryLoop_cons_invalid (solveF 58) sb56 39 1 [2, 3, 4, 5, 6, 7, 8, 9] rfl]
  rw [tryLoop_cons_invalid (solveF 58) sb56 39 2 [3, 4, 5, 6, 7, 8, 9] rfl]
  rw [tryLoop_cons_invalid (solveF 58) sb56 39 3 [4, 5, 6, 7, 8, 9] rfl]
  have h1 : solveF 58 (List.set sb56 39 4) = (false, sb57) := by
    rw [show List.set sb56 39 4 = sb57 from rfl]
    exact stp57
  rw [tryLoop_cons_valid_false (solveF 58) sb56 39 4 [5, 6, 7, 8, 9] sb57 rfl h1]
  rw [show List.set sb57 39 0 = sb56 from rfl]
  rw [tryLoop_cons_invalid (solveF 58) sb56 39 5 [6, 7, 8, 9] rfl]
  rw [tryLoop_cons_invalid (solveF 58) sb56 39 6 [7, 8, 9] rfl]
  rw [tryLoop_cons_invalid (solveF 58) sb56 39 7 [8, 9] rfl]
  rw [tryLoop_cons_invalid (solveF 58) sb56 39 8 [9] rfl]
  rw [tryLoop_cons_invalid (solveF 58) sb56 39 9 [] rfl]
  exact tryLoop_nil (solveF 58) sb56 39

theorem stp55 : solveF 60 sb55 = (false, sb55) := by
  show tryLoop (solveF 59) sb55 38 [1, 2, 3, 4, 5, 6, 7, 8, 9] = _
  rw [tryLoop_cons_invalid (solveF 59) sb55 38 1 [2, 3, 4, 5, 6, 7, 8, 9] rfl]
  rw [tryLoop_cons_invalid (solveF 59) sb55 38 2 [3, 4, 5, 6, 7, 8, 9] rfl]
  rw [tryLoop_cons_invalid (solveF 59) sb55 38 3 [4, 5, 6, 7, 8, 9] rfl]
  rw [tryLoop_cons_invalid (solveF 59) sb55 38 4 [5, 6, 7, 8, 9] rfl]
  rw [tryLoop_cons_invalid (solveF 59) sb55 38 5 [6, 7, 8, 9] rfl]
  rw [tryLoop_cons_invalid (solveF 59) sb55 38 6 [7, 8, 9] rfl]
  rw [tryLoop_cons_invalid (solveF 59) sb55 38 7 [8, 9] rfl]
  rw [tryLoop_cons_invalid (solveF 59) sb55 38 8 [9] rfl]
  have h1 : solveF 59 (List.set sb55 38 9) = (false, sb56) := by
    rw [show List.set sb55 38 9 = sb56 from rfl]
    exact stp56
  rw [tryLoop_cons_valid_false (solveF 59) sb55 38 9 [] sb56 rfl h1]
  rw [show List.set sb56 38 0 = sb55 from rfl]
  exact tryLoop_nil (solveF 59) sb55 38

theorem stp63 : solveF 57 sb63 = (false, sb63) := by
  show tryLoop (solveF 56) sb63 41 [1, 2, 3, 4, 5, 6, 7, 8, 9] = _
  rw [tryLoop_cons_invalid (solveF 56) sb63 41 1 [2, 3, 4, 5, 6, 7, 8, 9] rfl]
  rw [tryLoop_cons_invalid (solveF 56) sb63 41 2 [3, 4, 5, 6, 7, 8, 9] rfl]
  rw [tryLoop_cons_invalid (solveF 56) sb63 41 3 [4, 5, 6, 7, 8, 9] rfl]
  rw [tryLoop_cons_invalid (solveF 56) sb63 41 4 [5, 6, 7, 8, 9] rfl]
  rw [tryLoop_cons_invalid (solveF 56) sb63 41 5 [6, 7, 8, 9] rfl]
  rw [tryLoop_cons_invalid (solveF 56) sb63 41 6 [7, 8, 9] rfl]
  rw [tryLoop_cons_invalid (solveF 56) sb63 41 7 [8, 9] rfl]
  rw [tryLoop_cons_invalid (solveF 56) sb63 41 8 [9] rfl]
  rw [tryLoop_cons_invalid (solveF 56) sb63 41 9 [] rfl]
  exact tryLoop_nil (solveF 56) sb63 41

theorem stp64 : solveF 57 sb64 = (false, sb64) := by
  show tryLoop (solveF 56) sb64 41 [1, 2, 3, 4, 5, 6, 7, 8, 9] = _
  rw [tryLoop_cons_invalid (solveF 56) sb64 41 1 [2, 3, 4, 5, 6, 7, 8, 9] rfl]
  rw [tryLoop_cons_invalid (solveF 56) sb64 41 2 [3, 4, 5, 6, 7, 8, 9] rfl]
  rw [tryLoop_cons_invalid (solveF 56) sb64 41 3 [4, 5, 6, 7, 8, 9] rfl]
  rw [tryLoop_cons_invalid (solveF 56) sb64 41 4 [5, 6, 7, 8, 9] rfl]
  rw [tryLoop_cons_invalid (solveF 56) sb64 41 5 [6, 7, 8, 9] rfl]
  rw [tryLoop_cons_invalid (solveF 56) sb64 41 6 [7, 8, 9] rfl]
  rw [tryLoop_cons_invalid (solveF 56) sb64 41 7 [8, 9] rfl]
  rw [tryLoop_cons_invalid (solveF 56) sb64 41 8 [9] rfl]
  rw [tryLoop_cons_invalid (solveF 56) sb64 41 9 [] rfl]
  exact tryLoop_nil (solveF 56) sb64 41

theorem stp62 : solveF 58 sb62 = (false, sb62) := by
  show tryLoop (solveF 57) sb62 40 [1, 2, 3, 4, 5, 6, 7, 8, 9] = _
  rw [tryLoop_cons_invalid (solveF 57) sb62 40 1 [2, 3, 4, 5, 6, 7, 8, 9] rfl]
  rw [tryLoop_cons_invalid (solveF 57) sb62 40 2 [3, 4, 5, 6, 7, 8, 9] rfl]
  have h1 : solveF 57 (List.set sb62 40 3) = (false, sb63) := by
    rw [show List.set sb62 40 3 = sb63 from rfl]
    exact stp63
  rw [tryLoop_cons_valid_false (solveF 57) sb62 40 3 [4, 5, 6, 7, 8, 9] sb63 rfl h1]
  rw [show List.set sb63 40 0 = sb62 from rfl]
  rw [tryLoop_cons_invalid (solveF 57) sb62 40 4 [5, 6, 7, 8, 9] rfl]
  rw [tryLoop_cons_invalid (solveF 57) sb62 40 5 [6, 7, 8, 9] rfl]
  have h2 : solveF 57 (List.set sb62 40 6) = (false, sb64) := by
    rw [show List.set sb62 40 6 = sb64 from rfl]
    exact stp64
  rw [tryLoop_cons_valid_false (solveF 57) sb62 40 6 [7, 8, 9] sb64 rfl h2]
  rw [show List.set sb64 40 0 = sb62 from rfl]
  rw [tryLoop_cons_invalid (solveF 57) sb62 40 7 [8, 9] rfl]
  rw [tryLoop_cons_invalid (solveF 57) sb62 40 8 [9] rfl]
  rw [tryLoop_cons_invalid (solveF 57) sb62 40 9 [] rfl]
  exact tryLoop_nil (solveF 57) sb62 40

theorem stp61 : solveF 59 sb61 = (false, sb61) := by
  show tryLoop (solveF 58) sb61 39 [1, 2, 3, 4, 5, 6, 7, 8, 9] = _
  rw [tryLoop_cons_invalid (solveF 58) sb61 39 1 [2, 3, 4, 5, 6, 7, 8, 9] rfl]
  rw [tryLoop_cons_invalid (solveF 58) sb61 39 2 [3, 4, 5, 6, 7, 8, 9] rfl]
  rw [tryLoop_cons_invalid (solveF 58) sb61 39 3 [4, 5, 6, 7, 8, 9] rfl]
  have h1 : solveF 58 (List.set sb61 39 4) = (false, sb62) := by
    rw [show List.set sb61 39 4 = sb62 from rfl]
    exact stp62
  rw [tryLoop_cons_valid_false (solveF 58) sb61 39 4 [5, 6, 7, 8, 9] sb62 rfl h1]
  rw [show List.set sb62 39 0 = sb61 from rfl]
  rw [tryLoop_cons_invalid (solveF 58) sb61 39 5 [6, 7, 8, 9] rfl]
  rw [tryLoop_cons_invalid (solveF 58) sb61 39 6 [7, 8, 9] rfl]
  rw [tryLoop_cons_invalid (solveF 58) sb61 39 7 [8, 9] rfl]
  rw [tryLoop_cons_invalid (solveF 58) sb61 39 8 [9] rfl]
  rw [tryLoop_cons_invalid (solveF 58) sb61 39 9 [] rfl]
  exact tryLoop_nil (solveF 58) sb61 39

theorem stp60 : solveF 60 sb60 = (false, sb60) := by
  show tryLoop (solveF 59) sb60 38 [1, 2, 3, 4, 5, 6, 7, 8, 9] = _
  rw [tryLoop_cons_invalid (solveF 59) sb60 38 1 [2, 3, 4, 5, 6, 7, 8, 9] rfl]
  rw [tryLoop_cons_invalid (solveF 59) sb60 38 2 [3, 4, 5, 6, 7, 8, 9] rfl]
  rw [tryLoop_cons_invalid (solveF 59) sb60 38 3 [4, 5, 6, 7, 8, 9] rfl]
  rw [tryLoop_cons_invalid (solveF 59) sb60 38 4 [5, 6, 7, 8, 9] rfl]
  rw [tryLoop_cons_invalid (solveF 59) sb60 38 5 [6, 7, 8, 9] rfl]
  rw [tryLoop_cons_invalid (solveF 59) sb60 38 6 [7, 8, 9] rfl]
  rw [tryLoop_cons_invalid (solveF 59) sb60 38 7 [8, 9] rfl]
  rw [tryLoop_cons_invalid (solveF 59) sb60 38 8 [9] rfl]
  have h1 : solveF 59 (List.set sb60 38 9) = (false, sb61) := by
    rw [show List.set sb60 38 9 = sb61 from rfl]
    exact stp61
  rw [tryLoop_cons_valid_false (solveF 59) sb60 38 9 [] sb61 rfl h1]
  rw [show List.set sb61 38 0 = sb60 from rfl]
  exact tryLoop_nil (solveF 59) sb60 38

theorem stp65 : solveF 60 sb65 = (false, sb65) := by
  show tryLoop (solveF 59) sb65 38 [1, 2, 3, 4, 5, 6, 7, 8, 9] = _
  rw [tryLoop_cons_invalid (solveF 59) sb65 38 1 [2, 3, 4, 5, 6, 7, 8, 9] rfl]
  rw [tryLoop_cons_invalid (solveF 59) sb65 38 2 [3, 4, 5, 6, 7, 8, 9] rfl]
  rw [tryLoop_cons_invalid (solveF 59) sb65 38 3 [4, 5, 6, 7, 8, 9] rfl]
  rw [tryLoop_cons_invalid (solveF 59) sb65 38 4 [5, 6, 7, 8, 9] rfl]
  rw [tryLoop_cons_invalid (solveF 59) sb65 38 5 [6, 7, 8, 9] rfl]
  rw [tryLoop_cons_invalid (solveF 59) sb65 38 6 [7, 8, 9] rfl]
  rw [tryLoop_cons_invalid (solveF 59) sb65 38 7 [8, 9] rfl]
  rw [tryLoop_cons_invalid (solveF 59) sb65 38 8 [9] rfl]
  rw [tryLoop_cons_invalid (solveF 59) sb65 38 9 [] rfl]
  exact tryLoop_nil (solveF 59) sb65 38

theorem stp54 : solveF 61 sb54 = (false, sb54) := by
  show tryLoop (solveF 60) sb54 37 [1, 2, 3, 4, 5, 6, 7, 8, 9] = _
  have h1 : solveF 60 (List.set sb54 37 1) = (false, sb55) := by
    rw [show List.set sb54 37 1 = sb55 from rfl]
    exact stp55
  rw [tryLoop_cons_valid_false (solveF 60) sb54 37 1 [2, 3, 4, 5, 6, 7, 8, 9] sb55 rfl h1]
  rw [show List.set sb55 37 0 = sb54 from rfl]
  have h2 : solveF 60 (List.set sb54 37 2) = (false, sb60) := by
    rw [show List.set sb54 37 2 = sb60 from rfl]
    exact stp60
  rw [tryLoop_cons_valid_false (solveF 60) sb54 37 2 [3, 4, 5, 6, 7, 8, 9] sb60 rfl h2]
  rw [show List.set sb60 37 0 = sb54 from rfl]
  rw [tryLoop_cons_invalid (solveF 60) sb54 37 3 [4, 5, 6, 7, 8, 9] rfl]
  rw [tryLoop_cons_invalid (solveF 60) sb54 37 4 [5, 6, 7, 8, 9] rfl]
  rw [tryLoop_cons_invalid (solveF 60) sb54 37 5 [6, 7, 8, 9] rfl]
  rw [tryLoop_cons_invalid (solveF 60) sb54 37 6 [7, 8, 9] rfl]
  rw [tryLoop_cons_invalid (solveF 60) sb54 37 7 [8, 9] rfl]
  rw [tryLoop_cons_invalid (solveF 60) sb54 37 8 [9] rfl]
  have h3 : solveF 60 (List.set sb54 37 9) = (false, sb65) := by
    rw [show List.set sb54 37 9 = sb65 from rfl]
    exact stp65
  rw [tryLoop_cons_valid_false (solveF 60) sb54 37 9 [] sb65 rfl h3]
  rw [show List.set sb65 37 0 = sb54 from rfl]
  exact tryLoop_nil (solveF 60) sb54 37

theorem stp53 : solveF 62 sb53 = (false, sb53) := by
  show tryLoop (solveF 61) sb53 35 [1, 2, 3, 4, 5, 6, 7, 8, 9] = _
  rw [tryLoop_cons_invalid (solveF 61) sb53 35 1 [2, 3, 4, 5, 6, 7, 8, 9] rfl]
  rw [tryLoop_cons_invalid (solveF 61) sb53 35 2 [3, 4, 5, 6, 7, 8, 9] rfl]
  rw [tryLoop_cons_invalid (solveF 61) sb53 35 3 [4, 5, 6, 7, 8, 9] rfl]
  rw [tryLoop_cons_invalid (solveF 61) sb53 35 4 [5, 6, 7, 8, 9] rfl]
  rw [tryLoop_cons_invalid (solveF 61) sb53 35 5 [6, 7, 8, 9] rfl]
  have h1 : solveF 61 (List.set sb53 35 6) = (false, sb54) := by
    rw [show List.set sb53 35 6 = sb54 from rfl]
    exact stp54
  rw [tryLoop_cons_valid_false (solveF 61) sb53 35 6 [7, 8, 9] sb54 rfl h1]
  rw [show List.set sb54 35 0 = sb53 from rfl]
  rw [tryLoop_cons_invalid (solveF 61) sb53 35 7 [8, 9] rfl]
  rw [tryLoop_cons_invalid (solveF 61) sb53 35 8 [9] rfl]
  rw [tryLoop_cons_invalid (solveF 61) sb53 35 9 [] rfl]
  exact tryLoop_nil (solveF 61) sb53 35

theorem stp51 : solveF 63 sb51 = (false, sb51) := by
  show tryLoop (solveF 62) sb51 34 [1, 2, 3, 4, 5, 6, 7, 8, 9] = _
  rw [tryLoop_cons_invalid (solveF 62) sb51 34 1 [2, 3, 4, 5, 6, 7, 8, 9] rfl]
  rw [tryLoop_cons_invalid (solveF 62) sb51 34 2 [3, 4, 5, 6, 7, 8, 9] rfl]
  rw [tryLoop_cons_invalid (solveF 62) sb51 34 3 [4, 5, 6, 7, 8, 9] rfl]
  rw [tryLoop_cons_invalid (solveF 62) sb51 34 4 [5, 6, 7, 8, 9] rfl]
  rw [tryLoop_cons_invalid (solveF 62) sb51 34 5 [6, 7, 8, 9] rfl]
  have h1 : solveF 62 (List.set sb51 34 6) = (false, sb52) := by
    rw [show List.set sb51 34 6 = sb52 from rfl]
    exact stp52
  rw [tryLoop_cons_valid_false (solveF 62) sb51 34 6 [7, 8, 9] sb52 rfl h1]
  rw [show List.set sb52 34 0 = sb51 from rfl]
  have h2 : solveF 62 (List.set sb51 34 7) = (false, sb53) := by
    rw [show List.set sb51 34 7 = sb53 from rfl]
    exact stp53
  rw [tryLoop_cons_valid_false (solveF 62) sb51 34 7 [8, 9] sb53 rfl h2]
  rw [show List.set sb53 34 0 = sb51 from rfl]
  rw [tryLoop_cons_invalid (solveF 62) sb51 34 8 [9] rfl]
  rw [tryLoop_cons_invalid (solveF 62) sb51 34 9 [] rfl]
  exact tryLoop_nil (solveF 62) sb51 34

theorem stp72 : solveF 57 sb72 = (false, sb72) := by
  show tryLoop (solveF 56) sb72 41 [1, 2, 3, 4, 5, 6, 7, 8, 9] = _
  rw [tryLoop_cons_invalid (solveF 56) sb72 41 1 [2, 3, 4, 5, 6, 7, 8, 9] rfl]
  rw [tryLoop_cons_invalid (solveF 56) sb72 41 2 [3, 4, 5, 6, 7, 8, 9] rfl]
  rw [tryLoop_cons_invalid (solveF 56) sb72 41 3 [4, 5, 6, 7, 8, 9] rfl]
  rw [tryLoop_cons_invalid (solveF 56) sb72 41 4 [5, 6, 7, 8, 9] rfl]
  rw [tryLoop_cons_invalid (solveF 56) sb72 41 5 [6, 7, 8, 9] rfl]
  rw [tryLoop_cons_invalid (solveF 56) sb72 41 6 [7, 8, 9] rfl]
  rw [tryLoop_cons_invalid (solveF 56) sb72 41 7 [8, 9] rfl]
  rw [tryLoop_cons_invalid (solveF 56) sb72 41 8 [9] rfl]
  rw [tryLoop_cons_invalid (solveF 56) sb72 41 9 [] rfl]
  exact tryLoop_nil (solveF 56) sb72 41

theorem stp73 : solveF 57 sb73 = (false, sb73) := by
  show tryLoop (solveF 56) sb73 41 [1, 2, 3, 4, 5, 6, 7, 8, 9] = _
  rw [tryLoop_cons_invalid (solveF 56) sb73 41 1 [2, 3, 4, 5, 6, 7, 8, 9] rfl]
  rw [tryLoop_cons_invalid (solveF 56) sb73 41 2 [3, 4, 5, 6, 7, 8, 9] rfl]
  rw [tryLoop_cons_invalid (solveF 56) sb73 41 3 [4, 5, 6, 7, 8, 9] rfl]
  rw [tryLoop_cons_invalid (solveF 56) sb73 41 4 [5, 6, 7, 8, 9] rfl]
  rw [tryLoop_cons_invalid (solveF 56) sb73 41 5 [6, 7, 8, 9] rfl]
  rw [tryLoop_cons_invalid (solveF 56) sb73 41 6 [7, 8, 9] rfl]
  rw [tryLoop_cons_invalid (solveF 56) sb73 41 7 [8, 9] rfl]
  rw [tryLoop_cons_invalid (solveF 56) sb73 41 8 [9] rfl]
  rw [tryLoop_cons_invalid (solveF 56) sb73 41 9 [] rfl]
  exact tryLoop_nil (solveF 56) sb73 41

theorem stp71 : solveF 58 sb71 = (false, sb71) := by
  show tryLoop (solveF 57) sb71 40 [1, 2, 3, 4, 5, 6, 7, 8, 9] = _
  rw [tryLoop_cons_invalid (solveF 57) sb71 40 1 [2, 3, 4, 5, 6, 7, 8, 9] rfl]
  rw [tryLoop_cons_invalid (solveF 57) sb71 40 2 [3, 4, 5, 6, 7, 8, 9] rfl]
  have h1 : solveF 57 (List.set sb71 40 3) = (false, sb72) := by
    rw [show List.set sb71 40 3 = sb72 from rfl]
    exact stp72
  rw [tryLoop_cons_valid_false (solveF 57) sb71 40 3 [4, 5, 6, 7, 8, 9] sb72 rfl h1]
  rw [show List.set sb72 40 0 = sb71 from rfl]
  rw [tryLoop_cons_invalid (solveF 57) sb71 40 4 [5, 6, 7, 8, 9] rfl]
  have h2 : solveF 57 (List.set sb71 40 5) = (false, sb73) := by
    rw [show List.set sb71 40 5 = sb73 from rfl]
    exact stp73
  rw [tryLoop_cons_valid_false (solveF 57) sb71 40 5 [6, 7, 8, 9] sb73 rfl h2]
  rw [show List.set sb73 40 0 = sb71 from rfl]
  rw [tryLoop_cons_invalid (solveF 57) sb71 40 6 [7, 8, 9] rfl]
  rw [tryLoop_cons_invalid (solveF 57) sb71 40 7 [8, 9] rfl]
  rw [tryLoop_cons_invalid (solveF 57) sb71 40 8 [9] rfl]
  rw [tryLoop_cons_invalid (solveF 57) sb71 40 9 [] rfl]
  exact tryLoop_nil (solveF 57) sb71 40

theorem stp76 : solveF 56 sb76 = (false, sb76) := by
  show tryLoop (solveF 55) sb76 42 [1, 2, 3, 4, 5, 6, 7, 8, 9] = _
  rw [tryLoop_cons_invalid (solveF 55) sb76 42 1 [2, 3, 4, 5, 6, 7, 8, 9] rfl]
  rw [tryLoop_cons_invalid (solveF 55) sb76 42 2 [3, 4, 5, 6, 7, 8, 9] rfl]
  rw [tryLoop_cons_invalid (solveF 55) sb76 42 3 [4, 5, 6, 7, 8, 9] rfl]
  rw [tryLoop_cons_invalid (solveF 55) sb76 42 4 [5, 6, 7, 8, 9] rfl]
  rw [tryLoop_cons_invalid (solveF 55) sb76 42 5 [6, 7, 8, 9] rfl]
  rw [tryLoop_cons_invalid (solveF 55) sb76 42 6 [7, 8, 9] rfl]
  rw [tryLoop_cons_invalid (solveF 55) sb76 42 7 [8, 9] rfl]
  rw [tryLoop_cons_invalid (solveF 55) sb76 42 8 [9] rfl]
  rw [tryLoop_cons_invalid (solveF 55) sb76 42 9 [] rfl]
  exact tryLoop_nil (solveF 55) sb76 42

theorem stp75 : solveF 57 sb75 = (false, sb75) := by
  show tryLoop (solveF 56) sb75 41 [1, 2, 3, 4, 5, 6, 7, 8, 9] = _
  rw [tryLoop_cons_invalid (solveF 56) sb75 41 1 [2, 3, 4, 5, 6, 7, 8, 9] rfl]
  rw [tryLoop_cons_invalid (solveF 56) sb75 41 2 [3, 4, 5, 6, 7, 8, 9] rfl]
  rw [tryLoop_cons_invalid (solveF 56) sb75 41 3 [4, 5, 6, 7, 8, 9] rfl]
  have h1 : solveF 56 (List.set sb75 41 4) = (false, sb76) := by
    rw [show List.set sb75 41 4 = sb76 from rfl]
    exact stp76
  rw [tryLoop_cons_valid_false (solveF 56) sb75 41 4 [5, 6, 7, 8, 9] sb76 rfl h1]
  rw [show List.set sb76 41 0 = sb75 from rfl]
  rw [tryLoop_cons_invalid (solveF 56) sb75 41 5 [6, 7, 8, 9] rfl]
  rw [tryLoop_cons_invalid (solveF 56) sb75 41 6 [7, 8, 9] rfl]
  rw [tryLoop_cons_invalid (solveF 56) sb75 41 7 [8, 9] rfl]
  rw [tryLoop_cons_invalid (solveF 56) sb75 41 8 [9] rfl]
  rw [tryLoop_cons_invalid (solveF 56) sb75 41 9 [] rfl]
  exact tryLoop_nil (solveF 56) sb75 41

theorem stp74 : solveF 58 sb74 = (false, sb74) := by
  show tryLoop (solveF 57) sb74 40 [1, 2, 3, 4, 5, 6, 7, 8, 9] = _
  rw [tryLoop_cons_invalid (solveF 57) sb74 40 1 [2, 3, 4, 5, 6, 7, 8, 9] rfl]
  rw [tryLoop_cons_invalid (solveF 57) sb74 40 2 [3, 4, 5, 6, 7, 8, 9] rfl]
  have h1 : solveF 57 (List.set sb74 40 3) = (false, sb75) := by
    rw [show List.set sb74 40 3 = sb75 from rfl]
    exact stp75
  rw [tryLoop_cons_valid_false (solveF 57) sb74 40 3 [4, 5, 6, 7, 8, 9] sb75 rfl h1]
  rw [show List.set sb75 40 0 = sb74 from rfl]
  rw [tryLoop_cons_invalid (solveF 57) sb74 40 4 [5, 6, 7, 8, 9] rfl]
  rw [tryLoop_cons_invalid (solveF 57) sb74 40 5 [6, 7, 8, 9] rfl]
  rw [tryLoop_cons_invalid (solveF 57) sb74 40 6 [7, 8, 9] rfl]
  rw [tryLoop_cons_invalid (solveF 57) sb74 40 7 [8, 9] rfl]
  rw [tryLoop_cons_invalid (solveF 57) sb74 40 8 [9] rfl]
  rw [tryLoop_cons_invalid (solveF 57) sb74 40 9 [] rfl]
  exact tryLoop_nil (solveF 57) sb74 40

theorem stp70 : solveF 59 sb70 = (false, sb70) := by
  show tryLoop (solveF 58) sb70 39 [1, 2, 3, 4, 5, 6, 7, 8, 9] = _
  rw [tryLoop_cons_invalid (solveF 58) sb70 39 1 [2, 3, 4, 5, 6, 7, 8, 9] rfl]
  rw [tryLoop_cons_invalid (solveF 58) sb70 39 2 [3, 4, 5, 6, 7, 8, 9] rfl]
  rw [tryLoop_cons_invalid (solveF 58) sb70 39 3 [4, 5, 6, 7, 8, 9] rfl]
  have h1 : solveF 58 (List.set sb70 39 4) = (false, sb71) := by
    rw [show List.set sb70 39 4 = sb71 from rfl]
    exact stp71
  rw [tryLoop_cons_valid_false (solveF 58) sb70 39 4 [5, 6, 7, 8, 9] sb71 rfl h1]
  rw [show List.set sb71 39 0 = sb70 from rfl]
  have h2 : solveF 58 (List.set sb70 39 5) = (false, sb74) := by
    rw [show List.set sb70 39 5 = sb74 from rfl]
    exact stp74
  rw [tryLoop_cons_valid_false (solveF 58) sb70 39 5 [6, 7, 8, 9] sb74 rfl h2]
  rw [show List.set sb74 39 0 = sb70 from rfl]
  rw [tryLoop_cons_invalid (solveF 58) sb70 39 6 [7, 8, 9] rfl]
  rw [tryLoop_cons_invalid (solveF 58) sb70 39 7 [8, 9] rfl]
  rw [tryLoop_cons_invalid (solveF 58) sb70 39 8 [9] rfl]
  rw [tryLoop_cons_invalid (solveF 58) sb70 39 9 [] rfl]
  exact tryLoop_nil (solveF 58) sb70 39

theorem stp69 : solveF 60 sb69 = (false, sb69) := by
  show tryLoop (solveF 59) sb69 38 [1, 2, 3, 4, 5, 6, 7, 8, 9] = _
  rw [tryLoop_cons_invalid (solveF 59) sb69 38 1 [2, 3, 4, 5, 6, 7, 8, 9] rfl]
  rw [tryLoop_cons_invalid (solveF 59) sb69 38 2 [3, 4, 5, 6, 7, 8, 9] rfl]
  rw [tryLoop_cons_invalid (solveF 59) sb69 38 3 [4, 5, 6, 7, 8, 9] rfl]
  rw [tryLoop_cons_invalid (solveF 59) sb69 38 4 [5, 6, 7, 8, 9] rfl]
  rw [tryLoop_cons_invalid (solveF 59) sb69 38 5 [6, 7, 8, 9] rfl]
  rw [tryLoop_cons_invalid (solveF 59) sb69 38 6 [7, 8, 9] rfl]
  rw [tryLoop_cons_invalid (solveF 59) sb69 38 7 [8, 9] rfl]
  rw [tryLoop_cons_invalid (solveF 59) sb69 38 8 [9] rfl]
  have h1 : solveF 59 (List.set sb69 38 9) = (false, sb70) := by
    rw [show List.set sb69 38 9 = sb70 from rfl]
    exact stp70
  rw [tryLoop_cons_valid_false (solveF 59) sb69 38 9 [] sb70 rfl h1]
  rw [show List.set sb70 38 0 = sb69 from rfl]
  exact tryLoop_nil (solveF 59) sb69 38

theorem stp80 : solveF 57 sb80 = (false, sb80) := by
  show tryLoop (solveF 56) sb80 41 [1, 2, 3, 4, 5, 6, 7, 8, 9] = _
  rw [tryLoop_cons_invalid (solveF 56) sb80 41 1 [2, 3, 4, 5, 6, 7, 8, 9] rfl]
  rw [tryLoop_cons_invalid (solveF 56) sb80 41 2 [3, 4, 5, 6, 7, 8, 9] rfl]
  rw [tryLoop_cons_invalid (solveF 56) sb80 41 3 [4, 5, 6, 7, 8, 9] rfl]
  rw [tryLoop_cons_invalid (solveF 56) sb80 41 4 [5, 6, 7, 8, 9] rfl]
  rw [tryLoop_cons_invalid (solveF 56) sb80 41 5 [6, 7, 8, 9] rfl]
  rw [tryLoop_cons_invalid (solveF 56) sb80 41 6 [7, 8, 9] rfl]
  rw [tryLoop_cons_invalid (solveF 56) sb80 41 7 [8, 9] rfl]
  rw [tryLoop_cons_invalid (solveF 56) sb80 41 8 [9] rfl]
  rw [tryLoop_cons_invalid (solveF 56) sb80 41 9 [] rfl]
  exact tryLoop_nil (solveF 56) sb80 41

theorem stp81 : solveF 57 sb81 = (false, sb81) := by
  show tryLoop (solveF 56) sb81 41 [1, 2, 3, 4, 5, 6, 7, 8, 9] = _
  rw [tryLoop_cons_invalid (solveF 56) sb81 41 1 [2, 3, 4, 5, 6, 7, 8, 9] rfl]
  rw [tryLoop_cons_invalid (solveF 56) sb81 41 2 [3, 4, 5, 6, 7, 8, 9] rfl]
  rw [tryLoop_cons_invalid (solveF 56) sb81 41 3 [4, 5, 6, 7, 8, 9] rfl]
  rw [tryLoop_cons_invalid (solveF 56) sb81 41 4 [5, 6, 7, 8, 9] rfl]
  rw [tryLoop_cons_invalid (solveF 56) sb81 41 5 [6, 7, 8, 9] rfl]
  rw [tryLoop_cons_invalid (solveF 56) sb81 41 6 [7, 8, 9] rfl]
  rw [tryLoop_cons_invalid (solveF 56) sb81 41 7 [8, 9] rfl]
  rw [tryLoop_cons_invalid (solveF 56) sb81 41 8 [9] rfl]
  rw [tryLoop_cons_invalid (solveF 56) sb81 41 9 [] rfl]
  exact tryLoop_nil (solveF 56) sb81 41

theorem stp79 : solveF 58 sb79 = (false, sb79) := by
  show tryLoop (solveF 57) sb79 40 [1, 2, 3, 4, 5, 6, 7, 8, 9] = _
  rw [tryLoop_cons_invalid (solveF 57) sb79 40 1 [2, 3, 4, 5, 6, 7, 8, 9] rfl]
  rw [tryLoop_cons_invalid (solveF 57) sb79 40 2 [3, 4, 5, 6, 7, 8, 9] rfl]
  have h1 : solveF 57 (List.set sb79 40 3) = (false, sb80) := by
    rw [show List.set sb79 40 3 = sb80 from rfl]
    exact stp80
  rw [tryLoop_cons_valid_false (solveF 57) sb79 40 3 [4, 5, 6, 7, 8, 9] sb80 rfl h1]
  rw [show List.set sb80 40 0 = sb79 from rfl]
  rw [tryLoop_cons_invalid (solveF 57) sb79 40 4 [5, 6, 7, 8, 9] rfl]
  have h2 : solveF 57 (List.set sb79 40 5) = (false, sb81) := by
    rw [show List.set sb79 40 5 = sb81 from rfl]
    exact stp81
  rw [tryLoop_cons_valid_false (solveF 57) sb79 40 5 [6, 7, 8, 9] sb81 rfl h2]
  rw [show List.set sb81 40 0 = sb79 from rfl]
  rw [tryLoop_cons_invalid (solveF 57) sb79 40 6 [7, 8, 9] rfl]
  rw [tryLoop_cons_invalid (solveF 57) sb79 40 7 [8, 9] rfl]
  rw [tryLoop_cons_invalid (solveF 57) sb79 40 8 [9] rfl]
  rw [tryLoop_cons_invalid (solveF 57) sb79 40 9 [] rfl]
  exact tryLoop_nil (solveF 57) sb79 40

theorem stp87 : solveF 53 sb87 = (false, sb87) := by
  show tryLoop (solveF 52) sb87 46 [1, 2, 3, 4, 5, 6, 7, 8, 9] = _
  rw [tryLoop_cons_invalid (solveF 52) sb87 46 1 [2, 3, 4, 5, 6, 7, 8, 9] rfl]
  rw [tryLoop_cons_invalid (solveF 52) sb87 46 2 [3, 4, 5, 6, 7, 8, 9] rfl]
  rw [tryLoop_cons_invalid (solveF 52) sb87 46 3 [4, 5, 6, 7, 8, 9] rfl]
  rw [tryLoop_cons_invalid (solveF 52) sb87 46 4 [5, 6, 7, 8, 9] rfl]
  rw [tryLoop_cons_invalid (solveF 52) sb87 46 5 [6, 7, 8, 9] rfl]
  rw [tryLoop_cons_invalid (solveF 52) sb87 46 6 [7, 8, 9] rfl]
  rw [tryLoop_cons_invalid (solveF 52) sb87 46 7 [8, 9] rfl]
  rw [tryLoop_cons_invalid (solveF 52) sb87 46 8 [9] rfl]
  rw [tryLoop_cons_invalid (solveF 52) sb87 46 9 [] rfl]
  exact tryLoop_nil (solveF 52) sb87 46

theorem stp96 : solveF 45 sb96 = (false, sb96) := by
  show tryLoop (solveF 44) sb96 62 [1, 2, 3, 4, 5, 6, 7, 8, 9] = _
  rw [tryLoop_cons_invalid (solveF 44) sb96 62 1 [2, 3, 4, 5, 6, 7, 8, 9] rfl]
  rw [tryLoop_cons_invalid (solveF 44) sb96 62 2 [3, 4, 5, 6, 7, 8, 9] rfl]
  rw [tryLoop_cons_invalid (solveF 44) sb96 62 3 [4, 5, 6, 7, 8, 9] rfl]
  rw [tryLoop_cons_invalid (solveF 44) sb96 62 4 [5, 6, 7, 8, 9] rfl]
  rw [tryLoop_cons_invalid (solveF 44) sb96 62 5 [6, 7, 8, 9] rfl]
  rw [tryLoop_cons_invalid (solveF 44) sb96 62 6 [7, 8, 9] rfl]
  rw [tryLoop_cons_invalid (solveF 44) sb96 62 7 [8, 9] rfl]
  rw [tryLoop_cons_invalid (solveF 44) sb96 62 8 [9] rfl]
  rw [tryLoop_cons_invalid (solveF 44) sb96 62 9 [] rfl]
  exact tryLoop_nil (solveF 44) sb96 62

theorem stp95 : solveF 46 sb95 = (false, sb95) := by
  show tryLoop (solveF 45) sb95 61 [1, 2, 3, 4, 5, 6, 7, 8, 9] = _
  rw [tryLoop_cons_invalid (solveF 45) sb95 61 1 [2, 3, 4, 5, 6, 7, 8, 9] rfl]
  rw [tryLoop_cons_invalid (solveF 45) sb95 61 2 [3, 4, 5, 6, 7, 8, 9] rfl]
  rw [tryLoop_cons_invalid (solveF 45) sb95 61 3 [4, 5, 6, 7, 8, 9] rfl]
  have h1 : solveF 45 (List.set sb95 61 4) = (false, sb96) := by
    rw [show List.set sb95 61 4 = sb96 from rfl]
    exact stp96
  rw [tryLoop_cons_valid_false (solveF 45) sb95 61 4 [5, 6, 7, 8, 9] sb96 rfl h1]
  rw [show List.set sb96 61 0 = sb95 from rfl]
  rw [tryLoop_cons_invalid (solveF 45) sb95 61 5 [6, 7, 8, 9] rfl]
  rw [tryLoop_cons_invalid (solveF 45) sb95 61 6 [7, 8, 9] rfl]
  rw [tryLoop_cons_invalid (solveF 45) sb95 61 7 [8, 9] rfl]
  rw [tryLoop_cons_invalid (solveF 45) sb95 61 8 [9] rfl]
  rw [tryLoop_cons_invalid (solveF 45) sb95 61 9 [] rfl]
  exact tryLoop_nil (solveF 45) sb95 61

theorem stp94 : solveF 47 sb94 = (false, sb94) := by
  show tryLoop (solveF 46) sb94 58 [1, 2, 3, 4, 5, 6, 7, 8, 9] = _
  rw [tryLoop_cons_invalid (solveF 46) sb94 58 1 [2, 3, 4, 5, 6, 7, 8, 9] rfl]
  rw [tryLoop_cons_invalid (solveF 46) sb94 58 2 [3, 4, 5, 6, 7, 8, 9] rfl]
  rw [tryLoop_cons_invalid (solveF 46) sb94 58 3 [4, 5, 6, 7, 8, 9] rfl]
  rw [tryLoop_cons_invalid (solveF 46) sb94 58 4 [5, 6, 7, 8, 9] rfl]
  rw [tryLoop_cons_invalid (solveF 46) sb94 58 5 [6, 7, 8, 9] rfl]
  rw [tryLoop_cons_invalid (solveF 46) sb94 58 6 [7, 8, 9] rfl]
  rw [tryLoop_cons_invalid (solveF 46) sb94 58 7 [8, 9] rfl]
  have h1 : solveF 46 (List.set sb94 58 8) = (false, sb95) := by
    rw [show List.set sb94 58 8 = sb95 from rfl]
    exact stp95
  rw [tryLoop_cons_valid_false (solveF 46) sb94 58 8 [9] sb95 rfl h1]
  rw [show List.set sb95 58 0 = sb94 from rfl]
  rw [tryLoop_cons_invalid (solveF 46) sb94 58 9 [] rfl]
  exact tryLoop_nil (solveF 46) sb94 58

theorem stp99 : solveF 45 sb99 = (false, sb99) := by
  show tryLoop (solveF 44) sb99 62 [1, 2, 3, 4, 5, 6, 7, 8, 9] = _
  rw [tryLoop_cons_invalid (solveF 44) sb99 62 1 [2, 3, 4, 5, 6, 7, 8, 9] rfl]
  rw [tryLoop_cons_invalid (solveF 44) sb99 62 2 [3, 4, 5, 6, 7, 8, 9] rfl]
  rw [tryLoop_cons_invalid (solveF 44) sb99 62 3 [4, 5, 6, 7, 8, 9] rfl]
  rw [tryLoop_cons_invalid (solveF 44) sb99 62 4 [5, 6, 7, 8, 9] rfl]
  rw [tryLoop_cons_invalid (solveF 44) sb99 62 5 [6, 7, 8, 9] rfl]
  rw [tryLoop_cons_invalid (solveF 44) sb99 62 6 [7, 8, 9] rfl]
  rw [tryLoop_cons_invalid (solveF 44) sb99 62 7 [8, 9] rfl]
  rw [tryLoop_cons_invalid (solveF 44) sb99 62 8 [9] rfl]
  rw [tryLoop_cons_invalid (solveF 44) sb99 62 9 [] rfl]
  exact tryLoop_nil (solveF 44) sb99 62

theorem stp98 : solveF 46 sb98 = (false, sb98) := by
  show tryLoop (solveF 45) sb98 61 [1, 2, 3, 4, 5, 6, 7, 8, 9] = _
  rw [tryLoop_cons_invalid (solveF 45) sb98 61 1 [2, 3, 4, 5, 6, 7, 8, 9] rfl]
  rw [tryLoop_cons_invalid (solveF 45) sb98 61 2 [3, 4, 5, 6, 7, 8, 9] rfl]
  rw [tryLoop_cons_invalid (solveF 45) sb98 61 3 [4, 5, 6, 7, 8, 9] rfl]
  have h1 : solveF 45 (List.set sb98 61 4) = (false, sb99) := by
    rw [show List.set sb98 61 4 = sb99 from rfl]
    exact stp99
  rw [tryLoop_cons_valid_false (solveF 45) sb98 61 4 [5, 6, 7, 8, 9] sb99 rfl h1]
  rw [show List.set sb99 61 0 = sb98 from rfl]
  rw [tryLoop_cons_invalid (solveF 45) sb98 61 5 [6, 7, 8, 9] rfl]
  rw [tryLoop_cons_invalid (solveF 45) sb98 61 6 [7, 8, 9] rfl]
  rw [tryLoop_cons_invalid (solveF 45) sb98 61 7 [8, 9] rfl]
  rw [tryLoop_cons_invalid (solveF 45) sb98 61 8 [9] rfl]
  rw [tryLoop_cons_invalid (solveF 45) sb98 61 9 [] rfl]
  exact tryLoop_nil (solveF 45) sb98 61

theorem stp97 : solveF 47 sb97 = (false, sb97) := by
  show tryLoop (solveF 46) sb97 58 [1, 2, 3, 4, 5, 6, 7, 8, 9] = _
  rw [tryLoop_cons_invalid (solveF 46) sb97 58 1 [2, 3, 4, 5, 6, 7, 8, 9] rfl]
  rw [tryLoop_cons_invalid (solveF 46) sb97 58 2 [3, 4, 5, 6, 7, 8, 9] rfl]
  rw [tryLoop_cons_invalid (solveF 46) sb97 58 3 [4, 5, 6, 7, 8, 9] rfl]
  rw [tryLoop_cons_invalid (solveF 46) sb97 58 4 [5, 6, 7, 8, 9] rfl]
  rw [tryLoop_cons_invalid (solveF 46) sb97 58 5 [6, 7, 8, 9] rfl]
  rw [tryLoop_cons_invalid (solveF 46) sb97 58 6 [7, 8, 9] rfl]
  rw [tryLoop_cons_invalid (solveF 46) sb97 58 7 [8, 9] rfl]
  have h1 : solveF 46 (List.set sb97 58 8) = (false, sb98) := by
    rw [show List.set sb97 58 8 = sb98 from rfl]
    exact stp98
  rw [tryLoop_cons_valid_false (solveF 46) sb97 58 8 [9] sb98 rfl h1]
  rw [show List.set sb98 58 0 = sb97 from rfl]
  rw [tryLoop_cons_invalid (solveF 46) sb97 58 9 [] rfl]
  exact tryLoop_nil (solveF 46) sb97 58

theorem stp93 : solveF 48 sb93 = (false, sb93) := by
  show tryLoop (solveF 47) sb93 55 [1, 2, 3, 4, 5, 6, 7, 8, 9] = _
  rw [tryLoop_cons_invalid (solveF 47) sb93 55 1 [2, 3, 4, 5, 6, 7, 8, 9] rfl]
  rw [tryLoop_cons_invalid (solveF 47) sb93 55 2 [3, 4, 5, 6, 7, 8, 9] rfl]
  have h1 : solveF 47 (List.set sb93 55 3) = (false, sb94) := by
    rw [show List.set sb93 55 3 = sb94 from rfl]
    exact stp94
  rw [tryLoop_cons_valid_false (solveF 47) sb93 55 3 [4, 5, 6, 7, 8, 9] sb94 rfl h1]
  rw [show List.set sb94 55 0 = sb93 from rfl]
  rw [tryLoop_cons_invalid (solveF 47) sb93 55 4 [5, 6, 7, 8, 9] rfl]
  rw [tryLoop_cons_invalid (solveF 47) sb93 55 5 [6, 7, 8, 9] rfl]
  rw [tryLoop_cons_invalid (solveF 47) sb93 55 6 [7, 8, 9] rfl]
  have h2 : solveF 47 (List.set sb93 55 7) = (false, sb97) := by
    rw [show List.set sb93 55 7 = sb97 from rfl]
    exact stp97
  rw [tryLoop_cons_valid_false (solveF 47) sb93 55 7 [8, 9] sb97 rfl h2]
  rw [show List.set sb97 55 0 = sb93 from rfl]
  rw [tryLoop_cons_invalid (solveF 47) sb93 55 8 [9] rfl]
  rw [tryLoop_cons_invalid (solveF 47) sb93 55 9 [] rfl]
  exact tryLoop_nil (solveF 47) sb93 55

theorem stp92 : solveF 49 sb92 = (false, sb92) := by
  show tryLoop (solveF 48) sb92 54 [1, 2, 3, 4, 5, 6, 7, 8, 9] = _
  have h1 : solveF 48 (List.set sb92 54 1) = (false, sb93) := by
    rw [show List.set sb92 54 1 = sb93 from rfl]
    exact stp93
  rw [tryLoop_cons_valid_false (solveF 48) sb92 54 1 [2, 3, 4, 5, 6, 7, 8, 9] sb93 rfl h1]
  rw [show List.set sb93 54 0 = sb92 from rfl]
  rw [tryLoop_cons_invalid (solveF 48) sb92 54 2 [3, 4, 5, 6, 7, 8, 9] rfl]
  rw [tryLoop_cons_invalid (solveF 48) sb92 54 3 [4, 5, 6, 7, 8, 9] rfl]
  rw [tryLoop_cons_invalid (solveF 48) sb92 54 4 [5, 6, 7, 8, 9] rfl]
  rw [tryLoop_cons_invalid (solveF 48) sb92 54 5 [6, 7, 8, 9] rfl]
  rw [tryLoop_cons_invalid (solveF 48) sb92 54 6 [7, 8, 9] rfl]
  rw [tryLoop_cons_invalid (solveF 48) sb92 54 7 [8, 9] rfl]
  rw [tryLoop_cons_invalid (solveF 48) sb92 54 8 [9] rfl]
  rw [tryLoop_cons_invalid (solveF 48) sb92 54 9 [] rfl]
  exact tryLoop_nil (solveF 48) sb92 54

theorem stp91 : solveF 50 sb91 = (false, sb91) := by
  show tryLoop (solveF 49) sb91 53 [1, 2, 3, 4, 5, 6, 7, 8, 9] = _
  rw [tryLoop_cons_invalid (solveF 49) sb91 53 1 [2, 3, 4, 5, 6, 7, 8, 9] rfl]
  rw [tryLoop_cons_invalid (solveF 49) sb91 53 2 [3, 4, 5, 6, 7, 8, 9] rfl]
  rw [tryLoop_cons_invalid (solveF 49) sb91 53 3 [4, 5, 6, 7, 8, 9] rfl]
  have h1 : solveF 49 (List.set sb91 53 4) = (false, sb92) := by
    rw [show List.set sb91 53 4 = sb92 from rfl]
    exact stp92
  rw [tryLoop_cons_valid_false (solveF 49) sb91 53 4 [5, 6, 7, 8, 9] sb92 rfl h1]
  rw [show List.set sb92 53 0 = sb91 from rfl]
  rw [tryLoop_cons_invalid (solveF 49) sb91 53 5 [6, 7, 8, 9] rfl]
  rw [tryLoop_cons_invalid (solveF 49) sb91 53 6 [7, 8, 9] rfl]
  rw [tryLoop_cons_invalid (solveF 49) sb91 53 7 [8, 9] rfl]
  rw [tryLoop_cons_invalid (solveF 49) sb91 53 8 [9] rfl]
  rw [tryLoop_cons_invalid (solveF 49) sb91 53 9 [] rfl]
  exact tryLoop_nil (solveF 49) sb91 53

theorem stp100 : solveF 50 sb100 = (false, sb100) := by
  show tryLoop (solveF 49) sb100 53 [1, 2, 3, 4, 5, 6, 7, 8, 9] = _
  rw [tryLoop_cons_invalid (solveF 49) sb100 53 1 [2, 3, 4, 5, 6, 7, 8, 9] rfl]
  rw [tryLoop_cons_invalid (solveF 49) sb100 53 2 [3, 4, 5, 6, 7, 8, 9] rfl]
  rw [tryLoop_cons_invalid (solveF 49) sb100 53 3 [4, 5, 6, 7, 8, 9] rfl]
  rw [tryLoop_cons_invalid (solveF 49) sb100 53 4 [5, 6, 7, 8, 9] rfl]
  rw [tryLoop_cons_invalid (solveF 49) sb100 53 5 [6, 7, 8, 9] rfl]
  rw [tryLoop_cons_invalid (solveF 49) sb100 53 6 [7, 8, 9] rfl]
  rw [tryLoop_cons_invalid (solveF 49) sb100 53 7 [8, 9] rfl]
  rw [tryLoop_cons_invalid (solveF 49) sb100 53 8 [9] rfl]
  rw [tryLoop_cons_invalid (solveF 49) sb100 53 9 [] rfl]
  exact tryLoop_nil (solveF 49) sb100 53

theorem stp90 : solveF 51 sb90 = (false, sb90) := by
  show tryLoop (solveF 50) sb90 52 [1, 2, 3, 4, 5, 6, 7, 8, 9] = _
  rw [tryLoop_cons_invalid (solveF 50) sb90 52 1 [2, 3, 4, 5, 6, 7, 8, 9] rfl]
  rw [tryLoop_cons_invalid (solveF 50) sb90 52 2 [3, 4, 5, 6, 7, 8, 9] rfl]
  have h1 : solveF 50 (List.set sb90 52 3) = (false, sb91) := by
    rw [show List.set sb90 52 3 = sb91 from rfl]
    exact stp91
  rw [tryLoop_cons_valid_false (solveF 50) sb90 52 3 [4, 5, 6, 7, 8, 9] sb91 rfl h1]
  rw [show List.set sb91 52 0 = sb90 from rfl]
  have h2 : solveF 50 (List.set sb90 52 4) = (false, sb100) := by
    rw [show List.set sb90 52 4 = sb100 from rfl]
    exact stp100
  rw [tryLoop_cons_valid_false (solveF 50) sb90 52 4 [5, 6, 7, 8, 9] sb100 rfl h2]
  rw [show List.set sb100 52 0 = sb90 from rfl]
  rw [tryLoop_cons_invalid (solveF 50) sb90 52 5 [6, 7, 8, 9] rfl]
  rw [tryLoop_cons_invalid (solveF 50) sb90 52 6 [7, 8, 9] rfl]
  rw [tryLoop_cons_invalid (solveF 50) sb90 52 7 [8, 9] rfl]
  rw [tryLoop_cons_invalid (solveF 50) sb90 52 8 [9] rfl]
  rw [tryLoop_cons_invalid (solveF 50) sb90 52 9 [] rfl]
  exact tryLoop_nil (solveF 50) sb90 52

theorem stp89 : solveF 52 sb89 = (false, sb89) := by
  show tryLoop (solveF 51) sb89 49 [1, 2, 3, 4, 5, 6, 7, 8, 9] = _
  rw [tryLoop_cons_invalid (solveF 51) sb89 49 1 [2, 3, 4, 5, 6, 7, 8, 9] rfl]
  rw [tryLoop_cons_invalid (solveF 51) sb89 49 2 [3, 4, 5, 6, 7, 8, 9] rfl]
  rw [tryLoop_cons_invalid (solveF 51) sb89 49 3 [4, 5, 6, 7, 8, 9] rfl]
  rw [tryLoop_cons_invalid (solveF 51) sb89 49 4 [5, 6, 7, 8, 9] rfl]
  rw [tryLoop_cons_invalid (solveF 51) sb89 49 5 [6, 7, 8, 9] rfl]
  rw [tryLoop_cons_invalid (solveF 51) sb89 49 6 [7, 8, 9] rfl]
  rw [tryLoop_cons_invalid (solveF 51) sb89 49 7 [8, 9] rfl]
  rw [tryLoop_cons_invalid (solveF 51) sb89 49 8 [9] rfl]
  have h1 : solveF 51 (List.set sb89 49 9) = (false, sb90) := by
    rw [show List.set sb89 49 9 = sb90 from rfl]
    exact stp90
  rw [tryLoop_cons_valid_false (solveF 51) sb89 49 9 [] sb90 rfl h1]
  rw [show List.set sb90 49 0 = sb89 from rfl]
  exact tryLoop_nil (solveF 51) sb89 49

theorem stp88 : solveF 53 sb88 = (false, sb88) := by
  show tryLoop (solveF 52) sb88 46 [1, 2, 3, 4, 5, 6, 7, 8, 9] = _
  have h1 : solveF 52 (List.set sb88 46 1) = (false, sb89) := by
    rw [show List.set sb88 46 1 = sb89 from rfl]
    exact stp89
  rw [tryLoop_cons_valid_false (solveF 52) sb88 46 1 [2, 3, 4, 5, 6, 7, 8, 9] sb89 rfl h1]
  rw [show List.set sb89 46 0 = sb88 from rfl]
  rw [tryLoop_cons_invalid (solveF 52) sb88 46 2 [3, 4, 5, 6, 7, 8, 9] rfl]
  rw [tryLoop_cons_invalid (solveF 52) sb88 46 3 [4, 5, 6, 7, 8, 9] rfl]
  rw [tryLoop_cons_invalid (solveF 52) sb88 46 4 [5, 6, 7, 8, 9] rfl]
  rw [tryLoop_cons_invalid (solveF 52) sb88 46 5 [6, 7, 8, 9] rfl]
  rw [tryLoop_cons_invalid (solveF 52) sb88 46 6 [7, 8, 9] rfl]
  rw [tryLoop_cons_invalid (solveF 52) sb88 46 7 [8, 9] rfl]
  rw [tryLoop_cons_invalid (solveF 52) sb88 46 8 [9] rfl]
  rw [tryLoop_cons_invalid (solveF 52) sb88 46 9 [] rfl]
  exact tryLoop_nil (solveF 52) sb88 46

theorem stp86 : solveF 54 sb86 = (false, sb86) := by
  show tryLoop (solveF 53) sb86 45 [1, 2, 3, 4, 5, 6, 7, 8, 9] = _
  have h1 : solveF 53 (List.set sb86 45 1) = (false, sb87) := by
    rw [show List.set sb86 45 1 = sb87 from rfl]
    exact stp87
  rw [tryLoop_cons_valid_false (solveF 53) sb86 45 1 [2, 3, 4, 5, 6, 7, 8, 9] sb87 rfl h1]
  rw [show List.set sb87 45 0 = sb86 from rfl]
  rw [tryLoop_cons_invalid (solveF 53) sb86 45 2 [3, 4, 5, 6, 7, 8, 9] rfl]
  rw [tryLoop_cons_invalid (solveF 53) sb86 45 3 [4, 5, 6, 7, 8, 9] rfl]
  rw [tryLoop_cons_invalid (solveF 53) sb86 45 4 [5, 6, 7, 8, 9] rfl]
  have h2 : solveF 53 (List.set sb86 45 5) = (false, sb88) := by
    rw [show List.set sb86 45 5 = sb88 from rfl]
    exact stp88
  rw [tryLoop_cons_valid_false (solveF 53) sb86 45 5 [6, 7, 8, 9] sb88 rfl h2]
  rw [show List.set sb88 45 0 = sb86 from rfl]
  rw [tryLoop_cons_invalid (solveF 53) sb86 45 6 [7, 8, 9] rfl]
  rw [tryLoop_cons_invalid (solveF 53) sb86 45 7 [8, 9] rfl]
  rw [tryLoop_cons_invalid (solveF 53) sb86 45 8 [9] rfl]
  rw [tryLoop_cons_invalid (solveF 53) sb86 45 9 [] rfl]
  exact tryLoop_nil (solveF 53) sb86 45

theorem stp85 : solveF 55 sb85 = (false, sb85) := by
  show tryLoop (solveF 54) sb85 43 [1, 2, 3, 4, 5, 6, 7, 8, 9] = _
  rw [tryLoop_cons_invalid (solveF 54) sb85 43 1 [2, 3, 4, 5, 6, 7, 8, 9] rfl]
  rw [tryLoop_cons_invalid (solveF 54) sb85 43 2 [3, 4, 5, 6, 7, 8, 9] rfl]
  rw [tryLoop_cons_invalid (solveF 54) sb85 43 3 [4, 5, 6, 7, 8, 9] rfl]
  rw [tryLoop_cons_invalid (solveF 54) sb85 43 4 [5, 6, 7, 8, 9] rfl]
  rw [tryLoop_cons_invalid (solveF 54) sb85 43 5 [6, 7, 8, 9] rfl]
  have h1 : solveF 54 (List.set sb85 43 6) = (false, sb86) := by
    rw [show List.set sb85 43 6 = sb86 from rfl]
    exact stp86
  rw [tryLoop_cons_valid_false (solveF 54) sb85 43 6 [7, 8, 9] sb86 rfl h1]
  rw [show List.set sb86 43 0 = sb85 from rfl]
  rw [tryLoop_cons_invalid (solveF 54) sb85 43 7 [8, 9] rfl]
  rw [tryLoop_cons_invalid (solveF 54) sb85 43 8 [9] rfl]
  rw [tryLoop_cons_invalid (solveF 54) sb85 43 9 [] rfl]
  exact tryLoop_nil (solveF 54) sb85 43

theorem stp84 : solveF 56 sb84 = (false, sb84) := by
  show tryLoop (solveF 55) sb84 42 [1, 2, 3, 4, 5, 6, 7, 8, 9] = _
  have h1 : solveF 55 (List.set sb84 42 1) = (false, sb85) := by
    rw [show List.set sb84 42 1 = sb85 from rfl]
    exact stp85
  rw [tryLoop_cons_valid_false (solveF 55) sb84 42 1 [2, 3, 4, 5, 6, 7, 8, 9] sb85 rfl h1]
  rw [show List.set sb85 42 0 = sb84 from rfl]
  rw [tryLoop_cons_invalid (solveF 55) sb84 42 2 [3, 4, 5, 6, 7, 8, 9] rfl]
  rw [tryLoop_cons_invalid (solveF 55) sb84 42 3 [4, 5, 6, 7, 8, 9] rfl]
  rw [tryLoop_cons_invalid (solveF 55) sb84 42 4 [5, 6, 7, 8, 9] rfl]
  rw [tryLoop_cons_invalid (solveF 55) sb84 42 5 [6, 7, 8, 9] rfl]
  rw [tryLoop_cons_invalid (solveF 55) sb84 42 6 [7, 8, 9] rfl]
  rw [tryLoop_cons_invalid (solveF 55) sb84 42 7 [8, 9] rfl]
  rw [tryLoop_cons_invalid (solveF 55) sb84 42 8 [9] rfl]
  rw [tryLoop_cons_invalid (solveF 55) sb84 42 9 [] rfl]
  exact tryLoop_nil (solveF 55) sb84 42

theorem stp83 : solveF 57 sb83 = (false, sb83) := by
  show tryLoop (solveF 56) sb83 41 [1, 2, 3, 4, 5, 6, 7, 8, 9] = _
  rw [tryLoop_cons_invalid (solveF 56) sb83 41 1 [2, 3, 4, 5, 6, 7, 8, 9] rfl]
  rw [tryLoop_cons_invalid (solveF 56) sb83 41 2 [3, 4, 5, 6, 7, 8, 9] rfl]
  rw [tryLoop_cons_invalid (solveF 56) sb83 41 3 [4, 5, 6, 7, 8, 9] rfl]
  have h1 : solveF 56 (List.set sb83 41 4) = (false, sb84) := by
    rw [show List.set sb83 41 4 = sb84 from rfl]
    exact stp84
  rw [tryLoop_cons_valid_false (solveF 56) sb83 41 4 [5, 6, 7, 8, 9] sb84 rfl h1]
  rw [show List.set sb84 41 0 = sb83 from rfl]
  rw [tryLoop_cons_invalid (solveF 56) sb83 41 5 [6, 7, 8, 9] rfl]
  rw [tryLoop_cons_invalid (solveF 56) sb83 41 6 [7, 8, 9] rfl]
  rw [tryLoop_cons_invalid (solveF 56) sb83 41 7 [8, 9] rfl]
  rw [tryLoop_cons_invalid (solveF 56) sb83 41 8 [9] rfl]
  rw [tryLoop_cons_invalid (solveF 56) sb83 41 9 [] rfl]
  exact tryLoop_nil (solveF 56) sb83 41

theorem stp82 : solveF 58 sb82 = (false, sb82) := by
  show tryLoop (solveF 57) sb82 40 [1, 2, 3, 4, 5, 6, 7, 8, 9] = _
  rw [tryLoop_cons_invalid (solveF 57) sb82 40 1 [2, 3, 4, 5, 6, 7, 8, 9] rfl]
  rw [tryLoop_cons_invalid (solveF 57) sb82 40 2 [3, 4, 5, 6, 7, 8, 9] rfl]
  have h1 : solveF 57 (List.set sb82 40 3) = (false, sb83) := by
    rw [show List.set sb82 40 3 = sb83 from rfl]
    exact stp83
  rw [tryLoop_cons_valid_false (solveF 57) sb82 40 3 [4, 5, 6, 7, 8, 9] sb83 rfl h1]
  rw [show List.set sb83 40 0 = sb82 from rfl]
  rw [tryLoop_cons_invalid (solveF 57) sb82 40 4 [5, 6, 7, 8, 9] rfl]
  rw [tryLoop_cons_invalid (solveF 57) sb82 40 5 [6, 7, 8, 9] rfl]
  rw [tryLoop_cons_invalid (solveF 57) sb82 40 6 [7, 8, 9] rfl]
  rw [tryLoop_cons_invalid (solveF 57) sb82 40 7 [8, 9] rfl]
  rw [tryLoop_cons_invalid (solveF 57) sb82 40 8 [9] rfl]
  rw [tryLoop_cons_invalid (solveF 57) sb82 40 9 [] rfl]
  exact tryLoop_nil (solveF 57) sb82 40

theorem stp78 : solveF 59 sb78 = (false, sb78) := by
  show tryLoop (solveF 58) sb78 39 [1, 2, 3, 4, 5, 6, 7, 8, 9] = _
  rw [tryLoop_cons_invalid (solveF 58) sb78 39 1 [2, 3, 4, 5, 6, 7, 8, 9] rfl]
  rw [tryLoop_cons_invalid (solveF 58) sb78 39 2 [3, 4, 5, 6, 7, 8, 9] rfl]
  rw [tryLoop_cons_invalid (solveF 58) sb78 39 3 [4, 5, 6, 7, 8, 9] rfl]
  have h1 : solveF 58 (List.set sb78 39 4) = (false, sb79) := by
    rw [show List.set sb78 39 4 = sb79 from rfl]
    exact stp79
  rw [tryLoop_cons_valid_false (solveF 58) sb78 39 4 [5, 6, 7, 8, 9] sb79 rfl h1]
  rw [show List.set sb79 39 0 = sb78 from rfl]
  have h2 : solveF 58 (List.set sb78 39 5) = (false, sb82) := by
    rw [show List.set sb78 39 5 = sb82 from rfl]
    exact stp82
  rw [tryLoop_cons_valid_false (solveF 58) sb78 39 5 [6, 7, 8, 9] sb82 rfl h2]
  rw [show List.set sb82 39 0 = sb78 from rfl]
  rw [tryLoop_cons_invalid (solveF 58) sb78 39 6 [7, 8, 9] rfl]
  rw [tryLoop_cons_invalid (solveF 58) sb78 39 7 [8, 9] rfl]
  rw [tryLoop_cons_invalid (solveF 58) sb78 39 8 [9] rfl]
  rw [tryLoop_cons_invalid (solveF 58) sb78 39 9 [] rfl]
  exact tryLoop_nil (solveF 58) sb78 39

theorem stp77 : solveF 60 sb77 = (false, sb77) := by
  show tryLoop (solveF 59) sb77 38 [1, 2, 3, 4, 5, 6, 7, 8, 9] = _
  rw [tryLoop_cons_invalid (solveF 59) sb77 38 1 [2, 3, 4, 5, 6, 7, 8, 9] rfl]
  rw [tryLoop_cons_invalid (solveF 59) sb77 38 2 [3, 4, 5, 6, 7, 8, 9] rfl]
  rw [tryLoop_cons_invalid (solveF 59) sb77 38 3 [4, 5, 6, 7, 8, 9] rfl]
  rw [tryLoop_cons_invalid (solveF 59) sb77 38 4 [5, 6, 7, 8, 9] rfl]
  rw [tryLoop_cons_invalid (solveF 59) sb77 38 5 [6, 7, 8, 9] rfl]
  rw [tryLoop_cons_invalid (solveF 59) sb77 38 6 [7, 8, 9] rfl]
  rw [tryLoop_cons_invalid (solveF 59) sb77 38 7 [8, 9] rfl]
  rw [tryLoop_cons_invalid (solveF 59) sb77 38 8 [9] rfl]
  have h1 : solveF 59 (List.set sb77 38 9) = (false, sb78) := by
    rw [show List.set sb77 38 9 = sb78 from rfl]
    exact stp78
  rw [tryLoop_cons_valid_false (solveF 59) sb77 38 9 [] sb78 rfl h1]
  rw [show List.set sb78 38 0 = sb77 from rfl]
  exact tryLoop_nil (solveF 59) sb77 38

theorem stp101 : solveF 60 sb101 = (false, sb101) := by
  show tryLoop (solveF 59) sb101 38 [1, 2, 3, 4, 5, 6, 7, 8, 9] = _
  rw [tryLoop_cons_invalid (solveF 59) sb101 38 1 [2, 3, 4, 5, 6, 7, 8, 9] rfl]
  rw [tryLoop_cons_invalid (solveF 59) sb101 38 2 [3, 4, 5, 6, 7, 8, 9] rfl]
  rw [tryLoop_cons_invalid (solveF 59) sb101 38 3 [4, 5, 6, 7, 8, 9] rfl]
  rw [tryLoop_cons_invalid (solveF 59) sb101 38 4 [5, 6, 7, 8, 9] rfl]
  rw [tryLoop_cons_invalid (solveF 59) sb101 38 5 [6, 7, 8, 9] rfl]
  rw [tryLoop_cons_invalid (solveF 59) sb101 38 6 [7, 8, 9] rfl]
  rw [tryLoop_cons_invalid (solveF 59) sb101 38 7 [8, 9] rfl]
  rw [tryLoop_cons_invalid (solveF 59) sb101 38 8 [9] rfl]
  rw [tryLoop_cons_invalid (solveF 59) sb101 38 9 [] rfl]
  exact tryLoop_nil (solveF 59) sb101 38

theorem stp68 : solveF 61 sb68 = (false, sb68) := by
  show tryLoop (solveF 60) sb68 37 [1, 2, 3, 4, 5, 6, 7, 8, 9] = _
  have h1 : solveF 60 (List.set sb68 37 1) = (false, sb69) := by
    rw [show List.set sb68 37 1 = sb69 from rfl]
    exact stp69
  rw [tryLoop_cons_valid_false (solveF 60) sb68 37 1 [2, 3, 4, 5, 6, 7, 8, 9] sb69 rfl h1]
  rw [show List.set sb69 37 0 = sb68 from rfl]
  have h2 : solveF 60 (List.set sb68 37 2) = (false, sb77) := by
    rw [show List.set sb68 37 2 = sb77 from rfl]
    exact stp77
  rw [tryLoop_cons_valid_false (solveF 60) sb68 37 2 [3, 4, 5, 6, 7, 8, 9] sb77 rfl h2]
  rw [show List.set sb77 37 0 = sb68 from rfl]
  rw [tryLoop_cons_invalid (solveF 60) sb68 37 3 [4, 5, 6, 7, 8, 9] rfl]
  rw [tryLoop_cons_invalid (solveF 60) sb68 37 4 [5, 6, 7, 8, 9] rfl]
  rw [tryLoop_cons_invalid (solveF 60) sb68 37 5 [6, 7, 8, 9] rfl]
  rw [tryLoop_cons_invalid (solveF 60) sb68 37 6 [7, 8, 9] rfl]
  rw [tryLoop_cons_invalid (solveF 60) sb68 37 7 [8, 9] rfl]
  rw [tryLoop_cons_invalid (solveF 60) sb68 37 8 [9] rfl]
  have h3 : solveF 60 (List.set sb68 37 9) = (false, sb101) := by
    rw [show List.set sb68 37 9 = sb101 from rfl]
    exact stp101
  rw [tryLoop_cons_valid_false (solveF 60) sb68 37 9 [] sb101 rfl h3]
  rw [show List.set sb101 37 0 = sb68 from rfl]
  exact tryLoop_nil (solveF 60) sb68 37

theorem stp67 : solveF 62 sb67 = (false, sb67) := by
  show tryLoop (solveF 61) sb67 35 [1, 2, 3, 4, 5, 6, 7, 8, 9] = _
  rw [tryLoop_cons_invalid (solveF 61) sb67 35 1 [2, 3, 4, 5, 6, 7, 8, 9] rfl]
  rw [tryLoop_cons_invalid (solveF 61) sb67 35 2 [3, 4, 5, 6, 7, 8, 9] rfl]
  rw [tryLoop_cons_invalid (solveF 61) sb67 35 3 [4, 5, 6, 7, 8, 9] rfl]
  rw [tryLoop_cons_invalid (solveF 61) sb67 35 4 [5, 6, 7, 8, 9] rfl]
  have h1 : solveF 61 (List.set sb67 35 5) = (false, sb68) := by
    rw [show List.set sb67 35 5 = sb68 from rfl]
    exact stp68
  rw [tryLoop_cons_valid_false (solveF 61) sb67 35 5 [6, 7, 8, 9] sb68 rfl h1]
  rw [show List.set sb68 35 0 = sb67 from rfl]
  rw [tryLoop_cons_invalid (solveF 61) sb67 35 6 [7, 8, 9] rfl]
  rw [tryLoop_cons_invalid (solveF 61) sb67 35 7 [8, 9] rfl]
  rw [tryLoop_cons_invalid (solveF 61) sb67 35 8 [9] rfl]
  rw [tryLoop_cons_invalid (solveF 61) sb67 35 9 [] rfl]
  exact tryLoop_nil (solveF 61) sb67 35

theorem stp66 : solveF 63 sb66 = (false, sb66) := by
  show tryLoop (solveF 62) sb66 34 [1, 2, 3, 4, 5, 6, 7, 8, 9] = _
  rw [tryLoop_cons_invalid (solveF 62) sb66 34 1 [2, 3, 4, 5, 6, 7, 8, 9] rfl]
  rw [tryLoop_cons_invalid (solveF 62) sb66 34 2 [3, 4, 5, 6, 7, 8, 9] rfl]
  rw [tryLoop_cons_invalid (solveF 62) sb66 34 3 [4, 5, 6, 7, 8, 9] rfl]
  rw [tryLoop_cons_invalid (solveF 62) sb66 34 4 [5, 6, 7, 8, 9] rfl]
  rw [tryLoop_cons_invalid (solveF 62) sb66 34 5 [6, 7, 8, 9] rfl]
  rw [tryLoop_cons_invalid (solveF 62) sb66 34 6 [7, 8, 9] rfl]
  have h1 : solveF 62 (List.set sb66 34 7) = (false, sb67) := by
    rw [show List.set sb66 34 7 = sb67 from rfl]
    exact stp67
  rw [tryLoop_cons_valid_false (solveF 62) sb66 34 7 [8, 9] sb67 rfl h1]
  rw [show List.set sb67 34 0 = sb66 from rfl]
  rw [tryLoop_cons_invalid (solveF 62) sb66 34 8 [9] rfl]
  rw [tryLoop_cons_invalid (solveF 62) sb66 34 9 [] rfl]
  exact tryLoop_nil (solveF 62) sb66 34

theorem stp50 : solveF 64 sb50 = (false, sb50) := by
  show tryLoop (solveF 63) sb50 31 [1, 2, 3, 4, 5, 6, 7, 8, 9] = _
  rw [tryLoop_cons_invalid (solveF 63) sb50 31 1 [2, 3, 4, 5, 6, 7, 8, 9] rfl]
  rw [tryLoop_cons_invalid (solveF 63) sb50 31 2 [3, 4, 5, 6, 7, 8, 9] rfl]
  rw [tryLoop_cons_invalid (solveF 63) sb50 31 3 [4, 5, 6, 7, 8, 9] rfl]
  rw [tryLoop_cons_invalid (solveF 63) sb50 31 4 [5, 6, 7, 8, 9] rfl]
  have h1 : solveF 63 (List.set sb50 31 5) = (false, sb51) := by
    rw [show List.set sb50 31 5 = sb51 from rfl]
    exact stp51
  rw [tryLoop_cons_valid_false (solveF 63) sb50 31 5 [6, 7, 8, 9] sb51 rfl h1]
  rw [show List.set sb51 31 0 = sb50 from rfl]
  have h2 : solveF 63 (List.set sb50 31 6) = (false, sb66) := by
    rw [show List.set sb50 31 6 = sb66 from rfl]
    exact stp66
  rw [tryLoop_cons_valid_false (solveF 63) sb50 31 6 [7, 8, 9] sb66 rfl h2]
  rw [show List.set sb66 31 0 = sb50 from rfl]
  rw [tryLoop_cons_invalid (solveF 63) sb50 31 7 [8, 9] rfl]
  rw [tryLoop_cons_invalid (solveF 63) sb50 31 8 [9] rfl]
  rw [tryLoop_cons_invalid (solveF 63) sb50 31 9 [] rfl]
  exact tryLoop_nil (solveF 63) sb50 31

theorem stp49 : solveF 65 sb49 = (false, sb49) := by
  show tryLoop (solveF 64) sb49 28 [1, 2, 3, 4, 5, 6, 7, 8, 9] = _
  rw [tryLoop_cons_invalid (solveF 64) sb49 28 1 [2, 3, 4, 5, 6, 7, 8, 9] rfl]
  rw [tryLoop_cons_invalid (solveF 64) sb49 28 2 [3, 4, 5, 6, 7, 8, 9] rfl]
  rw [tryLoop_cons_invalid (solveF 64) sb49 28 3 [4, 5, 6, 7, 8, 9] rfl]
  have h1 : solveF 64 (List.set sb49 28 4) = (false, sb50) := by
    rw [show List.set sb49 28 4 = sb50 from rfl]
    exact stp50
  rw [tryLoop_cons_valid_false (solveF 64) sb49 28 4 [5, 6, 7, 8, 9] sb50 rfl h1]
  rw [show List.set sb50 28 0 = sb49 from rfl]
  rw [tryLoop_cons_invalid (solveF 64) sb49 28 5 [6, 7, 8, 9] rfl]
  rw [tryLoop_cons_invalid (solveF 64) sb49 28 6 [7, 8, 9] rfl]
  rw [tryLoop_cons_invalid (solveF 64) sb49 28 7 [8, 9] rfl]
  rw [tryLoop_cons_invalid (solveF 64) sb49 28 8 [9] rfl]
  rw [tryLoop_cons_invalid (solveF 64) sb49 28 9 [] rfl]
  exact tryLoop_nil (solveF 64) sb49 28

theorem stp105 : solveF 62 sb105 = (false, sb105) := by
  show tryLoop (solveF 61) sb105 35 [1, 2, 3, 4, 5, 6, 7, 8, 9] = _
  rw [tryLoop_cons_invalid (solveF 61) sb105 35 1 [2, 3, 4, 5, 6, 7, 8, 9] rfl]
  rw [tryLoop_cons_invalid (solveF 61) sb105 35 2 [3, 4, 5, 6, 7, 8, 9] rfl]
  rw [tryLoop_cons_invalid (solveF 61) sb105 35 3 [4, 5, 6, 7, 8, 9] rfl]
  rw [tryLoop_cons_invalid (solveF 61) sb105 35 4 [5, 6, 7, 8, 9] rfl]
  rw [tryLoop_cons_invalid (solveF 61) sb105 35 5 [6, 7, 8, 9] rfl]
  rw [tryLoop_cons_invalid (solveF 61) sb105 35 6 [7, 8, 9] rfl]
  rw [tryLoop_cons_invalid (solveF 61) sb105 35 7 [8, 9] rfl]
  rw [tryLoop_cons_invalid (solveF 61) sb105 35 8 [9] rfl]
  rw [tryLoop_cons_invalid (solveF 61) sb105 35 9 [] rfl]
  exact tryLoop_nil (solveF 61) sb105 35

theorem stp111 : solveF 57 sb111 = (false, sb111) := by
  show tryLoop (solveF 56) sb111 41 [1, 2, 3, 4, 5, 6, 7, 8, 9] = _
  rw [tryLoop_cons_invalid (solveF 56) sb111 41 1 [2, 3, 4, 5, 6, 7, 8, 9] rfl]
  rw [tryLoop_cons_invalid (solveF 56) sb111 41 2 [3, 4, 5, 6, 7, 8, 9] rfl]
  rw [tryLoop_cons_invalid (solveF 56) sb111 41 3 [4, 5, 6, 7, 8, 9] rfl]
  rw [tryLoop_cons_invalid (solveF 56) sb111 41 4 [5, 6, 7, 8, 9] rfl]
  rw [tryLoop_cons_invalid (solveF 56) sb111 41 5 [6, 7, 8, 9] rfl]
  rw [tryLoop_cons_invalid (solveF 56) sb111 41 6 [7, 8, 9] rfl]
  rw [tryLoop_cons_invalid (solveF 56) sb111 41 7 [8, 9] rfl]
  rw [tryLoop_cons_invalid (solveF 56) sb111 41 8 [9] rfl]
  rw [tryLoop_cons_invalid (solveF 56) sb111 41 9 [] rfl]
  exact tryLoop_nil (solveF 56) sb111 41

theorem stp112 : solveF 57 sb112 = (false, sb112) := by
  show tryLoop (solveF 56) sb112 41 [1, 2, 3, 4, 5, 6, 7, 8, 9] = _
  rw [tryLoop_cons_invalid (solveF 56) sb112 41 1 [2, 3, 4, 5, 6, 7, 8, 9] rfl]
  rw [tryLoop_cons_invalid (solveF 56) sb112 41 2 [3, 4, 5, 6, 7, 8, 9] rfl]
  rw [tryLoop_cons_invalid (solveF 56) sb112 41 3 [4, 5, 6, 7, 8, 9] rfl]
  rw [tryLoop_cons_invalid (solveF 56) sb112 41 4 [5, 6, 7, 8, 9] rfl]
  rw [tryLoop_cons_invalid (solveF 56) sb112 41 5 [6, 7, 8, 9] rfl]
  rw [tryLoop_cons_invalid (solveF 56) sb112 41 6 [7, 8, 9] rfl]
  rw [tryLoop_cons_invalid (solveF 56) sb112 41 7 [8, 9] rfl]
  rw [tryLoop_cons_invalid (solveF 56) sb112 41 8 [9] rfl]
  rw [tryLoop_cons_invalid (solveF 56) sb112 41 9 [] rfl]
  exact tryLoop_nil (solveF 56) sb112 41

theorem stp110 : solveF 58 sb110 = (false, sb110) := by
  show tryLoop (solveF 57) sb110 40 [1, 2, 3, 4, 5, 6, 7, 8, 9] = _
  rw [tryLoop_cons_invalid (solveF 57) sb110 40 1 [2, 3, 4, 5, 6, 7, 8, 9] rfl]
  rw [tryLoop_cons_invalid (solveF 57) sb110 40 2 [3, 4, 5, 6, 7, 8, 9] rfl]
  have h1 : solveF 57 (List.set sb110 40 3) = (false, sb111) := by
    rw [show List.set sb110 40 3 = sb111 from rfl]
    exact stp111
  rw [tryLoop_cons_valid_false (solveF 57) sb110 40 3 [4, 5, 6, 7, 8, 9] sb111 rfl h1]
  rw [show List.set sb111 40 0 = sb110 from rfl]
  rw [tryLoop_cons_invalid (solveF 57) sb110 40 4 [5, 6, 7, 8, 9] rfl]
  rw [tryLoop_cons_invalid (solveF 57) sb110 40 5 [6, 7, 8, 9] rfl]
  rw [tryLoop_cons_invalid (solveF 57) sb110 40 6 [7, 8, 9] rfl]
  rw [tryLoop_cons_invalid (solveF 57) sb110 40 7 [8, 9] rfl]
  rw [tryLoop_cons_invalid (solveF 57) sb110 40 8 [9] rfl]
  have h2 : solveF 57 (List.set sb110 40 9) = (false, sb112) := by
    rw [show List.set sb110 40 9 = sb112 from rfl]
    exact stp112
  rw [tryLoop_cons_valid_false (solveF 57) sb110 40 9 [] sb112 rfl h2]
  rw [show List.set sb112 40 0 = sb110 from rfl]
  exact tryLoop_nil (solveF 57) sb110 40

theorem stp109 : solveF 59 sb109 = (false, sb109) := by
  show tryLoop (solveF 58) sb109 39 [1, 2, 3, 4, 5, 6, 7, 8, 9] = _
  rw [tryLoop_cons_invalid (solveF 58) sb109 39 1 [2, 3, 4, 5, 6, 7, 8, 9] rfl]
  rw [tryLoop_cons_invalid (solveF 58) sb109 39 2 [3, 4, 5, 6, 7, 8, 9] rfl]
  rw [tryLoop_cons_invalid (solveF 58) sb109 39 3 [4, 5, 6, 7, 8, 9] rfl]
  rw [tryLoop_cons_invalid (solveF 58) sb109 39 4 [5, 6, 7, 8, 9] rfl]
  have h1 : solveF 58 (List.set sb109 39 5) = (false, sb110) := by
    rw [show List.set sb109 39 5 = sb110 from rfl]
    exact stp110
  rw [tryLoop_cons_valid_false (solveF 58) sb109 39 5 [6, 7, 8, 9] sb110 rfl h1]
  rw [show List.set sb110 39 0 = sb109 from rfl]
  rw [tryLoop_cons_invalid (solveF 58) sb109 39 6 [7, 8, 9] rfl]
  rw [tryLoop_cons_invalid (solveF 58) sb109 39 7 [8, 9] rfl]
  rw [tryLoop_cons_invalid (solveF 58) sb109 39 8 [9] rfl]
  rw [tryLoop_cons_invalid (solveF 58) sb109 39 9 [] rfl]
  exact tryLoop_nil (solveF 58) sb109 39

theorem stp115 : solveF 57 sb115 = (false, sb115) := by
  show tryLoop (solveF 56) sb115 41 [1, 2, 3, 4, 5, 6, 7, 8, 9] = _
  rw [tryLoop_cons_invalid (solveF 56) sb115 41 1 [2, 3, 4, 5, 6, 7, 8, 9] rfl]
  rw [tryLoop_cons_invalid (solveF 56) sb115 41 2 [3, 4, 5, 6, 7, 8, 9] rfl]
  rw [tryLoop_cons_invalid (solveF 56) sb115 41 3 [4, 5, 6, 7, 8, 9] rfl]
  rw [tryLoop_cons_invalid (solveF 56) sb115 41 4 [5, 6, 7, 8, 9] rfl]
  rw [tryLoop_cons_invalid (solveF 56) sb115 41 5 [6, 7, 8, 9] rfl]
  rw [tryLoop_cons_invalid (solveF 56) sb115 41 6 [7, 8, 9] rfl]
  rw [tryLoop_cons_invalid (solveF 56) sb115 41 7 [8, 9] rfl]
  rw [tryLoop_cons_invalid (solveF 56) sb115 41 8 [9] rfl]
  rw [tryLoop_cons_invalid (solveF 56) sb115 41 9 [] rfl]
  exact tryLoop_nil (solveF 56) sb115 41

theorem stp116 : solveF 57 sb116 = (false, sb116) := by
  show tryLoop (solveF 56) sb116 41 [1, 2, 3, 4, 5, 6, 7, 8, 9] = _
  rw [tryLoop_cons_invalid (solveF 56) sb116 41 1 [2, 3, 4, 5, 6, 7, 8, 9] rfl]
  rw [tryLoop_cons_invalid (solveF 56) sb116 41 2 [3, 4, 5, 6, 7, 8, 9] rfl]
  rw [tryLoop_cons_invalid (solveF 56) sb116 41 3 [4, 5, 6, 7, 8, 9] rfl]
  rw [tryLoop_cons_invalid (solveF 56) sb116 41 4 [5, 6, 7, 8, 9] rfl]
  rw [tryLoop_cons_invalid (solveF 56) sb116 41 5 [6, 7, 8, 9] rfl]
  rw [tryLoop_cons_invalid (solveF 56) sb116 41 6 [7, 8, 9] rfl]
  rw [tryLoop_cons_invalid (solveF 56) sb116 41 7 [8, 9] rfl]
  rw [tryLoop_cons_invalid (solveF 56) sb116 41 8 [9] rfl]
  rw [tryLoop_cons_invalid (solveF 56) sb116 41 9 [] rfl]
  exact tryLoop_nil (solveF 56) sb116 41

theorem stp114 : solveF 58 sb114 = (false, sb114) := by
  show tryLoop (solveF 57) sb114 40 [1, 2, 3, 4, 5, 6, 7, 8, 9] = _
  rw [tryLoop_cons_invalid (solveF 57) sb114 40 1 [2, 3, 4, 5, 6, 7, 8, 9] rfl]
  rw [tryLoop_cons_invalid (solveF 57) sb114 40 2 [3, 4, 5, 6, 7, 8, 9] rfl]
  have h1 : solveF 57 (List.set sb114 40 3) = (false, sb115) := by
    rw [show List.set sb114 40 3 = sb115 from rfl]
    exact stp115
  rw [tryLoop_cons_valid_false (solveF 57) sb114 40 3 [4, 5, 6, 7, 8, 9] sb115 rfl h1]
  rw [show List.set sb115 40 0 = sb114 from rfl]
  rw [tryLoop_cons_invalid (solveF 57) sb114 40 4 [5, 6, 7, 8, 9] rfl]
  have h2 : solveF 57 (List.set sb114 40 5) = (false, sb116) := by
    rw [show List.set sb114 40 5 = sb116 from rfl]
    exact stp116
  rw [tryLoop_cons_valid_false (solveF 57) sb114 40 5 [6, 7, 8, 9] sb116 rfl h2]
  rw [show List.set sb116 40 0 = sb114 from rfl]
  rw [tryLoop_cons_invalid (solveF 57) sb114 40 6 [7, 8, 9] rfl]
  rw [tryLoop_cons_invalid (solveF 57) sb114 40 7 [8, 9] rfl]
  rw [tryLoop_cons_invalid (solveF 57) sb114 40 8 [9] rfl]
  rw [tryLoop_cons_invalid (solveF 57) sb114 40 9 [] rfl]
  exact tryLoop_nil (solveF 57) sb114 40

theorem stp119 : solveF 56 sb119 = (false, sb119) := by
  show tryLoop (solveF 55) sb119 42 [1, 2, 3, 4, 5, 6, 7, 8, 9] = _
  rw [tryLoop_cons_invalid (solveF 55) sb119 42 1 [2, 3, 4, 5, 6, 7, 8, 9] rfl]
  rw [tryLoop_cons_invalid (solveF 55) sb119 42 2 [3, 4, 5, 6, 7, 8, 9] rfl]
  rw [tryLoop_cons_invalid (solveF 55) sb119 42 3 [4, 5, 6, 7, 8, 9] rfl]
  rw [tryLoop_cons_invalid (solveF 55) sb119 42 4 [5, 6, 7, 8, 9] rfl]
  rw [tryLoop_cons_invalid (solveF 55) sb119 42 5 [6, 7, 8, 9] rfl]
  rw [tryLoop_cons_invalid (solveF 55) sb119 42 6 [7, 8, 9] rfl]
  rw [tryLoop_cons_invalid (solveF 55) sb119 42 7 [8, 9] rfl]
  rw [tryLoop_cons_invalid (solveF 55) sb119 42 8 [9] rfl]
  rw [tryLoop_cons_invalid (solveF 55) sb119 42 9 [] rfl]
  exact tryLoop_nil (solveF 55) sb119 42

theorem stp118 : solveF 57 sb118 = (false, sb118) := by
  show tryLoop (solveF 56) sb118 41 [1, 2, 3, 4, 5, 6, 7, 8, 9] = _
  rw [tryLoop_cons_invalid (solveF 56) sb118 41 1 [2, 3, 4, 5, 6, 7, 8, 9] rfl]
  rw [tryLoop_cons_invalid (solveF 56) sb118 41 2 [3, 4, 5, 6, 7, 8, 9] rfl]
  rw [tryLoop_cons_invalid (solveF 56) sb118 41 3 [4, 5, 6, 7, 8, 9] rfl]
  have h1 : solveF 56 (List.set sb118 41 4) = (false, sb119) := by
    rw [show List.set sb118 41 4 = sb119 from rfl]
    exact stp119
  rw [tryLoop_cons_valid_false (solveF 56) sb118 41 4 [5, 6, 7, 8, 9] sb119 rfl h1]
  rw [show List.set sb119 41 0 = sb118 from rfl]
  rw [tryLoop_cons_invalid (solveF 56) sb118 41 5 [6, 7, 8, 9] rfl]
  rw [tryLoop_cons_invalid (solveF 56) sb118 41 6 [7, 8, 9] rfl]
  rw [tryLoop_cons_invalid (solveF 56) sb118 41 7 [8, 9] rfl]
  rw [tryLoop_cons_invalid (solveF 56) sb118 41 8 [9] rfl]
  rw [tryLoop_cons_invalid (solveF 56) sb118 41 9 [] rfl]
  exact tryLoop_nil (solveF 56) sb118 41

theorem stp117 : solveF 58 sb117 = (false, sb117) := by
  show tryLoop (solveF 57) sb117 40 [1, 2, 3, 4, 5, 6, 7, 8, 9] = _
  rw [tryLoop_cons_invalid (solveF 57) sb117 40 1 [2, 3, 4, 5, 6, 7, 8, 9] rfl]
  rw [tryLoop_cons_invalid (solveF 57) sb117 40 2 [3, 4, 5, 6, 7, 8, 9] rfl]
  have h1 : solveF 57 (List.set sb117 40 3) = (false, sb118) := by
    rw [show List.set sb117 40 3 = sb118 from rfl]
    exact stp118
  rw [tryLoop_cons_valid_false (solveF 57) sb117 40 3 [4, 5, 6, 7, 8, 9] sb118 rfl h1]
  rw [show List.set sb118 40 0 = sb117 from rfl]
  rw [tryLoop_cons_invalid (solveF 57) sb117 40 4 [5, 6, 7, 8, 9] rfl]
  rw [tryLoop_cons_invalid (solveF 57) sb117 40 5 [6, 7, 8, 9] rfl]
  rw [tryLoop_cons_invalid (solveF 57) sb117 40 6 [7, 8, 9] rfl]
  rw [tryLoop_cons_invalid (solveF 57) sb117 40 7 [8, 9] rfl]
  rw [tryLoop_cons_invalid (solveF 57) sb117 40 8 [9] rfl]
  rw [tryLoop_cons_invalid (solveF 57) sb117 40 9 [] rfl]
  exact tryLoop_nil (solveF 57) sb117 40

theorem stp113 : solveF 59 sb113 = (false, sb113) := by
  show tryLoop (solveF 58) sb113 39 [1, 2, 3, 4, 5, 6, 7, 8, 9] = _
  rw [tryLoop_cons_invalid (solveF 58) sb113 39 1 [2, 3, 4, 5, 6, 7, 8, 9] rfl]
  rw [tryLoop_cons_invalid (solveF 58) sb113 39 2 [3, 4, 5, 6, 7, 8, 9] rfl]
  rw [tryLoop_cons_invalid (solveF 58) sb113 39 3 [4, 5, 6, 7, 8, 9] rfl]
  have h1 : solveF 58 (List.set sb113 39 4) = (false, sb114) := by
    rw [show List.set sb113 39 4 = sb114 from rfl]
    exact stp114
  rw [tryLoop_cons_valid_false (solveF 58) sb113 39 4 [5, 6, 7, 8, 9] sb114 rfl h1]
  rw [show List.set sb114 39 0 = sb113 from rfl]
  have h2 : solveF 58 (List.set sb113 39 5) = (false, sb117) := by
    rw [show List.set sb113 39 5 = sb117 from rfl]
    exact stp117
  rw [tryLoop_cons_valid_false (solveF 58) sb113 39 5 [6, 7, 8, 9] sb117 rfl h2]
  rw [show List.set sb117 39 0 = sb113 from rfl]
  rw [tryLoop_cons_invalid (solveF 58) sb113 39 6 [7, 8, 9] rfl]
  rw [tryLoop_cons_invalid (solveF 58) sb113 39 7 [8, 9] rfl]
  rw [tryLoop_cons_invalid (solveF 58) sb113 39 8 [9] rfl]
  rw [tryLoop_cons_invalid (solveF 58) sb113 39 9 [] rfl]
  exact tryLoop_nil (solveF 58) sb113 39

theorem stp108 : solveF 60 sb108 = (false, sb108) := by
  show tryLoop (solveF 59) sb108 38 [1, 2, 3, 4, 5, 6, 7, 8, 9] = _
  rw [tryLoop_cons_invalid (solveF 59) sb108 38 1 [2, 3, 4, 5, 6, 7, 8, 9] rfl]
  rw [tryLoop_cons_invalid (solveF 59) sb108 38 2 [3, 4, 5, 6, 7, 8, 9] rfl]
  rw [tryLoop_cons_invalid (solveF 59) sb108 38 3 [4, 5, 6, 7, 8, 9] rfl]
  have h1 : solveF 59 (List.set sb108 38 4) = (false, sb109) := by
    rw [show List.set sb108 38 4 = sb109 from rfl]
    exact stp109
  rw [tryLoop_cons_valid_false (solveF 59) sb108 38 4 [5, 6, 7, 8, 9] sb109 rfl h1]
  rw [show List.set sb109 38 0 = sb108 from rfl]
  rw [tryLoop_cons_invalid (solveF 59) sb108 38 5 [6, 7, 8, 9] rfl]
  rw [tryLoop_cons_invalid (solveF 59) sb108 38 6 [7, 8, 9] rfl]
  rw [tryLoop_cons_invalid (solveF 59) sb108 38 7 [8, 9] rfl]
  rw [tryLoop_cons_invalid (solveF 59) sb108 38 8 [9] rfl]
  have h2 : solveF 59 (List.set sb108 38 9) = (false, sb113) := by
    rw [show List.set sb108 38 9 = sb113 from rfl]
    exact stp113
  rw [tryLoop_cons_valid_false (solveF 59) sb108 38 9 [] sb113 rfl h2]
  rw [show List.set sb113 38 0 = sb108 from rfl]
  exact tryLoop_nil (solveF 59) sb108 38

theorem stp123 : solveF 57 sb123 = (false, sb123) := by
  show tryLoop (solveF 56) sb123 41 [1, 2, 3, 4, 5, 6, 7, 8, 9] = _
  rw [tryLoop_cons_invalid (solveF 56) sb123 41 1 [2, 3, 4, 5, 6, 7, 8, 9] rfl]
  rw [tryLoop_cons_invalid (solveF 56) sb123 41 2 [3, 4, 5, 6, 7, 8, 9] rfl]
  rw [tryLoop_cons_invalid (solveF 56) sb123 41 3 [4, 5, 6, 7, 8, 9] rfl]
  rw [tryLoop_cons_invalid (solveF 56) sb123 41 4 [5, 6, 7, 8, 9] rfl]
  rw [tryLoop_cons_invalid (solveF 56) sb123 41 5 [6, 7, 8, 9] rfl]
  rw [tryLoop_cons_invalid (solveF 56) sb123 41 6 [7, 8, 9] rfl]
  rw [tryLoop_cons_invalid (solveF 56) sb123 41 7 [8, 9] rfl]
  rw [tryLoop_cons_invalid (solveF 56) sb123 41 8 [9] rfl]
  rw [tryLoop_cons_invalid (solveF 56) sb123 41 9 [] rfl]
  exact tryLoop_nil (solveF 56) sb123 41

theorem stp124 : solveF 57 sb124 = (false, sb124) := by
  show tryLoop (solveF 56) sb124 41 [1, 2, 3, 4, 5, 6, 7, 8, 9] = _
  rw [tryLoop_cons_invalid (solveF 56) sb124 41 1 [2, 3, 4, 5, 6, 7, 8, 9] rfl]
  rw [tryLoop_cons_invalid (solveF 56) sb124 41 2 [3, 4, 5, 6, 7, 8, 9] rfl]
  rw [tryLoop_cons_invalid (solveF 56) sb124 41 3 [4, 5, 6, 7, 8, 9] rfl]
  rw [tryLoop_cons_invalid (solveF 56) sb124 41 4 [5, 6, 7, 8, 9] rfl]
  rw [tryLoop_cons_invalid (solveF 56) sb124 41 5 [6, 7, 8, 9] rfl]
  rw [tryLoop_cons_invalid (solveF 56) sb124 41 6 [7, 8, 9] rfl]
  rw [tryLoop_cons_invalid (solveF 56) sb124 41 7 [8, 9] rfl]
  rw [tryLoop_cons_invalid (solveF 56) sb124 41 8 [9] rfl]
  rw [tryLoop_cons_invalid (solveF 56) sb124 41 9 [] rfl]
  exact tryLoop_nil (solveF 56) sb124 41

theorem stp122 : solveF 58 sb122 = (false, sb122) := by
  show tryLoop (solveF 57) sb122 40 [1, 2, 3, 4, 5, 6, 7, 8, 9] = _
  rw [tryLoop_cons_invalid (solveF 57) sb122 40 1 [2, 3, 4, 5, 6, 7, 8, 9] rfl]
  rw [tryLoop_cons_invalid (solveF 57) sb122 40 2 [3, 4, 5, 6, 7, 8, 9] rfl]
  have h1 : solveF 57 (List.set sb122 40 3) = (false, sb123) := by
    rw [show List.set sb122 40 3 = sb123 from rfl]
    exact stp123
  rw [tryLoop_cons_valid_false (solveF 57) sb122 40 3 [4, 5, 6, 7, 8, 9] sb123 rfl h1]
  rw [show List.set sb123 40 0 = sb122 from rfl]
  rw [tryLoop_cons_invalid (solveF 57) sb122 40 4 [5, 6, 7, 8, 9] rfl]
  rw [tryLoop_cons_invalid (solveF 57) sb122 40 5 [6, 7, 8, 9] rfl]
  rw [tryLoop_cons_invalid (solveF 57) sb122 40 6 [7, 8, 9] rfl]
  rw [tryLoop_cons_invalid (solveF 57) sb122 40 7 [8, 9] rfl]
  rw [tryLoop_cons_invalid (solveF 57) sb122 40 8 [9] rfl]
  have h2 : solveF 57 (List.set sb122 40 9) = (false, sb124) := by
    rw [show List.set sb122 40 9 = sb124 from rfl]
    exact stp124
  rw [tryLoop_cons_valid_false (solveF 57) sb122 40 9 [] sb124 rfl h2]
  rw [show List.set sb124 40 0 = sb122 from rfl]
  exact tryLoop_nil (solveF 57) sb122 40

theorem stp121 : solveF 59 sb121 = (false, sb121) := by
  show tryLoop (solveF 58) sb121 39 [1, 2, 3, 4, 5, 6, 7, 8, 9] = _
  rw [tryLoop_cons_invalid (solveF 58) sb121 39 1 [2, 3, 4, 5, 6, 7, 8, 9] rfl]
  rw [tryLoop_cons_invalid (solveF 58) sb121 39 2 [3, 4, 5, 6, 7, 8, 9] rfl]
  rw [tryLoop_cons_invalid (solveF 58) sb121 39 3 [4, 5, 6, 7, 8, 9] rfl]
  rw [tryLoop_cons_invalid (solveF 58) sb121 39 4 [5, 6, 7, 8, 9] rfl]
  have h1 : solveF 58 (List.set sb121 39 5) = (false, sb122) := by
    rw [show List.set sb121 39 5 = sb122 from rfl]
    exact stp122
  rw [tryLoop_cons_valid_false (solveF 58) sb121 39 5 [6, 7, 8, 9] sb122 rfl h1]
  rw [show List.set sb122 39 0 = sb121 from rfl]
  rw [tryLoop_cons_invalid (solveF 58) sb121 39 6 [7, 8, 9] rfl]
  rw [tryLoop_cons_invalid (solveF 58) sb121 39 7 [8, 9] rfl]
  rw [tryLoop_cons_invalid (solveF 58) sb121 39 8 [9] rfl]
  rw [tryLoop_cons_invalid (solveF 58) sb121 39 9 [] rfl]
  exact tryLoop_nil (solveF 58) sb121 39

theorem stp127 : solveF 57 sb127 = (false, sb127) := by
  show tryLoop (solveF 56) sb127 41 [1, 2, 3, 4, 5, 6, 7, 8, 9] = _
  rw [tryLoop_cons_invalid (solveF 56) sb127 41 1 [2, 3, 4, 5, 6, 7, 8, 9] rfl]
  rw [tryLoop_cons_invalid (solveF 56) sb127 41 2 [3, 4, 5, 6, 7, 8, 9] rfl]
  rw [tryLoop_cons_invalid (solveF 56) sb127 41 3 [4, 5, 6, 7, 8, 9] rfl]
  rw [tryLoop_cons_invalid (solveF 56) sb127 41 4 [5, 6, 7, 8, 9] rfl]
  rw [tryLoop_cons_invalid (solveF 56) sb127 41 5 [6, 7, 8, 9] rfl]
  rw [tryLoop_cons_invalid (solveF 56) sb127 41 6 [7, 8, 9] rfl]
  rw [tryLoop_cons_invalid (solveF 56) sb127 41 7 [8, 9] rfl]
  rw [tryLoop_cons_invalid (solveF 56) sb127 41 8 [9] rfl]
  rw [tryLoop_cons_invalid (solveF 56) sb127 41 9 [] rfl]
  exact tryLoop_nil (solveF 56) sb127 41

theorem stp128 : solveF 57 sb128 = (false, sb128) := by
  show tryLoop (solveF 56) sb128 41 [1, 2, 3, 4, 5, 6, 7, 8, 9] = _
  rw [tryLoop_cons_invalid (solveF 56) sb128 41 1 [2, 3, 4, 5, 6, 7, 8, 9] rfl]
  rw [tryLoop_cons_invalid (solveF 56) sb128 41 2 [3, 4, 5, 6, 7, 8, 9] rfl]
  rw [tryLoop_cons_invalid (solveF 56) sb128 41 3 [4, 5, 6, 7, 8, 9] rfl]
  rw [tryLoop_cons_invalid (solveF 56) sb128 41 4 [5, 6, 7, 8, 9] rfl]
  rw [tryLoop_cons_invalid (solveF 56) sb128 41 5 [6, 7, 8, 9] rfl]
  rw [tryLoop_cons_invalid (solveF 56) sb128 41 6 [7, 8, 9] rfl]
  rw [tryLoop_cons_invalid (solveF 56) sb128 41 7 [8, 9] rfl]
  rw [tryLoop_cons_invalid (solveF 56) sb128 41 8 [9] rfl]
  rw [tryLoop_cons_invalid (solveF 56) sb128 41 9 [] rfl]
  exact tryLoop_nil (solveF 56) sb128 41

theorem stp126 : solveF 58 sb126 = (false, sb126) := by
  show tryLoop (solveF 57) sb126 40 [1, 2, 3, 4, 5, 6, 7, 8, 9] = _
  rw [tryLoop_cons_invalid (solveF 57) sb126 40 1 [2, 3, 4, 5, 6, 7, 8, 9] rfl]
  rw [tryLoop_cons_invalid (solveF 57) sb126 40 2 [3, 4, 5, 6, 7, 8, 9] rfl]
  have h1 : solveF 57 (List.set sb126 40 3) = (false, sb127) := by
    rw [show List.set sb126 40 3 = sb127 from rfl]
    exact stp127
  rw [tryLoop_cons_valid_false (solveF 57) sb126 40 3 [4, 5, 6, 7, 8, 9] sb127 rfl h1]
  rw [show List.set sb127 40 0 = sb126 from rfl]
  rw [tryLoop_cons_invalid (solveF 57) sb126 40 4 [5, 6, 7, 8, 9] rfl]
  have h2 : solveF 57 (List.set sb126 40 5) = (false, sb128) := by
    rw [show List.set sb126 40 5 = sb128 from rfl]
    exact stp128
  rw [tryLoop_cons_valid_false (solveF 57) sb126 40 5 [6, 7, 8, 9] sb128 rfl h2]
  rw [show List.set sb128 40 0 = sb126 from rfl]
  rw [tryLoop_cons_invalid (solveF 57) sb126 40 6 [7, 8, 9] rfl]
  rw [tryLoop_cons_invalid (solveF 57) sb126 40 7 [8, 9] rfl]
  rw [tryLoop_cons_invalid (solveF 57) sb126 40 8 [9] rfl]
  rw [tryLoop_cons_invalid (solveF 57) sb126 40 9 [] rfl]
  exact tryLoop_nil (solveF 57) sb126 40

theorem stp142 : solveF 45 sb142 = (false, sb142) := by
  show tryLoop (solveF 44) sb142 62 [1, 2, 3, 4, 5, 6, 7, 8, 9] = _
  rw [tryLoop_cons_invalid (solveF 44) sb142 62 1 [2, 3, 4, 5, 6, 7, 8, 9] rfl]
  rw [tryLoop_cons_invalid (solveF 44) sb142 62 2 [3, 4, 5, 6, 7, 8, 9] rfl]
  rw [tryLoop_cons_invalid (solveF 44) sb142 62 3 [4, 5, 6, 7, 8, 9] rfl]
  rw [tryLoop_cons_invalid (solveF 44) sb142 62 4 [5, 6, 7, 8, 9] rfl]
  rw [tryLoop_cons_invalid (solveF 44) sb142 62 5 [6, 7, 8, 9] rfl]
  rw [tryLoop_cons_invalid (solveF 44) sb142 62 6 [7, 8, 9] rfl]
  rw [tryLoop_cons_invalid (solveF 44) sb142 62 7 [8, 9] rfl]
  rw [tryLoop_cons_invalid (solveF 44) sb142 62 8 [9] rfl]
  rw [tryLoop_cons_invalid (solveF 44) sb142 62 9 [] rfl]
  exact tryLoop_nil (solveF 44) sb142 62

theorem stp141 : solveF 46 sb141 = (false, sb141) := by
  show tryLoop (solveF 45) sb141 61 [1, 2, 3, 4, 5, 6, 7, 8, 9] = _
  rw [tryLoop_cons_invalid (solveF 45) sb141 61 1 [2, 3, 4, 5, 6, 7, 8, 9] rfl]
  rw [tryLoop_cons_invalid (solveF 45) sb141 61 2 [3, 4, 5, 6, 7, 8, 9] rfl]
  rw [tryLoop_cons_invalid (solveF 45) sb141 61 3 [4, 5, 6, 7, 8, 9] rfl]
  have h1 : solveF 45 (List.set sb141 61 4) = (false, sb142) := by
    rw [show List.set sb141 61 4 = sb142 from rfl]
    exact stp142
  rw [tryLoop_cons_valid_false (solveF 45) sb141 61 4 [5, 6, 7, 8, 9] sb142 rfl h1]
  rw [show List.set sb142 61 0 = sb141 from rfl]
  rw [tryLoop_cons_invalid (solveF 45) sb141 61 5 [6, 7, 8, 9] rfl]
  rw [tryLoop_cons_invalid (solveF 45) sb141 61 6 [7, 8, 9] rfl]
  rw [tryLoop_cons_invalid (solveF 45) sb141 61 7 [8, 9] rfl]
  rw [tryLoop_cons_invalid (solveF 45) sb141 61 8 [9] rfl]
  rw [tryLoop_cons_invalid (solveF 45) sb141 61 9 [] rfl]
  exact tryLoop_nil (solveF 45) sb141 61

theorem stp140 : solveF 47 sb140 = (false, sb140) := by
  show tryLoop (solveF 46) sb140 58 [1, 2, 3, 4, 5, 6, 7, 8, 9] = _
  rw [tryLoop_cons_invalid (solveF 46) sb140 58 1 [2, 3, 4, 5, 6, 7, 8, 9] rfl]
  rw [tryLoop_cons_invalid (solveF 46) sb140 58 2 [3, 4, 5, 6, 7, 8, 9] rfl]
  rw [tryLoop_cons_invalid (solveF 46) sb140 58 3 [4, 5, 6, 7, 8, 9] rfl]
  rw [tryLoop_cons_invalid (solveF 46) sb140 58 4 [5, 6, 7, 8, 9] rfl]
  rw [tryLoop_cons_invalid (solveF 46) sb140 58 5 [6, 7, 8, 9] rfl]
  rw [tryLoop_cons_invalid (solveF 46) sb140 58 6 [7, 8, 9] rfl]
  rw [tryLoop_cons_invalid (solveF 46) sb140 58 7 [8, 9] rfl]
  have h1 : solveF 46 (List.set sb140 58 8) = (false, sb141) := by
    rw [show List.set sb140 58 8 = sb141 from rfl]
    exact stp141
  rw [tryLoop_cons_valid_false (solveF 46) sb140 58 8 [9] sb141 rfl h1]
  rw [show List.set sb141 58 0 = sb140 from rfl]
  rw [tryLoop_cons_invalid (solveF 46) sb140 58 9 [] rfl]
  exact tryLoop_nil (solveF 46) sb140 58

theorem stp145 : solveF 45 sb145 = (false, sb145) := by
  show tryLoop (solveF 44) sb145 62 [1, 2, 3, 4, 5, 6, 7, 8, 9] = _
  rw [tryLoop_cons_invalid (solveF 44) sb145 62 1 [2, 3, 4, 5, 6, 7, 8, 9] rfl]
  rw [tryLoop_cons_invalid (solveF 44) sb145 62 2 [3, 4, 5, 6, 7, 8, 9] rfl]
  rw [tryLoop_cons_invalid (solveF 44) sb145 62 3 [4, 5, 6, 7, 8, 9] rfl]
  rw [tryLoop_cons_invalid (solveF 44) sb145 62 4 [5, 6, 7, 8, 9] rfl]
  rw [tryLoop_cons_invalid (solveF 44) sb145 62 5 [6, 7, 8, 9] rfl]
  rw [tryLoop_cons_invalid (solveF 44) sb145 62 6 [7, 8, 9] rfl]
  rw [tryLoop_cons_invalid (solveF 44) sb145 62 7 [8, 9] rfl]
  rw [tryLoop_cons_invalid (solveF 44) sb145 62 8 [9] rfl]
  rw [tryLoop_cons_invalid (solveF 44) sb145 62 9 [] rfl]
  exact tryLoop_nil (solveF 44) sb145 62

theorem stp146 : solveF 45 sb146 = (false, sb146) := by
  show tryLoop (solveF 44) sb146 62 [1, 2, 3, 4, 5, 6, 7, 8, 9] = _
  rw [tryLoop_cons_invalid (solveF 44) sb146 62 1 [2, 3, 4, 5, 6, 7, 8, 9] rfl]
  rw [tryLoop_cons_invalid (solveF 44) sb146 62 2 [3, 4, 5, 6, 7, 8, 9] rfl]
  rw [tryLoop_cons_invalid (solveF 44) sb146 62 3 [4, 5, 6, 7, 8, 9] rfl]
  rw [tryLoop_cons_invalid (solveF 44) sb146 62 4 [5, 6, 7, 8, 9] rfl]
  rw [tryLoop_cons_invalid (solveF 44) sb146 62 5 [6, 7, 8, 9] rfl]
  rw [tryLoop_cons_invalid (solveF 44) sb146 62 6 [7, 8, 9] rfl]
  rw [tryLoop_cons_invalid (solveF 44) sb146 62 7 [8, 9] rfl]
  rw [tryLoop_cons_invalid (solveF 44) sb146 62 8 [9] rfl]
  rw [tryLoop_cons_invalid (solveF 44) sb146 62 9 [] rfl]
  exact tryLoop_nil (solveF 44) sb146 62

theorem stp144 : solveF 46 sb144 = (false, sb144) := by
  show tryLoop (solveF 45) sb144 61 [1, 2, 3, 4, 5, 6, 7, 8, 9] = _
  have h1 : solveF 45 (List.set sb144 61 1) = (false, sb145) := by
    rw [show List.set sb144 61 1 = sb145 from rfl]
    exact stp145
  rw [tryLoop_cons_valid_false (solveF 45) sb144 61 1 [2, 3, 4, 5, 6, 7, 8, 9] sb145 rfl h1]
  rw [show List.set sb145 61 0 = sb144 from rfl]
  rw [tryLoop_cons_invalid (solveF 45) sb144 61 2 [3, 4, 5, 6, 7, 8, 9] rfl]
  rw [tryLoop_cons_invalid (solveF 45) sb144 61 3 [4, 5, 6, 7, 8, 9] rfl]
  have h2 : solveF 45 (List.set sb144 61 4) = (false, sb146) := by
    rw [show List.set sb144 61 4 = sb146 from rfl]
    exact stp146
  rw [tryLoop_cons_valid_false (solveF 45) sb144 61 4 [5, 6, 7, 8, 9] sb146 rfl h2]
  rw [show List.set sb146 61 0 = sb144 from rfl]
  rw [tryLoop_cons_invalid (solveF 45) sb144 61 5 [6, 7, 8, 9] rfl]
  rw [tryLoop_cons_invalid (solveF 45) sb144 61 6 [7, 8, 9] rfl]
  rw [tryLoop_cons_invalid (solveF 45) sb144 61 7 [8, 9] rfl]
  rw [tryLoop_cons_invalid (solveF 45) sb144 61 8 [9] rfl]
  rw [tryLoop_cons_invalid (solveF 45) sb144 61 9 [] rfl]
  exact tryLoop_nil (solveF 45) sb144 61

theorem stp143 : solveF 47 sb143 = (false, sb143) := by
  show tryLoop (solveF 46) sb143 58 [1, 2, 3, 4, 5, 6, 7, 8, 9] = _
  rw [tryLoop_cons_invalid (solveF 46) sb143 58 1 [2, 3, 4, 5, 6, 7, 8, 9] rfl]
  rw [tryLoop_cons_invalid (solveF 46) sb143 58 2 [3, 4, 5, 6, 7, 8, 9] rfl]
  rw [tryLoop_cons_invalid (solveF 46) sb143 58 3 [4, 5, 6, 7, 8, 9] rfl]
  rw [tryLoop_cons_invalid (solveF 46) sb143 58 4 [5, 6, 7, 8, 9] rfl]
  rw [tryLoop_cons_invalid (solveF 46) sb143 58 5 [6, 7, 8, 9] rfl]
  rw [tryLoop_cons_invalid (solveF 46) sb143 58 6 [7, 8, 9] rfl]
  rw [tryLoop_cons_invalid (solveF 46) sb143 58 7 [8, 9] rfl]
  have h1 : solveF 46 (List.set sb143 58 8) = (false, sb144) := by
    rw [show List.set sb143 58 8 = sb144 from rfl]
    exact stp144
  rw [tryLoop_cons_valid_false (solveF 46) sb143 58 8 [9] sb144 rfl h1]
  rw [show List.set sb144 58 0 = sb143 from rfl]
  rw [tryLoop_cons_invalid (solveF 46) sb143 58 9 [] rfl]
  exact tryLoop_nil (solveF 46) sb143 58

theorem stp139 : solveF 48 sb139 = (false, sb139) := by
  show tryLoop (solveF 47) sb139 55 [1, 2, 3, 4, 5, 6, 7, 8, 9] = _
  have h1 : solveF 47 (List.set sb139 55 1) = (false, sb140) := by
    rw [show List.set sb139 55 1 = sb140 from rfl]
    exact stp140
  rw [tryLoop_cons_valid_false (solveF 47) sb139 55 1 [2, 3, 4, 5, 6, 7, 8, 9] sb140 rfl h1]
  rw [show List.set sb140 55 0 = sb139 from rfl]
  rw [tryLoop_cons_invalid (solveF 47) sb139 55 2 [3, 4, 5, 6, 7, 8, 9] rfl]
  rw [tryLoop_cons_invalid (solveF 47) sb139 55 3 [4, 5, 6, 7, 8, 9] rfl]
  rw [tryLoop_cons_invalid (solveF 47) sb139 55 4 [5, 6, 7, 8, 9] rfl]
  rw [tryLoop_cons_invalid (solveF 47) sb139 55 5 [6, 7, 8, 9] rfl]
  rw [tryLoop_cons_invalid (solveF 47) sb139 55 6 [7, 8, 9] rfl]
  have h2 : solveF 47 (List.set sb139 55 7) = (false, sb143) := by
    rw [show List.set sb139 55 7 = sb143 from rfl]
    exact stp143
  rw [tryLoop_cons_valid_false (solveF 47) sb139 55 7 [8, 9] sb143 rfl h2]
  rw [show List.set sb143 55 0 = sb139 from rfl]
  rw [tryLoop_cons_invalid (solveF 47) sb139 55 8 [9] rfl]
  rw [tryLoop_cons_invalid (solveF 47) sb139 55 9 [] rfl]
  exact tryLoop_nil (solveF 47) sb139 55

theorem stp138 : solveF 49 sb138 = (false, sb138) := by
  show tryLoop (solveF 48) sb138 54 [1, 2, 3, 4, 5, 6, 7, 8, 9] = _
  rw [tryLoop_cons_invalid (solveF 48) sb138 54 1 [2, 3, 4, 5, 6, 7, 8, 9] rfl]
  rw [tryLoop_cons_invalid (solveF 48) sb138 54 2 [3, 4, 5, 6, 7, 8, 9] rfl]
  have h1 : solveF 48 (List.set sb138 54 3) = (false, sb139) := by
    rw [show List.set sb138 54 3 = sb139 from rfl]
    exact stp139
  rw [tryLoop_cons_valid_false (solveF 48) sb138 54 3 [4, 5, 6, 7, 8, 9] sb139 rfl h1]
  rw [show List.set sb139 54 0 = sb138 from rfl]
  rw [tryLoop_cons_invalid (solveF 48) sb138 54 4 [5, 6, 7, 8, 9] rfl]
  rw [tryLoop_cons_invalid (solveF 48) sb138 54 5 [6, 7, 8, 9] rfl]
  rw [tryLoop_cons_invalid (solveF 48) sb138 54 6 [7, 8, 9] rfl]
  rw [tryLoop_cons_invalid (solveF 48) sb138 54 7 [8, 9] rfl]
  rw [tryLoop_cons_invalid (solveF 48) sb138 54 8 [9] rfl]
  rw [tryLoop_cons_invalid (solveF 48) sb138 54 9 [] rfl]
  exact tryLoop_nil (solveF 48) sb138 54

theorem stp137 : solveF 50 sb137 = (false, sb137) := by
  show tryLoop (solveF 49) sb137 53 [1, 2, 3, 4, 5, 6, 7, 8, 9] = _
  rw [tryLoop_cons_invalid (solveF 49) sb137 53 1 [2, 3, 4, 5, 6, 7, 8, 9] rfl]
  rw [tryLoop_cons_invalid (solveF 49) sb137 53 2 [3, 4, 5, 6, 7, 8, 9] rfl]
  rw [tryLoop_cons_invalid (solveF 49) sb137 53 3 [4, 5, 6, 7, 8, 9] rfl]
  rw [tryLoop_cons_invalid (solveF 49) sb137 53 4 [5, 6, 7, 8, 9] rfl]
  have h1 : solveF 49 (List.set sb137 53 5) = (false, sb138) := by
    rw [show List.set sb137 53 5 = sb138 from rfl]
    exact stp138
  rw [tryLoop_cons_valid_false (solveF 49) sb137 53 5 [6, 7, 8, 9] sb138 rfl h1]
  rw [show List.set sb138 53 0 = sb137 from rfl]
  rw [tryLoop_cons_invalid (solveF 49) sb137 53 6 [7, 8, 9] rfl]
  rw [tryLoop_cons_invalid (solveF 49) sb137 53 7 [8, 9] rfl]
  rw [tryLoop_cons_invalid (solveF 49) sb137 53 8 [9] rfl]
  rw [tryLoop_cons_invalid (solveF 49) sb137 53 9 [] rfl]
  exact tryLoop_nil (solveF 49) sb137 53

theorem stp136 : solveF 51 sb136 = (false, sb136) := by
  show tryLoop (solveF 50) sb136 52 [1, 2, 3, 4, 5, 6, 7, 8, 9] = _
  rw [tryLoop_cons_invalid (solveF 50) sb136 52 1 [2, 3, 4, 5, 6, 7, 8, 9] rfl]
  rw [tryLoop_cons_invalid (solveF 50) sb136 52 2 [3, 4, 5, 6, 7, 8, 9] rfl]
  have h1 : solveF 50 (List.set sb136 52 3) = (false, sb137) := by
    rw [show List.set sb136 52 3 = sb137 from rfl]
    exact stp137
  rw [tryLoop_cons_valid_false (solveF 50) sb136 52 3 [4, 5, 6, 7, 8, 9] sb137 rfl h1]
  rw [show List.set sb137 52 0 = sb136 from rfl]
  rw [tryLoop_cons_invalid (solveF 50) sb136 52 4 [5, 6, 7, 8, 9] rfl]
  rw [tryLoop_cons_invalid (solveF 50) sb136 52 5 [6, 7, 8, 9] rfl]
  rw [tryLoop_cons_invalid (solveF 50) sb136 52 6 [7, 8, 9] rfl]
  rw [tryLoop_cons_invalid (solveF 50) sb136 52 7 [8, 9] rfl]
  rw [tryLoop_cons_invalid (solveF 50) sb136 52 8 [9] rfl]
  rw [tryLoop_cons_invalid (solveF 50) sb136 52 9 [] rfl]
  exact tryLoop_nil (solveF 50) sb136 52

theorem stp135 : solveF 52 sb135 = (false, sb135) := by
  show tryLoop (solveF 51) sb135 49 [1, 2, 3, 4, 5, 6, 7, 8, 9] = _
  rw [tryLoop_cons_invalid (solveF 51) sb135 49 1 [2, 3, 4, 5, 6, 7, 8, 9] rfl]
  rw [tryLoop_cons_invalid (solveF 51) sb135 49 2 [3, 4, 5, 6, 7, 8, 9] rfl]
  rw [tryLoop_cons_invalid (solveF 51) sb135 49 3 [4, 5, 6, 7, 8, 9] rfl]
  rw [tryLoop_cons_invalid (solveF 51) sb135 49 4 [5, 6, 7, 8, 9] rfl]
  rw [tryLoop_cons_invalid (solveF 51) sb135 49 5 [6, 7, 8, 9] rfl]
  rw [tryLoop_cons_invalid (solveF 51) sb135 49 6 [7, 8, 9] rfl]
  rw [tryLoop_cons_invalid (solveF 51) sb135 49 7 [8, 9] rfl]
  rw [tryLoop_cons_invalid (solveF 51) sb135 49 8 [9] rfl]
  have h1 : solveF 51 (List.set sb135 49 9) = (false, sb136) := by
    rw [show List.set sb135 49 9 = sb136 from rfl]
    exact stp136
  rw [tryLoop_cons_valid_false (solveF 51) sb135 49 9 [] sb136 rfl h1]
  rw [show List.set sb136 49 0 = sb135 from rfl]
  exact tryLoop_nil (solveF 51) sb135 49

theorem stp134 : solveF 53 sb134 = (false, sb134) := by
  show tryLoop (solveF 52) sb134 46 [1, 2, 3, 4, 5, 6, 7, 8, 9] = _
  rw [tryLoop_cons_invalid (solveF 52) sb134 46 1 [2, 3, 4, 5, 6, 7, 8, 9] rfl]
  rw [tryLoop_cons_invalid (solveF 52) sb134 46 2 [3, 4, 5, 6, 7, 8, 9] rfl]
  rw [tryLoop_cons_invalid (solveF 52) sb134 46 3 [4, 5, 6, 7, 8, 9] rfl]
  have h1 : solveF 52 (List.set sb134 46 4) = (false, sb135) := by
    rw [show List.set sb134 46 4 = sb135 from rfl]
    exact stp135
  rw [tryLoop_cons_valid_false (solveF 52) sb134 46 4 [5, 6, 7, 8, 9] sb135 rfl h1]
  rw [show List.set sb135 46 0 = sb134 from rfl]
  rw [tryLoop_cons_invalid (solveF 52) sb134 46 5 [6, 7, 8, 9] rfl]
  rw [tryLoop_cons_invalid (solveF 52) sb134 46 6 [7, 8, 9] rfl]
  rw [tryLoop_cons_invalid (solveF 52) sb134 46 7 [8, 9] rfl]
  rw [tryLoop_cons_invalid (solveF 52) sb134 46 8 [9] rfl]
  rw [tryLoop_cons_invalid (solveF 52) sb134 46 9 [] rfl]
  exact tryLoop_nil (solveF 52) sb134 46

theorem stp133 : solveF 54 sb133 = (false, sb133) := by
  show tryLoop (solveF 53) sb133 45 [1, 2, 3, 4, 5, 6, 7, 8, 9] = _
  have h1 : solveF 53 (List.set sb133 45 1) = (false, sb134) := by
    rw [show List.set sb133 45 1 = sb134 from rfl]
    exact stp134
  rw [tryLoop_cons_valid_false (solveF 53) sb133 45 1 [2, 3, 4, 5, 6, 7, 8, 9] sb134 rfl h1]
  rw [show List.set sb134 45 0 = sb133 from rfl]
  rw [tryLoop_cons_invalid (solveF 53) sb133 45 2 [3, 4, 5, 6, 7, 8, 9] rfl]
  rw [tryLoop_cons_invalid (solveF 53) sb133 45 3 [4, 5, 6, 7, 8, 9] rfl]
  rw [tryLoop_cons_invalid (solveF 53) sb133 45 4 [5, 6, 7, 8, 9] rfl]
  rw [tryLoop_cons_invalid (solveF 53) sb133 45 5 [6, 7, 8, 9] rfl]
  rw [tryLoop_cons_invalid (solveF 53) sb133 45 6 [7, 8, 9] rfl]
  rw [tryLoop_cons_invalid (solveF 53) sb133 45 7 [8, 9] rfl]
  rw [tryLoop_cons_invalid (solveF 53) sb133 45 8 [9] rfl]
  rw [tryLoop_cons_invalid (solveF 53) sb133 45 9 [] rfl]
  exact tryLoop_nil (solveF 53) sb133 45

theorem stp132 : solveF 55 sb132 = (false, sb132) := by
  show tryLoop (solveF 54) sb132 43 [1, 2, 3, 4, 5, 6, 7, 8, 9] = _
  rw [tryLoop_cons_invalid (solveF 54) sb132 43 1 [2, 3, 4, 5, 6, 7, 8, 9] rfl]
  rw [tryLoop_cons_invalid (solveF 54) sb132 43 2 [3, 4, 5, 6, 7, 8, 9] rfl]
  rw [tryLoop_cons_invalid (solveF 54) sb132 43 3 [4, 5, 6, 7, 8, 9] rfl]
  rw [tryLoop_cons_invalid (solveF 54) sb132 43 4 [5, 6, 7, 8, 9] rfl]
  rw [tryLoop_cons_invalid (solveF 54) sb132 43 5 [6, 7, 8, 9] rfl]
  have h1 : solveF 54 (List.set sb132 43 6) = (false, sb133) := by
    rw [show List.set sb132 43 6 = sb133 from rfl]
    exact stp133
  rw [tryLoop_cons_valid_false (solveF 54) sb132 43 6 [7, 8, 9] sb133 rfl h1]
  rw [show List.set sb133 43 0 = sb132 from rfl]
  rw [tryLoop_cons_invalid (solveF 54) sb132 43 7 [8, 9] rfl]
  rw [tryLoop_cons_invalid (solveF 54) sb132 43 8 [9] rfl]
  rw [tryLoop_cons_invalid (solveF 54) sb132 43 9 [] rfl]
  exact tryLoop_nil (solveF 54) sb132 43

theorem stp131 : solveF 56 sb131 = (false, sb131) := by
  show tryLoop (solveF 55) sb131 42 [1, 2, 3, 4, 5, 6, 7, 8, 9] = _
  have h1 : solveF 55 (List.set sb131 42 1) = (false, sb132) := by
    rw [show List.set sb131 42 1 = sb132 from rfl]
    exact stp132
  rw [tryLoop_cons_valid_false (solveF 55) sb131 42 1 [2, 3, 4, 5, 6, 7, 8, 9] sb132 rfl h1]
  rw [show List.set sb132 42 0 = sb131 from rfl]
  rw [tryLoop_cons_invalid (solveF 55) sb131 42 2 [3, 4, 5, 6, 7, 8, 9] rfl]
  rw [tryLoop_cons_invalid (solveF 55) sb131 42 3 [4, 5, 6, 7, 8, 9] rfl]
  rw [tryLoop_cons_invalid (solveF 55) sb131 42 4 [5, 6, 7, 8, 9] rfl]
  rw [tryLoop_cons_invalid (solveF 55) sb131 42 5 [6, 7, 8, 9] rfl]
  rw [tryLoop_cons_invalid (solveF 55) sb131 42 6 [7, 8, 9] rfl]
  rw [tryLoop_cons_invalid (solveF 55) sb131 42 7 [8, 9] rfl]
  rw [tryLoop_cons_invalid (solveF 55) sb131 42 8 [9] rfl]
  rw [tryLoop_cons_invalid (solveF 55) sb131 42 9 [] rfl]
  exact tryLoop_nil (solveF 55) sb131 42

theorem stp130 : solveF 57 sb130 = (false, sb130) := by
  show tryLoop (solveF 56) sb130 41 [1, 2, 3, 4, 5, 6, 7, 8, 9] = _
  rw [tryLoop_cons_invalid (solveF 56) sb130 41 1 [2, 3, 4, 5, 6, 7, 8, 9] rfl]
  rw [tryLoop_cons_invalid (solveF 56) sb130 41 2 [3, 4, 5, 6, 7, 8, 9] rfl]
  rw [tryLoop_cons_invalid (solveF 56) sb130 41 3 [4, 5, 6, 7, 8, 9] rfl]
  have h1 : solveF 56 (List.set sb130 41 4) = (false, sb131) := by
    rw [show List.set sb130 41 4 = sb131 from rfl]
    exact stp131
  rw [tryLoop_cons_valid_false (solveF 56) sb130 41 4 [5, 6, 7, 8, 9] sb131 rfl h1]
  rw [show List.set sb131 41 0 = sb130 from rfl]
  rw [tryLoop_cons_invalid (solveF 56) sb130 41 5 [6, 7, 8, 9] rfl]
  rw [tryLoop_cons_invalid (solveF 56) sb130 41 6 [7, 8, 9] rfl]
  rw [tryLoop_cons_invalid (solveF 56) sb130 41 7 [8, 9] rfl]
  rw [tryLoop_cons_invalid (solveF 56) sb130 41 8 [9] rfl]
  rw [tryLoop_cons_invalid (solveF 56) sb130 41 9 [] rfl]
  exact tryLoop_nil (solveF 56) sb130 41

theorem stp129 : solveF 58 sb129 = (false, sb129) := by
  show tryLoop (solveF 57) sb129 40 [1, 2, 3, 4, 5, 6, 7, 8, 9] = _
  rw [tryLoop_cons_invalid (solveF 57) sb129 40 1 [2, 3, 4, 5, 6, 7, 8, 9] rfl]
  rw [tryLoop_cons_invalid (solveF 57) sb129 40 2 [3, 4, 5, 6, 7, 8, 9] rfl]
  have h1 : solveF 57 (List.set sb129 40 3) = (false, sb130) := by
    rw [show List.set sb129 40 3 = sb130 from rfl]
    exact stp130
  rw [tryLoop_cons_valid_false (solveF 57) sb129 40 3 [4, 5, 6, 7, 8, 9] sb130 rfl h1]
  rw [show List.set sb130 40 0 = sb129 from rfl]
  rw [tryLoop_cons_invalid (solveF 57) sb129 40 4 [5, 6, 7, 8, 9] rfl]
  rw [tryLoop_cons_invalid (solveF 57) sb129 40 5 [6, 7, 8, 9] rfl]
  rw [tryLoop_cons_invalid (solveF 57) sb129 40 6 [7, 8, 9] rfl]
  rw [tryLoop_cons_invalid (solveF 57) sb129 40 7 [8, 9] rfl]
  rw [tryLoop_cons_invalid (solveF 57) sb129 40 8 [9] rfl]
  rw [tryLoop_cons_invalid (solveF 57) sb129 40 9 [] rfl]
  exact tryLoop_nil (solveF 57) sb129 40

theorem stp125 : solveF 59 sb125 = (false, sb125) := by
  show tryLoop (solveF 58) sb125 39 [1, 2, 3, 4, 5, 6, 7, 8, 9] = _
  rw [tryLoop_cons_invalid (solveF 58) sb125 39 1 [2, 3, 4, 5, 6, 7, 8, 9] rfl]
  rw [tryLoop_cons_invalid (solveF 58) sb125 39 2 [3, 4, 5, 6, 7, 8, 9] rfl]
  rw [tryLoop_cons_invalid (solveF 58) sb125 39 3 [4, 5, 6, 7, 8, 9] rfl]
  have h1 : solveF 58 (List.set sb125 39 4) = (false, sb126) := by
    rw [show List.set sb125 39 4 = sb126 from rfl]
    exact stp126
  rw [tryLoop_cons_valid_false (solveF 58) sb125 39 4 [5, 6, 7, 8, 9] sb126 rfl h1]
  rw [show List.set sb126 39 0 = sb125 from rfl]
  have h2 : solveF 58 (List.set sb125 39 5) = (false, sb129) := by
    rw [show List.set sb125 39 5 = sb129 from rfl]
    exact stp129
  rw [tryLoop_cons_valid_false (solveF 58) sb125 39 5 [6, 7, 8, 9] sb129 rfl h2]
  rw [show List.set sb129 39 0 = sb125 from rfl]
  rw [tryLoop_cons_invalid (solveF 58) sb125 39 6 [7, 8, 9] rfl]
  rw [tryLoop_cons_invalid (solveF 58) sb125 39 7 [8, 9] rfl]
  rw [tryLoop_cons_invalid (solveF 58) sb125 39 8 [9] rfl]
  rw [tryLoop_cons_invalid (solveF 58) sb125 39 9 [] rfl]
  exact tryLoop_nil (solveF 58) sb125 39

theorem stp120 : solveF 60 sb120 = (false, sb120) := by
  show tryLoop (solveF 59) sb120 38 [1, 2, 3, 4, 5, 6, 7, 8, 9] = _
  rw [tryLoop_cons_invalid (solveF 59) sb120 38 1 [2, 3, 4, 5, 6, 7, 8, 9] rfl]
  rw [tryLoop_cons_invalid (solveF 59) sb120 38 2 [3, 4, 5, 6, 7, 8, 9] rfl]
  rw [tryLoop_cons_invalid (solveF 59) sb120 38 3 [4, 5, 6, 7, 8, 9] rfl]
  have h1 : solveF 59 (List.set sb120 38 4) = (false, sb121) := by
    rw [show List.set sb120 38 4 = sb121 from rfl]
    exact stp121
  rw [tryLoop_cons_valid_false (solveF 59) sb120 38 4 [5, 6, 7, 8, 9] sb121 rfl h1]
  rw [show List.set sb121 38 0 = sb120 from rfl]
  rw [tryLoop_cons_invalid (solveF 59) sb120 38 5 [6, 7, 8, 9] rfl]
  rw [tryLoop_cons_invalid (solveF 59) sb120 38 6 [7, 8, 9] rfl]
  rw [tryLoop_cons_invalid (solveF 59) sb120 38 7 [8, 9] rfl]
  rw [tryLoop_cons_invalid (solveF 59) sb120 38 8 [9] rfl]
  have h2 : solveF 59 (List.set sb120 38 9) = (false, sb125) := by
    rw [show List.set sb120 38 9 = sb125 from rfl]
    exact stp125
  rw [tryLoop_cons_valid_false (solveF 59) sb120 38 9 [] sb125 rfl h2]
  rw [show List.set sb125 38 0 = sb120 from rfl]
  exact tryLoop_nil (solveF 59) sb120 38

theorem stp150 : solveF 57 sb150 = (false, sb150) := by
  show tryLoop (solveF 56) sb150 41 [1, 2, 3, 4, 5, 6, 7, 8, 9] = _
  rw [tryLoop_cons_invalid (solveF 56) sb150 41 1 [2, 3, 4, 5, 6, 7, 8, 9] rfl]
  rw [tryLoop_cons_invalid (solveF 56) sb150 41 2 [3, 4, 5, 6, 7, 8, 9] rfl]
  rw [tryLoop_cons_invalid (solveF 56) sb150 41 3 [4, 5, 6, 7, 8, 9] rfl]
  rw [tryLoop_cons_invalid (solveF 56) sb150 41 4 [5, 6, 7, 8, 9] rfl]
  rw [tryLoop_cons_invalid (solveF 56) sb150 41 5 [6, 7, 8, 9] rfl]
  rw [tryLoop_cons_invalid (solveF 56) sb150 41 6 [7, 8, 9] rfl]
  rw [tryLoop_cons_invalid (solveF 56) sb150 41 7 [8, 9] rfl]
  rw [tryLoop_cons_invalid (solveF 56) sb150 41 8 [9] rfl]
  rw [tryLoop_cons_invalid (solveF 56) sb150 41 9 [] rfl]
  exact tryLoop_nil (solveF 56) sb150 41

theorem stp149 : solveF 58 sb149 = (false, sb149) := by
  show tryLoop (solveF 57) sb149 40 [1, 2, 3, 4, 5, 6, 7, 8, 9] = _
  rw [tryLoop_cons_invalid (solveF 57) sb149 40 1 [2, 3, 4, 5, 6, 7, 8, 9] rfl]
  rw [tryLoop_cons_invalid (solveF 57) sb149 40 2 [3, 4, 5, 6, 7, 8, 9] rfl]
  have h1 : solveF 57 (List.set sb149 40 3) = (false, sb150) := by
    rw [show List.set sb149 40 3 = sb150 from rfl]
    exact stp150
  rw [tryLoop_cons_valid_false (solveF 57) sb149 40 3 [4, 5, 6, 7, 8, 9] sb150 rfl h1]
  rw [show List.set sb150 40 0 = sb149 from rfl]
  rw [tryLoop_cons_invalid (solveF 57) sb149 40 4 [5, 6, 7, 8, 9] rfl]
  rw [tryLoop_cons_invalid (solveF 57) sb149 40 5 [6, 7, 8, 9] rfl]
  rw [tryLoop_cons_invalid (solveF 57) sb149 40 6 [7, 8, 9] rfl]
  rw [tryLoop_cons_invalid (solveF 57) sb149 40 7 [8, 9] rfl]
  rw [tryLoop_cons_invalid (solveF 57) sb149 40 8 [9] rfl]
  rw [tryLoop_cons_invalid (solveF 57) sb149 40 9 [] rfl]
  exact tryLoop_nil (solveF 57) sb149 40

theorem stp148 : solveF 59 sb148 = (false, sb148) := by
  show tryLoop (solveF 58) sb148 39 [1, 2, 3, 4, 5, 6, 7, 8, 9] = _
  rw [tryLoop_cons_invalid (solveF 58) sb148 39 1 [2, 3, 4, 5, 6, 7, 8, 9] rfl]
  rw [tryLoop_cons_invalid (solveF 58) sb148 39 2 [3, 4, 5, 6, 7, 8, 9] rfl]
  rw [tryLoop_cons_invalid (solveF 58) sb148 39 3 [4, 5, 6, 7, 8, 9] rfl]
  rw [tryLoop_cons_invalid (solveF 58) sb148 39 4 [5, 6, 7, 8, 9] rfl]
  have h1 : solveF 58 (List.set sb148 39 5) = (false, sb149) := by
    rw [show List.set sb148 39 5 = sb149 from rfl]
    exact stp149
  rw [tryLoop_cons_valid_false (solveF 58) sb148 39 5 [6, 7, 8, 9] sb149 rfl h1]
  rw [show List.set sb149 39 0 = sb148 from rfl]
  rw [tryLoop_cons_invalid (solveF 58) sb148 39 6 [7, 8, 9] rfl]
  rw [tryLoop_cons_invalid (solveF 58) sb148 39 7 [8, 9] rfl]
  rw [tryLoop_cons_invalid (solveF 58) sb148 39 8 [9] rfl]
  rw [tryLoop_cons_invalid (solveF 58) sb148 39 9 [] rfl]
  exact tryLoop_nil (solveF 58) sb148 39

theorem stp147 : solveF 60 sb147 = (false, sb147) := by
  show tryLoop (solveF 59) sb147 38 [1, 2, 3, 4, 5, 6, 7, 8, 9] = _
  rw [tryLoop_cons_invalid (solveF 59) sb147 38 1 [2, 3, 4, 5, 6, 7, 8, 9] rfl]
  rw [tryLoop_cons_invalid (solveF 59) sb147 38 2 [3, 4, 5, 6, 7, 8, 9] rfl]
  rw [tryLoop_cons_invalid (solveF 59) sb147 38 3 [4, 5, 6, 7, 8, 9] rfl]
  rw [tryLoop_cons_invalid (solveF 59) sb147 38 4 [5, 6, 7, 8, 9] rfl]
  rw [tryLoop_cons_invalid (solveF 59) sb147 38 5 [6, 7, 8, 9] rfl]
  rw [tryLoop_cons_invalid (solveF 59) sb147 38 6 [7, 8, 9] rfl]
  rw [tryLoop_cons_invalid (solveF 59) sb147 38 7 [8, 9] rfl]
  rw [tryLoop_cons_invalid (solveF 59) sb147 38 8 [9] rfl]
  have h1 : solveF 59 (List.set sb147 38 9) = (false, sb148) := by
    rw [show List.set sb147 38 9 = sb148 from rfl]
    exact stp148
  rw [tryLoop_cons_valid_false (solveF 59) sb147 38 9 [] sb148 rfl h1]
  rw [show List.set sb148 38 0 = sb147 from rfl]
  exact tryLoop_nil (solveF 59) sb147 38

theorem stp154 : solveF 57 sb154 = (false, sb154) := by
  show tryLoop (solveF 56) sb154 41 [1, 2, 3, 4, 5, 6, 7, 8, 9] = _
  rw [tryLoop_cons_invalid (solveF 56) sb154 41 1 [2, 3, 4, 5, 6, 7, 8, 9] rfl]
  rw [tryLoop_cons_invalid (solveF 56) sb154 41 2 [3, 4, 5, 6, 7, 8, 9] rfl]
  rw [tryLoop_cons_invalid (solveF 56) sb154 41 3 [4, 5, 6, 7, 8, 9] rfl]
  rw [tryLoop_cons_invalid (solveF 56) sb154 41 4 [5, 6, 7, 8, 9] rfl]
  rw [tryLoop_cons_invalid (solveF 56) sb154 41 5 [6, 7, 8, 9] rfl]
  rw [tryLoop_cons_invalid (solveF 56) sb154 41 6 [7, 8, 9] rfl]
  rw [tryLoop_cons_invalid (solveF 56) sb154 41 7 [8, 9] rfl]
  rw [tryLoop_cons_invalid (solveF 56) sb154 41 8 [9] rfl]
  rw [tryLoop_cons_invalid (solveF 56) sb154 41 9 [] rfl]
  exact tryLoop_nil (solveF 56) sb154 41

theorem stp153 : solveF 58 sb153 = (false, sb153) := by
  show tryLoop (solveF 57) sb153 40 [1, 2, 3, 4, 5, 6, 7, 8, 9] = _
  rw [tryLoop_cons_invalid (solveF 57) sb153 40 1 [2, 3, 4, 5, 6, 7, 8, 9] rfl]
  rw [tryLoop_cons_invalid (solveF 57) sb153 40 2 [3, 4, 5, 6, 7, 8, 9] rfl]
  have h1 : solveF 57 (List.set sb153 40 3) = (false, sb154) := by
    rw [show List.set sb153 40 3 = sb154 from rfl]
    exact stp154
  rw [tryLoop_cons_valid_false (solveF 57) sb153 40 3 [4, 5, 6, 7, 8, 9] sb154 rfl h1]
  rw [show List.set sb154 40 0 = sb153 from rfl]
  rw [tryLoop_cons_invalid (solveF 57) sb153 40 4 [5, 6, 7, 8, 9] rfl]
  rw [tryLoop_cons_invalid (solveF 57) sb153 40 5 [6, 7, 8, 9] rfl]
  rw [tryLoop_cons_invalid (solveF 57) sb153 40 6 [7, 8, 9] rfl]
  rw [tryLoop_cons_invalid (solveF 57) sb153 40 7 [8, 9] rfl]
  rw [tryLoop_cons_invalid (solveF 57) sb153 40 8 [9] rfl]
  rw [tryLoop_cons_invalid (solveF 57) sb153 40 9 [] rfl]
  exact tryLoop_nil (solveF 57) sb153 40

theorem stp152 : solveF 59 sb152 = (false, sb152) := by
  show tryLoop (solveF 58) sb152 39 [1, 2, 3, 4, 5, 6, 7, 8, 9] = _
  rw [tryLoop_cons_invalid (solveF 58) sb152 39 1 [2, 3, 4, 5, 6, 7, 8, 9] rfl]
  rw [tryLoop_cons_invalid (solveF 58) sb152 39 2 [3, 4, 5, 6, 7, 8, 9] rfl]
  rw [tryLoop_cons_invalid (solveF 58) sb152 39 3 [4, 5, 6, 7, 8, 9] rfl]
  rw [tryLoop_cons_invalid (solveF 58) sb152 39 4 [5, 6, 7, 8, 9] rfl]
  have h1 : solveF 58 (List.set sb152 39 5) = (false, sb153) := by
    rw [show List.set sb152 39 5 = sb153 from rfl]
    exact stp153
  rw [tryLoop_cons_valid_false (solveF 58) sb152 39 5 [6, 7, 8, 9] sb153 rfl h1]
  rw [show List.set sb153 39 0 = sb152 from rfl]
  rw [tryLoop_cons_invalid (solveF 58) sb152 39 6 [7, 8, 9] rfl]
  rw [tryLoop_cons_invalid (solveF 58) sb152 39 7 [8, 9] rfl]
  rw [tryLoop_cons_invalid (solveF 58) sb152 39 8 [9] rfl]
  rw [tryLoop_cons_invalid (solveF 58) sb152 39 9 [] rfl]
  exact tryLoop_nil (solveF 58) sb152 39

theorem stp151 : solveF 60 sb151 = (false, sb151) := by
  show tryLoop (solveF 59) sb151 38 [1, 2, 3, 4, 5, 6, 7, 8, 9] = _
  rw [tryLoop_cons_invalid (solveF 59) sb151 38 1 [2, 3, 4, 5, 6, 7, 8, 9] rfl]
  rw [tryLoop_cons_invalid (solveF 59) sb151 38 2 [3, 4, 5, 6, 7, 8, 9] rfl]
  rw [tryLoop_cons_invalid (solveF 59) sb151 38 3 [4, 5, 6, 7, 8, 9] rfl]
  have h1 : solveF 59 (List.set sb151 38 4) = (false, sb152) := by
    rw [show List.set sb151 38 4 = sb152 from rfl]
    exact stp152
  rw [tryLoop_cons_valid_false (solveF 59) sb151 38 4 [5, 6, 7, 8, 9] sb152 rfl h1]
  rw [show List.set sb152 38 0 = sb151 from rfl]
  rw [tryLoop_cons_invalid (solveF 59) sb151 38 5 [6, 7, 8, 9] rfl]
  rw [tryLoop_cons_invalid (solveF 59) sb151 38 6 [7, 8, 9] rfl]
  rw [tryLoop_cons_invalid (solveF 59) sb151 38 7 [8, 9] rfl]
  rw [tryLoop_cons_invalid (solveF 59) sb151 38 8 [9] rfl]
  rw [tryLoop_cons_invalid (solveF 59) sb151 38 9 [] rfl]
  exact tryLoop_nil (solveF 59) sb151 38

theorem stp107 : solveF 61 sb107 = (false, sb107) := by
  show tryLoop (solveF 60) sb107 37 [1, 2, 3, 4, 5, 6, 7, 8, 9] = _
  have h1 : solveF 60 (List.set sb107 37 1) = (false, sb108) := by
    rw [show List.set sb107 37 1 = sb108 from rfl]
    exact stp108
  rw [tryLoop_cons_valid_false (solveF 60) sb107 37 1 [2, 3, 4, 5, 6, 7, 8, 9] sb108 rfl h1]
  rw [show List.set sb108 37 0 = sb107 from rfl]
  have h2 : solveF 60 (List.set sb107 37 2) = (false, sb120) := by
    rw [show List.set sb107 37 2 = sb120 from rfl]
    exact stp120
  rw [tryLoop_cons_valid_false (solveF 60) sb107 37 2 [3, 4, 5, 6, 7, 8, 9] sb120 rfl h2]
  rw [show List.set sb120 37 0 = sb107 from rfl]
  rw [tryLoop_cons_invalid (solveF 60) sb107 37 3 [4, 5, 6, 7, 8, 9] rfl]
  have h3 : solveF 60 (List.set sb107 37 4) = (false, sb147) := by
    rw [show List.set sb107 37 4 = sb147 from rfl]
    exact stp147
  rw [tryLoop_cons_valid_false (solveF 60) sb107 37 4 [5, 6, 7, 8, 9] sb147 rfl h3]
  rw [show List.set sb147 37 0 = sb107 from rfl]
  rw [tryLoop_cons_invalid (solveF 60) sb107 37 5 [6, 7, 8, 9] rfl]
  rw [tryLoop_cons_invalid (solveF 60) sb107 37 6 [7, 8, 9] rfl]
  rw [tryLoop_cons_invalid (solveF 60) sb107 37 7 [8, 9] rfl]
  rw [tryLoop_cons_invalid (solveF 60) sb107 37 8 [9] rfl]
  have h4 : solveF 60 (List.set sb107 37 9) = (false, sb151) := by
    rw [show List.set sb107 37 9 = sb151 from rfl]
    exact stp151
  rw [tryLoop_cons_valid_false (solveF 60) sb107 37 9 [] sb151 rfl h4]
  rw [show List.set sb151 37 0 = sb107 from rfl]
  exact tryLoop_nil (solveF 60) sb107 37

theorem stp106 : solveF 62 sb106 = (false, sb106) := by
  show tryLoop (solveF 61) sb106 35 [1, 2, 3, 4, 5, 6, 7, 8, 9] = _
  rw [tryLoop_cons_invalid (solveF 61) sb106 35 1 [2, 3, 4, 5, 6, 7, 8, 9] rfl]
  rw [tryLoop_cons_invalid (solveF 61) sb106 35 2 [3, 4, 5, 6, 7, 8, 9] rfl]
  rw [tryLoop_cons_invalid (solveF 61) sb106 35 3 [4, 5, 6, 7, 8, 9] rfl]
  have h1 : solveF 61 (List.set sb106 35 4) = (false, sb107) := by
    rw [show List.set sb106 35 4 = sb107 from rfl]
    exact stp107
  rw [tryLoop_cons_valid_false (solveF 61) sb106 35 4 [5, 6, 7, 8, 9] sb107 rfl h1]
  rw [show List.set sb107 35 0 = sb106 from rfl]
  rw [tryLoop_cons_invalid (solveF 61) sb106 35 5 [6, 7, 8, 9] rfl]
  rw [tryLoop_cons_invalid (solveF 61) sb106 35 6 [7, 8, 9] rfl]
  rw [tryLoop_cons_invalid (solveF 61) sb106 35 7 [8, 9] rfl]
  rw [tryLoop_cons_invalid (solveF 61) sb106 35 8 [9] rfl]
  rw [tryLoop_cons_invalid (solveF 61) sb106 35 9 [] rfl]
  exact tryLoop_nil (solveF 61) sb106 35

theorem stp104 : solveF 63 sb104 = (false, sb104) := by
  show tryLoop (solveF 62) sb104 34 [1, 2, 3, 4, 5, 6, 7, 8, 9] = _
  rw [tryLoop_cons_invalid (solveF 62) sb104 34 1 [2, 3, 4, 5, 6, 7, 8, 9] rfl]
  rw [tryLoop_cons_invalid (solveF 62) sb104 34 2 [3, 4, 5, 6, 7, 8, 9] rfl]
  rw [tryLoop_cons_invalid (solveF 62) sb104 34 3 [4, 5, 6, 7, 8, 9] rfl]
  have h1 : solveF 62 (List.set sb104 34 4) = (false, sb105) := by
    rw [show List.set sb104 34 4 = sb105 from rfl]
    exact stp105
  rw [tryLoop_cons_valid_false (solveF 62) sb104 34 4 [5, 6, 7, 8, 9] sb105 rfl h1]
  rw [show List.set sb105 34 0 = sb104 from rfl]
  rw [tryLoop_cons_invalid (solveF 62) sb104 34 5 [6, 7, 8, 9] rfl]
  rw [tryLoop_cons_invalid (solveF 62) sb104 34 6 [7, 8, 9] rfl]
  have h2 : solveF 62 (List.set sb104 34 7) = (false, sb106) := by
    rw [show List.set sb104 34 7 = sb106 from rfl]
    exact stp106
  rw [tryLoop_cons_valid_false (solveF 62) sb104 34 7 [8, 9] sb106 rfl h2]
  rw [show List.set sb106 34 0 = sb104 from rfl]
  rw [tryLoop_cons_invalid (solveF 62) sb104 34 8 [9] rfl]
  rw [tryLoop_cons_invalid (solveF 62) sb104 34 9 [] rfl]
  exact tryLoop_nil (solveF 62) sb104 34

theorem stp103 : solveF 64 sb103 = (false, sb103) := by
  show tryLoop (solveF 63) sb103 31 [1, 2, 3, 4, 5, 6, 7, 8, 9] = _
  rw [tryLoop_cons_invalid (solveF 63) sb103 31 1 [2, 3, 4, 5, 6, 7, 8, 9] rfl]
  rw [tryLoop_cons_invalid (solveF 63) sb103 31 2 [3, 4, 5, 6, 7, 8, 9] rfl]
  rw [tryLoop_cons_invalid (solveF 63) sb103 31 3 [4, 5, 6, 7, 8, 9] rfl]
  rw [tryLoop_cons_invalid (solveF 63) sb103 31 4 [5, 6, 7, 8, 9] rfl]
  rw [tryLoop_cons_invalid (solveF 63) sb103 31 5 [6, 7, 8, 9] rfl]
  have h1 : solveF 63 (List.set sb103 31 6) = (false, sb104) := by
    rw [show List.set sb103 31 6 = sb104 from rfl]
    exact stp104
  rw [tryLoop_cons_valid_false (solveF 63) sb103 31 6 [7, 8, 9] sb104 rfl h1]
  rw [show List.set sb104 31 0 = sb103 from rfl]
  rw [tryLoop_cons_invalid (solveF 63) sb103 31 7 [8, 9] rfl]
  rw [tryLoop_cons_invalid (solveF 63) sb103 31 8 [9] rfl]
  rw [tryLoop_cons_invalid (solveF 63) sb103 31 9 [] rfl]
  exact tryLoop_nil (solveF 63) sb103 31

theorem stp157 : solveF 62 sb157 = (false, sb157) := by
  show tryLoop (solveF 61) sb157 35 [1, 2, 3, 4, 5, 6, 7, 8, 9] = _
  rw [tryLoop_cons_invalid (solveF 61) sb157 35 1 [2, 3, 4, 5, 6, 7, 8, 9] rfl]
  rw [tryLoop_cons_invalid (solveF 61) sb157 35 2 [3, 4, 5, 6, 7, 8, 9] rfl]
  rw [tryLoop_cons_invalid (solveF 61) sb157 35 3 [4, 5, 6, 7, 8, 9] rfl]
  rw [tryLoop_cons_invalid (solveF 61) sb157 35 4 [5, 6, 7, 8, 9] rfl]
  rw [tryLoop_cons_invalid (solveF 61) sb157 35 5 [6, 7, 8, 9] rfl]
  rw [tryLoop_cons_invalid (solveF 61) sb157 35 6 [7, 8, 9] rfl]
  rw [tryLoop_cons_invalid (solveF 61) sb157 35 7 [8, 9] rfl]
  rw [tryLoop_cons_invalid (solveF 61) sb157 35 8 [9] rfl]
  rw [tryLoop_cons_invalid (solveF 61) sb157 35 9 [] rfl]
  exact tryLoop_nil (solveF 61) sb157 35

theorem stp163 : solveF 57 sb163 = (false, sb163) := by
  show tryLoop (solveF 56) sb163 41 [1, 2, 3, 4, 5, 6, 7, 8, 9] = _
  rw [tryLoop_cons_invalid (solveF 56) sb163 41 1 [2, 3, 4, 5, 6, 7, 8, 9] rfl]
  rw [tryLoop_cons_invalid (solveF 56) sb163 41 2 [3, 4, 5, 6, 7, 8, 9] rfl]
  rw [tryLoop_cons_invalid (solveF 56) sb163 41 3 [4, 5, 6, 7, 8, 9] rfl]
  rw [tryLoop_cons_invalid (solveF 56) sb163 41 4 [5, 6, 7, 8, 9] rfl]
  rw [tryLoop_cons_invalid (solveF 56) sb163 41 5 [6, 7, 8, 9] rfl]
  rw [tryLoop_cons_invalid (solveF 56) sb163 41 6 [7, 8, 9] rfl]
  rw [tryLoop_cons_invalid (solveF 56) sb163 41 7 [8, 9] rfl]
  rw [tryLoop_cons_invalid (solveF 56) sb163 41 8 [9] rfl]
  rw [tryLoop_cons_invalid (solveF 56) sb163 41 9 [] rfl]
  exact tryLoop_nil (solveF 56) sb163 41

theorem stp164 : solveF 57 sb164 = (false, sb164) := by
  show tryLoop (solveF 56) sb164 41 [1, 2, 3, 4, 5, 6, 7, 8, 9] = _
  rw [tryLoop_cons_invalid (solveF 56) sb164 41 1 [2, 3, 4, 5, 6, 7, 8, 9] rfl]
  rw [tryLoop_cons_invalid (solveF 56) sb164 41 2 [3, 4, 5, 6, 7, 8, 9] rfl]
  rw [tryLoop_cons_invalid (solveF 56) sb164 41 3 [4, 5, 6, 7, 8, 9] rfl]
  rw [tryLoop_cons_invalid (solveF 56) sb164 41 4 [5, 6, 7, 8, 9] rfl]
  rw [tryLoop_cons_invalid (solveF 56) sb164 41 5 [6, 7, 8, 9] rfl]
  rw [tryLoop_cons_invalid (solveF 56) sb164 41 6 [7, 8, 9] rfl]
  rw [tryLoop_cons_invalid (solveF 56) sb164 41 7 [8, 9] rfl]
  rw [tryLoop_cons_invalid (solveF 56) sb164 41 8 [9] rfl]
  rw [tryLoop_cons_invalid (solveF 56) sb164 41 9 [] rfl]
  exact tryLoop_nil (solveF 56) sb164 41

theorem stp162 : solveF 58 sb162 = (false, sb162) := by
  show tryLoop (solveF 57) sb162 40 [1, 2, 3, 4, 5, 6, 7, 8, 9] = _
  rw [tryLoop_cons_invalid (solveF 57) sb162 40 1 [2, 3, 4, 5, 6, 7, 8, 9] rfl]
  rw [tryLoop_cons_invalid (solveF 57) sb162 40 2 [3, 4, 5, 6, 7, 8, 9] rfl]
  rw [tryLoop_cons_invalid (solveF 57) sb162 40 3 [4, 5, 6, 7, 8, 9] rfl]
  rw [tryLoop_cons_invalid (solveF 57) sb162 40 4 [5, 6, 7, 8, 9] rfl]
  have h1 : solveF 57 (List.set sb162 40 5) = (false, sb163) := by
    rw [show List.set sb162 40 5 = sb163 from rfl]
    exact stp163
  rw [tryLoop_cons_valid_false (solveF 57) sb162 40 5 [6, 7, 8, 9] sb163 rfl h1]
  rw [show List.set sb163 40 0 = sb162 from rfl]
  have h2 : solveF 57 (List.set sb162 40 6) = (false, sb164) := by
    rw [show List.set sb162 40 6 = sb164 from rfl]
    exact stp164
  rw [tryLoop_cons_valid_false (solveF 57) sb162 40 6 [7, 8, 9] sb164 rfl h2]
  rw [show List.set sb164 40 0 = sb162 from rfl]
  rw [tryLoop_cons_invalid (solveF 57) sb162 40 7 [8, 9] rfl]
  rw [tryLoop_cons_invalid (solveF 57) sb162 40 8 [9] rfl]
  rw [tryLoop_cons_invalid (solveF 57) sb162 40 9 [] rfl]
  exact tryLoop_nil (solveF 57) sb162 40

theorem stp167 : solveF 56 sb167 = (false, sb167) := by
  show tryLoop (solveF 55) sb167 42 [1, 2, 3, 4, 5, 6, 7, 8, 9] = _
  rw [tryLoop_cons_invalid (solveF 55) sb167 42 1 [2, 3, 4, 5, 6, 7, 8, 9] rfl]
  rw [tryLoop_cons_invalid (solveF 55) sb167 42 2 [3, 4, 5, 6, 7, 8, 9] rfl]
  rw [tryLoop_cons_invalid (solveF 55) sb167 42 3 [4, 5, 6, 7, 8, 9] rfl]
  rw [tryLoop_cons_invalid (solveF 55) sb167 42 4 [5, 6, 7, 8, 9] rfl]
  rw [tryLoop_cons_invalid (solveF 55) sb167 42 5 [6, 7, 8, 9] rfl]
  rw [tryLoop_cons_invalid (solveF 55) sb167 42 6 [7, 8, 9] rfl]
  rw [tryLoop_cons_invalid (solveF 55) sb167 42 7 [8, 9] rfl]
  rw [tryLoop_cons_invalid (solveF 55) sb167 42 8 [9] rfl]
  rw [tryLoop_cons_invalid (solveF 55) sb167 42 9 [] rfl]
  exact tryLoop_nil (solveF 55) sb167 42

theorem stp166 : solveF 57 sb166 = (false, sb166) := by
  show tryLoop (solveF 56) sb166 41 [1, 2, 3, 4, 5, 6, 7, 8, 9] = _
  rw [tryLoop_cons_invalid (solveF 56) sb166 41 1 [2, 3, 4, 5, 6, 7, 8, 9] rfl]
  rw [tryLoop_cons_invalid (solveF 56) sb166 41 2 [3, 4, 5, 6, 7, 8, 9] rfl]
  rw [tryLoop_cons_invalid (solveF 56) sb166 41 3 [4, 5, 6, 7, 8, 9] rfl]
  have h1 : solveF 56 (List.set sb166 41 4) = (false, sb167) := by
    rw [show List.set sb166 41 4 = sb167 from rfl]
    exact stp167
  rw [tryLoop_cons_valid_false (solveF 56) sb166 41 4 [5, 6, 7, 8, 9] sb167 rfl h1]
  rw [show List.set sb167 41 0 = sb166 from rfl]
  rw [tryLoop_cons_invalid (solveF 56) sb166 41 5 [6, 7, 8, 9] rfl]
  rw [tryLoop_cons_invalid (solveF 56) sb166 41 6 [7, 8, 9] rfl]
  rw [tryLoop_cons_invalid (solveF 56) sb166 41 7 [8, 9] rfl]
  rw [tryLoop_cons_invalid (solveF 56) sb166 41 8 [9] rfl]
  rw [tryLoop_cons_invalid (solveF 56) sb166 41 9 [] rfl]
  exact tryLoop_nil (solveF 56) sb166 41

theorem stp165 : solveF 58 sb165 = (false, sb165) := by
  show tryLoop (solveF 57) sb165 40 [1, 2, 3, 4, 5, 6, 7, 8, 9] = _
  rw [tryLoop_cons_invalid (solveF 57) sb165 40 1 [2, 3, 4, 5, 6, 7, 8, 9] rfl]
  rw [tryLoop_cons_invalid (solveF 57) sb165 40 2 [3, 4, 5, 6, 7, 8, 9] rfl]
  rw [tryLoop_cons_invalid (solveF 57) sb165 40 3 [4, 5, 6, 7, 8, 9] rfl]
  rw [tryLoop_cons_invalid (solveF 57) sb165 40 4 [5, 6, 7, 8, 9] rfl]
  rw [tryLoop_cons_invalid (solveF 57) sb165 40 5 [6, 7, 8, 9] rfl]
  have h1 : solveF 57 (List.set sb165 40 6) = (false, sb166) := by
    rw [show List.set sb165 40 6 = sb166 from rfl]
    exact stp166
  rw [tryLoop_cons_valid_false (solveF 57) sb165 40 6 [7, 8, 9] sb166 rfl h1]
  rw [show List.set sb166 40 0 = sb165 from rfl]
  rw [tryLoop_cons_invalid (solveF 57) sb165 40 7 [8, 9] rfl]
  rw [tryLoop_cons_invalid (solveF 57) sb165 40 8 [9] rfl]
  rw [tryLoop_cons_invalid (solveF 57) sb165 40 9 [] rfl]
  exact tryLoop_nil (solveF 57) sb165 40

theorem stp161 : solveF 59 sb161 = (false, sb161) := by
  show tryLoop (solveF 58) sb161 39 [1, 2, 3, 4, 5, 6, 7, 8, 9] = _
  rw [tryLoop_cons_invalid (solveF 58) sb161 39 1 [2, 3, 4, 5, 6, 7, 8, 9] rfl]
  rw [tryLoop_cons_invalid (solveF 58) sb161 39 2 [3, 4, 5, 6, 7, 8, 9] rfl]
  rw [tryLoop_cons_invalid (solveF 58) sb161 39 3 [4, 5, 6, 7, 8, 9] rfl]
  have h1 : solveF 58 (List.set sb161 39 4) = (false, sb162) := by
    rw [show List.set sb161 39 4 = sb162 from rfl]
    exact stp162
  rw [tryLoop_cons_valid_false (solveF 58) sb161 39 4 [5, 6, 7, 8, 9] sb162 rfl h1]
  rw [show List.set sb162 39 0 = sb161 from rfl]
  have h2 : solveF 58 (List.set sb161 39 5) = (false, sb165) := by
    rw [show List.set sb161 39 5 = sb165 from rfl]
    exact stp165
  rw [tryLoop_cons_valid_false (solveF 58) sb161 39 5 [6, 7, 8, 9] sb165 rfl h2]
  rw [show List.set sb165 39 0 = sb161 from rfl]
  rw [tryLoop_cons_invalid (solveF 58) sb161 39 6 [7, 8, 9] rfl]
  rw [tryLoop_cons_invalid (solveF 58) sb161 39 7 [8, 9] rfl]
  rw [tryLoop_cons_invalid (solveF 58) sb161 39 8 [9] rfl]
  rw [tryLoop_cons_invalid (solveF 58) sb161 39 9 [] rfl]
  exact tryLoop_nil (solveF 58) sb161 39

theorem stp160 : solveF 60 sb160 = (false, sb160) := by
  show tryLoop (solveF 59) sb160 38 [1, 2, 3, 4, 5, 6, 7, 8, 9] = _
  rw [tryLoop_cons_invalid (solveF 59) sb160 38 1 [2, 3, 4, 5, 6, 7, 8, 9] rfl]
  rw [tryLoop_cons_invalid (solveF 59) sb160 38 2 [3, 4, 5, 6, 7, 8, 9] rfl]
  rw [tryLoop_cons_invalid (solveF 59) sb160 38 3 [4, 5, 6, 7, 8, 9] rfl]
  rw [tryLoop_cons_invalid (solveF 59) sb160 38 4 [5, 6, 7, 8, 9] rfl]
  rw [tryLoop_cons_invalid (solveF 59) sb160 38 5 [6, 7, 8, 9] rfl]
  rw [tryLoop_cons_invalid (solveF 59) sb160 38 6 [7, 8, 9] rfl]
  rw [tryLoop_cons_invalid (solveF 59) sb160 38 7 [8, 9] rfl]
  rw [tryLoop_cons_invalid (solveF 59) sb160 38 8 [9] rfl]
  have h1 : solveF 59 (List.set sb160 38 9) = (false, sb161) := by
    rw [show List.set sb160 38 9 = sb161 from rfl]
    exact stp161
  rw [tryLoop_cons_valid_false (solveF 59) sb160 38 9 [] sb161 rfl h1]
  rw [show List.set sb161 38 0 = sb160 from rfl]
  exact tryLoop_nil (solveF 59) sb160 38

theorem stp171 : solveF 57 sb171 = (false, sb171) := by
  show tryLoop (solveF 56) sb171 41 [1, 2, 3, 4, 5, 6, 7, 8, 9] = _
  rw [tryLoop_cons_invalid (solveF 56) sb171 41 1 [2, 3, 4, 5, 6, 7, 8, 9] rfl]
  rw [tryLoop_cons_invalid (solveF 56) sb171 41 2 [3, 4, 5, 6, 7, 8, 9] rfl]
  rw [tryLoop_cons_invalid (solveF 56) sb171 41 3 [4, 5, 6, 7, 8, 9] rfl]
  rw [tryLoop_cons_invalid (solveF 56) sb171 41 4 [5, 6, 7, 8, 9] rfl]
  rw [tryLoop_cons_invalid (solveF 56) sb171 41 5 [6, 7, 8, 9] rfl]
  rw [tryLoop_cons_invalid (solveF 56) sb171 41 6 [7, 8, 9] rfl]
  rw [tryLoop_cons_invalid (solveF 56) sb171 41 7 [8, 9] rfl]
  rw [tryLoop_cons_invalid (solveF 56) sb171 41 8 [9] rfl]
  rw [tryLoop_cons_invalid (solveF 56) sb171 41 9 [] rfl]
  exact tryLoop_nil (solveF 56) sb171 41

theorem stp172 : solveF 57 sb172 = (false, sb172) := by
  show tryLoop (solveF 56) sb172 41 [1, 2, 3, 4, 5, 6, 7, 8, 9] = _
  rw [tryLoop_cons_invalid (solveF 56) sb172 41 1 [2, 3, 4, 5, 6, 7, 8, 9] rfl]
  rw [tryLoop_cons_invalid (solveF 56) sb172 41 2 [3, 4, 5, 6, 7, 8, 9] rfl]
  rw [tryLoop_cons_invalid (solveF 56) sb172 41 3 [4, 5, 6, 7, 8, 9] rfl]
  rw [tryLoop_cons_invalid (solveF 56) sb172 41 4 [5, 6, 7, 8, 9] rfl]
  rw [tryLoop_cons_invalid (solveF 56) sb172 41 5 [6, 7, 8, 9] rfl]
  rw [tryLoop_cons_invalid (solveF 56) sb172 41 6 [7, 8, 9] rfl]
  rw [tryLoop_cons_invalid (solveF 56) sb172 41 7 [8, 9] rfl]
  rw [tryLoop_cons_invalid (solveF 56) sb172 41 8 [9] rfl]
  rw [tryLoop_cons_invalid (solveF 56) sb172 41 9 [] rfl]
  exact tryLoop_nil (solveF 56) sb172 41

theorem stp170 : solveF 58 sb170 = (false, sb170) := by
  show tryLoop (solveF 57) sb170 40 [1, 2, 3, 4, 5, 6, 7, 8, 9] = _
  rw [tryLoop_cons_invalid (solveF 57) sb170 40 1 [2, 3, 4, 5, 6, 7, 8, 9] rfl]
  rw [tryLoop_cons_invalid (solveF 57) sb170 40 2 [3, 4, 5, 6, 7, 8, 9] rfl]
  rw [tryLoop_cons_invalid (solveF 57) sb170 40 3 [4, 5, 6, 7, 8, 9] rfl]
  rw [tryLoop_cons_invalid (solveF 57) sb170 40 4 [5, 6, 7, 8, 9] rfl]
  have h1 : solveF 57 (List.set sb170 40 5) = (false, sb171) := by
    rw [show List.set sb170 40 5 = sb171 from rfl]
    exact stp171
  rw [tryLoop_cons_valid_false (solveF 57) sb170 40 5 [6, 7, 8, 9] sb171 rfl h1]
  rw [show List.set sb171 40 0 = sb170 from rfl]
  have h2 : solveF 57 (List.set sb170 40 6) = (false, sb172) := by
    rw [show List.set sb170 40 6 = sb172 from rfl]
    exact stp172
  rw [tryLoop_cons_valid_false (solveF 57) sb170 40 6 [7, 8, 9] sb172 rfl h2]
  rw [show List.set sb172 40 0 = sb170 from rfl]
  rw [tryLoop_cons_invalid (solveF 57) sb170 40 7 [8, 9] rfl]
  rw [tryLoop_cons_invalid (solveF 57) sb170 40 8 [9] rfl]
  rw [tryLoop_cons_invalid (solveF 57) sb170 40 9 [] rfl]
  exact tryLoop_nil (solveF 57) sb170 40

theorem stp185 : solveF 46 sb185 = (false, sb185) := by
  show tryLoop (solveF 45) sb185 61 [1, 2, 3, 4, 5, 6, 7, 8, 9] = _
  rw [tryLoop_cons_invalid (solveF 45) sb185 61 1 [2, 3, 4, 5, 6, 7, 8, 9] rfl]
  rw [tryLoop_cons_invalid (solveF 45) sb185 61 2 [3, 4, 5, 6, 7, 8, 9] rfl]
  rw [tryLoop_cons_invalid (solveF 45) sb185 61 3 [4, 5, 6, 7, 8, 9] rfl]
  rw [tryLoop_cons_invalid (solveF 45) sb185 61 4 [5, 6, 7, 8, 9] rfl]
  rw [tryLoop_cons_invalid (solveF 45) sb185 61 5 [6, 7, 8, 9] rfl]
  rw [tryLoop_cons_invalid (solveF 45) sb185 61 6 [7, 8, 9] rfl]
  rw [tryLoop_cons_invalid (solveF 45) sb185 61 7 [8, 9] rfl]
  rw [tryLoop_cons_invalid (solveF 45) sb185 61 8 [9] rfl]
  rw [tryLoop_cons_invalid (solveF 45) sb185 61 9 [] rfl]
  exact tryLoop_nil (solveF 45) sb185 61

theorem stp184 : solveF 47 sb184 = (false, sb184) := by
  show tryLoop (solveF 46) sb184 58 [1, 2, 3, 4, 5, 6, 7, 8, 9] = _
  rw [tryLoop_cons_invalid (solveF 46) sb184 58 1 [2, 3, 4, 5, 6, 7, 8, 9] rfl]
  rw [tryLoop_cons_invalid (solveF 46) sb184 58 2 [3, 4, 5, 6, 7, 8, 9] rfl]
  rw [tryLoop_cons_invalid (solveF 46) sb184 58 3 [4, 5, 6, 7, 8, 9] rfl]
  rw [tryLoop_cons_invalid (solveF 46) sb184 58 4 [5, 6, 7, 8, 9] rfl]
  rw [tryLoop_cons_invalid (solveF 46) sb184 58 5 [6, 7, 8, 9] rfl]
  rw [tryLoop_cons_invalid (solveF 46) sb184 58 6 [7, 8, 9] rfl]
  rw [tryLoop_cons_invalid (solveF 46) sb184 58 7 [8, 9] rfl]
  have h1 : solveF 46 (List.set sb184 58 8) = (false, sb185) := by
    rw [show List.set sb184 58 8 = sb185 from rfl]
    exact stp185
  rw [tryLoop_cons_valid_false (solveF 46) sb184 58 8 [9] sb185 rfl h1]
  rw [show List.set sb185 58 0 = sb184 from rfl]
  rw [tryLoop_cons_invalid (solveF 46) sb184 58 9 [] rfl]
  exact tryLoop_nil (solveF 46) sb184 58

theorem stp200 : solveF 33 classicSolved = (true, classicSolved) :=
  solveF_succ_none 32 classicSolved rfl

theorem stp199 : solveF 34 sb199 = (true, classicSolved) := by
  show tryLoop (solveF 33) sb199 80 [1, 2, 3, 4, 5, 6, 7, 8, 9] = _
  rw [tryLoop_cons_invalid (solveF 33) sb199 80 1 [2, 3, 4, 5, 6, 7, 8, 9] rfl]
  have h1 : solveF 33 (List.set sb199 80 2) = (true, classicSolved) := by
    rw [show List.set sb199 80 2 = classicSolved from rfl]
    exact stp200
  exact tryLoop_cons_valid_true (solveF 33) sb199 80 2 [3, 4, 5, 6, 7, 8, 9] classicSolved rfl h1

theorem stp198 : solveF 35 sb198 = (true, classicSolved) := by
  show tryLoop (solveF 34) sb198 79 [1, 2, 3, 4, 5, 6, 7, 8, 9] = _
  rw [tryLoop_cons_invalid (solveF 34) sb198 79 1 [2, 3, 4, 5, 6, 7, 8, 9] rfl]
  rw [tryLoop_cons_invalid (solveF 34) sb198 79 2 [3, 4, 5, 6, 7, 8, 9] rfl]
  rw [tryLoop_cons_invalid (solveF 34) sb198 79 3 [4, 5, 6, 7, 8, 9] rfl]
  rw [tryLoop_cons_invalid (solveF 34) sb198 79 4 [5, 6, 7, 8, 9] rfl]
  rw [tryLoop_cons_invalid (solveF 34) sb198 79 5 [6, 7, 8, 9] rfl]
  rw [tryLoop_cons_invalid (solveF 34) sb198 79 6 [7, 8, 9] rfl]
  rw [tryLoop_cons_invalid (solveF 34) sb198 79 7 [8, 9] rfl]
  have h1 : solveF 34 (List.set sb198 79 8) = (true, classicSolved) := by
    rw [show List.set sb198 79 8 = sb199 from rfl]
    exact stp199
  exact tryLoop_cons_valid_true (solveF 34) sb198 79 8 [9] classicSolved rfl h1

theorem stp197 : solveF 36 sb197 = (true, classicSolved) := by
  show tryLoop (solveF 35) sb197 77 [1, 2, 3, 4, 5, 6, 7, 8, 9] = _
  rw [tryLoop_cons_invalid (solveF 35) sb197 77 1 [2, 3, 4, 5, 6, 7, 8, 9] rfl]
  rw [tryLoop_cons_invalid (solveF 35) sb197 77 2 [3, 4, 5, 6, 7, 8, 9] rfl]
  rw [tryLoop_cons_invalid (solveF 35) sb197 77 3 [4, 5, 6, 7, 8, 9] rfl]
  rw [tryLoop_cons_invalid (solveF 35) sb197 77 4 [5, 6, 7, 8, 9] rfl]
  rw [tryLoop_cons_invalid (solveF 35) sb197 77 5 [6, 7, 8, 9] rfl]
  rw [tryLoop_cons_invalid (solveF 35) sb197 77 6 [7, 8, 9] rfl]
  have h1 : solveF 35 (List.set sb197 77 7) = (true, classicSolved) := by
    rw [show List.set sb197 77 7 = sb198 from rfl]
    exact stp198
  exact tryLoop_cons_valid_true (solveF 35) sb197 77 7 [8, 9] classicSolved rfl h1

theorem stp196 : solveF 37 sb196 = (true, classicSolved) := by
  show tryLoop (solveF 36) sb196 75 [1, 2, 3, 4, 5, 6, 7, 8, 9] = _
  rw [tryLoop_cons_invalid (solveF 36) sb196 75 1 [2, 3, 4, 5, 6, 7, 8, 9] rfl]
  rw [tryLoop_cons_invalid (solveF 36) sb196 75 2 [3, 4, 5, 6, 7, 8, 9] rfl]
  rw [tryLoop_cons_invalid (solveF 36) sb196 75 3 [4, 5, 6, 7, 8, 9] rfl]
  have h1 : solveF 36 (List.set sb196 75 4) = (true, classicSolved) := by
    rw [show List.set sb196 75 4 = sb197 from rfl]
    exact stp197
  exact tryLoop_cons_valid_true (solveF 36) sb196 75 4 [5, 6, 7, 8, 9] classicSolved rfl h1

theorem stp195 : solveF 38 sb195 = (true, classicSolved) := by
  show tryLoop (solveF 37) sb195 73 [1, 2, 3, 4, 5, 6, 7, 8, 9] = _
  rw [tryLoop_cons_invalid (solveF 37) sb195 73 1 [2, 3, 4, 5, 6, 7, 8, 9] rfl]
  rw [tryLoop_cons_invalid (solveF 37) sb195 73 2 [3, 4, 5, 6, 7, 8, 9] rfl]
  rw [tryLoop_cons_invalid (solveF 37) sb195 73 3 [4, 5, 6, 7, 8, 9] rfl]
  rw [tryLoop_cons_invalid (solveF 37) sb195 73 4 [5, 6, 7, 8, 9] rfl]
  rw [tryLoop_cons_invalid (solveF 37) sb195 73 5 [6, 7, 8, 9] rfl]
  rw [tryLoop_cons_invalid (solveF 37) sb195 73 6 [7, 8, 9] rfl]
  rw [tryLoop_cons_invalid (solveF 37) sb195 73 7 [8, 9] rfl]
  rw [tryLoop_cons_invalid (solveF 37) sb195 73 8 [9] rfl]
  have h1 : solveF 37 (List.set sb195 73 9) = (true, classicSolved) := by
    rw [show List.set sb195 73 9 = sb196 from rfl]
    exact stp196
  exact tryLoop_cons_valid_true (solveF 37) sb195 73 9 [] classicSolved rfl h1

theorem stp194 : solveF 39 sb194 = (true, classicSolved) := by
  show tryLoop (solveF 38) sb194 72 [1, 2, 3, 4, 5, 6, 7, 8, 9] = _
  rw [tryLoop_cons_invalid (solveF 38) sb194 72 1 [2, 3, 4, 5, 6, 7, 8, 9] rfl]
  rw [tryLoop_cons_invalid (solveF 38) sb194 72 2 [3, 4, 5, 6, 7, 8, 9] rfl]
  rw [tryLoop_cons_invalid (solveF 38) sb194 72 3 [4, 5, 6, 7, 8, 9] rfl]
  rw [tryLoop_cons_invalid (solveF 38) sb194 72 4 [5, 6, 7, 8, 9] rfl]
  rw [tryLoop_cons_invalid (solveF 38) sb194 72 5 [6, 7, 8, 9] rfl]
  have h1 : solveF 38 (List.set sb194 72 6) = (true, classicSolved) := by
    rw [show List.set sb194 72 6 = sb195 from rfl]
    exact stp195
  exact tryLoop_cons_valid_true (solveF 38) sb194 72 6 [7, 8, 9] classicSolved rfl h1

theorem stp193 : solveF 40 sb193 = (true, classicSolved) := by
  show tryLoop (solveF 39) sb193 70 [1, 2, 3, 4, 5, 6, 7, 8, 9] = _
  rw [tryLoop_cons_invalid (solveF 39) sb193 70 1 [2, 3, 4, 5, 6, 7, 8, 9] rfl]
  rw [tryLoop_cons_invalid (solveF 39) sb193 70 2 [3, 4, 5, 6, 7, 8, 9] rfl]
  rw [tryLoop_cons_invalid (solveF 39) sb193 70 3 [4, 5, 6, 7, 8, 9] rfl]
  rw [tryLoop_cons_invalid (solveF 39) sb193 70 4 [5, 6, 7, 8, 9] rfl]
  rw [tryLoop_cons_invalid (solveF 39) sb193 70 5 [6, 7, 8, 9] rfl]
  have h1 : solveF 39 (List.set sb193 70 6) = (true, classicSolved) := by
    rw [show List.set sb193 70 6 = sb194 from rfl]
    exact stp194
  exact tryLoop_cons_valid_true (solveF 39) sb193 70 6 [7, 8, 9] classicSolved rfl h1

theorem stp192 : solveF 41 sb192 = (true, classicSolved) := by
  show tryLoop (solveF 40) sb192 69 [1, 2, 3, 4, 5, 6, 7, 8, 9] = _
  rw [tryLoop_cons_invalid (solveF 40) sb192 69 1 [2, 3, 4, 5, 6, 7, 8, 9] rfl]
  rw [tryLoop_cons_invalid (solveF 40) sb192 69 2 [3, 4, 5, 6, 7, 8, 9] rfl]
  rw [tryLoop_cons_invalid (solveF 40) sb192 69 3 [4, 5, 6, 7, 8, 9] rfl]
  rw [tryLoop_cons_invalid (solveF 40) sb192 69 4 [5, 6, 7, 8, 9] rfl]
  rw [tryLoop_cons_invalid (solveF 40) sb192 69 5 [6, 7, 8, 9] rfl]
  rw [tryLoop_cons_invalid (solveF 40) sb192 69 6 [7, 8, 9] rfl]
  have h1 : solveF 40 (List.set sb192 69 7) = (true, classicSolved) := by
    rw [show List.set sb192 69 7 = sb193 from rfl]
    exact stp193
  exact tryLoop_cons_valid_true (solveF 40) sb192 69 7 [8, 9] classicSolved rfl h1

theorem stp191 : solveF 42 sb191 = (true, classicSolved) := by
  show tryLoop (solveF 41) sb191 67 [1, 2, 3, 4, 5, 6, 7, 8, 9] = _
  rw [tryLoop_cons_invalid (solveF 41) sb191 67 1 [2, 3, 4, 5, 6, 7, 8, 9] rfl]
  rw [tryLoop_cons_invalid (solveF 41) sb191 67 2 [3, 4, 5, 6, 7, 8, 9] rfl]
  rw [tryLoop_cons_invalid (solveF 41) sb191 67 3 [4, 5, 6, 7, 8, 9] rfl]
  rw [tryLoop_cons_invalid (solveF 41) sb191 67 4 [5, 6, 7, 8, 9] rfl]
  have h1 : solveF 41 (List.set sb191 67 5) = (true, classicSolved) := by
    rw [show List.set sb191 67 5 = sb192 from rfl]
    exact stp192
  exact tryLoop_cons_valid_true (solveF 41) sb191 67 5 [6, 7, 8, 9] classicSolved rfl h1

theorem stp190 : solveF 43 sb190 = (true, classicSolved) := by
  show tryLoop (solveF 42) sb190 65 [1, 2, 3, 4, 5, 6, 7, 8, 9] = _
  rw [tryLoop_cons_invalid (solveF 42) sb190 65 1 [2, 3, 4, 5, 6, 7, 8, 9] rfl]
  rw [tryLoop_cons_invalid (solveF 42) sb190 65 2 [3, 4, 5, 6, 7, 8, 9] rfl]
  rw [tryLoop_cons_invalid (solveF 42) sb190 65 3 [4, 5, 6, 7, 8, 9] rfl]
  have h1 : solveF 42 (List.set sb190 65 4) = (true, classicSolved) := by
    rw [show List.set sb190 65 4 = sb191 from rfl]
    exact stp191
  exact tryLoop_cons_valid_true (solveF 42) sb190 65 4 [5, 6, 7, 8, 9] classicSolved rfl h1

theorem stp189 : solveF 44 sb189 = (true, classicSolved) := by
  show tryLoop (solveF 43) sb189 64 [1, 2, 3, 4, 5, 6, 7, 8, 9] = _
  have h1 : solveF 43 (List.set sb189 64 1) = (true, classicSolved) := by
    rw [show List.set sb189 64 1 = sb190 from rfl]
    exact stp190
  exact tryLoop_cons_valid_true (solveF 43) sb189 64 1 [2, 3, 4, 5, 6, 7, 8, 9] classicSolved rfl h1

theorem stp188 : solveF 45 sb188 = (true, classicSolved) := by
  show tryLoop (solveF 44) sb188 62 [1, 2, 3, 4, 5, 6, 7, 8, 9] = _
  rw [tryLoop_cons_invalid (solveF 44) sb188 62 1 [2, 3, 4, 5, 6, 7, 8, 9] rfl]
  rw [tryLoop_cons_invalid (solveF 44) sb188 62 2 [3, 4, 5, 6, 7, 8, 9] rfl]
  rw [tryLoop_cons_invalid (solveF 44) sb188 62 3 [4, 5, 6, 7, 8, 9] rfl]
  have h1 : solveF 44 (List.set sb188 62 4) = (true, classicSolved) := by
    rw [show List.set sb188 62 4 = sb189 from rfl]
    exact stp189
  exact tryLoop_cons_valid_true (solveF 44) sb188 62 4 [5, 6, 7, 8, 9] classicSolved rfl h1

theorem stp187 : solveF 46 sb187 = (true, classicSolved) := by
  show tryLoop (solveF 45) sb187 61 [1, 2, 3, 4, 5, 6, 7, 8, 9] = _
  have h1 : solveF 45 (List.set sb187 61 1) = (true, classicSolved) := by
    rw [show List.set sb187 61 1 = sb188 from rfl]
    exact stp188
  exact tryLoop_cons_valid_true (solveF 45) sb187 61 1 [2, 3, 4, 5, 6, 7, 8, 9] classicSolved rfl h1

theorem stp186 : solveF 47 sb186 = (true, classicSolved) := by
  show tryLoop (solveF 46) sb186 58 [1, 2, 3, 4, 5, 6, 7, 8, 9] = _
  rw [tryLoop_cons_invalid (solveF 46) sb186 58 1 [2, 3, 4, 5, 6, 7, 8, 9] rfl]
  rw [tryLoop_cons_invalid (solveF 46) sb186 58 2 [3, 4, 5, 6, 7, 8, 9] rfl]
  rw [tryLoop_cons_invalid (solveF 46) sb186 58 3 [4, 5, 6, 7, 8, 9] rfl]
  rw [tryLoop_cons_invalid (solveF 46) sb186 58 4 [5, 6, 7, 8, 9] rfl]
  rw [tryLoop_cons_invalid (solveF 46) sb186 58 5 [6, 7, 8, 9] rfl]
  rw [tryLoop_cons_invalid (solveF 46) sb186 58 6 [7, 8, 9] rfl]
  rw [tryLoop_cons_invalid (solveF 46) sb186 58 7 [8, 9] rfl]
  have h1 : solveF 46 (List.set sb186 58 8) = (true, classicSolved) := by
    rw [show List.set sb186 58 8 = sb187 from rfl]
    exact stp187
  exact tryLoop_cons_valid_true (solveF 46) sb186 58 8 [9] classicSolved rfl h1

theorem stp183 : solveF 48 sb183 = (true, classicSolved) := by
  show tryLoop (solveF 47) sb183 55 [1, 2, 3, 4, 5, 6, 7, 8, 9] = _
  have h1 : solveF 47 (List.set sb183 55 1) = (false, sb184) := by
    rw [show List.set sb183 55 1 = sb184 from rfl]
    exact stp184
  rw [tryLoop_cons_valid_false (solveF 47) sb183 55 1 [2, 3, 4, 5, 6, 7, 8, 9] sb184 rfl h1]
  rw [show List.set sb184 55 0 = sb183 from rfl]
  rw [tryLoop_cons_invalid (solveF 47) sb183 55 2 [3, 4, 5, 6, 7, 8, 9] rfl]
  rw [tryLoop_cons_invalid (solveF 47) sb183 55 3 [4, 5, 6, 7, 8, 9] rfl]
  rw [tryLoop_cons_invalid (solveF 47) sb183 55 4 [5, 6, 7, 8, 9] rfl]
  rw [tryLoop_cons_invalid (solveF 47) sb183 55 5 [6, 7, 8, 9] rfl]
  rw [tryLoop_cons_invalid (solveF 47) sb183 55 6 [7, 8, 9] rfl]
  have h2 : solveF 47 (List.set sb183 55 7) = (true, classicSolved) := by
    rw [show List.set sb183 55 7 = sb186 from rfl]
    exact stp186
  exact tryLoop_cons_valid_true (solveF 47) sb183 55 7 [8, 9] classicSolved rfl h2

theorem stp182 : solveF 49 sb182 = (true, classicSolved) := by
  show tryLoop (solveF 48) sb182 54 [1, 2, 3, 4, 5, 6, 7, 8, 9] = _
  rw [tryLoop_cons_invalid (solveF 48) sb182 54 1 [2, 3, 4, 5, 6, 7, 8, 9] rfl]
  rw [tryLoop_cons_invalid (solveF 48) sb182 54 2 [3, 4, 5, 6, 7, 8, 9] rfl]
  have h1 : solveF 48 (List.set sb182 54 3) = (true, classicSolved) := by
    rw [show List.set sb182 54 3 = sb183 from rfl]
    exact stp183
  exact tryLoop_cons_valid_true (solveF 48) sb182 54 3 [4, 5, 6, 7, 8, 9] classicSolved rfl h1

theorem stp181 : solveF 50 sb181 = (true, classicSolved) := by
  show tryLoop (solveF 49) sb181 53 [1, 2, 3, 4, 5, 6, 7, 8, 9] = _
  rw [tryLoop_cons_invalid (solveF 49) sb181 53 1 [2, 3, 4, 5, 6, 7, 8, 9] rfl]
  rw [tryLoop_cons_invalid (solveF 49) sb181 53 2 [3, 4, 5, 6, 7, 8, 9] rfl]
  rw [tryLoop_cons_invalid (solveF 49) sb181 53 3 [4, 5, 6, 7, 8, 9] rfl]
  rw [tryLoop_cons_invalid (solveF 49) sb181 53 4 [5, 6, 7, 8, 9] rfl]
  have h1 : solveF 49 (List.set sb181 53 5) = (true, classicSolved) := by
    rw [show List.set sb181 53 5 = sb182 from rfl]
    exact stp182
  exact tryLoop_cons_valid_true (solveF 49) sb181 53 5 [6, 7, 8, 9] classicSolved rfl h1

theorem stp180 : solveF 51 sb180 = (true, classicSolved) := by
  show tryLoop (solveF 50) sb180 52 [1, 2, 3, 4, 5, 6, 7, 8, 9] = _
  rw [tryLoop_cons_invalid (solveF 50) sb180 52 1 [2, 3, 4, 5, 6, 7, 8, 9] rfl]
  rw [tryLoop_cons_invalid (solveF 50) sb180 52 2 [3, 4, 5, 6, 7, 8, 9] rfl]
  rw [tryLoop_cons_invalid (solveF 50) sb180 52 3 [4, 5, 6, 7, 8, 9] rfl]
  have h1 : solveF 50 (List.set sb180 52 4) = (true, classicSolved) := by
    rw [show List.set sb180 52 4 = sb181 from rfl]
    exact stp181
  exact tryLoop_cons_valid_true (solveF 50) sb180 52 4 [5, 6, 7, 8, 9] classicSolved rfl h1

theorem stp179 : solveF 52 sb179 = (true, classicSolved) := by
  show tryLoop (solveF 51) sb179 49 [1, 2, 3, 4, 5, 6, 7, 8, 9] = _
  rw [tryLoop_cons_invalid (solveF 51) sb179 49 1 [2, 3, 4, 5, 6, 7, 8, 9] rfl]
  rw [tryLoop_cons_invalid (solveF 51) sb179 49 2 [3, 4, 5, 6, 7, 8, 9] rfl]
  rw [tryLoop_cons_invalid (solveF 51) sb179 49 3 [4, 5, 6, 7, 8, 9] rfl]
  rw [tryLoop_cons_invalid (solveF 51) sb179 49 4 [5, 6, 7, 8, 9] rfl]
  rw [tryLoop_cons_invalid (solveF 51) sb179 49 5 [6, 7, 8, 9] rfl]
  rw [tryLoop_cons_invalid (solveF 51) sb179 49 6 [7, 8, 9] rfl]
  rw [tryLoop_cons_invalid (solveF 51) sb179 49 7 [8, 9] rfl]
  rw [tryLoop_cons_invalid (solveF 51) sb179 49 8 [9] rfl]
  have h1 : solveF 51 (List.set sb179 49 9) = (true, classicSolved) := by
    rw [show List.set sb179 49 9 = sb180 from rfl]
    exact stp180
  exact tryLoop_cons_valid_true (solveF 51) sb179 49 9 [] classicSolved rfl h1

theorem stp178 : solveF 53 sb178 = (true, classicSolved) := by
  show tryLoop (solveF 52) sb178 46 [1, 2, 3, 4, 5, 6, 7, 8, 9] = _
  rw [tryLoop_cons_invalid (solveF 52) sb178 46 1 [2, 3, 4, 5, 6, 7, 8, 9] rfl]
  rw [tryLoop_cons_invalid (solveF 52) sb178 46 2 [3, 4, 5, 6, 7, 8, 9] rfl]
  have h1 : solveF 52 (List.set sb178 46 3) = (true, classicSolved) := by
    rw [show List.set sb178 46 3 = sb179 from rfl]
    exact stp179
  exact tryLoop_cons_valid_true (solveF 52) sb178 46 3 [4, 5, 6, 7, 8, 9] classicSolved rfl h1

theorem stp177 : solveF 54 sb177 = (true, classicSolved) := by
  show tryLoop (solveF 53) sb177 45 [1, 2, 3, 4, 5, 6, 7, 8, 9] = _
  have h1 : solveF 53 (List.set sb177 45 1) = (true, classicSolved) := by
    rw [show List.set sb177 45 1 = sb178 from rfl]
    exact stp178
  exact tryLoop_cons_valid_true (solveF 53) sb177 45 1 [2, 3, 4, 5, 6, 7, 8, 9] classicSolved rfl h1

theorem stp176 : solveF 55 sb176 = (true, classicSolved) := by
  show tryLoop (solveF 54) sb176 43 [1, 2, 3, 4, 5, 6, 7, 8, 9] = _
  rw [tryLoop_cons_invalid (solveF 54) sb176 43 1 [2, 3, 4, 5, 6, 7, 8, 9] rfl]
  rw [tryLoop_cons_invalid (solveF 54) sb176 43 2 [3, 4, 5, 6, 7, 8, 9] rfl]
  have h1 : solveF 54 (List.set sb176 43 3) = (true, classicSolved) := by
    rw [show List.set sb176 43 3 = sb177 from rfl]
    exact stp177
  exact tryLoop_cons_valid_true (solveF 54) sb176 43 3 [4, 5, 6, 7, 8, 9] classicSolved rfl h1

theorem stp175 : solveF 56 sb175 = (true, classicSolved) := by
  show tryLoop (solveF 55) sb175 42 [1, 2, 3, 4, 5, 6, 7, 8, 9] = _
  have h1 : solveF 55 (List.set sb175 42 1) = (true, classicSolved) := by
    rw [show List.set sb175 42 1 = sb176 from rfl]
    exact stp176
  exact tryLoop_cons_valid_true (solveF 55) sb175 42 1 [2, 3, 4, 5, 6, 7, 8, 9] classicSolved rfl h1

theorem stp174 : solveF 57 sb174 = (true, classicSolved) := by
  show tryLoop (solveF 56) sb174 41 [1, 2, 3, 4, 5, 6, 7, 8, 9] = _
  rw [tryLoop_cons_invalid (solveF 56) sb174 41 1 [2, 3, 4, 5, 6, 7, 8, 9] rfl]
  rw [tryLoop_cons_invalid (solveF 56) sb174 41 2 [3, 4, 5, 6, 7, 8, 9] rfl]
  rw [tryLoop_cons_invalid (solveF 56) sb174 41 3 [4, 5, 6, 7, 8, 9] rfl]
  have h1 : solveF 56 (List.set sb174 41 4) = (true, classicSolved) := by
    rw [show List.set sb174 41 4 = sb175 from rfl]
    exact stp175
  exact tryLoop_cons_valid_true (solveF 56) sb174 41 4 [5, 6, 7, 8, 9] classicSolved rfl h1

theorem stp173 : solveF 58 sb173 = (true, classicSolved) := by
  show tryLoop (solveF 57) sb173 40 [1, 2, 3, 4, 5, 6, 7, 8, 9] = _
  rw [tryLoop_cons_invalid (solveF 57) sb173 40 1 [2, 3, 4, 5, 6, 7, 8, 9] rfl]
  rw [tryLoop_cons_invalid (solveF 57) sb173 40 2 [3, 4, 5, 6, 7, 8, 9] rfl]
  rw [tryLoop_cons_invalid (solveF 57) sb173 40 3 [4, 5, 6, 7, 8, 9] rfl]
  rw [tryLoop_cons_invalid (solveF 57) sb173 40 4 [5, 6, 7, 8, 9] rfl]
  rw [tryLoop_cons_invalid (solveF 57) sb173 40 5 [6, 7, 8, 9] rfl]
  have h1 : solveF 57 (List.set sb173 40 6) = (true, classicSolved) := by
    rw [show List.set sb173 40 6 = sb174 from rfl]
    exact stp174
  exact tryLoop_cons_valid_true (solveF 57) sb173 40 6 [7, 8, 9] classicSolved rfl h1

theorem stp169 : solveF 59 sb169 = (true, classicSolved) := by
  show tryLoop (solveF 58) sb169 39 [1, 2, 3, 4, 5, 6, 7, 8, 9] = _
  rw [tryLoop_cons_invalid (solveF 58) sb169 39 1 [2, 3, 4, 5, 6, 7, 8, 9] rfl]
  rw [tryLoop_cons_invalid (solveF 58) sb169 39 2 [3, 4, 5, 6, 7, 8, 9] rfl]
  rw [tryLoop_cons_invalid (solveF 58) sb169 39 3 [4, 5, 6, 7, 8, 9] rfl]
  have h1 : solveF 58 (List.set sb169 39 4) = (false, sb170) := by
    rw [show List.set sb169 39 4 = sb170 from rfl]
    exact stp170
  rw [tryLoop_cons_valid_false (solveF 58) sb169 39 4 [5, 6, 7, 8, 9] sb170 rfl h1]
  rw [show List.set sb170 39 0 = sb169 from rfl]
  have h2 : solveF 58 (List.set sb169 39 5) = (true, classicSolved) := by
    rw [show List.set sb169 39 5 = sb173 from rfl]
    exact stp173
  exact tryLoop_cons_valid_true (solveF 58) sb169 39 5 [6, 7, 8, 9] classicSolved rfl h2

theorem stp168 : solveF 60 sb168 = (true, classicSolved) := by
  show tryLoop (solveF 59) sb168 38 [1, 2, 3, 4, 5, 6, 7, 8, 9] = _
  rw [tryLoop_cons_invalid (solveF 59) sb168 38 1 [2, 3, 4, 5, 6, 7, 8, 9] rfl]
  rw [tryLoop_cons_invalid (solveF 59) sb168 38 2 [3, 4, 5, 6, 7, 8, 9] rfl]
  rw [tryLoop_cons_invalid (solveF 59) sb168 38 3 [4, 5, 6, 7, 8, 9] rfl]
  rw [tryLoop_cons_invalid (solveF 59) sb168 38 4 [5, 6, 7, 8, 9] rfl]
  rw [tryLoop_cons_invalid (solveF 59) sb168 38 5 [6, 7, 8, 9] rfl]
  rw [tryLoop_cons_invalid (solveF 59) sb168 38 6 [7, 8, 9] rfl]
  rw [tryLoop_cons_invalid (solveF 59) sb168 38 7 [8, 9] rfl]
  rw [tryLoop_cons_invalid (solveF 59) sb168 38 8 [9] rfl]
  have h1 : solveF 59 (List.set sb168 38 9) = (true, classicSolved) := by
    rw [show List.set sb168 38 9 = sb169 from rfl]
    exact stp169
  exact tryLoop_cons_valid_true (solveF 59) sb168 38 9 [] classicSolved rfl h1

theorem stp159 : solveF 61 sb159 = (true, classicSolved) := by
  show tryLoop (solveF 60) sb159 37 [1, 2, 3, 4, 5, 6, 7, 8, 9] = _
  have h1 : solveF 60 (List.set sb159 37 1) = (false, sb160) := by
    rw [show List.set sb159 37 1 = sb160 from rfl]
    exact stp160
  rw [tryLoop_cons_valid_false (solveF 60) sb159 37 1 [2, 3, 4, 5, 6, 7, 8, 9] sb160 rfl h1]
  rw [show List.set sb160 37 0 = sb159 from rfl]
  have h2 : solveF 60 (List.set sb159 37 2) = (true, classicSolved) := by
    rw [show List.set sb159 37 2 = sb168 from rfl]
    exact stp168
  exact tryLoop_cons_valid_true (solveF 60) sb159 37 2 [3, 4, 5, 6, 7, 8, 9] classicSolved rfl h2

theorem stp158 : solveF 62 sb158 = (true, classicSolved) := by
  show tryLoop (solveF 61) sb158 35 [1, 2, 3, 4, 5, 6, 7, 8, 9] = _
  rw [tryLoop_cons_invalid (solveF 61) sb158 35 1 [2, 3, 4, 5, 6, 7, 8, 9] rfl]
  rw [tryLoop_cons_invalid (solveF 61) sb158 35 2 [3, 4, 5, 6, 7, 8, 9] rfl]
  rw [tryLoop_cons_invalid (solveF 61) sb158 35 3 [4, 5, 6, 7, 8, 9] rfl]
  rw [tryLoop_cons_invalid (solveF 61) sb158 35 4 [5, 6, 7, 8, 9] rfl]
  rw [tryLoop_cons_invalid (solveF 61) sb158 35 5 [6, 7, 8, 9] rfl]
  have h1 : solveF 61 (List.set sb158 35 6) = (true, classicSolved) := by
    rw [show List.set sb158 35 6 = sb159 from rfl]
    exact stp159
  exact tryLoop_cons_valid_true (solveF 61) sb158 35 6 [7, 8, 9] classicSolved rfl h1

theorem stp156 : solveF 63 sb156 = (true, classicSolved) := by
  show tryLoop (solveF 62) sb156 34 [1, 2, 3, 4, 5, 6, 7, 8, 9] = _
  rw [tryLoop_cons_invalid (solveF 62) sb156 34 1 [2, 3, 4, 5, 6, 7, 8, 9] rfl]
  rw [tryLoop_cons_invalid (solveF 62) sb156 34 2 [3, 4, 5, 6, 7, 8, 9] rfl]
  rw [tryLoop_cons_invalid (solveF 62) sb156 34 3 [4, 5, 6, 7, 8, 9] rfl]
  rw [tryLoop_cons_invalid (solveF 62) sb156 34 4 [5, 6, 7, 8, 9] rfl]
  rw [tryLoop_cons_invalid (solveF 62) sb156 34 5 [6, 7, 8, 9] rfl]
  have h1 : solveF 62 (List.set sb156 34 6) = (false, sb157) := by
    rw [show List.set sb156 34 6 = sb157 from rfl]
    exact stp157
  rw [tryLoop_cons_valid_false (solveF 62) sb156 34 6 [7, 8, 9] sb157 rfl h1]
  rw [show List.set sb157 34 0 = sb156 from rfl]
  have h2 : solveF 62 (List.set sb156 34 7) = (true, classicSolved) := by
    rw [show List.set sb156 34 7 = sb158 from rfl]
    exact stp158
  exact tryLoop_cons_valid_true (solveF 62) sb156 34 7 [8, 9] classicSolved rfl h2

theorem stp155 : solveF 64 sb155 = (true, classicSolved) := by
  show tryLoop (solveF 63) sb155 31 [1, 2, 3, 4, 5, 6, 7, 8, 9] = _
  rw [tryLoop_cons_invalid (solveF 63) sb155 31 1 [2, 3, 4, 5, 6, 7, 8, 9] rfl]
  rw [tryLoop_cons_invalid (solveF 63) sb155 31 2 [3, 4, 5, 6, 7, 8, 9] rfl]
  have h1 : solveF 63 (List.set sb155 31 3) = (true, classicSolved) := by
    rw [show List.set sb155 31 3 = sb156 from rfl]
    exact stp156
  exact tryLoop_cons_valid_true (solveF 63) sb155 31 3 [4, 5, 6, 7, 8, 9] classicSolved rfl h1

theorem stp102 : solveF 65 sb102 = (true, classicSolved) := by
  show tryLoop (solveF 64) sb102 28 [1, 2, 3, 4, 5, 6, 7, 8, 9] = _
  rw [tryLoop_cons_invalid (solveF 64) sb102 28 1 [2, 3, 4, 5, 6, 7, 8, 9] rfl]
  rw [tryLoop_cons_invalid (solveF 64) sb102 28 2 [3, 4, 5, 6, 7, 8, 9] rfl]
  have h1 : solveF 64 (List.set sb102 28 3) = (false, sb103) := by
    rw [show List.set sb102 28 3 = sb103 from rfl]
    exact stp103
  rw [tryLoop_cons_valid_false (solveF 64) sb102 28 3 [4, 5, 6, 7, 8, 9] sb103 rfl h1]
  rw [show List.set sb103 28 0 = sb102 from rfl]
  have h2 : solveF 64 (List.set sb102 28 4) = (true, classicSolved) := by
    rw [show List.set sb102 28 4 = sb155 from rfl]
    exact stp155
  exact tryLoop_cons_valid_true (solveF 64) sb102 28 4 [5, 6, 7, 8, 9] classicSolved rfl h2

theorem stp48 : solveF 66 sb48 = (true, classicSolved) := by
  show tryLoop (solveF 65) sb48 27 [1, 2, 3, 4, 5, 6, 7, 8, 9] = _
  rw [tryLoop_cons_invalid (solveF 65) sb48 27 1 [2, 3, 4, 5, 6, 7, 8, 9] rfl]
  rw [tryLoop_cons_invalid (solveF 65) sb48 27 2 [3, 4, 5, 6, 7, 8, 9] rfl]
  have h1 : solveF 65 (List.set sb48 27 3) = (false, sb49) := by
    rw [show List.set sb48 27 3 = sb49 from rfl]
    exact stp49
  rw [tryLoop_cons_valid_false (solveF 65) sb48 27 3 [4, 5, 6, 7, 8, 9] sb49 rfl h1]
  rw [show List.set sb49 27 0 = sb48 from rfl]
  rw [tryLoop_cons_invalid (solveF 65) sb48 27 4 [5, 6, 7, 8, 9] rfl]
  have h2 : solveF 65 (List.set sb48 27 5) = (true, classicSolved) := by
    rw [show List.set sb48 27 5 = sb102 from rfl]
    exact stp102
  exact tryLoop_cons_valid_true (solveF 65) sb48 27 5 [6, 7, 8, 9] classicSolved rfl h2

theorem stp47 : solveF 67 sb47 = (true, classicSolved) := by
  show tryLoop (solveF 66) sb47 26 [1, 2, 3, 4, 5, 6, 7, 8, 9] = _
  rw [tryLoop_cons_invalid (solveF 66) sb47 26 1 [2, 3, 4, 5, 6, 7, 8, 9] rfl]
  rw [tryLoop_cons_invalid (solveF 66) sb47 26 2 [3, 4, 5, 6, 7, 8, 9] rfl]
  have h1 : solveF 66 (List.set sb47 26 3) = (true, classicSolved) := by
    rw [show List.set sb47 26 3 = sb48 from rfl]
    exact stp48
  exact tryLoop_cons_valid_true (solveF 66) sb47 26 3 [4, 5, 6, 7, 8, 9] classicSolved rfl h1

theorem stp45 : solveF 68 sb45 = (true, classicSolved) := by
  show tryLoop (solveF 67) sb45 25 [1, 2, 3, 4, 5, 6, 7, 8, 9] = _
  rw [tryLoop_cons_invalid (solveF 67) sb45 25 1 [2, 3, 4, 5, 6, 7, 8, 9] rfl]
  rw [tryLoop_cons_invalid (solveF 67) sb45 25 2 [3, 4, 5, 6, 7, 8, 9] rfl]
  have h1 : solveF 67 (List.set sb45 25 3) = (false, sb46) := by
    rw [show List.set sb45 25 3 = sb46 from rfl]
    exact stp46
  rw [tryLoop_cons_valid_false (solveF 67) sb45 25 3 [4, 5, 6, 7, 8, 9] sb46 rfl h1]
  rw [show List.set sb46 25 0 = sb45 from rfl]
  rw [tryLoop_cons_invalid (solveF 67) sb45 25 4 [5, 6, 7, 8, 9] rfl]
  rw [tryLoop_cons_invalid (solveF 67) sb45 25 5 [6, 7, 8, 9] rfl]
  rw [tryLoop_cons_invalid (solveF 67) sb45 25 6 [7, 8, 9] rfl]
  rw [tryLoop_cons_invalid (solveF 67) sb45 25 7 [8, 9] rfl]
  rw [tryLoop_cons_invalid (solveF 67) sb45 25 8 [9] rfl]
  have h2 : solveF 67 (List.set sb45 25 9) = (true, classicSolved) := by
    rw [show List.set sb45 25 9 = sb47 from rfl]
    exact stp47
  exact tryLoop_cons_valid_true (solveF 67) sb45 25 9 [] classicSolved rfl h2

theorem stp44 : solveF 69 sb44 = (true, classicSolved) := by
  show tryLoop (solveF 68) sb44 22 [1, 2, 3, 4, 5, 6, 7, 8, 9] = _
  rw [tryLoop_cons_invalid (solveF 68) sb44 22 1 [2, 3, 4, 5, 6, 7, 8, 9] rfl]
  rw [tryLoop_cons_invalid (solveF 68) sb44 22 2 [3, 4, 5, 6, 7, 8, 9] rfl]
  rw [tryLoop_cons_invalid (solveF 68) sb44 22 3 [4, 5, 6, 7, 8, 9] rfl]
  rw [tryLoop_cons_invalid (solveF 68) sb44 22 4 [5, 6, 7, 8, 9] rfl]
  rw [tryLoop_cons_invalid (solveF 68) sb44 22 5 [6, 7, 8, 9] rfl]
  rw [tryLoop_cons_invalid (solveF 68) sb44 22 6 [7, 8, 9] rfl]
  have h1 : solveF 68 (List.set sb44 22 7) = (true, classicSolved) := by
    rw [show List.set sb44 22 7 = sb45 from rfl]
    exact stp45
  exact tryLoop_cons_valid_true (solveF 68) sb44 22 7 [8, 9] classicSolved rfl h1

theorem stp43 : solveF 70 sb43 = (true, classicSolved) := by
  show tryLoop (solveF 69) sb43 19 [1, 2, 3, 4, 5, 6, 7, 8, 9] = _
  rw [tryLoop_cons_invalid (solveF 69) sb43 19 1 [2, 3, 4, 5, 6, 7, 8, 9] rfl]
  rw [tryLoop_cons_invalid (solveF 69) sb43 19 2 [3, 4, 5, 6, 7, 8, 9] rfl]
  rw [tryLoop_cons_invalid (solveF 69) sb43 19 3 [4, 5, 6, 7, 8, 9] rfl]
  rw [tryLoop_cons_invalid (solveF 69) sb43 19 4 [5, 6, 7, 8, 9] rfl]
  have h1 : solveF 69 (List.set sb43 19 5) = (true, classicSolved) := by
    rw [show List.set sb43 19 5 = sb44 from rfl]
    exact stp44
  exact tryLoop_cons_valid_true (solveF 69) sb43 19 5 [6, 7, 8, 9] classicSolved rfl h1

theorem stp42 : solveF 71 sb42 = (true, classicSolved) := by
  show tryLoop (solveF 70) sb42 18 [1, 2, 3, 4, 5, 6, 7, 8, 9] = _
  rw [tryLoop_cons_invalid (solveF 70) sb42 18 1 [2, 3, 4, 5, 6, 7, 8, 9] rfl]
  have h1 : solveF 70 (List.set sb42 18 2) = (true, classicSolved) := by
    rw [show List.set sb42 18 2 = sb43 from rfl]
    exact stp43
  exact tryLoop_cons_valid_true (solveF 70) sb42 18 2 [3, 4, 5, 6, 7, 8, 9] classicSolved rfl h1

theorem stp41 : solveF 72 sb41 = (true, classicSolved) := by
  show tryLoop (solveF 71) sb41 16 [1, 2, 3, 4, 5, 6, 7, 8, 9] = _
  rw [tryLoop_cons_invalid (solveF 71) sb41 16 1 [2, 3, 4, 5, 6, 7, 8, 9] rfl]
  have h1 : solveF 71 (List.set sb41 16 2) = (true, classicSolved) := by
    rw [show List.set sb41 16 2 = sb42 from rfl]
    exact stp42
  exact tryLoop_cons_valid_true (solveF 71) sb41 16 2 [3, 4, 5, 6, 7, 8, 9] classicSolved rfl h1

theorem stp40 : solveF 73 sb40 = (true, classicSolved) := by
  show tryLoop (solveF 72) sb40 15 [1, 2, 3, 4, 5, 6, 7, 8, 9] = _
  rw [tryLoop_cons_invalid (solveF 72) sb40 15 1 [2, 3, 4, 5, 6, 7, 8, 9] rfl]
  rw [tryLoop_cons_invalid (solveF 72) sb40 15 2 [3, 4, 5, 6, 7, 8, 9] rfl]
  rw [tryLoop_cons_invalid (solveF 72) sb40 15 3 [4, 5, 6, 7, 8, 9] rfl]
  rw [tryLoop_cons_invalid (solveF 72) sb40 15 4 [5, 6, 7, 8, 9] rfl]
  rw [tryLoop_cons_invalid (solveF 72) sb40 15 5 [6, 7, 8, 9] rfl]
  rw [tryLoop_cons_invalid (solveF 72) sb40 15 6 [7, 8, 9] rfl]
  rw [tryLoop_cons_invalid (solveF 72) sb40 15 7 [8, 9] rfl]
  have h1 : solveF 72 (List.set sb40 15 8) = (true, classicSolved) := by
    rw [show List.set sb40 15 8 = sb41 from rfl]
    exact stp41
  exact tryLoop_cons_valid_true (solveF 72) sb40 15 8 [9] classicSolved rfl h1

theorem stp39 : solveF 74 sb39 = (true, classicSolved) := by
  show tryLoop (solveF 73) sb39 13 [1, 2, 3, 4, 5, 6, 7, 8, 9] = _
  rw [tryLoop_cons_invalid (solveF 73) sb39 13 1 [2, 3, 4, 5, 6, 7, 8, 9] rfl]
  rw [tryLoop_cons_invalid (solveF 73) sb39 13 2 [3, 4, 5, 6, 7, 8, 9] rfl]
  rw [tryLoop_cons_invalid (solveF 73) sb39 13 3 [4, 5, 6, 7, 8, 9] rfl]
  have h1 : solveF 73 (List.set sb39 13 4) = (true, classicSolved) := by
    rw [show List.set sb39 13 4 = sb40 from rfl]
    exact stp40
  exact tryLoop_cons_valid_true (solveF 73) sb39 13 4 [5, 6, 7, 8, 9] classicSolved rfl h1

theorem stp38 : solveF 75 sb38 = (true, classicSolved) := by
  show tryLoop (solveF 74) sb38 11 [1, 2, 3, 4, 5, 6, 7, 8, 9] = _
  rw [tryLoop_cons_invalid (solveF 74) sb38 11 1 [2, 3, 4, 5, 6, 7, 8, 9] rfl]
  rw [tryLoop_cons_invalid (solveF 74) sb38 11 2 [3, 4, 5, 6, 7, 8, 9] rfl]
  rw [tryLoop_cons_invalid (solveF 74) sb38 11 3 [4, 5, 6, 7, 8, 9] rfl]
  rw [tryLoop_cons_invalid (solveF 74) sb38 11 4 [5, 6, 7, 8, 9] rfl]
  rw [tryLoop_cons_invalid (solveF 74) sb38 11 5 [6, 7, 8, 9] rfl]
  rw [tryLoop_cons_invalid (solveF 74) sb38 11 6 [7, 8, 9] rfl]
  have h1 : solveF 74 (List.set sb38 11 7) = (true, classicSolved) := by
    rw [show List.set sb38 11 7 = sb39 from rfl]
    exact stp39
  exact tryLoop_cons_valid_true (solveF 74) sb38 11 7 [8, 9] classicSolved rfl h1

theorem stp33 : solveF 76 sb33 = (true, classicSolved) := by
  show tryLoop (solveF 75) sb33 10 [1, 2, 3, 4, 5, 6, 7, 8, 9] = _
  rw [tryLoop_cons_invalid (solveF 75) sb33 10 1 [2, 3, 4, 5, 6, 7, 8, 9] rfl]
  have h1 : solveF 75 (List.set sb33 10 2) = (false, sb34) := by
    rw [show List.set sb33 10 2 = sb34 from rfl]
    exact stp34
  rw [tryLoop_cons_valid_false (solveF 75) sb33 10 2 [3, 4, 5, 6, 7, 8, 9] sb34 rfl h1]
  rw [show List.set sb34 10 0 = sb33 from rfl]
  rw [tryLoop_cons_invalid (solveF 75) sb33 10 3 [4, 5, 6, 7, 8, 9] rfl]
  rw [tryLoop_cons_invalid (solveF 75) sb33 10 4 [5, 6, 7, 8, 9] rfl]
  rw [tryLoop_cons_invalid (solveF 75) sb33 10 5 [6, 7, 8, 9] rfl]
  have h2 : solveF 75 (List.set sb33 10 6) = (true, classicSolved) := by
    rw [show List.set sb33 10 6 = sb38 from rfl]
    exact stp38
  exact tryLoop_cons_valid_true (solveF 75) sb33 10 6 [7, 8, 9] classicSolved rfl h2

theorem stp32 : solveF 77 sb32 = (true, classicSolved) := by
  show tryLoop (solveF 76) sb32 8 [1, 2, 3, 4, 5, 6, 7, 8, 9] = _
  rw [tryLoop_cons_invalid (solveF 76) sb32 8 1 [2, 3, 4, 5, 6, 7, 8, 9] rfl]
  rw [tryLoop_cons_invalid (solveF 76) sb32 8 2 [3, 4, 5, 6, 7, 8, 9] rfl]
  rw [tryLoop_cons_invalid (solveF 76) sb32 8 3 [4, 5, 6, 7, 8, 9] rfl]
  rw [tryLoop_cons_invalid (solveF 76) sb32 8 4 [5, 6, 7, 8, 9] rfl]
  rw [tryLoop_cons_invalid (solveF 76) sb32 8 5 [6, 7, 8, 9] rfl]
  rw [tryLoop_cons_invalid (solveF 76) sb32 8 6 [7, 8, 9] rfl]
  have h1 : solveF 76 (List.set sb32 8 7) = (true, classicSolved) := by
    rw [show List.set sb32 8 7 = sb33 from rfl]
    exact stp33
  exact tryLoop_cons_valid_true (solveF 76) sb32 8 7 [8, 9] classicSolved rfl h1

theorem stp31 : solveF 78 sb31 = (true, classicSolved) := by
  show tryLoop (solveF 77) sb31 7 [1, 2, 3, 4, 5, 6, 7, 8, 9] = _
  rw [tryLoop_cons_invalid (solveF 77) sb31 7 1 [2, 3, 4, 5, 6, 7, 8, 9] rfl]
  rw [tryLoop_cons_invalid (solveF 77) sb31 7 2 [3, 4, 5, 6, 7, 8, 9] rfl]
  rw [tryLoop_cons_invalid (solveF 77) sb31 7 3 [4, 5, 6, 7, 8, 9] rfl]
  rw [tryLoop_cons_invalid (solveF 77) sb31 7 4 [5, 6, 7, 8, 9] rfl]
  have h1 : solveF 77 (List.set sb31 7 5) = (true, classicSolved) := by
    rw [show List.set sb31 7 5 = sb32 from rfl]
    exact stp32
  exact tryLoop_cons_valid_true (solveF 77) sb31 7 5 [6, 7, 8, 9] classicSolved rfl h1

theorem stp30 : solveF 79 sb30 = (true, classicSolved) := by
  show tryLoop (solveF 78) sb30 5 [1, 2, 3, 4, 5, 6, 7, 8, 9] = _
  have h1 : solveF 78 (List.set sb30 5 1) = (true, classicSolved) := by
    rw [show List.set sb30 5 1 = sb31 from rfl]
    exact stp31
  exact tryLoop_cons_valid_true (solveF 78) sb30 5 1 [2, 3, 4, 5, 6, 7, 8, 9] classicSolved rfl h1

theorem stp29 : solveF 80 sb29 = (true, classicSolved) := by
  show tryLoop (solveF 79) sb29 3 [1, 2, 3, 4, 5, 6, 7, 8, 9] = _
  rw [tryLoop_cons_invalid (solveF 79) sb29 3 1 [2, 3, 4, 5, 6, 7, 8, 9] rfl]
  rw [tryLoop_cons_invalid (solveF 79) sb29 3 2 [3, 4, 5, 6, 7, 8, 9] rfl]
  rw [tryLoop_cons_invalid (solveF 79) sb29 3 3 [4, 5, 6, 7, 8, 9] rfl]
  rw [tryLoop_cons_invalid (solveF 79) sb29 3 4 [5, 6, 7, 8, 9] rfl]
  rw [tryLoop_cons_invalid (solveF 79) sb29 3 5 [6, 7, 8, 9] rfl]
  rw [tryLoop_cons_invalid (solveF 79) sb29 3 6 [7, 8, 9] rfl]
  rw [tryLoop_cons_invalid (solveF 79) sb29 3 7 [8, 9] rfl]
  rw [tryLoop_cons_invalid (solveF 79) sb29 3 8 [9] rfl]
  have h1 : solveF 79 (List.set sb29 3 9) = (true, classicSolved) := by
    rw [show List.set sb29 3 9 = sb30 from rfl]
    exact stp30
  exact tryLoop_cons_valid_true (solveF 79) sb29 3 9 [] classicSolved rfl h1

theorem stp1 : solveF 81 sb1 = (true, classicSolved) := by
  show tryLoop (solveF 80) sb1 1 [1, 2, 3, 4, 5, 6, 7, 8, 9] = _
  rw [tryLoop_cons_invalid (solveF 80) sb1 1 1 [2, 3, 4, 5, 6, 7, 8, 9] rfl]
  rw [tryLoop_cons_invalid (solveF 80) sb1 1 2 [3, 4, 5, 6, 7, 8, 9] rfl]
  rw [tryLoop_cons_invalid (solveF 80) sb1 1 3 [4, 5, 6, 7, 8, 9] rfl]
  rw [tryLoop_cons_invalid (solveF 80) sb1 1 4 [5, 6, 7, 8, 9] rfl]
  have h1 : solveF 80 (List.set sb1 1 5) = (false, sb2) := by
    rw [show List.set sb1 1 5 = sb2 from rfl]
    exact stp2
  rw [tryLoop_cons_valid_false (solveF 80) sb1 1 5 [6, 7, 8, 9] sb2 rfl h1]
  rw [show List.set sb2 1 0 = sb1 from rfl]
  rw [tryLoop_cons_invalid (solveF 80) sb1 1 6 [7, 8, 9] rfl]
  have h2 : solveF 80 (List.set sb1 1 7) = (false, sb20) := by
    rw [show List.set sb1 1 7 = sb20 from rfl]
    exact stp20
  rw [tryLoop_cons_valid_false (solveF 80) sb1 1 7 [8, 9] sb20 rfl h2]
  rw [show List.set sb20 1 0 = sb1 from rfl]
  have h3 : solveF 80 (List.set sb1 1 8) = (true, classicSolved) := by
    rw [show List.set sb1 1 8 = sb29 from rfl]
    exact stp29
  exact tryLoop_cons_valid_true (solveF 80) sb1 1 8 [9] classicSolved rfl h3

theorem stp0 : solveF 82 classicBoard = (true, classicSolved) := by
  show tryLoop (solveF 81) classicBoard 0 [1, 2, 3, 4, 5, 6, 7, 8, 9] = _
  rw [tryLoop_cons_invalid (solveF 81) classicBoard 0 1 [2, 3, 4, 5, 6, 7, 8, 9] rfl]
  rw [tryLoop_cons_invalid (solveF 81) classicBoard 0 2 [3, 4, 5, 6, 7, 8, 9] rfl]
  rw [tryLoop_cons_invalid (solveF 81) classicBoard 0 3 [4, 5, 6, 7, 8, 9] rfl]
  have h1 : solveF 81 (List.set classicBoard 0 4) = (true, classicSolved) := by
    rw [show List.set classicBoard 0 4 = sb1 from rfl]
    exact stp1
  exact tryLoop_cons_valid_true (solveF 81) classicBoard 0 4 [5, 6, 7, 8, 9] classicSolved rfl h1

/-- C9: on the classic puzzle rows, construction succeeds, solve returns
true, and the first three cells of the resulting first row hold 4, 8, 3. -/
theorem classic_end_to_end :
    from_array_of_strings classicRows = .ok classicBoard ∧
      solve classicBoard = (true, classicSolved) ∧
        getIdx classicSolved 0 = 4 ∧ getIdx classicSolved 1 = 8 ∧
          getIdx classicSolved 2 = 3 :=
  ⟨rfl, stp0, rfl, rfl, rfl⟩

end ClassicTranscript

end Sudoku
